import Mathlib

/-!
# Verification development for the metamod plugin shim

Shallow embedding of the hook-table and meta-result code of the repository
(`include/metamod/api.h`, `include/metamod/plugin_info.h`,
`include/metamod/engine_hooks.h`, `include/metamod/gamedll_hooks.h`,
`src/engine_hooks.cpp`, `src/gamedll_hooks.cpp`, `src/api.cpp`).

Conventions of the embedding

* A C++ pointer is an address `Addr` (a natural number); address `0` is
  `nullptr`.  A function pointer stored in a hook table is a `Callback`
  (again an address, `0` for `nullptr`).
* Heap storage is a partial map from addresses to objects; an address with
  no object is unallocated (never allocated, or freed by `delete`).
* Code whose behaviour is undefined in C++ (a read or write through a null
  or dangling pointer, a failed `assert`, `delete` of a dangling pointer)
  ends in `Except.error` with the `Fault` that occurred.
* Constants, macros and struct members that come from the external SDK or
  from the plugin's `config.h` are parameters.
* The hook chain of a logical call runs in the host; it is modelled from the
  specification (section 3.3) and marked as such.
* A call of a host function goes through its function pointer in
  `g_engine_funcs`: a null pointer is a fault, and the host's `alert_message`
  is taken to record the message and return.
* The tables the host passes to the export functions are objects of the same
  heaps as the tables the module allocates, so `delete` releases them alike.
  A run of the module is a list of `Operation`s, executed in order by `run`.
-/

namespace metamod

set_option autoImplicit false

/-! ## `api.h`: result codes and the globals record -/

/-- Faults that end an execution: a failed `assert`, a dereference of
`nullptr` (a call through a null function pointer included), or an access to
storage that is not allocated. -/
inductive Fault where
  | assertion
  | null_pointer
  | invalid_pointer
  deriving DecidableEq, Repr

/-- The constant `metamod::INTERFACE_VERSION` of `api.h`, line 34. -/
def INTERFACE_VERSION : String := "5:13"

/-- The `enum class Result` of `api.h`, lines 41-67. -/
inductive Result where
  | Unset
  | Ignored
  | Handled
  | Override
  | Supercede
  deriving DecidableEq, Repr

/-- Numeric value of an enumerator: `Unset = 0`, the others count upwards. -/
def Result.toInt : Result → Int
  | .Unset => 0
  | .Ignored => 1
  | .Handled => 2
  | .Override => 3
  | .Supercede => 4

/-- The built-in comparison of the scoped enumeration compares the underlying
integers. -/
instance : LinearOrder Result :=
  LinearOrder.lift' Result.toInt (by
    intro a b h
    cases a <;> cases b <;> first | rfl | (exact absurd h (by decide)))

/-- The `struct Globals` of `api.h`, lines 72-98.  The two `const void*`
fields point to a value of the hooked function's return type `α`; `none` is
`nullptr`. -/
structure Globals (α : Type) where
  result : Result := .Unset
  prev_result : Result := .Unset
  status : Result := .Unset
  orig_ret : Option α := none
  override_ret : Option α := none

/-- `SetResult` of `api.h`, lines 108-113, acting on the record `g_globals`
points to. -/
def SetResult {α : Type} (result : Result) (g_globals : Globals α) : Globals α :=
  if g_globals.result < result then { g_globals with result := result } else g_globals

/-- `ResultStatus` of `api.h`, lines 118-121. -/
def ResultStatus {α : Type} (g_globals : Globals α) : Result :=
  g_globals.status

/-- `PreviousResult` of `api.h`, lines 126-129. -/
def PreviousResult {α : Type} (g_globals : Globals α) : Result :=
  g_globals.prev_result

/-- `OrigRet<T>` of `api.h`, lines 134-138: dereferences `orig_ret`. -/
def OrigRet {α : Type} (g_globals : Globals α) : Except Fault α :=
  match g_globals.orig_ret with
  | some v => .ok v
  | none => .error .null_pointer

/-- `OverrideRet<T>` of `api.h`, lines 143-147: dereferences `override_ret`. -/
def OverrideRet {α : Type} (g_globals : Globals α) : Except Fault α :=
  match g_globals.override_ret with
  | some v => .ok v
  | none => .error .null_pointer

/-- `GetRetValue<T>` of `api.h`, lines 152-156. -/
def GetRetValue {α : Type} (g_globals : Globals α) : Except Fault α :=
  if g_globals.status < Result.Override then OrigRet g_globals else OverrideRet g_globals

/-- The macro `RETURN_META(r)` of `api.h`, lines 159-164: it assigns `r` to
`g_globals->result` and returns from the hook. -/
def RETURN_META {α : Type} (r : Result) (g_globals : Globals α) : Globals α :=
  { g_globals with result := r }

/-- The macro `RETURN_META_VALUE(r, v)` of `api.h`, lines 166-171: it assigns
`r` to `g_globals->result` and returns `v` from the hook. -/
def RETURN_META_VALUE {α β : Type} (r : Result) (v : β) (g_globals : Globals α) :
    β × Globals α :=
  (v, { g_globals with result := r })

/-! ## Hook tables: storage model -/

/-- An address; `0` is `nullptr`. -/
abbrev Addr := Nat

/-- A function pointer held in a hook-table slot; `0` is `nullptr`. -/
abbrev Callback := Nat

/-- A function-pointer table with one slot per member `σ`. -/
abbrev Table (σ : Type) := σ → Callback

/-- The value-initialised (all-zero) table, `T{}` or the result of `memset 0`. -/
def Table.zero {σ : Type} : Table σ := fun _ => 0

/-- Heap of tables of one struct type: the object stored at each allocated
address. -/
abbrev Heap (σ : Type) := Addr → Option (Table σ)

/-- The statement `std::memset(p, 0, sizeof(T))`. -/
def Heap.memset0 {σ : Type} (h : Heap σ) (p : Addr) : Except Fault (Heap σ) :=
  if p = 0 then .error .null_pointer
  else match h p with
    | none => .error .invalid_pointer
    | some _ => .ok (fun a => if a = p then some Table.zero else h a)

/-- The statement `std::memcpy(dst, src, sizeof(T))`.  Copying an object onto
itself leaves it as it is. -/
def Heap.memcpy {σ : Type} (h : Heap σ) (dst src : Addr) : Except Fault (Heap σ) :=
  if dst = 0 ∨ src = 0 then .error .null_pointer
  else match h src, h dst with
    | some t, some _ => .ok (fun a => if a = dst then some t else h a)
    | _, _ => .error .invalid_pointer

/-- The statement `delete p`: no effect on `nullptr`, otherwise the storage at
`p` is released. -/
def Heap.delete {σ : Type} (h : Heap σ) (p : Addr) : Except Fault (Heap σ) :=
  if p = 0 then .ok h
  else match h p with
    | none => .error .invalid_pointer
    | some _ => .ok (fun a => if a = p then none else h a)

/-- The statement `p->*member = callback`. -/
def Heap.store {σ : Type} [DecidableEq σ] (h : Heap σ) (p : Addr) (member : σ)
    (callback : Callback) : Except Fault (Heap σ) :=
  if p = 0 then .error .null_pointer
  else match h p with
    | none => .error .invalid_pointer
    | some t => .ok (fun a => if a = p then some (fun m => if m = member then callback else t m) else h a)

/-- Members of `cssdk::EngineFunctions` (declared in the external SDK), as named by the member pointers of `engine_hooks.h`. -/
inductive EngineSlot where
  | precache_model
  | precache_sound
  | set_model
  | model_index
  | model_frames
  | set_size
  | change_level
  | get_spawn_params
  | save_spawn_params
  | vec_to_yaw
  | vec_to_angles
  | move_to_origin
  | change_yaw
  | change_pitch
  | find_entity_by_string
  | get_entity_illumination
  | find_entity_in_sphere
  | find_client_in_pvs
  | entities_in_pvs
  | make_vectors
  | angle_vectors
  | create_entity
  | remove_entity
  | create_named_entity
  | make_static
  | ent_is_on_floor
  | drop_to_floor
  | walk_move
  | set_origin
  | emit_sound
  | emit_ambient_sound
  | trace_line
  | trace_toss
  | trace_monster_hull
  | trace_hull
  | trace_model
  | trace_texture
  | trace_sphere
  | get_aim_vector
  | server_command
  | server_execute
  | client_command
  | particle_effect
  | light_style
  | decal_index
  | point_contents
  | message_begin
  | message_end
  | write_byte
  | write_char
  | write_short
  | write_long
  | write_angle
  | write_coord
  | write_string
  | write_entity
  | cvar_register
  | cvar_get_float
  | cvar_get_string
  | cvar_set_float
  | cvar_set_string
  | alert_message
  | engine_file_print
  | alloc_ent_private_data
  | ent_private_data
  | free_ent_private_data
  | sz_from_index
  | alloc_string
  | get_vars_of_ent
  | entity_of_ent_offset
  | ent_offset_of_entity
  | index_of_edict
  | entity_of_ent_index
  | find_entity_by_vars
  | get_model_pointer
  | reg_user_message
  | animation_auto_move
  | get_bone_position
  | function_from_name
  | name_for_function
  | client_print
  | server_print
  | cmd_args
  | cmd_argv
  | cmd_argc
  | get_attachment
  | crc32_init
  | crc32_process_buffer
  | crc32_process_byte
  | crc32_final
  | random_long
  | random_float
  | set_view
  | time
  | crosshair_angle
  | load_file_for_me
  | free_file
  | end_section
  | compare_file_time
  | get_game_dir
  | cvar_register_variable
  | fade_client_volume
  | set_client_max_speed
  | create_fake_client
  | run_player_move
  | number_of_entities
  | get_info_key_buffer
  | info_key_value
  | set_key_value
  | set_client_key_value
  | is_map_valid
  | static_decal
  | precache_generic
  | get_player_user_id
  | build_sound_msg
  | is_dedicated_server
  | cvar_get_pointer
  | get_player_won_id
  | info_remove_key
  | get_physics_key_value
  | set_physics_key_value
  | get_physics_info_string
  | precache_event
  | playback_event
  | set_fat_pvs
  | set_fat_pas
  | check_visibility
  | delta_set_field
  | delta_unset_field
  | delta_add_encoder
  | get_current_player
  | can_skip_player
  | delta_find_field
  | delta_set_field_by_index
  | delta_unset_field_by_index
  | set_group_mask
  | create_instanced_baseline
  | cvar_direct_set
  | force_unmodified
  | get_player_stats
  | add_server_command
  | voice_get_client_listening
  | voice_set_client_listening
  | get_player_auth_id
  | sequence_get
  | sequence_pick_sentence
  | get_file_size
  | get_approx_wave_play_len
  | is_career_match
  | get_localized_string_length
  | register_tutor_message_shown
  | get_times_tutor_message_shown
  | process_tutor_message_decay_buffer
  | construct_tutor_message_decay_buffer
  | reset_tutor_message_decay_data
  | query_client_cvar_value
  | query_client_cvar_value2
  | eng_check_param
  deriving DecidableEq, Repr

/-- Members of `cssdk::DllFunctions` (declared in the external SDK), as named by the member pointers of `gamedll_hooks.h`. -/
inductive DllSlot where
  | game_init
  | spawn
  | think
  | use
  | touch
  | blocked
  | key_value
  | save
  | restore
  | set_abs_box
  | save_write_fields
  | save_read_fields
  | save_global_state
  | restore_global_state
  | reset_global_state
  | client_connect
  | client_disconnect
  | client_kill
  | client_put_in_server
  | client_command
  | client_user_info_changed
  | server_activate
  | server_deactivate
  | player_pre_think
  | player_post_think
  | start_frame
  | params_new_level
  | params_change_level
  | get_game_description
  | player_customization
  | spectator_connect
  | spectator_disconnect
  | spectator_think
  | sys_error
  | pm_move
  | pm_init
  | pm_find_texture_type
  | setup_visibility
  | update_client_data
  | add_to_full_pack
  | create_baseline
  | register_encoders
  | get_weapon_data
  | cmd_start
  | cmd_end
  | connectionless_packet
  | get_hull_bounds
  | create_instanced_baselines
  | inconsistent_file
  | allow_lag_compensation
  deriving DecidableEq, Repr

/-- Members of `cssdk::DllNewFunctions` (declared in the external SDK), as named by the member pointers of `gamedll_hooks.h`. -/
inductive DllNewSlot where
  | free_entity_private_data
  | game_shutdown
  | should_collide
  | cvar_value
  | cvar_value2
  deriving DecidableEq, Repr


/-- One call of `AlertMessage(AlertType::Logged, format, ...)`: the format
string and the integer arguments passed with it. -/
structure Alert where
  format : String
  args : List Int
  deriving DecidableEq, Repr

/-- The `enum class Status` of `api.h`, lines 25-29. -/
inductive Status where
  | Failed
  | Ok
  deriving DecidableEq, Repr

/-- Module state of the hook tables: the heap of each table type, the six
global table pointers of `engine_hooks.h` (lines 26-27) and `gamedll_hooks.h`
(lines 26-30), and the alerts logged so far. -/
structure State where
  engine_heap : Heap EngineSlot
  dll_heap : Heap DllSlot
  dll_new_heap : Heap DllNewSlot
  engine_hooks : Addr
  engine_post_hooks : Addr
  dll_hooks : Addr
  dll_post_hooks : Addr
  dll_new_hooks : Addr
  dll_new_post_hooks : Addr
  alerts : List Alert

/-- State produced by the initialisers `new cssdk::EngineFunctions{}` etc. of
the six inline variables: six distinct freshly allocated all-zero tables. -/
def State.init : State where
  engine_heap := fun a => if a = 1 ∨ a = 2 then some Table.zero else none
  dll_heap := fun a => if a = 1 ∨ a = 2 then some Table.zero else none
  dll_new_heap := fun a => if a = 1 ∨ a = 2 then some Table.zero else none
  engine_hooks := 1
  engine_post_hooks := 2
  dll_hooks := 1
  dll_post_hooks := 2
  dll_new_hooks := 1
  dll_new_post_hooks := 2
  alerts := []

/-- What an export function hands back: its return value, the value left in
`*interface_version`, and the module state. -/
structure ExportReturn where
  ret : Bool
  interface_version : Int
  state : State

/-- `AlertMessage` of `engine.h`, lines 896-900, called with
`AlertType::Logged`: the call goes through the function pointer
`alert_message` of `cssdk::g_engine_funcs`, the table `GiveFnptrsToDll` fills;
the host's function records the message. -/
def engine.AlertMessage (g_engine_funcs : Table EngineSlot) (alert : Alert)
    (alerts : List Alert) : Except Fault (List Alert) :=
  if g_engine_funcs EngineSlot.alert_message = 0 then .error .null_pointer
  else .ok (alerts ++ [alert])

namespace engine.detail

/-- `ClearEngineHooks` of `engine_hooks.h`, lines 29-40. -/
def ClearEngineHooks (s : State) : Except Fault State := do
  let s ← (if s.engine_hooks ≠ 0 then
      (s.engine_heap.memset0 s.engine_hooks).map (fun h => { s with engine_heap := h })
    else pure s)
  if s.engine_post_hooks ≠ 0 then
    (s.engine_heap.memset0 s.engine_post_hooks).map (fun h => { s with engine_heap := h })
  else pure s

/-- `SetHook` of `engine_hooks.h`, lines 42-53. -/
def SetHook (member : EngineSlot) (callback : Callback) (post : Bool) (s : State) :
    Except Fault State :=
  if post then
    if s.engine_post_hooks = 0 then .error .assertion
    else (s.engine_heap.store s.engine_post_hooks member callback).map
      (fun h => { s with engine_heap := h })
  else
    if s.engine_hooks = 0 then .error .assertion
    else (s.engine_heap.store s.engine_hooks member callback).map
      (fun h => { s with engine_heap := h })

/-- `ExportEngineHooks` of `engine_hooks.cpp`, lines 29-55.  The constant
`ENGINE_INTERFACE_VERSION` comes from the external SDK and is a parameter;
`g_engine_funcs` is the value of `cssdk::g_engine_funcs` when the call is
made, through which the failure path logs before it writes the version back
and deletes the table. -/
def ExportEngineHooks (ENGINE_INTERFACE_VERSION : Int)
    (g_engine_funcs : Table EngineSlot) (hooks_table : Addr) (interface_version : Int) (s : State) :
    Except Fault ExportReturn :=
  if hooks_table ≠ 0 ∧ interface_version = ENGINE_INTERFACE_VERSION then do
    let h ← s.engine_heap.memcpy hooks_table s.engine_hooks
    let h ← h.delete s.engine_hooks
    pure ⟨true, interface_version, { s with engine_heap := h, engine_hooks := hooks_table }⟩
  else do
    let r ← (if hooks_table = 0 then
        (engine.AlertMessage g_engine_funcs
          ⟨"Export engine hooks: hooks_table is null.\n", []⟩
          s.alerts).map
          (fun alerts => (alerts, interface_version))
      else if interface_version ≠ ENGINE_INTERFACE_VERSION then
        (engine.AlertMessage g_engine_funcs
          ⟨"Export engine hooks: interface version mismatch; requested = %d; ours = %d.\n",
            [interface_version, ENGINE_INTERFACE_VERSION]⟩
          s.alerts).map (fun alerts => (alerts, ENGINE_INTERFACE_VERSION))
      else pure (s.alerts, interface_version))
    let h ← s.engine_heap.delete s.engine_hooks
    pure ⟨false, r.2, { s with engine_heap := h, engine_hooks := 0, alerts := r.1 }⟩

/-- `ExportEnginePostHooks` of `engine_hooks.cpp`, lines 60-86. -/
def ExportEnginePostHooks (ENGINE_INTERFACE_VERSION : Int)
    (g_engine_funcs : Table EngineSlot) (hooks_table : Addr) (interface_version : Int) (s : State) :
    Except Fault ExportReturn :=
  if hooks_table ≠ 0 ∧ interface_version = ENGINE_INTERFACE_VERSION then do
    let h ← s.engine_heap.memcpy hooks_table s.engine_post_hooks
    let h ← h.delete s.engine_post_hooks
    pure ⟨true, interface_version, { s with engine_heap := h, engine_post_hooks := hooks_table }⟩
  else do
    let r ← (if hooks_table = 0 then
        (engine.AlertMessage g_engine_funcs
          ⟨"Export engine post hooks: hooks_table is null.\n", []⟩
          s.alerts).map
          (fun alerts => (alerts, interface_version))
      else if interface_version ≠ ENGINE_INTERFACE_VERSION then
        (engine.AlertMessage g_engine_funcs
          ⟨"Export engine post hooks: interface version mismatch; requested = %d; ours = %d.\n",
            [interface_version, ENGINE_INTERFACE_VERSION]⟩
          s.alerts).map (fun alerts => (alerts, ENGINE_INTERFACE_VERSION))
      else pure (s.alerts, interface_version))
    let h ← s.engine_heap.delete s.engine_post_hooks
    pure ⟨false, r.2, { s with engine_heap := h, engine_post_hooks := 0, alerts := r.1 }⟩

end engine.detail

namespace gamedll.detail

/-- `ClearGameDllHooks` of `gamedll_hooks.h`, lines 32-53. -/
def ClearGameDllHooks (s : State) : Except Fault State := do
  let s ← (if s.dll_hooks ≠ 0 then
      (s.dll_heap.memset0 s.dll_hooks).map (fun h => { s with dll_heap := h })
    else pure s)
  let s ← (if s.dll_post_hooks ≠ 0 then
      (s.dll_heap.memset0 s.dll_post_hooks).map (fun h => { s with dll_heap := h })
    else pure s)
  let s ← (if s.dll_new_hooks ≠ 0 then
      (s.dll_new_heap.memset0 s.dll_new_hooks).map (fun h => { s with dll_new_heap := h })
    else pure s)
  if s.dll_new_post_hooks ≠ 0 then
    (s.dll_new_heap.memset0 s.dll_new_post_hooks).map (fun h => { s with dll_new_heap := h })
  else pure s

/-- `SetHook` for members of `cssdk::DllFunctions`, `gamedll_hooks.h`, lines
55-66. -/
def SetHook (member : DllSlot) (callback : Callback) (post : Bool) (s : State) :
    Except Fault State :=
  if post then
    if s.dll_post_hooks = 0 then .error .assertion
    else (s.dll_heap.store s.dll_post_hooks member callback).map
      (fun h => { s with dll_heap := h })
  else
    if s.dll_hooks = 0 then .error .assertion
    else (s.dll_heap.store s.dll_hooks member callback).map
      (fun h => { s with dll_heap := h })

/-- The overload of `SetHook` for members of `cssdk::DllNewFunctions`,
`gamedll_hooks.h`, lines 68-79. -/
def SetHookNew (member : DllNewSlot) (callback : Callback) (post : Bool) (s : State) :
    Except Fault State :=
  if post then
    if s.dll_new_post_hooks = 0 then .error .assertion
    else (s.dll_new_heap.store s.dll_new_post_hooks member callback).map
      (fun h => { s with dll_new_heap := h })
  else
    if s.dll_new_hooks = 0 then .error .assertion
    else (s.dll_new_heap.store s.dll_new_hooks member callback).map
      (fun h => { s with dll_new_heap := h })

/-- `ExportDllHooks` of `gamedll_hooks.cpp`, lines 30-56.  The constant
`INTERFACE_VERSION` (of the SDK, not the string of `api.h`) is a parameter. -/
def ExportDllHooks (INTERFACE_VERSION : Int)
    (g_engine_funcs : Table EngineSlot) (hooks_table : Addr) (interface_version : Int) (s : State) :
    Except Fault ExportReturn :=
  if hooks_table ≠ 0 ∧ interface_version = INTERFACE_VERSION then do
    let h ← s.dll_heap.memcpy hooks_table s.dll_hooks
    let h ← h.delete s.dll_hooks
    pure ⟨true, interface_version, { s with dll_heap := h, dll_hooks := hooks_table }⟩
  else do
    let r ← (if hooks_table = 0 then
        (engine.AlertMessage g_engine_funcs
          ⟨"Export gamedll hooks: hooks_table is null.\n", []⟩
          s.alerts).map
          (fun alerts => (alerts, interface_version))
      else if interface_version ≠ INTERFACE_VERSION then
        (engine.AlertMessage g_engine_funcs
          ⟨"Export gamedll hooks: interface version mismatch; requested = %d; ours = %d.\n",
            [interface_version, INTERFACE_VERSION]⟩
          s.alerts).map (fun alerts => (alerts, INTERFACE_VERSION))
      else pure (s.alerts, interface_version))
    let h ← s.dll_heap.delete s.dll_hooks
    pure ⟨false, r.2, { s with dll_heap := h, dll_hooks := 0, alerts := r.1 }⟩

/-- `ExportDllPostHooks` of `gamedll_hooks.cpp`, lines 61-87. -/
def ExportDllPostHooks (INTERFACE_VERSION : Int)
    (g_engine_funcs : Table EngineSlot) (hooks_table : Addr) (interface_version : Int) (s : State) :
    Except Fault ExportReturn :=
  if hooks_table ≠ 0 ∧ interface_version = INTERFACE_VERSION then do
    let h ← s.dll_heap.memcpy hooks_table s.dll_post_hooks
    let h ← h.delete s.dll_post_hooks
    pure ⟨true, interface_version, { s with dll_heap := h, dll_post_hooks := hooks_table }⟩
  else do
    let r ← (if hooks_table = 0 then
        (engine.AlertMessage g_engine_funcs
          ⟨"Export gamedll post hooks: hooks_table is null.\n", []⟩
          s.alerts).map
          (fun alerts => (alerts, interface_version))
      else if interface_version ≠ INTERFACE_VERSION then
        (engine.AlertMessage g_engine_funcs
          ⟨"Export gamedll post hooks: interface version mismatch; requested = %d; ours = %d.\n",
            [interface_version, INTERFACE_VERSION]⟩
          s.alerts).map (fun alerts => (alerts, INTERFACE_VERSION))
      else pure (s.alerts, interface_version))
    let h ← s.dll_heap.delete s.dll_post_hooks
    pure ⟨false, r.2, { s with dll_heap := h, dll_post_hooks := 0, alerts := r.1 }⟩

/-- `ExportDllNewHooks` of `gamedll_hooks.cpp`, lines 92-118.  The constant
`DLL_NEW_FUNCTIONS_VERSION` comes from the external SDK and is a parameter. -/
def ExportDllNewHooks (DLL_NEW_FUNCTIONS_VERSION : Int)
    (g_engine_funcs : Table EngineSlot) (hooks_table : Addr) (interface_version : Int) (s : State) :
    Except Fault ExportReturn :=
  if hooks_table ≠ 0 ∧ interface_version = DLL_NEW_FUNCTIONS_VERSION then do
    let h ← s.dll_new_heap.memcpy hooks_table s.dll_new_hooks
    let h ← h.delete s.dll_new_hooks
    pure ⟨true, interface_version, { s with dll_new_heap := h, dll_new_hooks := hooks_table }⟩
  else do
    let r ← (if hooks_table = 0 then
        (engine.AlertMessage g_engine_funcs
          ⟨"Export gamedll new hooks: hooks_table is null.\n", []⟩
          s.alerts).map
          (fun alerts => (alerts, interface_version))
      else if interface_version ≠ DLL_NEW_FUNCTIONS_VERSION then
        (engine.AlertMessage g_engine_funcs
          ⟨"Export gamedll new hooks: interface version mismatch; requested = %d; ours = %d.\n",
            [interface_version, DLL_NEW_FUNCTIONS_VERSION]⟩
          s.alerts).map (fun alerts => (alerts, DLL_NEW_FUNCTIONS_VERSION))
      else pure (s.alerts, interface_version))
    let h ← s.dll_new_heap.delete s.dll_new_hooks
    pure ⟨false, r.2, { s with dll_new_heap := h, dll_new_hooks := 0, alerts := r.1 }⟩

/-- `ExportDllNewPostHooks` of `gamedll_hooks.cpp`, lines 123-149. -/
def ExportDllNewPostHooks (DLL_NEW_FUNCTIONS_VERSION : Int)
    (g_engine_funcs : Table EngineSlot) (hooks_table : Addr) (interface_version : Int) (s : State) :
    Except Fault ExportReturn :=
  if hooks_table ≠ 0 ∧ interface_version = DLL_NEW_FUNCTIONS_VERSION then do
    let h ← s.dll_new_heap.memcpy hooks_table s.dll_new_post_hooks
    let h ← h.delete s.dll_new_post_hooks
    pure ⟨true, interface_version, { s with dll_new_heap := h, dll_new_post_hooks := hooks_table }⟩
  else do
    let r ← (if hooks_table = 0 then
        (engine.AlertMessage g_engine_funcs
          ⟨"Export gamedll new post hooks: hooks_table is null.\n", []⟩
          s.alerts).map
          (fun alerts => (alerts, interface_version))
      else if interface_version ≠ DLL_NEW_FUNCTIONS_VERSION then
        (engine.AlertMessage g_engine_funcs
          ⟨"Export gamedll new post hooks: interface version mismatch; requested = %d; ours = %d.\n",
            [interface_version, DLL_NEW_FUNCTIONS_VERSION]⟩
          s.alerts).map (fun alerts => (alerts, DLL_NEW_FUNCTIONS_VERSION))
      else pure (s.alerts, interface_version))
    let h ← s.dll_new_heap.delete s.dll_new_post_hooks
    pure ⟨false, r.2, { s with dll_new_heap := h, dll_new_post_hooks := 0, alerts := r.1 }⟩

end gamedll.detail

namespace engine

/-- Installer `HookPrecacheModel` of `engine_hooks.h`, line 64. -/
def HookPrecacheModel (callback : Callback) (post : Bool) (s : State) : Except Fault State :=
  detail.SetHook EngineSlot.precache_model callback post s

/-- Installer `HookPrecacheSound` of `engine_hooks.h`, line 75. -/
def HookPrecacheSound (callback : Callback) (post : Bool) (s : State) : Except Fault State :=
  detail.SetHook EngineSlot.precache_sound callback post s

/-- Installer `HookSetModel` of `engine_hooks.h`, line 86. -/
def HookSetModel (callback : Callback) (post : Bool) (s : State) : Except Fault State :=
  detail.SetHook EngineSlot.set_model callback post s

/-- Installer `HookModelIndex` of `engine_hooks.h`, line 97. -/
def HookModelIndex (callback : Callback) (post : Bool) (s : State) : Except Fault State :=
  detail.SetHook EngineSlot.model_index callback post s

/-- Installer `HookModelFrames` of `engine_hooks.h`, line 108. -/
def HookModelFrames (callback : Callback) (post : Bool) (s : State) : Except Fault State :=
  detail.SetHook EngineSlot.model_frames callback post s

/-- Installer `HookSetSize` of `engine_hooks.h`, line 119. -/
def HookSetSize (callback : Callback) (post : Bool) (s : State) : Except Fault State :=
  detail.SetHook EngineSlot.set_size callback post s

/-- Installer `HookChangeLevel` of `engine_hooks.h`, line 132. -/
def HookChangeLevel (callback : Callback) (post : Bool) (s : State) : Except Fault State :=
  detail.SetHook EngineSlot.change_level callback post s

/-- Installer `HookGetSpawnParams` of `engine_hooks.h`, line 144. -/
def HookGetSpawnParams (callback : Callback) (post : Bool) (s : State) : Except Fault State :=
  detail.SetHook EngineSlot.get_spawn_params callback post s

/-- Installer `HookSaveSpawnParams` of `engine_hooks.h`, line 155. -/
def HookSaveSpawnParams (callback : Callback) (post : Bool) (s : State) : Except Fault State :=
  detail.SetHook EngineSlot.save_spawn_params callback post s

/-- Installer `HookVecToYaw` of `engine_hooks.h`, line 166. -/
def HookVecToYaw (callback : Callback) (post : Bool) (s : State) : Except Fault State :=
  detail.SetHook EngineSlot.vec_to_yaw callback post s

/-- Installer `HookVecToAngles` of `engine_hooks.h`, line 177. -/
def HookVecToAngles (callback : Callback) (post : Bool) (s : State) : Except Fault State :=
  detail.SetHook EngineSlot.vec_to_angles callback post s

/-- Installer `HookMoveToOrigin` of `engine_hooks.h`, line 190. -/
def HookMoveToOrigin (callback : Callback) (post : Bool) (s : State) : Except Fault State :=
  detail.SetHook EngineSlot.move_to_origin callback post s

/-- Installer `HookChangeYaw` of `engine_hooks.h`, line 203. -/
def HookChangeYaw (callback : Callback) (post : Bool) (s : State) : Except Fault State :=
  detail.SetHook EngineSlot.change_yaw callback post s

/-- Installer `HookChangePitch` of `engine_hooks.h`, line 214. -/
def HookChangePitch (callback : Callback) (post : Bool) (s : State) : Except Fault State :=
  detail.SetHook EngineSlot.change_pitch callback post s

/-- Installer `HookFindEntityByString` of `engine_hooks.h`, line 225. -/
def HookFindEntityByString (callback : Callback) (post : Bool) (s : State) : Except Fault State :=
  detail.SetHook EngineSlot.find_entity_by_string callback post s

/-- Installer `HookGetEntityIllumination` of `engine_hooks.h`, line 238. -/
def HookGetEntityIllumination (callback : Callback) (post : Bool) (s : State) : Except Fault State :=
  detail.SetHook EngineSlot.get_entity_illumination callback post s

/-- Installer `HookFindEntityInSphere` of `engine_hooks.h`, line 249. -/
def HookFindEntityInSphere (callback : Callback) (post : Bool) (s : State) : Except Fault State :=
  detail.SetHook EngineSlot.find_entity_in_sphere callback post s

/-- Installer `HookFindClientInPvs` of `engine_hooks.h`, line 262. -/
def HookFindClientInPvs (callback : Callback) (post : Bool) (s : State) : Except Fault State :=
  detail.SetHook EngineSlot.find_client_in_pvs callback post s

/-- Installer `HookEntitiesInPvs` of `engine_hooks.h`, line 273. -/
def HookEntitiesInPvs (callback : Callback) (post : Bool) (s : State) : Except Fault State :=
  detail.SetHook EngineSlot.entities_in_pvs callback post s

/-- Installer `HookMakeVectors` of `engine_hooks.h`, line 284. -/
def HookMakeVectors (callback : Callback) (post : Bool) (s : State) : Except Fault State :=
  detail.SetHook EngineSlot.make_vectors callback post s

/-- Installer `HookAngleVectors` of `engine_hooks.h`, line 295. -/
def HookAngleVectors (callback : Callback) (post : Bool) (s : State) : Except Fault State :=
  detail.SetHook EngineSlot.angle_vectors callback post s

/-- Installer `HookCreateEntity` of `engine_hooks.h`, line 307. -/
def HookCreateEntity (callback : Callback) (post : Bool) (s : State) : Except Fault State :=
  detail.SetHook EngineSlot.create_entity callback post s

/-- Installer `HookRemoveEntity` of `engine_hooks.h`, line 318. -/
def HookRemoveEntity (callback : Callback) (post : Bool) (s : State) : Except Fault State :=
  detail.SetHook EngineSlot.remove_entity callback post s

/-- Installer `HookCreateNamedEntity` of `engine_hooks.h`, line 329. -/
def HookCreateNamedEntity (callback : Callback) (post : Bool) (s : State) : Except Fault State :=
  detail.SetHook EngineSlot.create_named_entity callback post s

/-- Installer `HookMakeStatic` of `engine_hooks.h`, line 340. -/
def HookMakeStatic (callback : Callback) (post : Bool) (s : State) : Except Fault State :=
  detail.SetHook EngineSlot.make_static callback post s

/-- Installer `HookEntIsOnFloor` of `engine_hooks.h`, line 351. -/
def HookEntIsOnFloor (callback : Callback) (post : Bool) (s : State) : Except Fault State :=
  detail.SetHook EngineSlot.ent_is_on_floor callback post s

/-- Installer `HookDropToFloor` of `engine_hooks.h`, line 362. -/
def HookDropToFloor (callback : Callback) (post : Bool) (s : State) : Except Fault State :=
  detail.SetHook EngineSlot.drop_to_floor callback post s

/-- Installer `HookWalkMove` of `engine_hooks.h`, line 373. -/
def HookWalkMove (callback : Callback) (post : Bool) (s : State) : Except Fault State :=
  detail.SetHook EngineSlot.walk_move callback post s

/-- Installer `HookSetOrigin` of `engine_hooks.h`, line 385. -/
def HookSetOrigin (callback : Callback) (post : Bool) (s : State) : Except Fault State :=
  detail.SetHook EngineSlot.set_origin callback post s

/-- Installer `HookEmitSound` of `engine_hooks.h`, line 397. -/
def HookEmitSound (callback : Callback) (post : Bool) (s : State) : Except Fault State :=
  detail.SetHook EngineSlot.emit_sound callback post s

/-- Installer `HookEmitAmbientSound` of `engine_hooks.h`, line 410. -/
def HookEmitAmbientSound (callback : Callback) (post : Bool) (s : State) : Except Fault State :=
  detail.SetHook EngineSlot.emit_ambient_sound callback post s

/-- Installer `HookTraceLine` of `engine_hooks.h`, line 423. -/
def HookTraceLine (callback : Callback) (post : Bool) (s : State) : Except Fault State :=
  detail.SetHook EngineSlot.trace_line callback post s

/-- Installer `HookTraceToss` of `engine_hooks.h`, line 436. -/
def HookTraceToss (callback : Callback) (post : Bool) (s : State) : Except Fault State :=
  detail.SetHook EngineSlot.trace_toss callback post s

/-- Installer `HookTraceMonsterHull` of `engine_hooks.h`, line 448. -/
def HookTraceMonsterHull (callback : Callback) (post : Bool) (s : State) : Except Fault State :=
  detail.SetHook EngineSlot.trace_monster_hull callback post s

/-- Installer `HookTraceHull` of `engine_hooks.h`, line 461. -/
def HookTraceHull (callback : Callback) (post : Bool) (s : State) : Except Fault State :=
  detail.SetHook EngineSlot.trace_hull callback post s

/-- Installer `HookTraceModel` of `engine_hooks.h`, line 477. -/
def HookTraceModel (callback : Callback) (post : Bool) (s : State) : Except Fault State :=
  detail.SetHook EngineSlot.trace_model callback post s

/-- Installer `HookTraceTexture` of `engine_hooks.h`, line 490. -/
def HookTraceTexture (callback : Callback) (post : Bool) (s : State) : Except Fault State :=
  detail.SetHook EngineSlot.trace_texture callback post s

/-- Installer `HookTraceSphere` of `engine_hooks.h`, line 502. -/
def HookTraceSphere (callback : Callback) (post : Bool) (s : State) : Except Fault State :=
  detail.SetHook EngineSlot.trace_sphere callback post s

/-- Installer `HookGetAimVector` of `engine_hooks.h`, line 515. -/
def HookGetAimVector (callback : Callback) (post : Bool) (s : State) : Except Fault State :=
  detail.SetHook EngineSlot.get_aim_vector callback post s

/-- Installer `HookServerCommand` of `engine_hooks.h`, line 527. -/
def HookServerCommand (callback : Callback) (post : Bool) (s : State) : Except Fault State :=
  detail.SetHook EngineSlot.server_command callback post s

/-- Installer `HookServerExecute` of `engine_hooks.h`, line 538. -/
def HookServerExecute (callback : Callback) (post : Bool) (s : State) : Except Fault State :=
  detail.SetHook EngineSlot.server_execute callback post s

/-- Installer `HookClientCommand` of `engine_hooks.h`, line 550. -/
def HookClientCommand (callback : Callback) (post : Bool) (s : State) : Except Fault State :=
  detail.SetHook EngineSlot.client_command callback post s

/-- Installer `HookParticleEffect` of `engine_hooks.h`, line 562. -/
def HookParticleEffect (callback : Callback) (post : Bool) (s : State) : Except Fault State :=
  detail.SetHook EngineSlot.particle_effect callback post s

/-- Installer `HookLightStyle` of `engine_hooks.h`, line 574. -/
def HookLightStyle (callback : Callback) (post : Bool) (s : State) : Except Fault State :=
  detail.SetHook EngineSlot.light_style callback post s

/-- Installer `HookDecalIndex` of `engine_hooks.h`, line 585. -/
def HookDecalIndex (callback : Callback) (post : Bool) (s : State) : Except Fault State :=
  detail.SetHook EngineSlot.decal_index callback post s

/-- Installer `HookPointContents` of `engine_hooks.h`, line 596. -/
def HookPointContents (callback : Callback) (post : Bool) (s : State) : Except Fault State :=
  detail.SetHook EngineSlot.point_contents callback post s

/-- Installer `HookMessageBegin` of `engine_hooks.h`, line 607. -/
def HookMessageBegin (callback : Callback) (post : Bool) (s : State) : Except Fault State :=
  detail.SetHook EngineSlot.message_begin callback post s

/-- Installer `HookMessageEnd` of `engine_hooks.h`, line 619. -/
def HookMessageEnd (callback : Callback) (post : Bool) (s : State) : Except Fault State :=
  detail.SetHook EngineSlot.message_end callback post s

/-- Installer `HookWriteByte` of `engine_hooks.h`, line 630. -/
def HookWriteByte (callback : Callback) (post : Bool) (s : State) : Except Fault State :=
  detail.SetHook EngineSlot.write_byte callback post s

/-- Installer `HookWriteChar` of `engine_hooks.h`, line 641. -/
def HookWriteChar (callback : Callback) (post : Bool) (s : State) : Except Fault State :=
  detail.SetHook EngineSlot.write_char callback post s

/-- Installer `HookWriteShort` of `engine_hooks.h`, line 652. -/
def HookWriteShort (callback : Callback) (post : Bool) (s : State) : Except Fault State :=
  detail.SetHook EngineSlot.write_short callback post s

/-- Installer `HookWriteLong` of `engine_hooks.h`, line 663. -/
def HookWriteLong (callback : Callback) (post : Bool) (s : State) : Except Fault State :=
  detail.SetHook EngineSlot.write_long callback post s

/-- Installer `HookWriteAngle` of `engine_hooks.h`, line 674. -/
def HookWriteAngle (callback : Callback) (post : Bool) (s : State) : Except Fault State :=
  detail.SetHook EngineSlot.write_angle callback post s

/-- Installer `HookWriteCoord` of `engine_hooks.h`, line 685. -/
def HookWriteCoord (callback : Callback) (post : Bool) (s : State) : Except Fault State :=
  detail.SetHook EngineSlot.write_coord callback post s

/-- Installer `HookWriteString` of `engine_hooks.h`, line 696. -/
def HookWriteString (callback : Callback) (post : Bool) (s : State) : Except Fault State :=
  detail.SetHook EngineSlot.write_string callback post s

/-- Installer `HookWriteEntity` of `engine_hooks.h`, line 707. -/
def HookWriteEntity (callback : Callback) (post : Bool) (s : State) : Except Fault State :=
  detail.SetHook EngineSlot.write_entity callback post s

/-- Installer `HookCvarRegister` of `engine_hooks.h`, line 718. -/
def HookCvarRegister (callback : Callback) (post : Bool) (s : State) : Except Fault State :=
  detail.SetHook EngineSlot.cvar_register callback post s

/-- Installer `HookCvarGetFloat` of `engine_hooks.h`, line 729. -/
def HookCvarGetFloat (callback : Callback) (post : Bool) (s : State) : Except Fault State :=
  detail.SetHook EngineSlot.cvar_get_float callback post s

/-- Installer `HookCvarGetString` of `engine_hooks.h`, line 740. -/
def HookCvarGetString (callback : Callback) (post : Bool) (s : State) : Except Fault State :=
  detail.SetHook EngineSlot.cvar_get_string callback post s

/-- Installer `HookCvarSetFloat` of `engine_hooks.h`, line 751. -/
def HookCvarSetFloat (callback : Callback) (post : Bool) (s : State) : Except Fault State :=
  detail.SetHook EngineSlot.cvar_set_float callback post s

/-- Installer `HookCvarSetString` of `engine_hooks.h`, line 762. -/
def HookCvarSetString (callback : Callback) (post : Bool) (s : State) : Except Fault State :=
  detail.SetHook EngineSlot.cvar_set_string callback post s

/-- Installer `HookAlertMessage` of `engine_hooks.h`, line 774. -/
def HookAlertMessage (callback : Callback) (post : Bool) (s : State) : Except Fault State :=
  detail.SetHook EngineSlot.alert_message callback post s

/-- Installer `HookEngineFilePrint` of `engine_hooks.h`, line 787. -/
def HookEngineFilePrint (callback : Callback) (post : Bool) (s : State) : Except Fault State :=
  detail.SetHook EngineSlot.engine_file_print callback post s

/-- Installer `HookAllocEntPrivateData` of `engine_hooks.h`, line 799. -/
def HookAllocEntPrivateData (callback : Callback) (post : Bool) (s : State) : Except Fault State :=
  detail.SetHook EngineSlot.alloc_ent_private_data callback post s

/-- Installer `HookEntPrivateData` of `engine_hooks.h`, line 811. -/
def HookEntPrivateData (callback : Callback) (post : Bool) (s : State) : Except Fault State :=
  detail.SetHook EngineSlot.ent_private_data callback post s

/-- Installer `HookFreeEntPrivateData` of `engine_hooks.h`, line 822. -/
def HookFreeEntPrivateData (callback : Callback) (post : Bool) (s : State) : Except Fault State :=
  detail.SetHook EngineSlot.free_ent_private_data callback post s

/-- Installer `HookSzFromIndex` of `engine_hooks.h`, line 833. -/
def HookSzFromIndex (callback : Callback) (post : Bool) (s : State) : Except Fault State :=
  detail.SetHook EngineSlot.sz_from_index callback post s

/-- Installer `HookAllocString` of `engine_hooks.h`, line 844. -/
def HookAllocString (callback : Callback) (post : Bool) (s : State) : Except Fault State :=
  detail.SetHook EngineSlot.alloc_string callback post s

/-- Installer `HookGetVarsOfEnt` of `engine_hooks.h`, line 855. -/
def HookGetVarsOfEnt (callback : Callback) (post : Bool) (s : State) : Except Fault State :=
  detail.SetHook EngineSlot.get_vars_of_ent callback post s

/-- Installer `HookEntityOfEntOffset` of `engine_hooks.h`, line 867. -/
def HookEntityOfEntOffset (callback : Callback) (post : Bool) (s : State) : Except Fault State :=
  detail.SetHook EngineSlot.entity_of_ent_offset callback post s

/-- Installer `HookEntOffsetOfEntity` of `engine_hooks.h`, line 879. -/
def HookEntOffsetOfEntity (callback : Callback) (post : Bool) (s : State) : Except Fault State :=
  detail.SetHook EngineSlot.ent_offset_of_entity callback post s

/-- Installer `HookIndexOfEdict` of `engine_hooks.h`, line 891. -/
def HookIndexOfEdict (callback : Callback) (post : Bool) (s : State) : Except Fault State :=
  detail.SetHook EngineSlot.index_of_edict callback post s

/-- Installer `HookEntityOfEntIndex` of `engine_hooks.h`, line 902. -/
def HookEntityOfEntIndex (callback : Callback) (post : Bool) (s : State) : Except Fault State :=
  detail.SetHook EngineSlot.entity_of_ent_index callback post s

/-- Installer `HookFindEntityByVars` of `engine_hooks.h`, line 914. -/
def HookFindEntityByVars (callback : Callback) (post : Bool) (s : State) : Except Fault State :=
  detail.SetHook EngineSlot.find_entity_by_vars callback post s

/-- Installer `HookGetModelPointer` of `engine_hooks.h`, line 926. -/
def HookGetModelPointer (callback : Callback) (post : Bool) (s : State) : Except Fault State :=
  detail.SetHook EngineSlot.get_model_pointer callback post s

/-- Installer `HookRegUserMessage` of `engine_hooks.h`, line 937. -/
def HookRegUserMessage (callback : Callback) (post : Bool) (s : State) : Except Fault State :=
  detail.SetHook EngineSlot.reg_user_message callback post s

/-- Installer `HookAnimationAutoMove` of `engine_hooks.h`, line 948. -/
def HookAnimationAutoMove (callback : Callback) (post : Bool) (s : State) : Except Fault State :=
  detail.SetHook EngineSlot.animation_auto_move callback post s

/-- Installer `HookGetBonePosition` of `engine_hooks.h`, line 960. -/
def HookGetBonePosition (callback : Callback) (post : Bool) (s : State) : Except Fault State :=
  detail.SetHook EngineSlot.get_bone_position callback post s

/-- Installer `HookFunctionFromName` of `engine_hooks.h`, line 972. -/
def HookFunctionFromName (callback : Callback) (post : Bool) (s : State) : Except Fault State :=
  detail.SetHook EngineSlot.function_from_name callback post s

/-- Installer `HookNameForFunction` of `engine_hooks.h`, line 983. -/
def HookNameForFunction (callback : Callback) (post : Bool) (s : State) : Except Fault State :=
  detail.SetHook EngineSlot.name_for_function callback post s

/-- Installer `HookClientPrint` of `engine_hooks.h`, line 995. -/
def HookClientPrint (callback : Callback) (post : Bool) (s : State) : Except Fault State :=
  detail.SetHook EngineSlot.client_print callback post s

/-- Installer `HookServerPrint` of `engine_hooks.h`, line 1007. -/
def HookServerPrint (callback : Callback) (post : Bool) (s : State) : Except Fault State :=
  detail.SetHook EngineSlot.server_print callback post s

/-- Installer `HookCmdArgs` of `engine_hooks.h`, line 1018. -/
def HookCmdArgs (callback : Callback) (post : Bool) (s : State) : Except Fault State :=
  detail.SetHook EngineSlot.cmd_args callback post s

/-- Installer `HookCmdArgv` of `engine_hooks.h`, line 1029. -/
def HookCmdArgv (callback : Callback) (post : Bool) (s : State) : Except Fault State :=
  detail.SetHook EngineSlot.cmd_argv callback post s

/-- Installer `HookCmdArgc` of `engine_hooks.h`, line 1040. -/
def HookCmdArgc (callback : Callback) (post : Bool) (s : State) : Except Fault State :=
  detail.SetHook EngineSlot.cmd_argc callback post s

/-- Installer `HookGetAttachment` of `engine_hooks.h`, line 1051. -/
def HookGetAttachment (callback : Callback) (post : Bool) (s : State) : Except Fault State :=
  detail.SetHook EngineSlot.get_attachment callback post s

/-- Installer `HookCrc32Init` of `engine_hooks.h`, line 1063. -/
def HookCrc32Init (callback : Callback) (post : Bool) (s : State) : Except Fault State :=
  detail.SetHook EngineSlot.crc32_init callback post s

/-- Installer `HookCrc32ProcessBuffer` of `engine_hooks.h`, line 1074. -/
def HookCrc32ProcessBuffer (callback : Callback) (post : Bool) (s : State) : Except Fault State :=
  detail.SetHook EngineSlot.crc32_process_buffer callback post s

/-- Installer `HookCrc32ProcessByte` of `engine_hooks.h`, line 1086. -/
def HookCrc32ProcessByte (callback : Callback) (post : Bool) (s : State) : Except Fault State :=
  detail.SetHook EngineSlot.crc32_process_byte callback post s

/-- Installer `HookCrc32Final` of `engine_hooks.h`, line 1098. -/
def HookCrc32Final (callback : Callback) (post : Bool) (s : State) : Except Fault State :=
  detail.SetHook EngineSlot.crc32_final callback post s

/-- Installer `HookRandomLong` of `engine_hooks.h`, line 1109. -/
def HookRandomLong (callback : Callback) (post : Bool) (s : State) : Except Fault State :=
  detail.SetHook EngineSlot.random_long callback post s

/-- Installer `HookRandomFloat` of `engine_hooks.h`, line 1121. -/
def HookRandomFloat (callback : Callback) (post : Bool) (s : State) : Except Fault State :=
  detail.SetHook EngineSlot.random_float callback post s

/-- Installer `HookSetView` of `engine_hooks.h`, line 1132. -/
def HookSetView (callback : Callback) (post : Bool) (s : State) : Except Fault State :=
  detail.SetHook EngineSlot.set_view callback post s

/-- Installer `HookTime` of `engine_hooks.h`, line 1144. -/
def HookTime (callback : Callback) (post : Bool) (s : State) : Except Fault State :=
  detail.SetHook EngineSlot.time callback post s

/-- Installer `HookCrosshairAngle` of `engine_hooks.h`, line 1155. -/
def HookCrosshairAngle (callback : Callback) (post : Bool) (s : State) : Except Fault State :=
  detail.SetHook EngineSlot.crosshair_angle callback post s

/-- Installer `HookLoadFileForMe` of `engine_hooks.h`, line 1167. -/
def HookLoadFileForMe (callback : Callback) (post : Bool) (s : State) : Except Fault State :=
  detail.SetHook EngineSlot.load_file_for_me callback post s

/-- Installer `HookFreeFile` of `engine_hooks.h`, line 1179. -/
def HookFreeFile (callback : Callback) (post : Bool) (s : State) : Except Fault State :=
  detail.SetHook EngineSlot.free_file callback post s

/-- Installer `HookEndSection` of `engine_hooks.h`, line 1190. -/
def HookEndSection (callback : Callback) (post : Bool) (s : State) : Except Fault State :=
  detail.SetHook EngineSlot.end_section callback post s

/-- Installer `HookCompareFileTime` of `engine_hooks.h`, line 1201. -/
def HookCompareFileTime (callback : Callback) (post : Bool) (s : State) : Except Fault State :=
  detail.SetHook EngineSlot.compare_file_time callback post s

/-- Installer `HookGetGameDir` of `engine_hooks.h`, line 1213. -/
def HookGetGameDir (callback : Callback) (post : Bool) (s : State) : Except Fault State :=
  detail.SetHook EngineSlot.get_game_dir callback post s

/-- Installer `HookCvarRegisterVariable` of `engine_hooks.h`, line 1224. -/
def HookCvarRegisterVariable (callback : Callback) (post : Bool) (s : State) : Except Fault State :=
  detail.SetHook EngineSlot.cvar_register_variable callback post s

/-- Installer `HookFadeClientVolume` of `engine_hooks.h`, line 1235. -/
def HookFadeClientVolume (callback : Callback) (post : Bool) (s : State) : Except Fault State :=
  detail.SetHook EngineSlot.fade_client_volume callback post s

/-- Installer `HookSetClientMaxSpeed` of `engine_hooks.h`, line 1248. -/
def HookSetClientMaxSpeed (callback : Callback) (post : Bool) (s : State) : Except Fault State :=
  detail.SetHook EngineSlot.set_client_max_speed callback post s

/-- Installer `HookCreateFakeClient` of `engine_hooks.h`, line 1260. -/
def HookCreateFakeClient (callback : Callback) (post : Bool) (s : State) : Except Fault State :=
  detail.SetHook EngineSlot.create_fake_client callback post s

/-- Installer `HookRunPlayerMove` of `engine_hooks.h`, line 1271. -/
def HookRunPlayerMove (callback : Callback) (post : Bool) (s : State) : Except Fault State :=
  detail.SetHook EngineSlot.run_player_move callback post s

/-- Installer `HookNumberOfEntities` of `engine_hooks.h`, line 1284. -/
def HookNumberOfEntities (callback : Callback) (post : Bool) (s : State) : Except Fault State :=
  detail.SetHook EngineSlot.number_of_entities callback post s

/-- Installer `HookGetInfoKeyBuffer` of `engine_hooks.h`, line 1295. -/
def HookGetInfoKeyBuffer (callback : Callback) (post : Bool) (s : State) : Except Fault State :=
  detail.SetHook EngineSlot.get_info_key_buffer callback post s

/-- Installer `HookInfoKeyValue` of `engine_hooks.h`, line 1306. -/
def HookInfoKeyValue (callback : Callback) (post : Bool) (s : State) : Except Fault State :=
  detail.SetHook EngineSlot.info_key_value callback post s

/-- Installer `HookSetKeyValue` of `engine_hooks.h`, line 1318. -/
def HookSetKeyValue (callback : Callback) (post : Bool) (s : State) : Except Fault State :=
  detail.SetHook EngineSlot.set_key_value callback post s

/-- Installer `HookSetClientKeyValue` of `engine_hooks.h`, line 1330. -/
def HookSetClientKeyValue (callback : Callback) (post : Bool) (s : State) : Except Fault State :=
  detail.SetHook EngineSlot.set_client_key_value callback post s

/-- Installer `HookIsMapValid` of `engine_hooks.h`, line 1342. -/
def HookIsMapValid (callback : Callback) (post : Bool) (s : State) : Except Fault State :=
  detail.SetHook EngineSlot.is_map_valid callback post s

/-- Installer `HookStaticDecal` of `engine_hooks.h`, line 1353. -/
def HookStaticDecal (callback : Callback) (post : Bool) (s : State) : Except Fault State :=
  detail.SetHook EngineSlot.static_decal callback post s

/-- Installer `HookPrecacheGeneric` of `engine_hooks.h`, line 1365. -/
def HookPrecacheGeneric (callback : Callback) (post : Bool) (s : State) : Except Fault State :=
  detail.SetHook EngineSlot.precache_generic callback post s

/-- Installer `HookGetPlayerUserId` of `engine_hooks.h`, line 1376. -/
def HookGetPlayerUserId (callback : Callback) (post : Bool) (s : State) : Except Fault State :=
  detail.SetHook EngineSlot.get_player_user_id callback post s

/-- Installer `HookBuildSoundMsg` of `engine_hooks.h`, line 1387. -/
def HookBuildSoundMsg (callback : Callback) (post : Bool) (s : State) : Except Fault State :=
  detail.SetHook EngineSlot.build_sound_msg callback post s

/-- Installer `HookIsDedicatedServer` of `engine_hooks.h`, line 1400. -/
def HookIsDedicatedServer (callback : Callback) (post : Bool) (s : State) : Except Fault State :=
  detail.SetHook EngineSlot.is_dedicated_server callback post s

/-- Installer `HookCvarGetPointer` of `engine_hooks.h`, line 1411. -/
def HookCvarGetPointer (callback : Callback) (post : Bool) (s : State) : Except Fault State :=
  detail.SetHook EngineSlot.cvar_get_pointer callback post s

/-- Installer `HookGetPlayerWonId` of `engine_hooks.h`, line 1423. -/
def HookGetPlayerWonId (callback : Callback) (post : Bool) (s : State) : Except Fault State :=
  detail.SetHook EngineSlot.get_player_won_id callback post s

/-- Installer `HookInfoRemoveKey` of `engine_hooks.h`, line 1435. -/
def HookInfoRemoveKey (callback : Callback) (post : Bool) (s : State) : Except Fault State :=
  detail.SetHook EngineSlot.info_remove_key callback post s

/-- Installer `HookGetPhysicsKeyValue` of `engine_hooks.h`, line 1447. -/
def HookGetPhysicsKeyValue (callback : Callback) (post : Bool) (s : State) : Except Fault State :=
  detail.SetHook EngineSlot.get_physics_key_value callback post s

/-- Installer `HookSetPhysicsKeyValue` of `engine_hooks.h`, line 1459. -/
def HookSetPhysicsKeyValue (callback : Callback) (post : Bool) (s : State) : Except Fault State :=
  detail.SetHook EngineSlot.set_physics_key_value callback post s

/-- Installer `HookGetPhysicsInfoString` of `engine_hooks.h`, line 1471. -/
def HookGetPhysicsInfoString (callback : Callback) (post : Bool) (s : State) : Except Fault State :=
  detail.SetHook EngineSlot.get_physics_info_string callback post s

/-- Installer `HookPrecacheEvent` of `engine_hooks.h`, line 1483. -/
def HookPrecacheEvent (callback : Callback) (post : Bool) (s : State) : Except Fault State :=
  detail.SetHook EngineSlot.precache_event callback post s

/-- Installer `HookPlaybackEvent` of `engine_hooks.h`, line 1495. -/
def HookPlaybackEvent (callback : Callback) (post : Bool) (s : State) : Except Fault State :=
  detail.SetHook EngineSlot.playback_event callback post s

/-- Installer `HookSetFatPvs` of `engine_hooks.h`, line 1508. -/
def HookSetFatPvs (callback : Callback) (post : Bool) (s : State) : Except Fault State :=
  detail.SetHook EngineSlot.set_fat_pvs callback post s

/-- Installer `HookSetFatPas` of `engine_hooks.h`, line 1519. -/
def HookSetFatPas (callback : Callback) (post : Bool) (s : State) : Except Fault State :=
  detail.SetHook EngineSlot.set_fat_pas callback post s

/-- Installer `HookCheckVisibility` of `engine_hooks.h`, line 1530. -/
def HookCheckVisibility (callback : Callback) (post : Bool) (s : State) : Except Fault State :=
  detail.SetHook EngineSlot.check_visibility callback post s

/-- Installer `HookDeltaSetField` of `engine_hooks.h`, line 1542. -/
def HookDeltaSetField (callback : Callback) (post : Bool) (s : State) : Except Fault State :=
  detail.SetHook EngineSlot.delta_set_field callback post s

/-- Installer `HookDeltaUnsetField` of `engine_hooks.h`, line 1554. -/
def HookDeltaUnsetField (callback : Callback) (post : Bool) (s : State) : Except Fault State :=
  detail.SetHook EngineSlot.delta_unset_field callback post s

/-- Installer `HookDeltaAddEncoder` of `engine_hooks.h`, line 1566. -/
def HookDeltaAddEncoder (callback : Callback) (post : Bool) (s : State) : Except Fault State :=
  detail.SetHook EngineSlot.delta_add_encoder callback post s

/-- Installer `HookGetCurrentPlayer` of `engine_hooks.h`, line 1579. -/
def HookGetCurrentPlayer (callback : Callback) (post : Bool) (s : State) : Except Fault State :=
  detail.SetHook EngineSlot.get_current_player callback post s

/-- Installer `HookCanSkipPlayer` of `engine_hooks.h`, line 1590. -/
def HookCanSkipPlayer (callback : Callback) (post : Bool) (s : State) : Except Fault State :=
  detail.SetHook EngineSlot.can_skip_player callback post s

/-- Installer `HookDeltaFindField` of `engine_hooks.h`, line 1602. -/
def HookDeltaFindField (callback : Callback) (post : Bool) (s : State) : Except Fault State :=
  detail.SetHook EngineSlot.delta_find_field callback post s

/-- Installer `HookDeltaSetFieldByIndex` of `engine_hooks.h`, line 1614. -/
def HookDeltaSetFieldByIndex (callback : Callback) (post : Bool) (s : State) : Except Fault State :=
  detail.SetHook EngineSlot.delta_set_field_by_index callback post s

/-- Installer `HookDeltaUnsetFieldByIndex` of `engine_hooks.h`, line 1626. -/
def HookDeltaUnsetFieldByIndex (callback : Callback) (post : Bool) (s : State) : Except Fault State :=
  detail.SetHook EngineSlot.delta_unset_field_by_index callback post s

/-- Installer `HookSetGroupMask` of `engine_hooks.h`, line 1638. -/
def HookSetGroupMask (callback : Callback) (post : Bool) (s : State) : Except Fault State :=
  detail.SetHook EngineSlot.set_group_mask callback post s

/-- Installer `HookCreateInstancedBaseline` of `engine_hooks.h`, line 1649. -/
def HookCreateInstancedBaseline (callback : Callback) (post : Bool) (s : State) : Except Fault State :=
  detail.SetHook EngineSlot.create_instanced_baseline callback post s

/-- Installer `HookCvarDirectSet` of `engine_hooks.h`, line 1661. -/
def HookCvarDirectSet (callback : Callback) (post : Bool) (s : State) : Except Fault State :=
  detail.SetHook EngineSlot.cvar_direct_set callback post s

/-- Installer `HookForceUnmodified` of `engine_hooks.h`, line 1673. -/
def HookForceUnmodified (callback : Callback) (post : Bool) (s : State) : Except Fault State :=
  detail.SetHook EngineSlot.force_unmodified callback post s

/-- Installer `HookGetPlayerStats` of `engine_hooks.h`, line 1685. -/
def HookGetPlayerStats (callback : Callback) (post : Bool) (s : State) : Except Fault State :=
  detail.SetHook EngineSlot.get_player_stats callback post s

/-- Installer `HookAddServerCommand` of `engine_hooks.h`, line 1697. -/
def HookAddServerCommand (callback : Callback) (post : Bool) (s : State) : Except Fault State :=
  detail.SetHook EngineSlot.add_server_command callback post s

/-- Installer `HookVoiceGetClientListening` of `engine_hooks.h`, line 1709. -/
def HookVoiceGetClientListening (callback : Callback) (post : Bool) (s : State) : Except Fault State :=
  detail.SetHook EngineSlot.voice_get_client_listening callback post s

/-- Installer `HookVoiceSetClientListening` of `engine_hooks.h`, line 1721. -/
def HookVoiceSetClientListening (callback : Callback) (post : Bool) (s : State) : Except Fault State :=
  detail.SetHook EngineSlot.voice_set_client_listening callback post s

/-- Installer `HookGetPlayerAuthId` of `engine_hooks.h`, line 1733. -/
def HookGetPlayerAuthId (callback : Callback) (post : Bool) (s : State) : Except Fault State :=
  detail.SetHook EngineSlot.get_player_auth_id callback post s

/-- Installer `HookSequenceGet` of `engine_hooks.h`, line 1745. -/
def HookSequenceGet (callback : Callback) (post : Bool) (s : State) : Except Fault State :=
  detail.SetHook EngineSlot.sequence_get callback post s

/-- Installer `HookSequencePickSentence` of `engine_hooks.h`, line 1757. -/
def HookSequencePickSentence (callback : Callback) (post : Bool) (s : State) : Except Fault State :=
  detail.SetHook EngineSlot.sequence_pick_sentence callback post s

/-- Installer `HookGetFileSize` of `engine_hooks.h`, line 1769. -/
def HookGetFileSize (callback : Callback) (post : Bool) (s : State) : Except Fault State :=
  detail.SetHook EngineSlot.get_file_size callback post s

/-- Installer `HookGetApproxWavePlayLen` of `engine_hooks.h`, line 1780. -/
def HookGetApproxWavePlayLen (callback : Callback) (post : Bool) (s : State) : Except Fault State :=
  detail.SetHook EngineSlot.get_approx_wave_play_len callback post s

/-- Installer `HookIsCareerMatch` of `engine_hooks.h`, line 1792. -/
def HookIsCareerMatch (callback : Callback) (post : Bool) (s : State) : Except Fault State :=
  detail.SetHook EngineSlot.is_career_match callback post s

/-- Installer `HookGetLocalizedStringLength` of `engine_hooks.h`, line 1803. -/
def HookGetLocalizedStringLength (callback : Callback) (post : Bool) (s : State) : Except Fault State :=
  detail.SetHook EngineSlot.get_localized_string_length callback post s

/-- Installer `HookRegisterTutorMessageShown` of `engine_hooks.h`, line 1815. -/
def HookRegisterTutorMessageShown (callback : Callback) (post : Bool) (s : State) : Except Fault State :=
  detail.SetHook EngineSlot.register_tutor_message_shown callback post s

/-- Installer `HookGetTimesTutorMessageShown` of `engine_hooks.h`, line 1826. -/
def HookGetTimesTutorMessageShown (callback : Callback) (post : Bool) (s : State) : Except Fault State :=
  detail.SetHook EngineSlot.get_times_tutor_message_shown callback post s

/-- Installer `HookProcessTutorMessageDecayBuffer` of `engine_hooks.h`, line 1837. -/
def HookProcessTutorMessageDecayBuffer (callback : Callback) (post : Bool) (s : State) : Except Fault State :=
  detail.SetHook EngineSlot.process_tutor_message_decay_buffer callback post s

/-- Installer `HookConstructTutorMessageDecayBuffer` of `engine_hooks.h`, line 1849. -/
def HookConstructTutorMessageDecayBuffer (callback : Callback) (post : Bool) (s : State) : Except Fault State :=
  detail.SetHook EngineSlot.construct_tutor_message_decay_buffer callback post s

/-- Installer `HookResetTutorMessageDecayData` of `engine_hooks.h`, line 1861. -/
def HookResetTutorMessageDecayData (callback : Callback) (post : Bool) (s : State) : Except Fault State :=
  detail.SetHook EngineSlot.reset_tutor_message_decay_data callback post s

/-- Installer `HookQueryClientCvarValue` of `engine_hooks.h`, line 1872. -/
def HookQueryClientCvarValue (callback : Callback) (post : Bool) (s : State) : Except Fault State :=
  detail.SetHook EngineSlot.query_client_cvar_value callback post s

/-- Installer `HookQueryClientCvarValue2` of `engine_hooks.h`, line 1884. -/
def HookQueryClientCvarValue2 (callback : Callback) (post : Bool) (s : State) : Except Fault State :=
  detail.SetHook EngineSlot.query_client_cvar_value2 callback post s

/-- Installer `HookEngCheckParam` of `engine_hooks.h`, line 1896. -/
def HookEngCheckParam (callback : Callback) (post : Bool) (s : State) : Except Fault State :=
  detail.SetHook EngineSlot.eng_check_param callback post s

/-- The installer declared for each engine member: the function whose name is `Hook` followed by the member name in camel case. -/
def installer : EngineSlot → Callback → Bool → State → Except Fault State
  | .precache_model => HookPrecacheModel
  | .precache_sound => HookPrecacheSound
  | .set_model => HookSetModel
  | .model_index => HookModelIndex
  | .model_frames => HookModelFrames
  | .set_size => HookSetSize
  | .change_level => HookChangeLevel
  | .get_spawn_params => HookGetSpawnParams
  | .save_spawn_params => HookSaveSpawnParams
  | .vec_to_yaw => HookVecToYaw
  | .vec_to_angles => HookVecToAngles
  | .move_to_origin => HookMoveToOrigin
  | .change_yaw => HookChangeYaw
  | .change_pitch => HookChangePitch
  | .find_entity_by_string => HookFindEntityByString
  | .get_entity_illumination => HookGetEntityIllumination
  | .find_entity_in_sphere => HookFindEntityInSphere
  | .find_client_in_pvs => HookFindClientInPvs
  | .entities_in_pvs => HookEntitiesInPvs
  | .make_vectors => HookMakeVectors
  | .angle_vectors => HookAngleVectors
  | .create_entity => HookCreateEntity
  | .remove_entity => HookRemoveEntity
  | .create_named_entity => HookCreateNamedEntity
  | .make_static => HookMakeStatic
  | .ent_is_on_floor => HookEntIsOnFloor
  | .drop_to_floor => HookDropToFloor
  | .walk_move => HookWalkMove
  | .set_origin => HookSetOrigin
  | .emit_sound => HookEmitSound
  | .emit_ambient_sound => HookEmitAmbientSound
  | .trace_line => HookTraceLine
  | .trace_toss => HookTraceToss
  | .trace_monster_hull => HookTraceMonsterHull
  | .trace_hull => HookTraceHull
  | .trace_model => HookTraceModel
  | .trace_texture => HookTraceTexture
  | .trace_sphere => HookTraceSphere
  | .get_aim_vector => HookGetAimVector
  | .server_command => HookServerCommand
  | .server_execute => HookServerExecute
  | .client_command => HookClientCommand
  | .particle_effect => HookParticleEffect
  | .light_style => HookLightStyle
  | .decal_index => HookDecalIndex
  | .point_contents => HookPointContents
  | .message_begin => HookMessageBegin
  | .message_end => HookMessageEnd
  | .write_byte => HookWriteByte
  | .write_char => HookWriteChar
  | .write_short => HookWriteShort
  | .write_long => HookWriteLong
  | .write_angle => HookWriteAngle
  | .write_coord => HookWriteCoord
  | .write_string => HookWriteString
  | .write_entity => HookWriteEntity
  | .cvar_register => HookCvarRegister
  | .cvar_get_float => HookCvarGetFloat
  | .cvar_get_string => HookCvarGetString
  | .cvar_set_float => HookCvarSetFloat
  | .cvar_set_string => HookCvarSetString
  | .alert_message => HookAlertMessage
  | .engine_file_print => HookEngineFilePrint
  | .alloc_ent_private_data => HookAllocEntPrivateData
  | .ent_private_data => HookEntPrivateData
  | .free_ent_private_data => HookFreeEntPrivateData
  | .sz_from_index => HookSzFromIndex
  | .alloc_string => HookAllocString
  | .get_vars_of_ent => HookGetVarsOfEnt
  | .entity_of_ent_offset => HookEntityOfEntOffset
  | .ent_offset_of_entity => HookEntOffsetOfEntity
  | .index_of_edict => HookIndexOfEdict
  | .entity_of_ent_index => HookEntityOfEntIndex
  | .find_entity_by_vars => HookFindEntityByVars
  | .get_model_pointer => HookGetModelPointer
  | .reg_user_message => HookRegUserMessage
  | .animation_auto_move => HookAnimationAutoMove
  | .get_bone_position => HookGetBonePosition
  | .function_from_name => HookFunctionFromName
  | .name_for_function => HookNameForFunction
  | .client_print => HookClientPrint
  | .server_print => HookServerPrint
  | .cmd_args => HookCmdArgs
  | .cmd_argv => HookCmdArgv
  | .cmd_argc => HookCmdArgc
  | .get_attachment => HookGetAttachment
  | .crc32_init => HookCrc32Init
  | .crc32_process_buffer => HookCrc32ProcessBuffer
  | .crc32_process_byte => HookCrc32ProcessByte
  | .crc32_final => HookCrc32Final
  | .random_long => HookRandomLong
  | .random_float => HookRandomFloat
  | .set_view => HookSetView
  | .time => HookTime
  | .crosshair_angle => HookCrosshairAngle
  | .load_file_for_me => HookLoadFileForMe
  | .free_file => HookFreeFile
  | .end_section => HookEndSection
  | .compare_file_time => HookCompareFileTime
  | .get_game_dir => HookGetGameDir
  | .cvar_register_variable => HookCvarRegisterVariable
  | .fade_client_volume => HookFadeClientVolume
  | .set_client_max_speed => HookSetClientMaxSpeed
  | .create_fake_client => HookCreateFakeClient
  | .run_player_move => HookRunPlayerMove
  | .number_of_entities => HookNumberOfEntities
  | .get_info_key_buffer => HookGetInfoKeyBuffer
  | .info_key_value => HookInfoKeyValue
  | .set_key_value => HookSetKeyValue
  | .set_client_key_value => HookSetClientKeyValue
  | .is_map_valid => HookIsMapValid
  | .static_decal => HookStaticDecal
  | .precache_generic => HookPrecacheGeneric
  | .get_player_user_id => HookGetPlayerUserId
  | .build_sound_msg => HookBuildSoundMsg
  | .is_dedicated_server => HookIsDedicatedServer
  | .cvar_get_pointer => HookCvarGetPointer
  | .get_player_won_id => HookGetPlayerWonId
  | .info_remove_key => HookInfoRemoveKey
  | .get_physics_key_value => HookGetPhysicsKeyValue
  | .set_physics_key_value => HookSetPhysicsKeyValue
  | .get_physics_info_string => HookGetPhysicsInfoString
  | .precache_event => HookPrecacheEvent
  | .playback_event => HookPlaybackEvent
  | .set_fat_pvs => HookSetFatPvs
  | .set_fat_pas => HookSetFatPas
  | .check_visibility => HookCheckVisibility
  | .delta_set_field => HookDeltaSetField
  | .delta_unset_field => HookDeltaUnsetField
  | .delta_add_encoder => HookDeltaAddEncoder
  | .get_current_player => HookGetCurrentPlayer
  | .can_skip_player => HookCanSkipPlayer
  | .delta_find_field => HookDeltaFindField
  | .delta_set_field_by_index => HookDeltaSetFieldByIndex
  | .delta_unset_field_by_index => HookDeltaUnsetFieldByIndex
  | .set_group_mask => HookSetGroupMask
  | .create_instanced_baseline => HookCreateInstancedBaseline
  | .cvar_direct_set => HookCvarDirectSet
  | .force_unmodified => HookForceUnmodified
  | .get_player_stats => HookGetPlayerStats
  | .add_server_command => HookAddServerCommand
  | .voice_get_client_listening => HookVoiceGetClientListening
  | .voice_set_client_listening => HookVoiceSetClientListening
  | .get_player_auth_id => HookGetPlayerAuthId
  | .sequence_get => HookSequenceGet
  | .sequence_pick_sentence => HookSequencePickSentence
  | .get_file_size => HookGetFileSize
  | .get_approx_wave_play_len => HookGetApproxWavePlayLen
  | .is_career_match => HookIsCareerMatch
  | .get_localized_string_length => HookGetLocalizedStringLength
  | .register_tutor_message_shown => HookRegisterTutorMessageShown
  | .get_times_tutor_message_shown => HookGetTimesTutorMessageShown
  | .process_tutor_message_decay_buffer => HookProcessTutorMessageDecayBuffer
  | .construct_tutor_message_decay_buffer => HookConstructTutorMessageDecayBuffer
  | .reset_tutor_message_decay_data => HookResetTutorMessageDecayData
  | .query_client_cvar_value => HookQueryClientCvarValue
  | .query_client_cvar_value2 => HookQueryClientCvarValue2
  | .eng_check_param => HookEngCheckParam

end engine

namespace gamedll

/-- Installer `HookGameInit` of `gamedll_hooks.h`, line 90. -/
def HookGameInit (callback : Callback) (post : Bool) (s : State) : Except Fault State :=
  detail.SetHook DllSlot.game_init callback post s

/-- Installer `HookSpawn` of `gamedll_hooks.h`, line 101. -/
def HookSpawn (callback : Callback) (post : Bool) (s : State) : Except Fault State :=
  detail.SetHook DllSlot.spawn callback post s

/-- Installer `HookThink` of `gamedll_hooks.h`, line 112. -/
def HookThink (callback : Callback) (post : Bool) (s : State) : Except Fault State :=
  detail.SetHook DllSlot.think callback post s

/-- Installer `HookUse` of `gamedll_hooks.h`, line 124. -/
def HookUse (callback : Callback) (post : Bool) (s : State) : Except Fault State :=
  detail.SetHook DllSlot.use callback post s

/-- Installer `HookTouch` of `gamedll_hooks.h`, line 136. -/
def HookTouch (callback : Callback) (post : Bool) (s : State) : Except Fault State :=
  detail.SetHook DllSlot.touch callback post s

/-- Installer `HookBlocked` of `gamedll_hooks.h`, line 148. -/
def HookBlocked (callback : Callback) (post : Bool) (s : State) : Except Fault State :=
  detail.SetHook DllSlot.blocked callback post s

/-- Installer `HookKeyValue` of `gamedll_hooks.h`, line 160. -/
def HookKeyValue (callback : Callback) (post : Bool) (s : State) : Except Fault State :=
  detail.SetHook DllSlot.key_value callback post s

/-- Installer `HookSave` of `gamedll_hooks.h`, line 172. -/
def HookSave (callback : Callback) (post : Bool) (s : State) : Except Fault State :=
  detail.SetHook DllSlot.save callback post s

/-- Installer `HookRestore` of `gamedll_hooks.h`, line 184. -/
def HookRestore (callback : Callback) (post : Bool) (s : State) : Except Fault State :=
  detail.SetHook DllSlot.restore callback post s

/-- Installer `HookSetAbsBox` of `gamedll_hooks.h`, line 196. -/
def HookSetAbsBox (callback : Callback) (post : Bool) (s : State) : Except Fault State :=
  detail.SetHook DllSlot.set_abs_box callback post s

/-- Installer `HookSaveWriteFields` of `gamedll_hooks.h`, line 207. -/
def HookSaveWriteFields (callback : Callback) (post : Bool) (s : State) : Except Fault State :=
  detail.SetHook DllSlot.save_write_fields callback post s

/-- Installer `HookSaveReadFields` of `gamedll_hooks.h`, line 220. -/
def HookSaveReadFields (callback : Callback) (post : Bool) (s : State) : Except Fault State :=
  detail.SetHook DllSlot.save_read_fields callback post s

/-- Installer `HookSaveGlobalState` of `gamedll_hooks.h`, line 233. -/
def HookSaveGlobalState (callback : Callback) (post : Bool) (s : State) : Except Fault State :=
  detail.SetHook DllSlot.save_global_state callback post s

/-- Installer `HookRestoreGlobalState` of `gamedll_hooks.h`, line 245. -/
def HookRestoreGlobalState (callback : Callback) (post : Bool) (s : State) : Except Fault State :=
  detail.SetHook DllSlot.restore_global_state callback post s

/-- Installer `HookResetGlobalState` of `gamedll_hooks.h`, line 257. -/
def HookResetGlobalState (callback : Callback) (post : Bool) (s : State) : Except Fault State :=
  detail.SetHook DllSlot.reset_global_state callback post s

/-- Installer `HookClientConnect` of `gamedll_hooks.h`, line 269. -/
def HookClientConnect (callback : Callback) (post : Bool) (s : State) : Except Fault State :=
  detail.SetHook DllSlot.client_connect callback post s

/-- Installer `HookClientDisconnect` of `gamedll_hooks.h`, line 283. -/
def HookClientDisconnect (callback : Callback) (post : Bool) (s : State) : Except Fault State :=
  detail.SetHook DllSlot.client_disconnect callback post s

/-- Installer `HookClientKill` of `gamedll_hooks.h`, line 295. -/
def HookClientKill (callback : Callback) (post : Bool) (s : State) : Except Fault State :=
  detail.SetHook DllSlot.client_kill callback post s

/-- Installer `HookClientPutInServer` of `gamedll_hooks.h`, line 307. -/
def HookClientPutInServer (callback : Callback) (post : Bool) (s : State) : Except Fault State :=
  detail.SetHook DllSlot.client_put_in_server callback post s

/-- Installer `HookClientCommand` of `gamedll_hooks.h`, line 318. -/
def HookClientCommand (callback : Callback) (post : Bool) (s : State) : Except Fault State :=
  detail.SetHook DllSlot.client_command callback post s

/-- Installer `HookClientUserInfoChanged` of `gamedll_hooks.h`, line 330. -/
def HookClientUserInfoChanged (callback : Callback) (post : Bool) (s : State) : Except Fault State :=
  detail.SetHook DllSlot.client_user_info_changed callback post s

/-- Installer `HookServerActivate` of `gamedll_hooks.h`, line 342. -/
def HookServerActivate (callback : Callback) (post : Bool) (s : State) : Except Fault State :=
  detail.SetHook DllSlot.server_activate callback post s

/-- Installer `HookServerDeactivate` of `gamedll_hooks.h`, line 355. -/
def HookServerDeactivate (callback : Callback) (post : Bool) (s : State) : Except Fault State :=
  detail.SetHook DllSlot.server_deactivate callback post s

/-- Installer `HookPlayerPreThink` of `gamedll_hooks.h`, line 366. -/
def HookPlayerPreThink (callback : Callback) (post : Bool) (s : State) : Except Fault State :=
  detail.SetHook DllSlot.player_pre_think callback post s

/-- Installer `HookPlayerPostThink` of `gamedll_hooks.h`, line 377. -/
def HookPlayerPostThink (callback : Callback) (post : Bool) (s : State) : Except Fault State :=
  detail.SetHook DllSlot.player_post_think callback post s

/-- Installer `HookStartFrame` of `gamedll_hooks.h`, line 388. -/
def HookStartFrame (callback : Callback) (post : Bool) (s : State) : Except Fault State :=
  detail.SetHook DllSlot.start_frame callback post s

/-- Installer `HookParamsNewLevel` of `gamedll_hooks.h`, line 399. -/
def HookParamsNewLevel (callback : Callback) (post : Bool) (s : State) : Except Fault State :=
  detail.SetHook DllSlot.params_new_level callback post s

/-- Installer `HookParamsChangeLevel` of `gamedll_hooks.h`, line 411. -/
def HookParamsChangeLevel (callback : Callback) (post : Bool) (s : State) : Except Fault State :=
  detail.SetHook DllSlot.params_change_level callback post s

/-- Installer `HookGetGameDescription` of `gamedll_hooks.h`, line 422. -/
def HookGetGameDescription (callback : Callback) (post : Bool) (s : State) : Except Fault State :=
  detail.SetHook DllSlot.get_game_description callback post s

/-- Installer `HookPlayerCustomization` of `gamedll_hooks.h`, line 433. -/
def HookPlayerCustomization (callback : Callback) (post : Bool) (s : State) : Except Fault State :=
  detail.SetHook DllSlot.player_customization callback post s

/-- Installer `HookSpectatorConnect` of `gamedll_hooks.h`, line 445. -/
def HookSpectatorConnect (callback : Callback) (post : Bool) (s : State) : Except Fault State :=
  detail.SetHook DllSlot.spectator_connect callback post s

/-- Installer `HookSpectatorDisconnect` of `gamedll_hooks.h`, line 456. -/
def HookSpectatorDisconnect (callback : Callback) (post : Bool) (s : State) : Except Fault State :=
  detail.SetHook DllSlot.spectator_disconnect callback post s

/-- Installer `HookSpectatorThink` of `gamedll_hooks.h`, line 467. -/
def HookSpectatorThink (callback : Callback) (post : Bool) (s : State) : Except Fault State :=
  detail.SetHook DllSlot.spectator_think callback post s

/-- Installer `HookSysError` of `gamedll_hooks.h`, line 478. -/
def HookSysError (callback : Callback) (post : Bool) (s : State) : Except Fault State :=
  detail.SetHook DllSlot.sys_error callback post s

/-- Installer `HookPmMove` of `gamedll_hooks.h`, line 489. -/
def HookPmMove (callback : Callback) (post : Bool) (s : State) : Except Fault State :=
  detail.SetHook DllSlot.pm_move callback post s

/-- Installer `HookPmInit` of `gamedll_hooks.h`, line 501. -/
def HookPmInit (callback : Callback) (post : Bool) (s : State) : Except Fault State :=
  detail.SetHook DllSlot.pm_init callback post s

/-- Installer `HookPmFindTextureType` of `gamedll_hooks.h`, line 512. -/
def HookPmFindTextureType (callback : Callback) (post : Bool) (s : State) : Except Fault State :=
  detail.SetHook DllSlot.pm_find_texture_type callback post s

/-- Installer `HookSetupVisibility` of `gamedll_hooks.h`, line 523. -/
def HookSetupVisibility (callback : Callback) (post : Bool) (s : State) : Except Fault State :=
  detail.SetHook DllSlot.setup_visibility callback post s

/-- Installer `HookUpdateClientData` of `gamedll_hooks.h`, line 536. -/
def HookUpdateClientData (callback : Callback) (post : Bool) (s : State) : Except Fault State :=
  detail.SetHook DllSlot.update_client_data callback post s

/-- Installer `HookAddToFullPack` of `gamedll_hooks.h`, line 549. -/
def HookAddToFullPack (callback : Callback) (post : Bool) (s : State) : Except Fault State :=
  detail.SetHook DllSlot.add_to_full_pack callback post s

/-- Installer `HookCreateBaseline` of `gamedll_hooks.h`, line 562. -/
def HookCreateBaseline (callback : Callback) (post : Bool) (s : State) : Except Fault State :=
  detail.SetHook DllSlot.create_baseline callback post s

/-- Installer `HookRegisterEncoders` of `gamedll_hooks.h`, line 575. -/
def HookRegisterEncoders (callback : Callback) (post : Bool) (s : State) : Except Fault State :=
  detail.SetHook DllSlot.register_encoders callback post s

/-- Installer `HookGetWeaponData` of `gamedll_hooks.h`, line 586. -/
def HookGetWeaponData (callback : Callback) (post : Bool) (s : State) : Except Fault State :=
  detail.SetHook DllSlot.get_weapon_data callback post s

/-- Installer `HookCmdStart` of `gamedll_hooks.h`, line 598. -/
def HookCmdStart (callback : Callback) (post : Bool) (s : State) : Except Fault State :=
  detail.SetHook DllSlot.cmd_start callback post s

/-- Installer `HookCmdEnd` of `gamedll_hooks.h`, line 610. -/
def HookCmdEnd (callback : Callback) (post : Bool) (s : State) : Except Fault State :=
  detail.SetHook DllSlot.cmd_end callback post s

/-- Installer `HookConnectionlessPacket` of `gamedll_hooks.h`, line 622. -/
def HookConnectionlessPacket (callback : Callback) (post : Bool) (s : State) : Except Fault State :=
  detail.SetHook DllSlot.connectionless_packet callback post s

/-- Installer `HookGetHullBounds` of `gamedll_hooks.h`, line 635. -/
def HookGetHullBounds (callback : Callback) (post : Bool) (s : State) : Except Fault State :=
  detail.SetHook DllSlot.get_hull_bounds callback post s

/-- Installer `HookCreateInstancedBaselines` of `gamedll_hooks.h`, line 647. -/
def HookCreateInstancedBaselines (callback : Callback) (post : Bool) (s : State) : Except Fault State :=
  detail.SetHook DllSlot.create_instanced_baselines callback post s

/-- Installer `HookInconsistentFile` of `gamedll_hooks.h`, line 660. -/
def HookInconsistentFile (callback : Callback) (post : Bool) (s : State) : Except Fault State :=
  detail.SetHook DllSlot.inconsistent_file callback post s

/-- Installer `HookAllowLagCompensation` of `gamedll_hooks.h`, line 673. -/
def HookAllowLagCompensation (callback : Callback) (post : Bool) (s : State) : Except Fault State :=
  detail.SetHook DllSlot.allow_lag_compensation callback post s

/-- Installer `HookFreeEntityPrivateData` of `gamedll_hooks.h`, line 685. -/
def HookFreeEntityPrivateData (callback : Callback) (post : Bool) (s : State) : Except Fault State :=
  detail.SetHookNew DllNewSlot.free_entity_private_data callback post s

/-- Installer `HookGameShutdown` of `gamedll_hooks.h`, line 696. -/
def HookGameShutdown (callback : Callback) (post : Bool) (s : State) : Except Fault State :=
  detail.SetHookNew DllNewSlot.game_shutdown callback post s

/-- Installer `HookShouldCollide` of `gamedll_hooks.h`, line 708. -/
def HookShouldCollide (callback : Callback) (post : Bool) (s : State) : Except Fault State :=
  detail.SetHookNew DllNewSlot.should_collide callback post s

/-- Installer `HookCvarValue` of `gamedll_hooks.h`, line 721. -/
def HookCvarValue (callback : Callback) (post : Bool) (s : State) : Except Fault State :=
  detail.SetHookNew DllNewSlot.cvar_value callback post s

/-- Installer `HookCvarValue2` of `gamedll_hooks.h`, line 733. -/
def HookCvarValue2 (callback : Callback) (post : Bool) (s : State) : Except Fault State :=
  detail.SetHookNew DllNewSlot.cvar_value2 callback post s

/-- The installer declared for each game-DLL member: the function whose name is `Hook` followed by the member name in camel case. -/
def installer : DllSlot → Callback → Bool → State → Except Fault State
  | .game_init => HookGameInit
  | .spawn => HookSpawn
  | .think => HookThink
  | .use => HookUse
  | .touch => HookTouch
  | .blocked => HookBlocked
  | .key_value => HookKeyValue
  | .save => HookSave
  | .restore => HookRestore
  | .set_abs_box => HookSetAbsBox
  | .save_write_fields => HookSaveWriteFields
  | .save_read_fields => HookSaveReadFields
  | .save_global_state => HookSaveGlobalState
  | .restore_global_state => HookRestoreGlobalState
  | .reset_global_state => HookResetGlobalState
  | .client_connect => HookClientConnect
  | .client_disconnect => HookClientDisconnect
  | .client_kill => HookClientKill
  | .client_put_in_server => HookClientPutInServer
  | .client_command => HookClientCommand
  | .client_user_info_changed => HookClientUserInfoChanged
  | .server_activate => HookServerActivate
  | .server_deactivate => HookServerDeactivate
  | .player_pre_think => HookPlayerPreThink
  | .player_post_think => HookPlayerPostThink
  | .start_frame => HookStartFrame
  | .params_new_level => HookParamsNewLevel
  | .params_change_level => HookParamsChangeLevel
  | .get_game_description => HookGetGameDescription
  | .player_customization => HookPlayerCustomization
  | .spectator_connect => HookSpectatorConnect
  | .spectator_disconnect => HookSpectatorDisconnect
  | .spectator_think => HookSpectatorThink
  | .sys_error => HookSysError
  | .pm_move => HookPmMove
  | .pm_init => HookPmInit
  | .pm_find_texture_type => HookPmFindTextureType
  | .setup_visibility => HookSetupVisibility
  | .update_client_data => HookUpdateClientData
  | .add_to_full_pack => HookAddToFullPack
  | .create_baseline => HookCreateBaseline
  | .register_encoders => HookRegisterEncoders
  | .get_weapon_data => HookGetWeaponData
  | .cmd_start => HookCmdStart
  | .cmd_end => HookCmdEnd
  | .connectionless_packet => HookConnectionlessPacket
  | .get_hull_bounds => HookGetHullBounds
  | .create_instanced_baselines => HookCreateInstancedBaselines
  | .inconsistent_file => HookInconsistentFile
  | .allow_lag_compensation => HookAllowLagCompensation

/-- The installer declared for each extended game-DLL member: the function whose name is `Hook` followed by the member name in camel case. -/
def installerNew : DllNewSlot → Callback → Bool → State → Except Fault State
  | .free_entity_private_data => HookFreeEntityPrivateData
  | .game_shutdown => HookGameShutdown
  | .should_collide => HookShouldCollide
  | .cvar_value => HookCvarValue
  | .cvar_value2 => HookCvarValue2

end gamedll
/-- `Meta_Detach` of `api.cpp`, lines 175-185.  `META_DETACH` is the plugin's
optional callback (present when the macro of that name is defined); it is
plugin code and may change the state in any way or fault. -/
def Meta_Detach (META_DETACH : Option (State → Except Fault State)) (s : State) :
    Except Fault (Status × State) := do
  let s ← (match META_DETACH with
    | some callback => callback s
    | none => pure s)
  let s ← engine.detail.ClearEngineHooks s
  let s ← gamedll.detail.ClearGameDllHooks s
  pure (Status.Ok, s)

/-! ## `plugin_info.h` and `api.cpp`: query and attach -/

/-- The `enum class PluginLoadTime` of `plugin_info.h`, lines 27-53. -/
inductive PluginLoadTime where
  | Never
  | Startup
  | ChangeLevel
  | AnyTime
  | AnyPause
  deriving DecidableEq, Repr

/-- The `struct PluginInfo` of `plugin_info.h`, lines 112-158. -/
structure PluginInfo where
  interface_version : String
  name : String
  version : String
  date : String
  author : String
  url : String
  log_tag : String
  loadable : PluginLoadTime
  unloadable : PluginLoadTime
  deriving DecidableEq, Repr

/-- The macros of the plugin's `config.h` (not part of the repository) that
`Meta_Query` puts into its `PluginInfo`. -/
structure PluginConfig where
  PLUGIN_NAME : String
  PLUGIN_VERSION : String
  PLUGIN_DATE : String
  PLUGIN_AUTHOR : String
  PLUGIN_URL : String
  PLUGIN_LOG_TAG : String
  PLUGIN_LOADABLE : PluginLoadTime
  PLUGIN_UNLOADABLE : PluginLoadTime
  deriving DecidableEq, Repr

/-- The six export functions, as values of the function pointers stored in
`ExportHooksFuncs`. -/
inductive ExportFunction where
  | ExportDllHooks
  | ExportDllPostHooks
  | ExportDllNewHooks
  | ExportDllNewPostHooks
  | ExportEngineHooks
  | ExportEnginePostHooks
  deriving DecidableEq, Repr

/-- The `struct ExportHooksFuncs` of `api.cpp`, lines 53-66; `none` is a null
function pointer. -/
structure ExportHooksFuncs where
  not_used1 : Option ExportFunction := none
  not_used2 : Option ExportFunction := none
  export_dll_hooks : Option ExportFunction := none
  export_dll_post_hooks : Option ExportFunction := none
  export_dllnew_hooks : Option ExportFunction := none
  export_dllnew_post_hooks : Option ExportFunction := none
  export_engine_hooks : Option ExportFunction := none
  export_engine_post_hooks : Option ExportFunction := none
  deriving DecidableEq, Repr

/-- The `struct DllFuncsTables` of `api.cpp`, lines 68-72: pointers to the
function tables of the game DLL (`none` is `nullptr`). -/
structure DllFuncsTables where
  dll_funcs_table : Option (Table DllSlot) := none
  dllnew_funcs_table : Option (Table DllNewSlot) := none

/-- A value of type `PluginInfo*`: null, the address of the static `info` of
`Meta_Query`, or the address of another record. -/
inductive PluginInfoPtr where
  | null
  | info
  | other (address : Addr)
  deriving DecidableEq, Repr

/-- State of the whole module: the hook tables, `g_globals` (`api.h`, line
103), the static `info` of `Meta_Query` (`api.cpp`, lines 119-127; `none`
until an accepted query has initialised it), `funcs` and `plugin` (`utils.h`,
lines 62-63), and the SDK globals the entry points copy into. -/
structure Module where
  hooks : State
  g_globals : Addr
  info : Option PluginInfo
  funcs : Addr
  plugin : PluginInfoPtr
  g_global_vars : Addr
  g_engine_funcs : Table EngineSlot
  g_dll_funcs : Table DllSlot
  g_dll_new_funcs : Table DllNewSlot

/-- Module state when the library has been loaded and its inline variables
initialised. -/
def Module.init : Module where
  hooks := State.init
  g_globals := 0
  info := none
  funcs := 0
  plugin := PluginInfoPtr.null
  g_global_vars := 0
  g_engine_funcs := Table.zero
  g_dll_funcs := Table.zero
  g_dll_new_funcs := Table.zero

/-- `FreeAllHookTables` of `api.cpp`, lines 74-93. -/
def FreeAllHookTables (s : State) : Except Fault State := do
  let h ← s.engine_heap.delete s.engine_hooks
  let s : State := { s with engine_heap := h, engine_hooks := 0 }
  let h ← s.engine_heap.delete s.engine_post_hooks
  let s : State := { s with engine_heap := h, engine_post_hooks := 0 }
  let h ← s.dll_heap.delete s.dll_hooks
  let s : State := { s with dll_heap := h, dll_hooks := 0 }
  let h ← s.dll_heap.delete s.dll_post_hooks
  let s : State := { s with dll_heap := h, dll_post_hooks := 0 }
  let h ← s.dll_new_heap.delete s.dll_new_hooks
  let s : State := { s with dll_new_heap := h, dll_new_hooks := 0 }
  let h ← s.dll_new_heap.delete s.dll_new_post_hooks
  pure { s with dll_new_heap := h, dll_new_post_hooks := 0 }

/-- `GiveFnptrsToDll` of `api.cpp`, lines 96-100; `engine_funcs` is the table
the host's pointer refers to (`none` for `nullptr`). -/
def GiveFnptrsToDll (engine_funcs : Option (Table EngineSlot)) (global_vars : Addr)
    (m : Module) : Except Fault Module :=
  match engine_funcs with
  | some t => pure { m with g_global_vars := global_vars, g_engine_funcs := t }
  | none => Except.error Fault.null_pointer

/-- `Meta_Init` of `api.cpp`, lines 103-108; `META_INIT` is the plugin's
optional callback. -/
def Meta_Init (META_INIT : Option (Module → Except Fault Module)) (m : Module) :
    Except Fault Module :=
  match META_INIT with
  | some callback => callback m
  | none => pure m

/-- What `Meta_Query` hands back: its return value, the pointer left in
`*plugin_info`, and the module state; the record the caller reads through the
pointer `PluginInfoPtr.info` is the `info` of that state. -/
structure QueryReturn where
  status : Status
  plugin_info : PluginInfoPtr
  module : Module

/-- The initialiser of the static `info` of `Meta_Query` (`api.cpp`, lines
119-127). -/
def PluginConfig.info (config : PluginConfig) : PluginInfo :=
  { interface_version := INTERFACE_VERSION
    name := config.PLUGIN_NAME
    version := config.PLUGIN_VERSION
    date := config.PLUGIN_DATE
    author := config.PLUGIN_AUTHOR
    url := config.PLUGIN_URL
    log_tag := config.PLUGIN_LOG_TAG
    loadable := config.PLUGIN_LOADABLE
    unloadable := config.PLUGIN_UNLOADABLE }

/-- `Meta_Query` of `api.cpp`, lines 111-138.  `plugin_info` is the pointer
`*plugin_info` holds before the call; `META_QUERY` is the plugin's optional
callback, which runs after `*plugin_info` and `plugin` have been pointed at
the static `info` and can write to it. -/
def Meta_Query (config : PluginConfig) (META_QUERY : Option (Module → Except Fault Module))
    (interface_version : String) (plugin_info : PluginInfoPtr) (util_funcs : Addr)
    (m : Module) : Except Fault QueryReturn :=
  if interface_version ≠ INTERFACE_VERSION then do
    let s ← FreeAllHookTables m.hooks
    pure ⟨Status.Failed, plugin_info, { m with hooks := s }⟩
  else do
    let m : Module :=
      { m with
        info := some (m.info.getD config.info)
        funcs := util_funcs
        plugin := PluginInfoPtr.info }
    let m ← (match META_QUERY with
      | some callback => callback m
      | none => pure m)
    pure ⟨Status.Ok, PluginInfoPtr.info, m⟩

/-- What `Meta_Attach` hands back: its return value, the contents of
`*export_hooks_funcs`, and the module state. -/
structure AttachReturn where
  status : Status
  export_hooks_funcs : ExportHooksFuncs
  module : Module

/-- `Meta_Attach` of `api.cpp`, lines 141-172.  `META_ATTACH` is the plugin's
optional callback, which reports a status. -/
def Meta_Attach (META_ATTACH : Option (Module → Except Fault (Status × Module)))
    (_load_time : PluginLoadTime) (export_hooks_funcs : ExportHooksFuncs) (globals : Addr)
    (dll_funcs_tables : DllFuncsTables) (m : Module) : Except Fault AttachReturn := do
  let m : Module := { m with g_globals := globals }
  let export_hooks_funcs : ExportHooksFuncs :=
    { export_hooks_funcs with
      not_used1 := none
      not_used2 := none
      export_dll_hooks := some ExportFunction.ExportDllHooks
      export_dll_post_hooks := some ExportFunction.ExportDllPostHooks
      export_dllnew_hooks := some ExportFunction.ExportDllNewHooks
      export_dllnew_post_hooks := some ExportFunction.ExportDllNewPostHooks
      export_engine_hooks := some ExportFunction.ExportEngineHooks
      export_engine_post_hooks := some ExportFunction.ExportEnginePostHooks }
  let t ← (match dll_funcs_tables.dll_funcs_table with
    | some t => pure t
    | none => Except.error Fault.null_pointer)
  let m : Module := { m with g_dll_funcs := t }
  let t ← (match dll_funcs_tables.dllnew_funcs_table with
    | some t => pure t
    | none => Except.error Fault.null_pointer)
  let m : Module := { m with g_dll_new_funcs := t }
  match META_ATTACH with
  | none => pure ⟨Status.Ok, export_hooks_funcs, m⟩
  | some callback =>
    (callback m) >>= fun r =>
      if r.1 ≠ Status.Ok then
        (FreeAllHookTables r.2.hooks) >>= fun s =>
          pure ⟨Status.Failed,
            { export_hooks_funcs with
              not_used1 := none
              not_used2 := none
              export_dll_hooks := none
              export_dll_post_hooks := none
              export_dllnew_hooks := none
              export_dllnew_post_hooks := none
              export_engine_hooks := none
              export_engine_post_hooks := none },
            { r.2 with hooks := s }⟩
      else pure ⟨Status.Ok, export_hooks_funcs, r.2⟩

/-! ## The hook chain of a logical call -/

/-- Modelled from the spec: the update the chain applies after an interceptor
has returned (section 3.3, steps 2 and 4): `previous_result := current_result`,
`highest_result_so_far := max(highest_result_so_far, current_result)`,
`current_result := Unset`.  The chain runs in the host, whose code is not part
of the sources; the fields are those of `Globals`. -/
def after_interceptor {α : Type} (g : Globals α) : Globals α :=
  { g with prev_result := g.result, status := max g.status g.result, result := Result.Unset }

/-- Modelled from the spec: running the interceptors of one table in
registration order (section 3.3, steps 2 and 4).  Each interceptor is given by
the result code it assigns, which it records with `SetResult`; the chain's
update follows. -/
def run_interceptors {α : Type} (codes : List Result) (g : Globals α) : Globals α :=
  codes.foldl (fun g r => after_interceptor (SetResult r g)) g

/-- Modelled from the spec: the outcome of a logical call, the call context at
the end of the chain and the number of times the real provider was invoked. -/
structure CallOutcome (α : Type) where
  context : Globals α
  provider_calls : Nat

/-- Modelled from the spec: one logical call (section 3.3).  The context starts
at `Unset` with no original return value (step 1); the pre-hook interceptors
run (step 2); the real provider is invoked, and its return value stored, if
`highest_result_so_far < Supercede` (step 3); the post-hook interceptors run
(step 4). -/
def logical_call {α : Type} (pre post : List Result) (provider : α) : CallOutcome α :=
  let g1 : Globals α := run_interceptors pre {}
  if g1.status < Result.Supercede then
    ⟨run_interceptors post { g1 with orig_ret := some provider }, 1⟩
  else
    ⟨run_interceptors post g1, 0⟩

/-! ## Observations used in the statements -/

/-- The table a pointer refers to: `none` for `nullptr` and for an address
that holds no object. -/
def Heap.deref {σ : Type} (h : Heap σ) (p : Addr) : Option (Table σ) :=
  if p = 0 then none else h p

/-- The engine hook table selected by `post`: the object behind
`engine_post_hooks` when `post` is true, behind `engine_hooks` otherwise. -/
def State.engine_table (s : State) (post : Bool) : Option (Table EngineSlot) :=
  s.engine_heap.deref (if post then s.engine_post_hooks else s.engine_hooks)

/-- The game-DLL hook table selected by `post`. -/
def State.dll_table (s : State) (post : Bool) : Option (Table DllSlot) :=
  s.dll_heap.deref (if post then s.dll_post_hooks else s.dll_hooks)

/-- The extended game-DLL hook table selected by `post`. -/
def State.dll_new_table (s : State) (post : Bool) : Option (Table DllNewSlot) :=
  s.dll_new_heap.deref (if post then s.dll_new_post_hooks else s.dll_new_hooks)

/-- The six hook tables, named by the global pointer of `engine_hooks.h`
(lines 26-27) and `gamedll_hooks.h` (lines 26-30) that refers to each. -/
inductive HookTable where
  | engine_hooks
  | engine_post_hooks
  | dll_hooks
  | dll_post_hooks
  | dll_new_hooks
  | dll_new_post_hooks
  deriving DecidableEq, Repr

/-- The other hook table of the same interface. -/
def HookTable.sibling : HookTable → HookTable
  | .engine_hooks => .engine_post_hooks
  | .engine_post_hooks => .engine_hooks
  | .dll_hooks => .dll_post_hooks
  | .dll_post_hooks => .dll_hooks
  | .dll_new_hooks => .dll_new_post_hooks
  | .dll_new_post_hooks => .dll_new_hooks

/-- The value of the global pointer of a hook table. -/
def State.pointer (s : State) : HookTable → Addr
  | .engine_hooks => s.engine_hooks
  | .engine_post_hooks => s.engine_post_hooks
  | .dll_hooks => s.dll_hooks
  | .dll_post_hooks => s.dll_post_hooks
  | .dll_new_hooks => s.dll_new_hooks
  | .dll_new_post_hooks => s.dll_new_post_hooks

/-- Whether address `p` holds a table of the struct type of hook table `k`. -/
def State.allocated (s : State) (k : HookTable) (p : Addr) : Bool :=
  match k with
  | .engine_hooks | .engine_post_hooks => (s.engine_heap.deref p).isSome
  | .dll_hooks | .dll_post_hooks => (s.dll_heap.deref p).isSome
  | .dll_new_hooks | .dll_new_post_hooks => (s.dll_new_heap.deref p).isSome

/-- Whether the global pointer of hook table `k` refers to a table. -/
def State.present (s : State) (k : HookTable) : Bool :=
  s.allocated k (s.pointer k)

/-- The hook table an export function hands over. -/
def ExportFunction.table : ExportFunction → HookTable
  | .ExportDllHooks => .dll_hooks
  | .ExportDllPostHooks => .dll_post_hooks
  | .ExportDllNewHooks => .dll_new_hooks
  | .ExportDllNewPostHooks => .dll_new_post_hooks
  | .ExportEngineHooks => .engine_hooks
  | .ExportEnginePostHooks => .engine_post_hooks

/-- All six hook-table pointers are non-null. -/
def State.tables_non_null (s : State) : Prop :=
  ∀ k, s.pointer k ≠ 0

/-- Every hook-table pointer refers to a table, and the two pointers of an
interface refer to different tables. -/
def State.tables_owned (s : State) : Prop :=
  ∀ k, s.present k = true ∧ s.pointer k ≠ s.pointer k.sibling

/-! ## Runs of module operations -/

/-- The version constants of the external SDK the export functions compare the
caller's token with. -/
structure Versions where
  ENGINE_INTERFACE_VERSION : Int
  INTERFACE_VERSION : Int
  DLL_NEW_FUNCTIONS_VERSION : Int

/-- The function an entry of `ExportHooksFuncs` points to. -/
def ExportFunction.call (V : Versions) (g_engine_funcs : Table EngineSlot) :
    ExportFunction → Addr → Int → State → Except Fault ExportReturn
  | .ExportDllHooks => gamedll.detail.ExportDllHooks V.INTERFACE_VERSION g_engine_funcs
  | .ExportDllPostHooks => gamedll.detail.ExportDllPostHooks V.INTERFACE_VERSION g_engine_funcs
  | .ExportDllNewHooks => gamedll.detail.ExportDllNewHooks V.DLL_NEW_FUNCTIONS_VERSION g_engine_funcs
  | .ExportDllNewPostHooks => gamedll.detail.ExportDllNewPostHooks V.DLL_NEW_FUNCTIONS_VERSION g_engine_funcs
  | .ExportEngineHooks => engine.detail.ExportEngineHooks V.ENGINE_INTERFACE_VERSION g_engine_funcs
  | .ExportEnginePostHooks => engine.detail.ExportEnginePostHooks V.ENGINE_INTERFACE_VERSION g_engine_funcs

/-- The version constant an export function compares the caller's token
with. -/
def ExportFunction.expected_version (V : Versions) : ExportFunction → Int
  | .ExportDllHooks | .ExportDllPostHooks => V.INTERFACE_VERSION
  | .ExportDllNewHooks | .ExportDllNewPostHooks => V.DLL_NEW_FUNCTIONS_VERSION
  | .ExportEngineHooks | .ExportEnginePostHooks => V.ENGINE_INTERFACE_VERSION

/-- The calls that act on the hook tables: the `HookX` registrations of the
three interfaces, the two clears, the entry points `Meta_Query`, `Meta_Attach`
and `Meta_Detach` (of a plugin that defines no callbacks), and the six export
functions. -/
inductive Operation where
  | hook_engine (member : EngineSlot) (callback : Callback) (post : Bool)
  | hook_dll (member : DllSlot) (callback : Callback) (post : Bool)
  | hook_dll_new (member : DllNewSlot) (callback : Callback) (post : Bool)
  | clear_engine_hooks
  | clear_gamedll_hooks
  | meta_query (interface_version : String) (util_funcs : Addr)
  | meta_attach (globals : Addr) (dll_funcs_tables : DllFuncsTables)
  | meta_detach
  | export_hooks (f : ExportFunction) (hooks_table : Addr) (interface_version : Int)

/-- Whether an operation is not an export into a table that a hook-table
pointer of the same interface refers to. -/
def Operation.fresh : Operation → State → Bool
  | .export_hooks f hooks_table _, s =>
    decide (hooks_table ≠ s.pointer f.table) &&
      decide (hooks_table ≠ s.pointer f.table.sibling)
  | _, _ => true

/-- One call of the module: the call's outcome is whether it reported success
(an export returning `true`, an entry point returning `Ok`; registrations and
clears report nothing and count as successful) and the module state it
leaves. -/
def Operation.step (V : Versions) (config : PluginConfig) :
    Operation → Module → Except Fault (Bool × Module)
  | .hook_engine member callback post, m =>
    (engine.installer member callback post m.hooks).map
      (fun s => (true, { m with hooks := s }))
  | .hook_dll member callback post, m =>
    (gamedll.installer member callback post m.hooks).map
      (fun s => (true, { m with hooks := s }))
  | .hook_dll_new member callback post, m =>
    (gamedll.installerNew member callback post m.hooks).map
      (fun s => (true, { m with hooks := s }))
  | .clear_engine_hooks, m =>
    (engine.detail.ClearEngineHooks m.hooks).map (fun s => (true, { m with hooks := s }))
  | .clear_gamedll_hooks, m =>
    (gamedll.detail.ClearGameDllHooks m.hooks).map (fun s => (true, { m with hooks := s }))
  | .meta_query interface_version util_funcs, m =>
    (Meta_Query config none interface_version PluginInfoPtr.null util_funcs m).map
      (fun r => (decide (r.status = Status.Ok), r.module))
  | .meta_attach globals dll_funcs_tables, m =>
    (Meta_Attach none PluginLoadTime.AnyTime {} globals dll_funcs_tables m).map
      (fun r => (decide (r.status = Status.Ok), r.module))
  | .meta_detach, m =>
    (Meta_Detach none m.hooks).map
      (fun r => (decide (r.1 = Status.Ok), { m with hooks := r.2 }))
  | .export_hooks f hooks_table interface_version, m =>
    (f.call V m.g_engine_funcs hooks_table interface_version m.hooks).map
      (fun r => (r.ret, { m with hooks := r.state }))

/-- A sequence of calls, made one after the other; the outcome is whether
every call reported success, and the final module state. -/
def run (V : Versions) (config : PluginConfig) :
    List Operation → Module → Except Fault (Bool × Module)
  | [], m => pure (true, m)
  | op :: ops, m =>
    (op.step V config m) >>= fun r =>
      (run V config ops r.2).map (fun r' => (r.1 && r'.1, r'.2))

/-- Whether every export of a sequence of calls goes into a table that no
hook-table pointer of that interface refers to when the export is made. -/
def exports_fresh (V : Versions) (config : PluginConfig) :
    List Operation → Module → Bool
  | [], _ => true
  | op :: ops, m =>
    op.fresh m.hooks &&
      (match op.step V config m with
        | .ok r => exports_fresh V config ops r.2
        | .error _ => true)

/-! ## Sample states -/

/-- An engine function table as the host passes it to `GiveFnptrsToDll`, with
every function pointer non-null. -/
def host_engine_funcs : Table EngineSlot := fun _ => 9

/-- The state the initial state is in after `HookPrecacheModel(77, false)`:
slot `precache_model` of the engine pre-hook table holds callback `77`. -/
def State.hooked : State :=
  { State.init with
    engine_heap := fun a =>
      if a = 1 then some (fun m => if m = EngineSlot.precache_model then 77 else Table.zero m)
      else State.init.engine_heap a }

/-- The state `State.hooked` with one more table in each heap, at address `3`:
tables owned by the host, which it passes to the export functions. -/
def State.hosted : State :=
  { State.hooked with
    engine_heap := fun a => if a = 3 then some Table.zero else State.hooked.engine_heap a
    dll_heap := fun a => if a = 3 then some Table.zero else State.hooked.dll_heap a
    dll_new_heap := fun a => if a = 3 then some Table.zero else State.hooked.dll_new_heap a }

/-- The state `State.hosted` is in after `ExportEngineHooks` has succeeded on
the host table at address `3`: that table is the live engine pre-hook table
and the table the plugin allocated at address `1` has been deleted. -/
def State.exported : State :=
  { State.hosted with
    engine_heap := fun a =>
      if a = 1 then none
      else if a = 3 then
        some (fun m => if m = EngineSlot.precache_model then 77 else Table.zero m)
      else State.hosted.engine_heap a
    engine_hooks := 3 }

/-- The state `State.hosted` is in after `ExportEngineHooks` has failed on the
version token `140` (expected `138`), the host's `alert_message` at hand: the
engine pre-hook table has been deleted, `engine_hooks` is null and the
mismatch has been logged. -/
def State.discarded : State :=
  { State.hosted with
    engine_heap := fun a => if a = 1 then none else State.hosted.engine_heap a
    engine_hooks := 0
    alerts := [⟨"Export engine hooks: interface version mismatch; requested = %d; ours = %d.\n",
      [140, 138]⟩] }

/-- The state `State.exported` is in after `ExportEnginePostHooks` has then
succeeded on the same host table at address `3`: both `engine_hooks` and
`engine_post_hooks` refer to that table, which now holds the (all-zero)
contents of the former post-hook table. -/
def State.shared : State :=
  { State.exported with
    engine_heap := fun a =>
      if a = 2 then none
      else if a = 3 then some Table.zero
      else State.exported.engine_heap a
    engine_post_hooks := 3 }

/-- The state `State.exported` is in after `HookSetModel(5, false)`: the
registration went into the host table at address `3`. -/
def State.exported_hooked : State :=
  { State.exported with
    engine_heap := fun a =>
      if a = 3 then
        some (fun m => if m = EngineSlot.set_model then 5
          else if m = EngineSlot.precache_model then 77 else Table.zero m)
      else State.exported.engine_heap a }

/-- The initial state with two more engine tables, at addresses `3` and `4`:
tables owned by the host, which it passes to the export functions. -/
def State.loaded : State :=
  { State.init with
    engine_heap := fun a =>
      if a = 3 ∨ a = 4 then some Table.zero else State.init.engine_heap a }

/-! ## Theorems -/

/-! ### Auxiliary facts about the embedding -/

@[simp] theorem bind_ok_eq {ε α β : Type} (a : α) (f : α → Except ε β) :
    (Except.ok a >>= f) = f a := rfl

@[simp] theorem bind_error_eq {ε α β : Type} (e : ε) (f : α → Except ε β) :
    (Except.error e >>= f) = Except.error e := rfl

@[simp] theorem pure_eq_ok {ε α : Type} (a : α) : (pure a : Except ε α) = Except.ok a := rfl

@[simp] theorem map_ok_eq {ε α β : Type} (a : α) (f : α → β) :
    Except.map f (Except.ok a : Except ε α) = Except.ok (f a) := rfl

@[simp] theorem map_error_eq {ε α β : Type} (e : ε) (f : α → β) :
    Except.map f (Except.error e : Except ε α) = Except.error e := rfl

theorem Result.lt_iff (a b : Result) : a < b ↔ a.toInt < b.toInt := Iff.rfl

theorem Result.le_iff (a b : Result) : a ≤ b ↔ a.toInt ≤ b.toInt := Iff.rfl

theorem SetResult_result {α : Type} (g : Globals α) (r : Result) :
    (SetResult r g).result = max g.result r := by
  unfold SetResult
  by_cases h : g.result < r
  · simp [h, max_eq_right (le_of_lt h)]
  · simp [h, max_eq_left (not_lt.mp h)]

/-! ### The meta result -/

/-- C1: `SetResult` never lowers the plugin's result.  For every current value
of `result` and every requested code the result afterwards is the maximum of
the two in the order `Unset < Ignored < Handled < Override < Supercede`; in
particular `SetResult(Handled)` followed by `SetResult(Ignored)`, in an
invocation that starts at `Unset`, leaves the result at `Handled`. -/
theorem SetResult_never_lowers {α : Type} (g : Globals α) (r : Result) :
    (Result.Unset < Result.Ignored ∧ Result.Ignored < Result.Handled ∧
      Result.Handled < Result.Override ∧ Result.Override < Result.Supercede) ∧
    (SetResult r g).result = max g.result r ∧
    g.result ≤ (SetResult r g).result ∧
    (SetResult Result.Ignored (SetResult Result.Handled g)).result = max g.result Result.Handled ∧
    (SetResult Result.Ignored
      (SetResult Result.Handled { g with result := Result.Unset })).result = Result.Handled := by
  refine ⟨by decide, SetResult_result g r, ?_, ?_, ?_⟩
  · rw [SetResult_result]; exact le_max_left _ _
  · rw [SetResult_result, SetResult_result]
    rw [max_assoc, max_eq_left (show Result.Ignored ≤ Result.Handled by decide)]
  · rw [SetResult_result, SetResult_result]
    show max (max Result.Unset Result.Handled) Result.Ignored = Result.Handled
    decide

/-- C2: `GetRetValue` returns the value behind `orig_ret` whenever
`status < Override` and the value behind `override_ret` whenever `status` is
`Override` or `Supercede`, for every status and every pair of stored values. -/
theorem GetRetValue_selects {α : Type} (g : Globals α) (orig override : α)
    (ho : g.orig_ret = some orig) (hv : g.override_ret = some override) :
    (g.status < Result.Override → GetRetValue g = Except.ok orig) ∧
    (g.status = Result.Override ∨ g.status = Result.Supercede →
      GetRetValue g = Except.ok override) ∧
    GetRetValue g = Except.ok (if g.status < Result.Override then orig else override) := by
  refine ⟨?_, ?_, ?_⟩
  · intro h
    simp [GetRetValue, OrigRet, h, ho]
  · intro h
    have hn : ¬ g.status < Result.Override := by
      rcases h with h | h <;> rw [h] <;> decide
    simp [GetRetValue, OverrideRet, hn, hv]
  · by_cases h : g.status < Result.Override
    · simp [GetRetValue, OrigRet, h, ho]
    · simp [GetRetValue, OverrideRet, h, hv]

/-- Witness for C2: a call in which a plugin has overridden the value `7`
returned by the real function with `9`. -/
theorem GetRetValue_selects_witness :
    GetRetValue ({ status := Result.Override, orig_ret := some 7, override_ret := some 9 } :
      Globals Nat) = Except.ok 9 :=
  (GetRetValue_selects { status := Result.Override, orig_ret := some 7, override_ret := some 9 }
    7 9 rfl rfl).2.1 (Or.inl rfl)

/-! ### Registration -/

theorem Heap.store_of_deref {σ : Type} [DecidableEq σ] (h : Heap σ) (p : Addr) (member : σ)
    (callback : Callback) (t : Table σ) (hd : h.deref p = some t) :
    p ≠ 0 ∧ h p = some t ∧
    h.store p member callback =
      Except.ok (fun a => if a = p then some (fun m => if m = member then callback else t m)
        else h a) := by
  unfold Heap.deref at hd
  by_cases hp : p = 0
  · simp [hp] at hd
  · simp only [hp, if_false] at hd
    refine ⟨hp, hd, ?_⟩
    simp [Heap.store, hp, hd]

theorem Heap.store_store {σ : Type} [DecidableEq σ] (h : Heap σ) (p : Addr) (member : σ)
    (a b : Callback) :
    (h.store p member a >>= fun h1 => h1.store p member b) = h.store p member b := by
  by_cases hp : p = 0
  · simp [Heap.store, hp]
  · cases hh : h p with
    | none => simp [Heap.store, hp, hh]
    | some t =>
      simp only [Heap.store, hp, hh, if_false, bind_ok_eq, if_true]
      congr 1
      funext x
      by_cases hx : x = p
      · simp only [hx, if_true]
        congr 1
        funext m
        by_cases hm : m = member <;> simp [hm]
      · simp [hx]

theorem engine.installer_engine_eq (x : EngineSlot) : engine.installer x = engine.detail.SetHook x := by
  cases x <;> rfl

theorem gamedll.installer_dll_eq (x : DllSlot) : gamedll.installer x = gamedll.detail.SetHook x := by
  cases x <;> rfl

theorem gamedll.installerNew_eq (x : DllNewSlot) :
    gamedll.installerNew x = gamedll.detail.SetHookNew x := by
  cases x <;> rfl

theorem engine.detail.SetHook_engine_of_table (x : EngineSlot) (cb : Callback) (post : Bool) (s : State)
    (t : Table EngineSlot) (h : s.engine_table post = some t) :
    ∃ s', engine.detail.SetHook x cb post s = Except.ok s' ∧
      s'.engine_table post = some (fun m => if m = x then cb else t m) := by
  unfold State.engine_table at h
  obtain ⟨hp, _, hs⟩ := Heap.store_of_deref _ _ x cb t h
  cases post
  · simp only [Bool.false_eq_true, if_false] at hp hs
    refine ⟨_, by simp only [SetHook, Bool.false_eq_true, if_false, hp, hs, map_ok_eq]; rfl, ?_⟩
    simp [State.engine_table, Heap.deref, hp]
  · simp only [if_true] at hp hs
    refine ⟨_, by simp only [SetHook, if_true, if_false, hp, hs, map_ok_eq]; rfl, ?_⟩
    simp [State.engine_table, Heap.deref, hp]

theorem gamedll.detail.SetHook_dll_of_table (x : DllSlot) (cb : Callback) (post : Bool) (s : State)
    (t : Table DllSlot) (h : s.dll_table post = some t) :
    ∃ s', gamedll.detail.SetHook x cb post s = Except.ok s' ∧
      s'.dll_table post = some (fun m => if m = x then cb else t m) := by
  unfold State.dll_table at h
  obtain ⟨hp, _, hs⟩ := Heap.store_of_deref _ _ x cb t h
  cases post
  · simp only [Bool.false_eq_true, if_false] at hp hs
    refine ⟨_, by simp only [SetHook, Bool.false_eq_true, if_false, hp, hs, map_ok_eq]; rfl, ?_⟩
    simp [State.dll_table, Heap.deref, hp]
  · simp only [if_true] at hp hs
    refine ⟨_, by simp only [SetHook, if_true, if_false, hp, hs, map_ok_eq]; rfl, ?_⟩
    simp [State.dll_table, Heap.deref, hp]

theorem gamedll.detail.SetHookNew_of_table (x : DllNewSlot) (cb : Callback) (post : Bool)
    (s : State) (t : Table DllNewSlot) (h : s.dll_new_table post = some t) :
    ∃ s', gamedll.detail.SetHookNew x cb post s = Except.ok s' ∧
      s'.dll_new_table post = some (fun m => if m = x then cb else t m) := by
  unfold State.dll_new_table at h
  obtain ⟨hp, _, hs⟩ := Heap.store_of_deref _ _ x cb t h
  cases post
  · simp only [Bool.false_eq_true, if_false] at hp hs
    refine ⟨_, by simp only [SetHookNew, Bool.false_eq_true, if_false, hp, hs, map_ok_eq]; rfl, ?_⟩
    simp [State.dll_new_table, Heap.deref, hp]
  · simp only [if_true] at hp hs
    refine ⟨_, by simp only [SetHookNew, if_true, if_false, hp, hs, map_ok_eq]; rfl, ?_⟩
    simp [State.dll_new_table, Heap.deref, hp]

theorem engine.detail.SetHook_engine_twice (x : EngineSlot) (a b : Callback) (post : Bool) (s : State) :
    (engine.detail.SetHook x a post s >>= engine.detail.SetHook x b post) = engine.detail.SetHook x b post s := by
  cases post
  · by_cases hp : s.engine_hooks = 0
    · simp [SetHook, hp]
    · have h2 := Heap.store_store s.engine_heap s.engine_hooks x a b
      cases h1 : s.engine_heap.store s.engine_hooks x a with
      | error e =>
        rw [h1] at h2
        simp only [SetHook, Bool.false_eq_true, if_false, hp, h1, map_error_eq, bind_error_eq]
        rw [← h2]; rfl
      | ok h' =>
        rw [h1] at h2
        simp only [SetHook, Bool.false_eq_true, if_false, hp, h1, map_ok_eq, bind_ok_eq]
        rw [← h2]; rfl
  · by_cases hp : s.engine_post_hooks = 0
    · simp [SetHook, hp]
    · have h2 := Heap.store_store s.engine_heap s.engine_post_hooks x a b
      cases h1 : s.engine_heap.store s.engine_post_hooks x a with
      | error e =>
        rw [h1] at h2
        simp only [SetHook, if_true, if_false, hp, h1, map_error_eq, bind_error_eq]
        rw [← h2]; rfl
      | ok h' =>
        rw [h1] at h2
        simp only [SetHook, if_true, if_false, hp, h1, map_ok_eq, bind_ok_eq]
        rw [← h2]; rfl

theorem gamedll.detail.SetHook_dll_twice (x : DllSlot) (a b : Callback) (post : Bool) (s : State) :
    (gamedll.detail.SetHook x a post s >>= gamedll.detail.SetHook x b post) = gamedll.detail.SetHook x b post s := by
  cases post
  · by_cases hp : s.dll_hooks = 0
    · simp [SetHook, hp]
    · have h2 := Heap.store_store s.dll_heap s.dll_hooks x a b
      cases h1 : s.dll_heap.store s.dll_hooks x a with
      | error e =>
        rw [h1] at h2
        simp only [SetHook, Bool.false_eq_true, if_false, hp, h1, map_error_eq, bind_error_eq]
        rw [← h2]; rfl
      | ok h' =>
        rw [h1] at h2
        simp only [SetHook, Bool.false_eq_true, if_false, hp, h1, map_ok_eq, bind_ok_eq]
        rw [← h2]; rfl
  · by_cases hp : s.dll_post_hooks = 0
    · simp [SetHook, hp]
    · have h2 := Heap.store_store s.dll_heap s.dll_post_hooks x a b
      cases h1 : s.dll_heap.store s.dll_post_hooks x a with
      | error e =>
        rw [h1] at h2
        simp only [SetHook, if_true, if_false, hp, h1, map_error_eq, bind_error_eq]
        rw [← h2]; rfl
      | ok h' =>
        rw [h1] at h2
        simp only [SetHook, if_true, if_false, hp, h1, map_ok_eq, bind_ok_eq]
        rw [← h2]; rfl

theorem gamedll.detail.SetHookNew_twice (x : DllNewSlot) (a b : Callback) (post : Bool) (s : State) :
    (gamedll.detail.SetHookNew x a post s >>= gamedll.detail.SetHookNew x b post) = gamedll.detail.SetHookNew x b post s := by
  cases post
  · by_cases hp : s.dll_new_hooks = 0
    · simp [SetHookNew, hp]
    · have h2 := Heap.store_store s.dll_new_heap s.dll_new_hooks x a b
      cases h1 : s.dll_new_heap.store s.dll_new_hooks x a with
      | error e =>
        rw [h1] at h2
        simp only [SetHookNew, Bool.false_eq_true, if_false, hp, h1, map_error_eq, bind_error_eq]
        rw [← h2]; rfl
      | ok h' =>
        rw [h1] at h2
        simp only [SetHookNew, Bool.false_eq_true, if_false, hp, h1, map_ok_eq, bind_ok_eq]
        rw [← h2]; rfl
  · by_cases hp : s.dll_new_post_hooks = 0
    · simp [SetHookNew, hp]
    · have h2 := Heap.store_store s.dll_new_heap s.dll_new_post_hooks x a b
      cases h1 : s.dll_new_heap.store s.dll_new_post_hooks x a with
      | error e =>
        rw [h1] at h2
        simp only [SetHookNew, if_true, if_false, hp, h1, map_error_eq, bind_error_eq]
        rw [← h2]; rfl
      | ok h' =>
        rw [h1] at h2
        simp only [SetHookNew, if_true, if_false, hp, h1, map_ok_eq, bind_ok_eq]
        rw [← h2]; rfl

/-- C3: every hook installer writes the slot of its own name, in the post-hook
table of its interface when `post` is true and in the pre-hook table when
`post` is false (the selected table being present); so do `HookPrecacheModel`
for `precache_model` and `HookCvarValue2` for `cvar_value2` of the extended
table. -/
theorem hook_installs_callback :
    (∀ (x : EngineSlot) (cb : Callback) (post : Bool) (s : State) (t : Table EngineSlot),
      s.engine_table post = some t →
      ∃ s' t', engine.installer x cb post s = Except.ok s' ∧
        s'.engine_table post = some t' ∧ t' x = cb) ∧
    (∀ (x : DllSlot) (cb : Callback) (post : Bool) (s : State) (t : Table DllSlot),
      s.dll_table post = some t →
      ∃ s' t', gamedll.installer x cb post s = Except.ok s' ∧
        s'.dll_table post = some t' ∧ t' x = cb) ∧
    (∀ (x : DllNewSlot) (cb : Callback) (post : Bool) (s : State) (t : Table DllNewSlot),
      s.dll_new_table post = some t →
      ∃ s' t', gamedll.installerNew x cb post s = Except.ok s' ∧
        s'.dll_new_table post = some t' ∧ t' x = cb) ∧
    (∀ (cb : Callback) (post : Bool) (s : State) (t : Table EngineSlot),
      s.engine_table post = some t →
      ∃ s' t', engine.HookPrecacheModel cb post s = Except.ok s' ∧
        s'.engine_table post = some t' ∧ t' EngineSlot.precache_model = cb) ∧
    (∀ (cb : Callback) (post : Bool) (s : State) (t : Table DllNewSlot),
      s.dll_new_table post = some t →
      ∃ s' t', gamedll.HookCvarValue2 cb post s = Except.ok s' ∧
        s'.dll_new_table post = some t' ∧ t' DllNewSlot.cvar_value2 = cb) := by
  refine ⟨?_, ?_, ?_, ?_, ?_⟩
  · intro x cb post s t h
    obtain ⟨s', h1, h2⟩ := engine.detail.SetHook_engine_of_table x cb post s t h
    exact ⟨s', _, by rw [engine.installer_engine_eq]; exact h1, h2, by simp⟩
  · intro x cb post s t h
    obtain ⟨s', h1, h2⟩ := gamedll.detail.SetHook_dll_of_table x cb post s t h
    exact ⟨s', _, by rw [gamedll.installer_dll_eq]; exact h1, h2, by simp⟩
  · intro x cb post s t h
    obtain ⟨s', h1, h2⟩ := gamedll.detail.SetHookNew_of_table x cb post s t h
    exact ⟨s', _, by rw [gamedll.installerNew_eq]; exact h1, h2, by simp⟩
  · intro cb post s t h
    obtain ⟨s', h1, h2⟩ := engine.detail.SetHook_engine_of_table EngineSlot.precache_model cb post s t h
    exact ⟨s', _, h1, h2, by simp⟩
  · intro cb post s t h
    obtain ⟨s', h1, h2⟩ :=
      gamedll.detail.SetHookNew_of_table DllNewSlot.cvar_value2 cb post s t h
    exact ⟨s', _, h1, h2, by simp⟩

/-- Witness for C3: registering callback `77` as a post hook for
`precache_model` in the initial state. -/
theorem hook_installs_callback_witness :
    State.init.engine_table true = some Table.zero ∧
    ∃ s' t', engine.installer EngineSlot.precache_model 77 true State.init = Except.ok s' ∧
      s'.engine_table true = some t' ∧ t' EngineSlot.precache_model = 77 :=
  ⟨rfl, hook_installs_callback.1 EngineSlot.precache_model 77 true State.init Table.zero rfl⟩

/-- C4: re-registration is last-write-wins.  For every slot, flag and callbacks
`a`, `b`, registering `a` and then `b` gives the same outcome as registering `b`
alone, and the slot then holds `b`. -/
theorem rehook_last_write_wins :
    ((∀ (x : EngineSlot) (a b : Callback) (post : Bool) (s : State),
        (engine.installer x a post s >>= engine.installer x b post) =
          engine.installer x b post s) ∧
      (∀ (x : DllSlot) (a b : Callback) (post : Bool) (s : State),
        (gamedll.installer x a post s >>= gamedll.installer x b post) =
          gamedll.installer x b post s) ∧
      (∀ (x : DllNewSlot) (a b : Callback) (post : Bool) (s : State),
        (gamedll.installerNew x a post s >>= gamedll.installerNew x b post) =
          gamedll.installerNew x b post s)) ∧
    ((∀ (x : EngineSlot) (a b : Callback) (post : Bool) (s : State) (t : Table EngineSlot),
        s.engine_table post = some t →
        ∃ s' t', (engine.installer x a post s >>= engine.installer x b post) = Except.ok s' ∧
          s'.engine_table post = some t' ∧ t' x = b) ∧
      (∀ (x : DllSlot) (a b : Callback) (post : Bool) (s : State) (t : Table DllSlot),
        s.dll_table post = some t →
        ∃ s' t', (gamedll.installer x a post s >>= gamedll.installer x b post) = Except.ok s' ∧
          s'.dll_table post = some t' ∧ t' x = b) ∧
      (∀ (x : DllNewSlot) (a b : Callback) (post : Bool) (s : State) (t : Table DllNewSlot),
        s.dll_new_table post = some t →
        ∃ s' t', (gamedll.installerNew x a post s >>= gamedll.installerNew x b post) =
            Except.ok s' ∧
          s'.dll_new_table post = some t' ∧ t' x = b)) := by
  refine ⟨⟨?_, ?_, ?_⟩, ⟨?_, ?_, ?_⟩⟩
  · intro x a b post s
    rw [engine.installer_engine_eq]; exact engine.detail.SetHook_engine_twice x a b post s
  · intro x a b post s
    rw [gamedll.installer_dll_eq]; exact gamedll.detail.SetHook_dll_twice x a b post s
  · intro x a b post s
    rw [gamedll.installerNew_eq]; exact gamedll.detail.SetHookNew_twice x a b post s
  · intro x a b post s t h
    obtain ⟨s', h1, h2⟩ := engine.detail.SetHook_engine_of_table x b post s t h
    refine ⟨s', _, ?_, h2, by simp⟩
    rw [engine.installer_engine_eq, engine.detail.SetHook_engine_twice]; exact h1
  · intro x a b post s t h
    obtain ⟨s', h1, h2⟩ := gamedll.detail.SetHook_dll_of_table x b post s t h
    refine ⟨s', _, ?_, h2, by simp⟩
    rw [gamedll.installer_dll_eq, gamedll.detail.SetHook_dll_twice]; exact h1
  · intro x a b post s t h
    obtain ⟨s', h1, h2⟩ := gamedll.detail.SetHookNew_of_table x b post s t h
    refine ⟨s', _, ?_, h2, by simp⟩
    rw [gamedll.installerNew_eq, gamedll.detail.SetHookNew_twice]; exact h1

/-- Witness for C4: `HookSpawn` registered twice as a pre hook in the initial
state, with callbacks `5` and then `6`. -/
theorem rehook_last_write_wins_witness :
    State.init.dll_table false = some Table.zero ∧
    ∃ s' t', (gamedll.installer DllSlot.spawn 5 false State.init >>=
        gamedll.installer DllSlot.spawn 6 false) = Except.ok s' ∧
      s'.dll_table false = some t' ∧ t' DllSlot.spawn = 6 :=
  ⟨rfl, rehook_last_write_wins.2.2.1 DllSlot.spawn 5 6 false State.init Table.zero rfl⟩

/-- C5: passing a null callback clears the slot.  Registering `cb` and then
`nullptr` for a slot leaves that slot at its zero-initialised value and the
other slots of the table as they were, so an all-empty table is all-empty
again. -/
theorem null_callback_clears_slot :
    (∀ (x : EngineSlot) (cb : Callback) (post : Bool) (s : State) (t : Table EngineSlot),
      s.engine_table post = some t →
      ∃ s' t', (engine.installer x cb post s >>= engine.installer x 0 post) = Except.ok s' ∧
        s'.engine_table post = some t' ∧ t' x = (Table.zero : Table EngineSlot) x ∧
        (∀ m, m ≠ x → t' m = t m) ∧ (t = Table.zero → t' = Table.zero)) ∧
    (∀ (x : DllSlot) (cb : Callback) (post : Bool) (s : State) (t : Table DllSlot),
      s.dll_table post = some t →
      ∃ s' t', (gamedll.installer x cb post s >>= gamedll.installer x 0 post) = Except.ok s' ∧
        s'.dll_table post = some t' ∧ t' x = (Table.zero : Table DllSlot) x ∧
        (∀ m, m ≠ x → t' m = t m) ∧ (t = Table.zero → t' = Table.zero)) ∧
    (∀ (x : DllNewSlot) (cb : Callback) (post : Bool) (s : State) (t : Table DllNewSlot),
      s.dll_new_table post = some t →
      ∃ s' t', (gamedll.installerNew x cb post s >>= gamedll.installerNew x 0 post) =
          Except.ok s' ∧
        s'.dll_new_table post = some t' ∧ t' x = (Table.zero : Table DllNewSlot) x ∧
        (∀ m, m ≠ x → t' m = t m) ∧ (t = Table.zero → t' = Table.zero)) := by
  refine ⟨?_, ?_, ?_⟩
  · intro x cb post s t h
    obtain ⟨s', h1, h2⟩ := engine.detail.SetHook_engine_of_table x 0 post s t h
    refine ⟨s', _, ?_, h2, by simp [Table.zero], ?_, ?_⟩
    · rw [engine.installer_engine_eq, engine.detail.SetHook_engine_twice]; exact h1
    · intro m hm; simp [hm]
    · intro ht; funext m; by_cases hm : m = x <;> simp [hm, ht, Table.zero]
  · intro x cb post s t h
    obtain ⟨s', h1, h2⟩ := gamedll.detail.SetHook_dll_of_table x 0 post s t h
    refine ⟨s', _, ?_, h2, by simp [Table.zero], ?_, ?_⟩
    · rw [gamedll.installer_dll_eq, gamedll.detail.SetHook_dll_twice]; exact h1
    · intro m hm; simp [hm]
    · intro ht; funext m; by_cases hm : m = x <;> simp [hm, ht, Table.zero]
  · intro x cb post s t h
    obtain ⟨s', h1, h2⟩ := gamedll.detail.SetHookNew_of_table x 0 post s t h
    refine ⟨s', _, ?_, h2, by simp [Table.zero], ?_, ?_⟩
    · rw [gamedll.installerNew_eq, gamedll.detail.SetHookNew_twice]; exact h1
    · intro m hm; simp [hm]
    · intro ht; funext m; by_cases hm : m = x <;> simp [hm, ht, Table.zero]

/-- Witness for C5: `HookGameShutdown` registered with callback `9` and then
cleared, as a post hook, in the initial state. -/
theorem null_callback_clears_slot_witness :
    State.init.dll_new_table true = some Table.zero ∧
    ∃ s' t', (gamedll.installerNew DllNewSlot.game_shutdown 9 true State.init >>=
        gamedll.installerNew DllNewSlot.game_shutdown 0 true) = Except.ok s' ∧
      s'.dll_new_table true = some t' ∧
      t' DllNewSlot.game_shutdown = (Table.zero : Table DllNewSlot) DllNewSlot.game_shutdown ∧
      (∀ m, m ≠ DllNewSlot.game_shutdown → t' m = (Table.zero : Table DllNewSlot) m) ∧
      ((Table.zero : Table DllNewSlot) = Table.zero → t' = Table.zero) :=
  ⟨rfl, null_callback_clears_slot.2.2 DllNewSlot.game_shutdown 9 true State.init Table.zero rfl⟩

/-! ### Detach -/

theorem Heap.memset0_map_ok {σ S : Type} (h : Heap σ) (p : Addr) (f : Heap σ → S) (s' : S)
    (e : (h.memset0 p).map f = Except.ok s') :
    p ≠ 0 ∧ s' = f (fun a => if a = p then some Table.zero else h a) := by
  unfold Heap.memset0 at e
  by_cases hp : p = 0
  · simp [hp] at e
  · cases hh : h p with
    | none => simp [hp, hh] at e
    | some t =>
      simp only [hp, hh, if_false, map_ok_eq, Except.ok.injEq] at e
      exact ⟨hp, e.symm⟩

theorem Heap.deref_memset {σ : Type} (h : Heap σ) (p q : Addr) (t : Table σ)
    (hd : Heap.deref (fun a => if a = p then some Table.zero else h a) q = some t) :
    t = Table.zero ∨ h.deref q = some t := by
  unfold Heap.deref at hd ⊢
  by_cases hq : q = 0
  · simp [hq] at hd
  · simp only [hq, if_false] at hd ⊢
    by_cases hqp : q = p
    · simp only [hqp, if_true, Option.some.injEq] at hd
      exact Or.inl hd.symm
    · simp only [hqp, if_false] at hd
      exact Or.inr hd

theorem Heap.deref_memset_self {σ : Type} (h : Heap σ) (p : Addr) (t : Table σ)
    (hd : Heap.deref (fun a => if a = p then some Table.zero else h a) p = some t) :
    t = Table.zero := by
  unfold Heap.deref at hd
  by_cases hq : p = 0
  · simp [hq] at hd
  · simp only [hq, if_false, if_true, Option.some.injEq] at hd
    exact hd.symm

theorem engine.detail.ClearEngineHooks_ok (s s' : State)
    (e : engine.detail.ClearEngineHooks s = Except.ok s') :
    (∀ post t, s'.engine_table post = some t → t = Table.zero) ∧
    s'.dll_heap = s.dll_heap ∧ s'.dll_new_heap = s.dll_new_heap ∧
    s'.dll_hooks = s.dll_hooks ∧ s'.dll_post_hooks = s.dll_post_hooks ∧
    s'.dll_new_hooks = s.dll_new_hooks ∧ s'.dll_new_post_hooks = s.dll_new_post_hooks ∧
    s'.engine_hooks = s.engine_hooks ∧ s'.engine_post_hooks = s.engine_post_hooks := by
  unfold ClearEngineHooks at e
  have pre : ∀ s1 : State, (if s.engine_hooks ≠ 0 then
        (s.engine_heap.memset0 s.engine_hooks).map (fun h => { s with engine_heap := h })
      else pure s) = Except.ok s1 →
      (∀ t, s1.engine_heap.deref s1.engine_hooks = some t → t = Table.zero) ∧
      s1.dll_heap = s.dll_heap ∧ s1.dll_new_heap = s.dll_new_heap ∧
      s1.dll_hooks = s.dll_hooks ∧ s1.dll_post_hooks = s.dll_post_hooks ∧
      s1.dll_new_hooks = s.dll_new_hooks ∧ s1.dll_new_post_hooks = s.dll_new_post_hooks ∧
      s1.engine_hooks = s.engine_hooks ∧ s1.engine_post_hooks = s.engine_post_hooks := by
    intro s1 e1
    by_cases hp : s.engine_hooks = 0
    · simp only [hp, ne_eq, not_true_eq_false, if_false, pure_eq_ok, Except.ok.injEq] at e1
      subst e1
      exact ⟨fun t ht => by simp [Heap.deref, hp] at ht, rfl, rfl, rfl, rfl, rfl, rfl, rfl, rfl⟩
    · simp only [ne_eq, hp, not_false_eq_true, if_true] at e1
      obtain ⟨_, h1⟩ := Heap.memset0_map_ok _ _ _ _ e1
      subst h1
      exact ⟨fun t ht => Heap.deref_memset_self _ _ t ht, rfl, rfl, rfl, rfl, rfl, rfl, rfl, rfl⟩
  cases h1 : (if s.engine_hooks ≠ 0 then
        (s.engine_heap.memset0 s.engine_hooks).map (fun h => { s with engine_heap := h })
      else pure s) with
  | error err => rw [h1] at e; simp at e
  | ok s1 =>
    rw [h1] at e
    simp only [bind_ok_eq] at e
    obtain ⟨z1, f1, f2, f3, f4, f5, f6, f7, f8⟩ := pre s1 h1
    by_cases hp : s1.engine_post_hooks = 0
    · simp only [hp, ne_eq, not_true_eq_false, if_false, pure_eq_ok, Except.ok.injEq] at e
      subst e
      refine ⟨?_, f1, f2, f3, f4, f5, f6, f7, f8⟩
      intro post t ht
      cases post
      · exact z1 t (by simpa [State.engine_table] using ht)
      · simp [State.engine_table, Heap.deref, hp] at ht
    · simp only [ne_eq, hp, not_false_eq_true, if_true] at e
      obtain ⟨_, h2⟩ := Heap.memset0_map_ok _ _ _ _ e
      subst h2
      refine ⟨?_, f1, f2, f3, f4, f5, f6, f7, f8⟩
      intro post t ht
      cases post
      · rcases Heap.deref_memset _ _ _ t (by simpa [State.engine_table] using ht) with h | h
        · exact h
        · exact z1 t h
      · exact Heap.deref_memset_self _ _ t (by simpa [State.engine_table] using ht)

theorem bind_eq_ok {ε α β : Type} (x : Except ε α) (f : α → Except ε β) (b : β)
    (e : (x >>= f) = Except.ok b) : ∃ a, x = Except.ok a ∧ f a = Except.ok b := by
  cases x with
  | error err => simp at e
  | ok a => exact ⟨a, rfl, by simpa using e⟩

theorem State.dll_heap_memset_step (s s1 : State) (p : Addr)
    (e : (if p ≠ 0 then (s.dll_heap.memset0 p).map (fun h => { s with dll_heap := h })
      else pure s) = Except.ok s1) :
    ∃ h, s1 = { s with dll_heap := h } ∧
      (∀ t, Heap.deref h p = some t → t = Table.zero) ∧
      (∀ q t, Heap.deref h q = some t → t = Table.zero ∨ s.dll_heap.deref q = some t) := by
  by_cases hp : p = 0
  · simp only [hp, ne_eq, not_true_eq_false, if_false, pure_eq_ok, Except.ok.injEq] at e
    subst e
    exact ⟨s.dll_heap, rfl, fun t ht => by simp [Heap.deref, hp] at ht, fun q t ht => Or.inr ht⟩
  · simp only [ne_eq, hp, not_false_eq_true, if_true] at e
    obtain ⟨_, h1⟩ := Heap.memset0_map_ok _ _ _ _ e
    exact ⟨_, h1, fun t ht => Heap.deref_memset_self _ _ t ht,
      fun q t ht => Heap.deref_memset _ _ q t ht⟩

theorem State.dll_new_heap_memset_step (s s1 : State) (p : Addr)
    (e : (if p ≠ 0 then (s.dll_new_heap.memset0 p).map (fun h => { s with dll_new_heap := h })
      else pure s) = Except.ok s1) :
    ∃ h, s1 = { s with dll_new_heap := h } ∧
      (∀ t, Heap.deref h p = some t → t = Table.zero) ∧
      (∀ q t, Heap.deref h q = some t → t = Table.zero ∨ s.dll_new_heap.deref q = some t) := by
  by_cases hp : p = 0
  · simp only [hp, ne_eq, not_true_eq_false, if_false, pure_eq_ok, Except.ok.injEq] at e
    subst e
    exact ⟨s.dll_new_heap, rfl, fun t ht => by simp [Heap.deref, hp] at ht, fun q t ht => Or.inr ht⟩
  · simp only [ne_eq, hp, not_false_eq_true, if_true] at e
    obtain ⟨_, h1⟩ := Heap.memset0_map_ok _ _ _ _ e
    exact ⟨_, h1, fun t ht => Heap.deref_memset_self _ _ t ht,
      fun q t ht => Heap.deref_memset _ _ q t ht⟩

theorem gamedll.detail.ClearGameDllHooks_ok (s s' : State)
    (e : gamedll.detail.ClearGameDllHooks s = Except.ok s') :
    (∀ post t, s'.dll_table post = some t → t = Table.zero) ∧
    (∀ post t, s'.dll_new_table post = some t → t = Table.zero) ∧
    s'.engine_heap = s.engine_heap ∧
    s'.engine_hooks = s.engine_hooks ∧ s'.engine_post_hooks = s.engine_post_hooks := by
  unfold ClearGameDllHooks at e
  obtain ⟨s1, e1, e⟩ := bind_eq_ok _ _ _ e
  obtain ⟨s2, e2, e⟩ := bind_eq_ok _ _ _ e
  obtain ⟨s3, e3, e4⟩ := bind_eq_ok _ _ _ e
  obtain ⟨h1, r1, z1, _⟩ := State.dll_heap_memset_step _ _ _ e1
  obtain ⟨h2, r2, z2, k2⟩ := State.dll_heap_memset_step _ _ _ e2
  obtain ⟨h3, r3, z3, _⟩ := State.dll_new_heap_memset_step _ _ _ e3
  obtain ⟨h4, r4, z4, k4⟩ := State.dll_new_heap_memset_step _ _ _ e4
  subst r1
  subst r2
  subst r3
  subst r4
  refine ⟨?_, ?_, rfl, rfl, rfl⟩
  · intro post t ht
    cases post
    · rcases k2 _ t (by simpa [State.dll_table] using ht) with h | h
      · exact h
      · exact z1 t h
    · exact z2 t (by simpa [State.dll_table] using ht)
  · intro post t ht
    cases post
    · rcases k4 _ t (by simpa [State.dll_new_table] using ht) with h | h
      · exact h
      · exact z3 t h
    · exact z4 t (by simpa [State.dll_new_table] using ht)

/-- C6: after `Meta_Detach` returns, every slot of every hook table that is
present (engine pre/post, game-DLL pre/post, extended game-DLL pre/post) is
empty, whatever the state was before and whatever the plugin's detach callback
did; the call reports `Ok`. -/
theorem detach_empties_all_tables (META_DETACH : Option (State → Except Fault State))
    (s s' : State) (status : Status) (h : Meta_Detach META_DETACH s = Except.ok (status, s')) :
    (∀ post t, s'.engine_table post = some t → t = Table.zero ∧ ∀ x, t x = 0) ∧
    (∀ post t, s'.dll_table post = some t → t = Table.zero ∧ ∀ x, t x = 0) ∧
    (∀ post t, s'.dll_new_table post = some t → t = Table.zero ∧ ∀ x, t x = 0) ∧
    status = Status.Ok := by
  unfold Meta_Detach at h
  obtain ⟨s0, _, h⟩ := bind_eq_ok _ _ _ h
  obtain ⟨s1, e1, h⟩ := bind_eq_ok _ _ _ h
  obtain ⟨s2, e2, h⟩ := bind_eq_ok _ _ _ h
  simp only [pure_eq_ok, Except.ok.injEq, Prod.mk.injEq] at h
  obtain ⟨hst, hs⟩ := h
  subst hs
  obtain ⟨ze, _⟩ := engine.detail.ClearEngineHooks_ok s0 s1 e1
  obtain ⟨zd, zn, fh, fp, fq⟩ := gamedll.detail.ClearGameDllHooks_ok s1 s2 e2
  have zero_all : ∀ {σ : Type} (t : Table σ), t = Table.zero → ∀ x, t x = 0 := by
    intro σ t ht x
    rw [ht]; rfl
  refine ⟨?_, ?_, ?_, hst.symm⟩
  · intro post t ht
    have ht1 : s1.engine_table post = some t := by
      simpa [State.engine_table, fh, fp, fq] using ht
    exact ⟨ze post t ht1, zero_all t (ze post t ht1)⟩
  · intro post t ht
    exact ⟨zd post t ht, zero_all t (zd post t ht)⟩
  · intro post t ht
    exact ⟨zn post t ht, zero_all t (zn post t ht)⟩

/-- Witness for C6: a plugin registers callback `77` as a pre hook for
`precache_model` and is then detached (no detach callback defined). -/
theorem detach_empties_all_tables_witness :
    engine.HookPrecacheModel 77 false State.init = Except.ok State.hooked ∧
    State.hooked.engine_table false ≠ some Table.zero ∧
    ∃ s', Meta_Detach none State.hooked = Except.ok (Status.Ok, s') ∧
      s'.engine_table false = some Table.zero ∧
      ∀ post t, s'.engine_table post = some t → t = Table.zero ∧ ∀ x, t x = 0 :=
  ⟨rfl,
    fun h => absurd (congrFun (Option.some.inj h) EngineSlot.precache_model) (by decide),
    _, rfl, rfl, (detach_empties_all_tables none State.hooked _ Status.Ok rfl).1⟩

/-! ### Export -/

theorem engine.detail.ExportEngineHooks_success (V : Int) (G : Table EngineSlot) (tbl : Addr) (v : Int) (s : State)
    (ht : tbl ≠ 0) (hv : v = V) :
    engine.detail.ExportEngineHooks V G tbl v s =
      (s.engine_heap.memcpy tbl s.engine_hooks >>= fun h => h.delete s.engine_hooks).map
        (fun h => ⟨true, v, { s with engine_heap := h, engine_hooks := tbl }⟩) := by
  unfold ExportEngineHooks
  rw [if_pos ⟨ht, hv⟩]
  cases s.engine_heap.memcpy tbl s.engine_hooks with
  | error e => rfl
  | ok h =>
    simp only [bind_ok_eq]
    cases h.delete s.engine_hooks with
    | error e => rfl
    | ok h2 => rfl

theorem engine.detail.ExportEngineHooks_failure (V : Int) (G : Table EngineSlot) (tbl : Addr) (v : Int)
    (s : State) (hc : ¬ (tbl ≠ 0 ∧ v = V)) (hG : G EngineSlot.alert_message ≠ 0) :
    ∃ al, engine.detail.ExportEngineHooks V G tbl v s =
      (s.engine_heap.delete s.engine_hooks).map
        (fun h => ⟨false, if tbl = 0 then v else V,
          { s with engine_heap := h, engine_hooks := 0, alerts := al }⟩) := by
  unfold ExportEngineHooks
  rw [if_neg hc]
  by_cases ht : tbl = 0
  · refine ⟨s.alerts ++ [⟨"Export engine hooks: hooks_table is null.\n", []⟩], ?_⟩
    simp only [ht, if_true, engine.AlertMessage, hG, if_false, map_ok_eq, bind_ok_eq]
    cases s.engine_heap.delete s.engine_hooks with
    | error e => rfl
    | ok h => rfl
  · have hv : v ≠ V := fun h => hc ⟨ht, h⟩
    refine ⟨s.alerts ++ [⟨"Export engine hooks: interface version mismatch; requested = %d; ours = %d.\n",
      [v, V]⟩], ?_⟩
    simp only [ht, if_false, hv, ne_eq, not_false_eq_true, if_true, engine.AlertMessage, hG,
      map_ok_eq, bind_ok_eq]
    cases s.engine_heap.delete s.engine_hooks with
    | error e => rfl
    | ok h => rfl

theorem engine.detail.ExportEngineHooks_failure_null (V : Int) (G : Table EngineSlot) (tbl : Addr) (v : Int)
    (s : State) (hc : ¬ (tbl ≠ 0 ∧ v = V)) (hG : G EngineSlot.alert_message = 0) :
    engine.detail.ExportEngineHooks V G tbl v s = Except.error Fault.null_pointer := by
  unfold ExportEngineHooks
  rw [if_neg hc]
  by_cases ht : tbl = 0
  · simp only [ht, if_true, engine.AlertMessage, hG, map_error_eq, bind_error_eq]
  · have hv : v ≠ V := fun h => hc ⟨ht, h⟩
    simp only [ht, if_false, hv, ne_eq, not_false_eq_true, if_true, engine.AlertMessage, hG,
      map_error_eq, bind_error_eq]

theorem engine.detail.ExportEnginePostHooks_success (V : Int) (G : Table EngineSlot) (tbl : Addr) (v : Int) (s : State)
    (ht : tbl ≠ 0) (hv : v = V) :
    engine.detail.ExportEnginePostHooks V G tbl v s =
      (s.engine_heap.memcpy tbl s.engine_post_hooks >>= fun h => h.delete s.engine_post_hooks).map
        (fun h => ⟨true, v, { s with engine_heap := h, engine_post_hooks := tbl }⟩) := by
  unfold ExportEnginePostHooks
  rw [if_pos ⟨ht, hv⟩]
  cases s.engine_heap.memcpy tbl s.engine_post_hooks with
  | error e => rfl
  | ok h =>
    simp only [bind_ok_eq]
    cases h.delete s.engine_post_hooks with
    | error e => rfl
    | ok h2 => rfl

theorem engine.detail.ExportEnginePostHooks_failure (V : Int) (G : Table EngineSlot) (tbl : Addr) (v : Int)
    (s : State) (hc : ¬ (tbl ≠ 0 ∧ v = V)) (hG : G EngineSlot.alert_message ≠ 0) :
    ∃ al, engine.detail.ExportEnginePostHooks V G tbl v s =
      (s.engine_heap.delete s.engine_post_hooks).map
        (fun h => ⟨false, if tbl = 0 then v else V,
          { s with engine_heap := h, engine_post_hooks := 0, alerts := al }⟩) := by
  unfold ExportEnginePostHooks
  rw [if_neg hc]
  by_cases ht : tbl = 0
  · refine ⟨s.alerts ++ [⟨"Export engine post hooks: hooks_table is null.\n", []⟩], ?_⟩
    simp only [ht, if_true, engine.AlertMessage, hG, if_false, map_ok_eq, bind_ok_eq]
    cases s.engine_heap.delete s.engine_post_hooks with
    | error e => rfl
    | ok h => rfl
  · have hv : v ≠ V := fun h => hc ⟨ht, h⟩
    refine ⟨s.alerts ++ [⟨"Export engine post hooks: interface version mismatch; requested = %d; ours = %d.\n",
      [v, V]⟩], ?_⟩
    simp only [ht, if_false, hv, ne_eq, not_false_eq_true, if_true, engine.AlertMessage, hG,
      map_ok_eq, bind_ok_eq]
    cases s.engine_heap.delete s.engine_post_hooks with
    | error e => rfl
    | ok h => rfl

theorem engine.detail.ExportEnginePostHooks_failure_null (V : Int) (G : Table EngineSlot) (tbl : Addr) (v : Int)
    (s : State) (hc : ¬ (tbl ≠ 0 ∧ v = V)) (hG : G EngineSlot.alert_message = 0) :
    engine.detail.ExportEnginePostHooks V G tbl v s = Except.error Fault.null_pointer := by
  unfold ExportEnginePostHooks
  rw [if_neg hc]
  by_cases ht : tbl = 0
  · simp only [ht, if_true, engine.AlertMessage, hG, map_error_eq, bind_error_eq]
  · have hv : v ≠ V := fun h => hc ⟨ht, h⟩
    simp only [ht, if_false, hv, ne_eq, not_false_eq_true, if_true, engine.AlertMessage, hG,
      map_error_eq, bind_error_eq]

theorem gamedll.detail.ExportDllHooks_success (V : Int) (G : Table EngineSlot) (tbl : Addr) (v : Int) (s : State)
    (ht : tbl ≠ 0) (hv : v = V) :
    gamedll.detail.ExportDllHooks V G tbl v s =
      (s.dll_heap.memcpy tbl s.dll_hooks >>= fun h => h.delete s.dll_hooks).map
        (fun h => ⟨true, v, { s with dll_heap := h, dll_hooks := tbl }⟩) := by
  unfold ExportDllHooks
  rw [if_pos ⟨ht, hv⟩]
  cases s.dll_heap.memcpy tbl s.dll_hooks with
  | error e => rfl
  | ok h =>
    simp only [bind_ok_eq]
    cases h.delete s.dll_hooks with
    | error e => rfl
    | ok h2 => rfl

theorem gamedll.detail.ExportDllHooks_failure (V : Int) (G : Table EngineSlot) (tbl : Addr) (v : Int)
    (s : State) (hc : ¬ (tbl ≠ 0 ∧ v = V)) (hG : G EngineSlot.alert_message ≠ 0) :
    ∃ al, gamedll.detail.ExportDllHooks V G tbl v s =
      (s.dll_heap.delete s.dll_hooks).map
        (fun h => ⟨false, if tbl = 0 then v else V,
          { s with dll_heap := h, dll_hooks := 0, alerts := al }⟩) := by
  unfold ExportDllHooks
  rw [if_neg hc]
  by_cases ht : tbl = 0
  · refine ⟨s.alerts ++ [⟨"Export gamedll hooks: hooks_table is null.\n", []⟩], ?_⟩
    simp only [ht, if_true, engine.AlertMessage, hG, if_false, map_ok_eq, bind_ok_eq]
    cases s.dll_heap.delete s.dll_hooks with
    | error e => rfl
    | ok h => rfl
  · have hv : v ≠ V := fun h => hc ⟨ht, h⟩
    refine ⟨s.alerts ++ [⟨"Export gamedll hooks: interface version mismatch; requested = %d; ours = %d.\n",
      [v, V]⟩], ?_⟩
    simp only [ht, if_false, hv, ne_eq, not_false_eq_true, if_true, engine.AlertMessage, hG,
      map_ok_eq, bind_ok_eq]
    cases s.dll_heap.delete s.dll_hooks with
    | error e => rfl
    | ok h => rfl

theorem gamedll.detail.ExportDllHooks_failure_null (V : Int) (G : Table EngineSlot) (tbl : Addr) (v : Int)
    (s : State) (hc : ¬ (tbl ≠ 0 ∧ v = V)) (hG : G EngineSlot.alert_message = 0) :
    gamedll.detail.ExportDllHooks V G tbl v s = Except.error Fault.null_pointer := by
  unfold ExportDllHooks
  rw [if_neg hc]
  by_cases ht : tbl = 0
  · simp only [ht, if_true, engine.AlertMessage, hG, map_error_eq, bind_error_eq]
  · have hv : v ≠ V := fun h => hc ⟨ht, h⟩
    simp only [ht, if_false, hv, ne_eq, not_false_eq_true, if_true, engine.AlertMessage, hG,
      map_error_eq, bind_error_eq]

theorem gamedll.detail.ExportDllPostHooks_success (V : Int) (G : Table EngineSlot) (tbl : Addr) (v : Int) (s : State)
    (ht : tbl ≠ 0) (hv : v = V) :
    gamedll.detail.ExportDllPostHooks V G tbl v s =
      (s.dll_heap.memcpy tbl s.dll_post_hooks >>= fun h => h.delete s.dll_post_hooks).map
        (fun h => ⟨true, v, { s with dll_heap := h, dll_post_hooks := tbl }⟩) := by
  unfold ExportDllPostHooks
  rw [if_pos ⟨ht, hv⟩]
  cases s.dll_heap.memcpy tbl s.dll_post_hooks with
  | error e => rfl
  | ok h =>
    simp only [bind_ok_eq]
    cases h.delete s.dll_post_hooks with
    | error e => rfl
    | ok h2 => rfl

theorem gamedll.detail.ExportDllPostHooks_failure (V : Int) (G : Table EngineSlot) (tbl : Addr) (v : Int)
    (s : State) (hc : ¬ (tbl ≠ 0 ∧ v = V)) (hG : G EngineSlot.alert_message ≠ 0) :
    ∃ al, gamedll.detail.ExportDllPostHooks V G tbl v s =
      (s.dll_heap.delete s.dll_post_hooks).map
        (fun h => ⟨false, if tbl = 0 then v else V,
          { s with dll_heap := h, dll_post_hooks := 0, alerts := al }⟩) := by
  unfold ExportDllPostHooks
  rw [if_neg hc]
  by_cases ht : tbl = 0
  · refine ⟨s.alerts ++ [⟨"Export gamedll post hooks: hooks_table is null.\n", []⟩], ?_⟩
    simp only [ht, if_true, engine.AlertMessage, hG, if_false, map_ok_eq, bind_ok_eq]
    cases s.dll_heap.delete s.dll_post_hooks with
    | error e => rfl
    | ok h => rfl
  · have hv : v ≠ V := fun h => hc ⟨ht, h⟩
    refine ⟨s.alerts ++ [⟨"Export gamedll post hooks: interface version mismatch; requested = %d; ours = %d.\n",
      [v, V]⟩], ?_⟩
    simp only [ht, if_false, hv, ne_eq, not_false_eq_true, if_true, engine.AlertMessage, hG,
      map_ok_eq, bind_ok_eq]
    cases s.dll_heap.delete s.dll_post_hooks with
    | error e => rfl
    | ok h => rfl

theorem gamedll.detail.ExportDllPostHooks_failure_null (V : Int) (G : Table EngineSlot) (tbl : Addr) (v : Int)
    (s : State) (hc : ¬ (tbl ≠ 0 ∧ v = V)) (hG : G EngineSlot.alert_message = 0) :
    gamedll.detail.ExportDllPostHooks V G tbl v s = Except.error Fault.null_pointer := by
  unfold ExportDllPostHooks
  rw [if_neg hc]
  by_cases ht : tbl = 0
  · simp only [ht, if_true, engine.AlertMessage, hG, map_error_eq, bind_error_eq]
  · have hv : v ≠ V := fun h => hc ⟨ht, h⟩
    simp only [ht, if_false, hv, ne_eq, not_false_eq_true, if_true, engine.AlertMessage, hG,
      map_error_eq, bind_error_eq]

theorem gamedll.detail.ExportDllNewHooks_success (V : Int) (G : Table EngineSlot) (tbl : Addr) (v : Int) (s : State)
    (ht : tbl ≠ 0) (hv : v = V) :
    gamedll.detail.ExportDllNewHooks V G tbl v s =
      (s.dll_new_heap.memcpy tbl s.dll_new_hooks >>= fun h => h.delete s.dll_new_hooks).map
        (fun h => ⟨true, v, { s with dll_new_heap := h, dll_new_hooks := tbl }⟩) := by
  unfold ExportDllNewHooks
  rw [if_pos ⟨ht, hv⟩]
  cases s.dll_new_heap.memcpy tbl s.dll_new_hooks with
  | error e => rfl
  | ok h =>
    simp only [bind_ok_eq]
    cases h.delete s.dll_new_hooks with
    | error e => rfl
    | ok h2 => rfl

theorem gamedll.detail.ExportDllNewHooks_failure (V : Int) (G : Table EngineSlot) (tbl : Addr) (v : Int)
    (s : State) (hc : ¬ (tbl ≠ 0 ∧ v = V)) (hG : G EngineSlot.alert_message ≠ 0) :
    ∃ al, gamedll.detail.ExportDllNewHooks V G tbl v s =
      (s.dll_new_heap.delete s.dll_new_hooks).map
        (fun h => ⟨false, if tbl = 0 then v else V,
          { s with dll_new_heap := h, dll_new_hooks := 0, alerts := al }⟩) := by
  unfold ExportDllNewHooks
  rw [if_neg hc]
  by_cases ht : tbl = 0
  · refine ⟨s.alerts ++ [⟨"Export gamedll new hooks: hooks_table is null.\n", []⟩], ?_⟩
    simp only [ht, if_true, engine.AlertMessage, hG, if_false, map_ok_eq, bind_ok_eq]
    cases s.dll_new_heap.delete s.dll_new_hooks with
    | error e => rfl
    | ok h => rfl
  · have hv : v ≠ V := fun h => hc ⟨ht, h⟩
    refine ⟨s.alerts ++ [⟨"Export gamedll new hooks: interface version mismatch; requested = %d; ours = %d.\n",
      [v, V]⟩], ?_⟩
    simp only [ht, if_false, hv, ne_eq, not_false_eq_true, if_true, engine.AlertMessage, hG,
      map_ok_eq, bind_ok_eq]
    cases s.dll_new_heap.delete s.dll_new_hooks with
    | error e => rfl
    | ok h => rfl

theorem gamedll.detail.ExportDllNewHooks_failure_null (V : Int) (G : Table EngineSlot) (tbl : Addr) (v : Int)
    (s : State) (hc : ¬ (tbl ≠ 0 ∧ v = V)) (hG : G EngineSlot.alert_message = 0) :
    gamedll.detail.ExportDllNewHooks V G tbl v s = Except.error Fault.null_pointer := by
  unfold ExportDllNewHooks
  rw [if_neg hc]
  by_cases ht : tbl = 0
  · simp only [ht, if_true, engine.AlertMessage, hG, map_error_eq, bind_error_eq]
  · have hv : v ≠ V := fun h => hc ⟨ht, h⟩
    simp only [ht, if_false, hv, ne_eq, not_false_eq_true, if_true, engine.AlertMessage, hG,
      map_error_eq, bind_error_eq]

theorem gamedll.detail.ExportDllNewPostHooks_success (V : Int) (G : Table EngineSlot) (tbl : Addr) (v : Int) (s : State)
    (ht : tbl ≠ 0) (hv : v = V) :
    gamedll.detail.ExportDllNewPostHooks V G tbl v s =
      (s.dll_new_heap.memcpy tbl s.dll_new_post_hooks >>= fun h => h.delete s.dll_new_post_hooks).map
        (fun h => ⟨true, v, { s with dll_new_heap := h, dll_new_post_hooks := tbl }⟩) := by
  unfold ExportDllNewPostHooks
  rw [if_pos ⟨ht, hv⟩]
  cases s.dll_new_heap.memcpy tbl s.dll_new_post_hooks with
  | error e => rfl
  | ok h =>
    simp only [bind_ok_eq]
    cases h.delete s.dll_new_post_hooks with
    | error e => rfl
    | ok h2 => rfl

theorem gamedll.detail.ExportDllNewPostHooks_failure (V : Int) (G : Table EngineSlot) (tbl : Addr) (v : Int)
    (s : State) (hc : ¬ (tbl ≠ 0 ∧ v = V)) (hG : G EngineSlot.alert_message ≠ 0) :
    ∃ al, gamedll.detail.ExportDllNewPostHooks V G tbl v s =
      (s.dll_new_heap.delete s.dll_new_post_hooks).map
        (fun h => ⟨false, if tbl = 0 then v else V,
          { s with dll_new_heap := h, dll_new_post_hooks := 0, alerts := al }⟩) := by
  unfold ExportDllNewPostHooks
  rw [if_neg hc]
  by_cases ht : tbl = 0
  · refine ⟨s.alerts ++ [⟨"Export gamedll new post hooks: hooks_table is null.\n", []⟩], ?_⟩
    simp only [ht, if_true, engine.AlertMessage, hG, if_false, map_ok_eq, bind_ok_eq]
    cases s.dll_new_heap.delete s.dll_new_post_hooks with
    | error e => rfl
    | ok h => rfl
  · have hv : v ≠ V := fun h => hc ⟨ht, h⟩
    refine ⟨s.alerts ++ [⟨"Export gamedll new post hooks: interface version mismatch; requested = %d; ours = %d.\n",
      [v, V]⟩], ?_⟩
    simp only [ht, if_false, hv, ne_eq, not_false_eq_true, if_true, engine.AlertMessage, hG,
      map_ok_eq, bind_ok_eq]
    cases s.dll_new_heap.delete s.dll_new_post_hooks with
    | error e => rfl
    | ok h => rfl

theorem gamedll.detail.ExportDllNewPostHooks_failure_null (V : Int) (G : Table EngineSlot) (tbl : Addr) (v : Int)
    (s : State) (hc : ¬ (tbl ≠ 0 ∧ v = V)) (hG : G EngineSlot.alert_message = 0) :
    gamedll.detail.ExportDllNewPostHooks V G tbl v s = Except.error Fault.null_pointer := by
  unfold ExportDllNewPostHooks
  rw [if_neg hc]
  by_cases ht : tbl = 0
  · simp only [ht, if_true, engine.AlertMessage, hG, map_error_eq, bind_error_eq]
  · have hv : v ≠ V := fun h => hc ⟨ht, h⟩
    simp only [ht, if_false, hv, ne_eq, not_false_eq_true, if_true, engine.AlertMessage, hG,
      map_error_eq, bind_error_eq]

theorem map_eq_ok {ε α β : Type} (x : Except ε α) (f : α → β) (b : β)
    (e : x.map f = Except.ok b) : ∃ a, x = Except.ok a ∧ b = f a := by
  cases x with
  | error err => simp at e
  | ok a => exact ⟨a, rfl, by simpa using e.symm⟩

theorem Heap.deref_some {σ : Type} (h : Heap σ) (p : Addr) (t : Table σ)
    (hd : h.deref p = some t) : p ≠ 0 ∧ h p = some t := by
  unfold Heap.deref at hd
  by_cases hp : p = 0
  · simp [hp] at hd
  · exact ⟨hp, by simpa [hp] using hd⟩

theorem Heap.memcpy_delete {σ : Type} (h : Heap σ) (tbl live : Addr) (t u : Table σ)
    (hl : h.deref live = some t) (hc : h.deref tbl = some u) :
    (h.memcpy tbl live >>= fun h1 => h1.delete live) =
      Except.ok (fun a => if a = live then none else if a = tbl then some t else h a) := by
  obtain ⟨hl0, hl1⟩ := Heap.deref_some h live t hl
  obtain ⟨hc0, hc1⟩ := Heap.deref_some h tbl u hc
  have e1 : h.memcpy tbl live = Except.ok (fun a => if a = tbl then some t else h a) := by
    simp [Heap.memcpy, hl0, hc0, hl1, hc1]
  rw [e1, bind_ok_eq]
  by_cases hlt : live = tbl
  · subst hlt
    simp [Heap.delete, hl0]
  · simp [Heap.delete, hl0, hlt, hl1]

theorem Heap.delete_ok {σ : Type} (h : Heap σ) (p : Addr) (hp : p = 0 ∨ (h p).isSome) :
    h.delete p = Except.ok (fun a => if a = p ∧ p ≠ 0 then none else h a) := by
  by_cases h0 : p = 0
  · simp [Heap.delete, h0]
  · cases hh : h p with
    | none => rcases hp with hp | hp
              · exact absurd hp h0
              · simp [hh] at hp
    | some t => simp [Heap.delete, h0, hh]

theorem Heap.memcpy_null_src {σ : Type} (h : Heap σ) (tbl : Addr) :
    h.memcpy tbl 0 = Except.error Fault.null_pointer := by
  simp [Heap.memcpy]

/-- Counterexample to C7 as stated: the host exports the engine pre-hook table
into its table at address `3` (which succeeds and makes that table the live
one) and then calls `ExportEngineHooks` with the same table and the matching
version again.  The table pointer is non-null, the version matches and the
live table is present, yet the call deletes the very table it was asked to
fill: afterwards the caller's table holds no contents. -/
theorem export_handover_counterexample :
    engine.detail.ExportEngineHooks 138 host_engine_funcs 3 138 State.hosted =
      Except.ok ⟨true, 138, State.exported⟩ ∧
    (3 : Addr) ≠ 0 ∧
    State.exported.engine_table false =
      some (fun m => if m = EngineSlot.precache_model then 77 else Table.zero m) ∧
    ¬ ∃ r, engine.detail.ExportEngineHooks 138 host_engine_funcs 3 138 State.exported = Except.ok r ∧
      r.ret = true ∧ r.interface_version = 138 ∧ r.state.engine_hooks = 3 ∧
      r.state.engine_heap.deref 3 =
        some (fun m => if m = EngineSlot.precache_model then 77 else Table.zero m) := by
  refine ⟨rfl, by decide, rfl, ?_⟩
  rintro ⟨r, hr, -, -, -, hd⟩
  have e := engine.detail.ExportEngineHooks_success 138 host_engine_funcs 3 138 State.exported (by decide) rfl
  rw [Heap.memcpy_delete State.exported.engine_heap 3 State.exported.engine_hooks _ _ rfl rfl]
    at e
  rw [e] at hr
  have hr' := Except.ok.inj hr
  subst hr'
  simp [Heap.deref, State.exported] at hd

/-- C7 (amended): a successful export hands the table over.  For each of the
six export functions, when the caller's table pointer is non-null and refers to
a table other than the live one, the version token equals the expected version
and the live table is present, the call copies the live table into the
caller's table, makes the caller's table the live table, leaves the version
token unchanged and returns true. -/
theorem export_handover :
    (∀ (V : Int) (G : Table EngineSlot) (tbl : Addr) (v : Int) (s : State) (t u : Table EngineSlot),
      tbl ≠ 0 → v = V → s.engine_table false = some t →
      s.engine_heap.deref tbl = some u → tbl ≠ s.engine_hooks →
      ∃ r, engine.detail.ExportEngineHooks V G tbl v s = Except.ok r ∧ r.ret = true ∧
        r.interface_version = v ∧ r.state.engine_hooks = tbl ∧
        r.state.engine_heap.deref tbl = some t ∧ r.state.engine_table false = some t) ∧
    (∀ (V : Int) (G : Table EngineSlot) (tbl : Addr) (v : Int) (s : State) (t u : Table EngineSlot),
      tbl ≠ 0 → v = V → s.engine_table true = some t →
      s.engine_heap.deref tbl = some u → tbl ≠ s.engine_post_hooks →
      ∃ r, engine.detail.ExportEnginePostHooks V G tbl v s = Except.ok r ∧ r.ret = true ∧
        r.interface_version = v ∧ r.state.engine_post_hooks = tbl ∧
        r.state.engine_heap.deref tbl = some t ∧ r.state.engine_table true = some t) ∧
    (∀ (V : Int) (G : Table EngineSlot) (tbl : Addr) (v : Int) (s : State) (t u : Table DllSlot),
      tbl ≠ 0 → v = V → s.dll_table false = some t →
      s.dll_heap.deref tbl = some u → tbl ≠ s.dll_hooks →
      ∃ r, gamedll.detail.ExportDllHooks V G tbl v s = Except.ok r ∧ r.ret = true ∧
        r.interface_version = v ∧ r.state.dll_hooks = tbl ∧
        r.state.dll_heap.deref tbl = some t ∧ r.state.dll_table false = some t) ∧
    (∀ (V : Int) (G : Table EngineSlot) (tbl : Addr) (v : Int) (s : State) (t u : Table DllSlot),
      tbl ≠ 0 → v = V → s.dll_table true = some t →
      s.dll_heap.deref tbl = some u → tbl ≠ s.dll_post_hooks →
      ∃ r, gamedll.detail.ExportDllPostHooks V G tbl v s = Except.ok r ∧ r.ret = true ∧
        r.interface_version = v ∧ r.state.dll_post_hooks = tbl ∧
        r.state.dll_heap.deref tbl = some t ∧ r.state.dll_table true = some t) ∧
    (∀ (V : Int) (G : Table EngineSlot) (tbl : Addr) (v : Int) (s : State) (t u : Table DllNewSlot),
      tbl ≠ 0 → v = V → s.dll_new_table false = some t →
      s.dll_new_heap.deref tbl = some u → tbl ≠ s.dll_new_hooks →
      ∃ r, gamedll.detail.ExportDllNewHooks V G tbl v s = Except.ok r ∧ r.ret = true ∧
        r.interface_version = v ∧ r.state.dll_new_hooks = tbl ∧
        r.state.dll_new_heap.deref tbl = some t ∧ r.state.dll_new_table false = some t) ∧
    (∀ (V : Int) (G : Table EngineSlot) (tbl : Addr) (v : Int) (s : State) (t u : Table DllNewSlot),
      tbl ≠ 0 → v = V → s.dll_new_table true = some t →
      s.dll_new_heap.deref tbl = some u → tbl ≠ s.dll_new_post_hooks →
      ∃ r, gamedll.detail.ExportDllNewPostHooks V G tbl v s = Except.ok r ∧ r.ret = true ∧
        r.interface_version = v ∧ r.state.dll_new_post_hooks = tbl ∧
        r.state.dll_new_heap.deref tbl = some t ∧ r.state.dll_new_table true = some t) := by
  refine ⟨?_, ?_, ?_, ?_, ?_, ?_⟩
  · intro V G tbl v s t u ht hv hl hc hne
    have hl' : s.engine_heap.deref s.engine_hooks = some t := by simpa [State.engine_table] using hl
    have e := engine.detail.ExportEngineHooks_success V G tbl v s ht hv
    rw [Heap.memcpy_delete _ _ _ t u hl' hc, map_ok_eq] at e
    exact ⟨_, e, rfl, rfl, rfl, by simp [Heap.deref, ht, hne],
      by simp [State.engine_table, Heap.deref, ht, hne]⟩
  · intro V G tbl v s t u ht hv hl hc hne
    have hl' : s.engine_heap.deref s.engine_post_hooks = some t := by simpa [State.engine_table] using hl
    have e := engine.detail.ExportEnginePostHooks_success V G tbl v s ht hv
    rw [Heap.memcpy_delete _ _ _ t u hl' hc, map_ok_eq] at e
    exact ⟨_, e, rfl, rfl, rfl, by simp [Heap.deref, ht, hne],
      by simp [State.engine_table, Heap.deref, ht, hne]⟩
  · intro V G tbl v s t u ht hv hl hc hne
    have hl' : s.dll_heap.deref s.dll_hooks = some t := by simpa [State.dll_table] using hl
    have e := gamedll.detail.ExportDllHooks_success V G tbl v s ht hv
    rw [Heap.memcpy_delete _ _ _ t u hl' hc, map_ok_eq] at e
    exact ⟨_, e, rfl, rfl, rfl, by simp [Heap.deref, ht, hne],
      by simp [State.dll_table, Heap.deref, ht, hne]⟩
  · intro V G tbl v s t u ht hv hl hc hne
    have hl' : s.dll_heap.deref s.dll_post_hooks = some t := by simpa [State.dll_table] using hl
    have e := gamedll.detail.ExportDllPostHooks_success V G tbl v s ht hv
    rw [Heap.memcpy_delete _ _ _ t u hl' hc, map_ok_eq] at e
    exact ⟨_, e, rfl, rfl, rfl, by simp [Heap.deref, ht, hne],
      by simp [State.dll_table, Heap.deref, ht, hne]⟩
  · intro V G tbl v s t u ht hv hl hc hne
    have hl' : s.dll_new_heap.deref s.dll_new_hooks = some t := by simpa [State.dll_new_table] using hl
    have e := gamedll.detail.ExportDllNewHooks_success V G tbl v s ht hv
    rw [Heap.memcpy_delete _ _ _ t u hl' hc, map_ok_eq] at e
    exact ⟨_, e, rfl, rfl, rfl, by simp [Heap.deref, ht, hne],
      by simp [State.dll_new_table, Heap.deref, ht, hne]⟩
  · intro V G tbl v s t u ht hv hl hc hne
    have hl' : s.dll_new_heap.deref s.dll_new_post_hooks = some t := by simpa [State.dll_new_table] using hl
    have e := gamedll.detail.ExportDllNewPostHooks_success V G tbl v s ht hv
    rw [Heap.memcpy_delete _ _ _ t u hl' hc, map_ok_eq] at e
    exact ⟨_, e, rfl, rfl, rfl, by simp [Heap.deref, ht, hne],
      by simp [State.dll_new_table, Heap.deref, ht, hne]⟩

/-- Witness for C7 (amended): the first export of the engine pre-hook table
into the host table at address `3`. -/
theorem export_handover_witness :
    ∃ r, engine.detail.ExportEngineHooks 138 host_engine_funcs 3 138 State.hosted = Except.ok r ∧ r.ret = true ∧
      r.interface_version = 138 ∧ r.state.engine_hooks = 3 ∧
      r.state.engine_heap.deref 3 =
        some (fun m => if m = EngineSlot.precache_model then 77 else Table.zero m) ∧
      r.state.engine_table false =
        some (fun m => if m = EngineSlot.precache_model then 77 else Table.zero m) :=
  export_handover.1 138 host_engine_funcs 3 138 State.hosted
    (fun m => if m = EngineSlot.precache_model then 77 else Table.zero m) Table.zero
    (by decide) rfl rfl rfl (by decide)

theorem engine.detail.ExportEngineHooks_ret (V : Int) (G : Table EngineSlot) (tbl : Addr) (v : Int)
    (s : State) (r : ExportReturn)
    (e : engine.detail.ExportEngineHooks V G tbl v s = Except.ok r) : r.ret = true ↔ tbl ≠ 0 ∧ v = V := by
  by_cases hc : tbl ≠ 0 ∧ v = V
  · rw [engine.detail.ExportEngineHooks_success V G tbl v s hc.1 hc.2] at e
    obtain ⟨h, _, hr⟩ := map_eq_ok _ _ _ e
    subst hr
    exact ⟨fun _ => hc, fun _ => rfl⟩
  · by_cases hG : G EngineSlot.alert_message = 0
    · rw [engine.detail.ExportEngineHooks_failure_null V G tbl v s hc hG] at e
      cases e
    · obtain ⟨al, e2⟩ := engine.detail.ExportEngineHooks_failure V G tbl v s hc hG
      rw [e2] at e
      obtain ⟨h, _, hr⟩ := map_eq_ok _ _ _ e
      subst hr
      exact ⟨fun h => by simp at h, fun h => absurd h hc⟩

theorem engine.detail.ExportEngineHooks_failure_ok (V : Int) (G : Table EngineSlot) (tbl : Addr) (v : Int)
    (s : State) (hc : ¬ (tbl ≠ 0 ∧ v = V)) (hG : G EngineSlot.alert_message ≠ 0)
    (hl : s.engine_hooks = 0 ∨ (s.engine_heap s.engine_hooks).isSome) :
    ∃ al, engine.detail.ExportEngineHooks V G tbl v s = Except.ok ⟨false, if tbl = 0 then v else V,
      { s with engine_heap := fun a => if a = s.engine_hooks ∧ s.engine_hooks ≠ 0 then none else s.engine_heap a,
               engine_hooks := 0, alerts := al }⟩ := by
  obtain ⟨al, e⟩ := engine.detail.ExportEngineHooks_failure V G tbl v s hc hG
  rw [Heap.delete_ok _ _ hl, map_ok_eq] at e
  exact ⟨al, e⟩

theorem engine.detail.ExportEnginePostHooks_ret (V : Int) (G : Table EngineSlot) (tbl : Addr) (v : Int)
    (s : State) (r : ExportReturn)
    (e : engine.detail.ExportEnginePostHooks V G tbl v s = Except.ok r) : r.ret = true ↔ tbl ≠ 0 ∧ v = V := by
  by_cases hc : tbl ≠ 0 ∧ v = V
  · rw [engine.detail.ExportEnginePostHooks_success V G tbl v s hc.1 hc.2] at e
    obtain ⟨h, _, hr⟩ := map_eq_ok _ _ _ e
    subst hr
    exact ⟨fun _ => hc, fun _ => rfl⟩
  · by_cases hG : G EngineSlot.alert_message = 0
    · rw [engine.detail.ExportEnginePostHooks_failure_null V G tbl v s hc hG] at e
      cases e
    · obtain ⟨al, e2⟩ := engine.detail.ExportEnginePostHooks_failure V G tbl v s hc hG
      rw [e2] at e
      obtain ⟨h, _, hr⟩ := map_eq_ok _ _ _ e
      subst hr
      exact ⟨fun h => by simp at h, fun h => absurd h hc⟩

theorem engine.detail.ExportEnginePostHooks_failure_ok (V : Int) (G : Table EngineSlot) (tbl : Addr) (v : Int)
    (s : State) (hc : ¬ (tbl ≠ 0 ∧ v = V)) (hG : G EngineSlot.alert_message ≠ 0)
    (hl : s.engine_post_hooks = 0 ∨ (s.engine_heap s.engine_post_hooks).isSome) :
    ∃ al, engine.detail.ExportEnginePostHooks V G tbl v s = Except.ok ⟨false, if tbl = 0 then v else V,
      { s with engine_heap := fun a => if a = s.engine_post_hooks ∧ s.engine_post_hooks ≠ 0 then none else s.engine_heap a,
               engine_post_hooks := 0, alerts := al }⟩ := by
  obtain ⟨al, e⟩ := engine.detail.ExportEnginePostHooks_failure V G tbl v s hc hG
  rw [Heap.delete_ok _ _ hl, map_ok_eq] at e
  exact ⟨al, e⟩

theorem gamedll.detail.ExportDllHooks_ret (V : Int) (G : Table EngineSlot) (tbl : Addr) (v : Int)
    (s : State) (r : ExportReturn)
    (e : gamedll.detail.ExportDllHooks V G tbl v s = Except.ok r) : r.ret = true ↔ tbl ≠ 0 ∧ v = V := by
  by_cases hc : tbl ≠ 0 ∧ v = V
  · rw [gamedll.detail.ExportDllHooks_success V G tbl v s hc.1 hc.2] at e
    obtain ⟨h, _, hr⟩ := map_eq_ok _ _ _ e
    subst hr
    exact ⟨fun _ => hc, fun _ => rfl⟩
  · by_cases hG : G EngineSlot.alert_message = 0
    · rw [gamedll.detail.ExportDllHooks_failure_null V G tbl v s hc hG] at e
      cases e
    · obtain ⟨al, e2⟩ := gamedll.detail.ExportDllHooks_failure V G tbl v s hc hG
      rw [e2] at e
      obtain ⟨h, _, hr⟩ := map_eq_ok _ _ _ e
      subst hr
      exact ⟨fun h => by simp at h, fun h => absurd h hc⟩

theorem gamedll.detail.ExportDllHooks_failure_ok (V : Int) (G : Table EngineSlot) (tbl : Addr) (v : Int)
    (s : State) (hc : ¬ (tbl ≠ 0 ∧ v = V)) (hG : G EngineSlot.alert_message ≠ 0)
    (hl : s.dll_hooks = 0 ∨ (s.dll_heap s.dll_hooks).isSome) :
    ∃ al, gamedll.detail.ExportDllHooks V G tbl v s = Except.ok ⟨false, if tbl = 0 then v else V,
      { s with dll_heap := fun a => if a = s.dll_hooks ∧ s.dll_hooks ≠ 0 then none else s.dll_heap a,
               dll_hooks := 0, alerts := al }⟩ := by
  obtain ⟨al, e⟩ := gamedll.detail.ExportDllHooks_failure V G tbl v s hc hG
  rw [Heap.delete_ok _ _ hl, map_ok_eq] at e
  exact ⟨al, e⟩

theorem gamedll.detail.ExportDllPostHooks_ret (V : Int) (G : Table EngineSlot) (tbl : Addr) (v : Int)
    (s : State) (r : ExportReturn)
    (e : gamedll.detail.ExportDllPostHooks V G tbl v s = Except.ok r) : r.ret = true ↔ tbl ≠ 0 ∧ v = V := by
  by_cases hc : tbl ≠ 0 ∧ v = V
  · rw [gamedll.detail.ExportDllPostHooks_success V G tbl v s hc.1 hc.2] at e
    obtain ⟨h, _, hr⟩ := map_eq_ok _ _ _ e
    subst hr
    exact ⟨fun _ => hc, fun _ => rfl⟩
  · by_cases hG : G EngineSlot.alert_message = 0
    · rw [gamedll.detail.ExportDllPostHooks_failure_null V G tbl v s hc hG] at e
      cases e
    · obtain ⟨al, e2⟩ := gamedll.detail.ExportDllPostHooks_failure V G tbl v s hc hG
      rw [e2] at e
      obtain ⟨h, _, hr⟩ := map_eq_ok _ _ _ e
      subst hr
      exact ⟨fun h => by simp at h, fun h => absurd h hc⟩

theorem gamedll.detail.ExportDllPostHooks_failure_ok (V : Int) (G : Table EngineSlot) (tbl : Addr) (v : Int)
    (s : State) (hc : ¬ (tbl ≠ 0 ∧ v = V)) (hG : G EngineSlot.alert_message ≠ 0)
    (hl : s.dll_post_hooks = 0 ∨ (s.dll_heap s.dll_post_hooks).isSome) :
    ∃ al, gamedll.detail.ExportDllPostHooks V G tbl v s = Except.ok ⟨false, if tbl = 0 then v else V,
      { s with dll_heap := fun a => if a = s.dll_post_hooks ∧ s.dll_post_hooks ≠ 0 then none else s.dll_heap a,
               dll_post_hooks := 0, alerts := al }⟩ := by
  obtain ⟨al, e⟩ := gamedll.detail.ExportDllPostHooks_failure V G tbl v s hc hG
  rw [Heap.delete_ok _ _ hl, map_ok_eq] at e
  exact ⟨al, e⟩

theorem gamedll.detail.ExportDllNewHooks_ret (V : Int) (G : Table EngineSlot) (tbl : Addr) (v : Int)
    (s : State) (r : ExportReturn)
    (e : gamedll.detail.ExportDllNewHooks V G tbl v s = Except.ok r) : r.ret = true ↔ tbl ≠ 0 ∧ v = V := by
  by_cases hc : tbl ≠ 0 ∧ v = V
  · rw [gamedll.detail.ExportDllNewHooks_success V G tbl v s hc.1 hc.2] at e
    obtain ⟨h, _, hr⟩ := map_eq_ok _ _ _ e
    subst hr
    exact ⟨fun _ => hc, fun _ => rfl⟩
  · by_cases hG : G EngineSlot.alert_message = 0
    · rw [gamedll.detail.ExportDllNewHooks_failure_null V G tbl v s hc hG] at e
      cases e
    · obtain ⟨al, e2⟩ := gamedll.detail.ExportDllNewHooks_failure V G tbl v s hc hG
      rw [e2] at e
      obtain ⟨h, _, hr⟩ := map_eq_ok _ _ _ e
      subst hr
      exact ⟨fun h => by simp at h, fun h => absurd h hc⟩

theorem gamedll.detail.ExportDllNewHooks_failure_ok (V : Int) (G : Table EngineSlot) (tbl : Addr) (v : Int)
    (s : State) (hc : ¬ (tbl ≠ 0 ∧ v = V)) (hG : G EngineSlot.alert_message ≠ 0)
    (hl : s.dll_new_hooks = 0 ∨ (s.dll_new_heap s.dll_new_hooks).isSome) :
    ∃ al, gamedll.detail.ExportDllNewHooks V G tbl v s = Except.ok ⟨false, if tbl = 0 then v else V,
      { s with dll_new_heap := fun a => if a = s.dll_new_hooks ∧ s.dll_new_hooks ≠ 0 then none else s.dll_new_heap a,
               dll_new_hooks := 0, alerts := al }⟩ := by
  obtain ⟨al, e⟩ := gamedll.detail.ExportDllNewHooks_failure V G tbl v s hc hG
  rw [Heap.delete_ok _ _ hl, map_ok_eq] at e
  exact ⟨al, e⟩

theorem gamedll.detail.ExportDllNewPostHooks_ret (V : Int) (G : Table EngineSlot) (tbl : Addr) (v : Int)
    (s : State) (r : ExportReturn)
    (e : gamedll.detail.ExportDllNewPostHooks V G tbl v s = Except.ok r) : r.ret = true ↔ tbl ≠ 0 ∧ v = V := by
  by_cases hc : tbl ≠ 0 ∧ v = V
  · rw [gamedll.detail.ExportDllNewPostHooks_success V G tbl v s hc.1 hc.2] at e
    obtain ⟨h, _, hr⟩ := map_eq_ok _ _ _ e
    subst hr
    exact ⟨fun _ => hc, fun _ => rfl⟩
  · by_cases hG : G EngineSlot.alert_message = 0
    · rw [gamedll.detail.ExportDllNewPostHooks_failure_null V G tbl v s hc hG] at e
      cases e
    · obtain ⟨al, e2⟩ := gamedll.detail.ExportDllNewPostHooks_failure V G tbl v s hc hG
      rw [e2] at e
      obtain ⟨h, _, hr⟩ := map_eq_ok _ _ _ e
      subst hr
      exact ⟨fun h => by simp at h, fun h => absurd h hc⟩

theorem gamedll.detail.ExportDllNewPostHooks_failure_ok (V : Int) (G : Table EngineSlot) (tbl : Addr) (v : Int)
    (s : State) (hc : ¬ (tbl ≠ 0 ∧ v = V)) (hG : G EngineSlot.alert_message ≠ 0)
    (hl : s.dll_new_post_hooks = 0 ∨ (s.dll_new_heap s.dll_new_post_hooks).isSome) :
    ∃ al, gamedll.detail.ExportDllNewPostHooks V G tbl v s = Except.ok ⟨false, if tbl = 0 then v else V,
      { s with dll_new_heap := fun a => if a = s.dll_new_post_hooks ∧ s.dll_new_post_hooks ≠ 0 then none else s.dll_new_heap a,
               dll_new_post_hooks := 0, alerts := al }⟩ := by
  obtain ⟨al, e⟩ := gamedll.detail.ExportDllNewPostHooks_failure V G tbl v s hc hG
  rw [Heap.delete_ok _ _ hl, map_ok_eq] at e
  exact ⟨al, e⟩

/-- Counterexample to C8 as stated: an export of the engine pre-hook table with
the wrong version token `140` fails and discards the live table; the host then
calls `ExportEngineHooks` again with a non-null table and the matching version
`138`.  The claim has this call return true; the code copies from the null
live-table pointer and returns nothing. -/
theorem export_returns_true_iff_counterexample :
    engine.detail.ExportEngineHooks 138 host_engine_funcs 3 140 State.hosted =
      Except.ok ⟨false, 138, State.discarded⟩ ∧
    ((3 : Addr) ≠ 0 ∧ (138 : Int) = 138) ∧
    engine.detail.ExportEngineHooks 138 host_engine_funcs 3 138 State.discarded =
      Except.error Fault.null_pointer ∧
    ¬ ∃ r, engine.detail.ExportEngineHooks 138 host_engine_funcs 3 138 State.discarded = Except.ok r ∧
      r.ret = true := by
  have e : engine.detail.ExportEngineHooks 138 host_engine_funcs 3 138 State.discarded =
      Except.error Fault.null_pointer := rfl
  refine ⟨rfl, ⟨by decide, rfl⟩, e, ?_⟩
  rintro ⟨r, hr, -⟩
  rw [e] at hr
  exact Except.noConfusion hr

/-- C8 (amended): for each of the six export functions, a call that returns
returns true if and only if the caller's table pointer is non-null and the
version token equals the expected version of that interface.  When that
condition holds, the call returns true provided the live table is present and
the caller's pointer refers to a table; with the live pointer null it copies
from a null pointer and does not return.  When the condition fails, the call
returns false provided the function pointer `alert_message` of
`g_engine_funcs` is non-null and the live pointer is null or refers to a
table; with a null `alert_message` it ends in the call through that pointer
and does not return. -/
theorem export_returns_true_iff :
    ((∀ (V : Int) (G : Table EngineSlot) (tbl : Addr) (v : Int) (s : State) (r : ExportReturn),
        engine.detail.ExportEngineHooks V G tbl v s = Except.ok r → (r.ret = true ↔ tbl ≠ 0 ∧ v = V)) ∧
      (∀ (V : Int) (G : Table EngineSlot) (tbl : Addr) (v : Int) (s : State)
          (t u : Table EngineSlot),
        tbl ≠ 0 → v = V → s.engine_table false = some t → s.engine_heap.deref tbl = some u →
        ∃ r, engine.detail.ExportEngineHooks V G tbl v s = Except.ok r ∧ r.ret = true) ∧
      (∀ (V : Int) (G : Table EngineSlot) (tbl : Addr) (v : Int) (s : State),
        tbl ≠ 0 → v = V → s.engine_hooks = 0 →
        engine.detail.ExportEngineHooks V G tbl v s = Except.error Fault.null_pointer) ∧
      (∀ (V : Int) (G : Table EngineSlot) (tbl : Addr) (v : Int) (s : State),
        ¬ (tbl ≠ 0 ∧ v = V) → G EngineSlot.alert_message ≠ 0 →
        (s.engine_hooks = 0 ∨ (s.engine_heap s.engine_hooks).isSome) →
        ∃ r, engine.detail.ExportEngineHooks V G tbl v s = Except.ok r ∧ r.ret = false) ∧
      (∀ (V : Int) (G : Table EngineSlot) (tbl : Addr) (v : Int) (s : State),
        ¬ (tbl ≠ 0 ∧ v = V) → G EngineSlot.alert_message = 0 →
        engine.detail.ExportEngineHooks V G tbl v s = Except.error Fault.null_pointer)) ∧
    ((∀ (V : Int) (G : Table EngineSlot) (tbl : Addr) (v : Int) (s : State) (r : ExportReturn),
        engine.detail.ExportEnginePostHooks V G tbl v s = Except.ok r → (r.ret = true ↔ tbl ≠ 0 ∧ v = V)) ∧
      (∀ (V : Int) (G : Table EngineSlot) (tbl : Addr) (v : Int) (s : State)
          (t u : Table EngineSlot),
        tbl ≠ 0 → v = V → s.engine_table true = some t → s.engine_heap.deref tbl = some u →
        ∃ r, engine.detail.ExportEnginePostHooks V G tbl v s = Except.ok r ∧ r.ret = true) ∧
      (∀ (V : Int) (G : Table EngineSlot) (tbl : Addr) (v : Int) (s : State),
        tbl ≠ 0 → v = V → s.engine_post_hooks = 0 →
        engine.detail.ExportEnginePostHooks V G tbl v s = Except.error Fault.null_pointer) ∧
      (∀ (V : Int) (G : Table EngineSlot) (tbl : Addr) (v : Int) (s : State),
        ¬ (tbl ≠ 0 ∧ v = V) → G EngineSlot.alert_message ≠ 0 →
        (s.engine_post_hooks = 0 ∨ (s.engine_heap s.engine_post_hooks).isSome) →
        ∃ r, engine.detail.ExportEnginePostHooks V G tbl v s = Except.ok r ∧ r.ret = false) ∧
      (∀ (V : Int) (G : Table EngineSlot) (tbl : Addr) (v : Int) (s : State),
        ¬ (tbl ≠ 0 ∧ v = V) → G EngineSlot.alert_message = 0 →
        engine.detail.ExportEnginePostHooks V G tbl v s = Except.error Fault.null_pointer)) ∧
    ((∀ (V : Int) (G : Table EngineSlot) (tbl : Addr) (v : Int) (s : State) (r : ExportReturn),
        gamedll.detail.ExportDllHooks V G tbl v s = Except.ok r → (r.ret = true ↔ tbl ≠ 0 ∧ v = V)) ∧
      (∀ (V : Int) (G : Table EngineSlot) (tbl : Addr) (v : Int) (s : State)
          (t u : Table DllSlot),
        tbl ≠ 0 → v = V → s.dll_table false = some t → s.dll_heap.deref tbl = some u →
        ∃ r, gamedll.detail.ExportDllHooks V G tbl v s = Except.ok r ∧ r.ret = true) ∧
      (∀ (V : Int) (G : Table EngineSlot) (tbl : Addr) (v : Int) (s : State),
        tbl ≠ 0 → v = V → s.dll_hooks = 0 →
        gamedll.detail.ExportDllHooks V G tbl v s = Except.error Fault.null_pointer) ∧
      (∀ (V : Int) (G : Table EngineSlot) (tbl : Addr) (v : Int) (s : State),
        ¬ (tbl ≠ 0 ∧ v = V) → G EngineSlot.alert_message ≠ 0 →
        (s.dll_hooks = 0 ∨ (s.dll_heap s.dll_hooks).isSome) →
        ∃ r, gamedll.detail.ExportDllHooks V G tbl v s = Except.ok r ∧ r.ret = false) ∧
      (∀ (V : Int) (G : Table EngineSlot) (tbl : Addr) (v : Int) (s : State),
        ¬ (tbl ≠ 0 ∧ v = V) → G EngineSlot.alert_message = 0 →
        gamedll.detail.ExportDllHooks V G tbl v s = Except.error Fault.null_pointer)) ∧
    ((∀ (V : Int) (G : Table EngineSlot) (tbl : Addr) (v : Int) (s : State) (r : ExportReturn),
        gamedll.detail.ExportDllPostHooks V G tbl v s = Except.ok r → (r.ret = true ↔ tbl ≠ 0 ∧ v = V)) ∧
      (∀ (V : Int) (G : Table EngineSlot) (tbl : Addr) (v : Int) (s : State)
          (t u : Table DllSlot),
        tbl ≠ 0 → v = V → s.dll_table true = some t → s.dll_heap.deref tbl = some u →
        ∃ r, gamedll.detail.ExportDllPostHooks V G tbl v s = Except.ok r ∧ r.ret = true) ∧
      (∀ (V : Int) (G : Table EngineSlot) (tbl : Addr) (v : Int) (s : State),
        tbl ≠ 0 → v = V → s.dll_post_hooks = 0 →
        gamedll.detail.ExportDllPostHooks V G tbl v s = Except.error Fault.null_pointer) ∧
      (∀ (V : Int) (G : Table EngineSlot) (tbl : Addr) (v : Int) (s : State),
        ¬ (tbl ≠ 0 ∧ v = V) → G EngineSlot.alert_message ≠ 0 →
        (s.dll_post_hooks = 0 ∨ (s.dll_heap s.dll_post_hooks).isSome) →
        ∃ r, gamedll.detail.ExportDllPostHooks V G tbl v s = Except.ok r ∧ r.ret = false) ∧
      (∀ (V : Int) (G : Table EngineSlot) (tbl : Addr) (v : Int) (s : State),
        ¬ (tbl ≠ 0 ∧ v = V) → G EngineSlot.alert_message = 0 →
        gamedll.detail.ExportDllPostHooks V G tbl v s = Except.error Fault.null_pointer)) ∧
    ((∀ (V : Int) (G : Table EngineSlot) (tbl : Addr) (v : Int) (s : State) (r : ExportReturn),
        gamedll.detail.ExportDllNewHooks V G tbl v s = Except.ok r → (r.ret = true ↔ tbl ≠ 0 ∧ v = V)) ∧
      (∀ (V : Int) (G : Table EngineSlot) (tbl : Addr) (v : Int) (s : State)
          (t u : Table DllNewSlot),
        tbl ≠ 0 → v = V → s.dll_new_table false = some t → s.dll_new_heap.deref tbl = some u →
        ∃ r, gamedll.detail.ExportDllNewHooks V G tbl v s = Except.ok r ∧ r.ret = true) ∧
      (∀ (V : Int) (G : Table EngineSlot) (tbl : Addr) (v : Int) (s : State),
        tbl ≠ 0 → v = V → s.dll_new_hooks = 0 →
        gamedll.detail.ExportDllNewHooks V G tbl v s = Except.error Fault.null_pointer) ∧
      (∀ (V : Int) (G : Table EngineSlot) (tbl : Addr) (v : Int) (s : State),
        ¬ (tbl ≠ 0 ∧ v = V) → G EngineSlot.alert_message ≠ 0 →
        (s.dll_new_hooks = 0 ∨ (s.dll_new_heap s.dll_new_hooks).isSome) →
        ∃ r, gamedll.detail.ExportDllNewHooks V G tbl v s = Except.ok r ∧ r.ret = false) ∧
      (∀ (V : Int) (G : Table EngineSlot) (tbl : Addr) (v : Int) (s : State),
        ¬ (tbl ≠ 0 ∧ v = V) → G EngineSlot.alert_message = 0 →
        gamedll.detail.ExportDllNewHooks V G tbl v s = Except.error Fault.null_pointer)) ∧
    ((∀ (V : Int) (G : Table EngineSlot) (tbl : Addr) (v : Int) (s : State) (r : ExportReturn),
        gamedll.detail.ExportDllNewPostHooks V G tbl v s = Except.ok r → (r.ret = true ↔ tbl ≠ 0 ∧ v = V)) ∧
      (∀ (V : Int) (G : Table EngineSlot) (tbl : Addr) (v : Int) (s : State)
          (t u : Table DllNewSlot),
        tbl ≠ 0 → v = V → s.dll_new_table true = some t → s.dll_new_heap.deref tbl = some u →
        ∃ r, gamedll.detail.ExportDllNewPostHooks V G tbl v s = Except.ok r ∧ r.ret = true) ∧
      (∀ (V : Int) (G : Table EngineSlot) (tbl : Addr) (v : Int) (s : State),
        tbl ≠ 0 → v = V → s.dll_new_post_hooks = 0 →
        gamedll.detail.ExportDllNewPostHooks V G tbl v s = Except.error Fault.null_pointer) ∧
      (∀ (V : Int) (G : Table EngineSlot) (tbl : Addr) (v : Int) (s : State),
        ¬ (tbl ≠ 0 ∧ v = V) → G EngineSlot.alert_message ≠ 0 →
        (s.dll_new_post_hooks = 0 ∨ (s.dll_new_heap s.dll_new_post_hooks).isSome) →
        ∃ r, gamedll.detail.ExportDllNewPostHooks V G tbl v s = Except.ok r ∧ r.ret = false) ∧
      (∀ (V : Int) (G : Table EngineSlot) (tbl : Addr) (v : Int) (s : State),
        ¬ (tbl ≠ 0 ∧ v = V) → G EngineSlot.alert_message = 0 →
        gamedll.detail.ExportDllNewPostHooks V G tbl v s = Except.error Fault.null_pointer)) := by
  refine ⟨?_, ?_, ?_, ?_, ?_, ?_⟩
  · refine ⟨engine.detail.ExportEngineHooks_ret, ?_, ?_, ?_, engine.detail.ExportEngineHooks_failure_null⟩
    · intro V G tbl v s t u ht hv hl hc
      have hl' : s.engine_heap.deref s.engine_hooks = some t := by simpa [State.engine_table] using hl
      have e := engine.detail.ExportEngineHooks_success V G tbl v s ht hv
      rw [Heap.memcpy_delete _ _ _ t u hl' hc, map_ok_eq] at e
      exact ⟨_, e, rfl⟩
    · intro V G tbl v s ht hv h0
      rw [engine.detail.ExportEngineHooks_success V G tbl v s ht hv, h0, Heap.memcpy_null_src]
      rfl
    · intro V G tbl v s hc hG hl
      obtain ⟨al, e⟩ := engine.detail.ExportEngineHooks_failure_ok V G tbl v s hc hG hl
      exact ⟨_, e, rfl⟩
  · refine ⟨engine.detail.ExportEnginePostHooks_ret, ?_, ?_, ?_, engine.detail.ExportEnginePostHooks_failure_null⟩
    · intro V G tbl v s t u ht hv hl hc
      have hl' : s.engine_heap.deref s.engine_post_hooks = some t := by simpa [State.engine_table] using hl
      have e := engine.detail.ExportEnginePostHooks_success V G tbl v s ht hv
      rw [Heap.memcpy_delete _ _ _ t u hl' hc, map_ok_eq] at e
      exact ⟨_, e, rfl⟩
    · intro V G tbl v s ht hv h0
      rw [engine.detail.ExportEnginePostHooks_success V G tbl v s ht hv, h0, Heap.memcpy_null_src]
      rfl
    · intro V G tbl v s hc hG hl
      obtain ⟨al, e⟩ := engine.detail.ExportEnginePostHooks_failure_ok V G tbl v s hc hG hl
      exact ⟨_, e, rfl⟩
  · refine ⟨gamedll.detail.ExportDllHooks_ret, ?_, ?_, ?_, gamedll.detail.ExportDllHooks_failure_null⟩
    · intro V G tbl v s t u ht hv hl hc
      have hl' : s.dll_heap.deref s.dll_hooks = some t := by simpa [State.dll_table] using hl
      have e := gamedll.detail.ExportDllHooks_success V G tbl v s ht hv
      rw [Heap.memcpy_delete _ _ _ t u hl' hc, map_ok_eq] at e
      exact ⟨_, e, rfl⟩
    · intro V G tbl v s ht hv h0
      rw [gamedll.detail.ExportDllHooks_success V G tbl v s ht hv, h0, Heap.memcpy_null_src]
      rfl
    · intro V G tbl v s hc hG hl
      obtain ⟨al, e⟩ := gamedll.detail.ExportDllHooks_failure_ok V G tbl v s hc hG hl
      exact ⟨_, e, rfl⟩
  · refine ⟨gamedll.detail.ExportDllPostHooks_ret, ?_, ?_, ?_, gamedll.detail.ExportDllPostHooks_failure_null⟩
    · intro V G tbl v s t u ht hv hl hc
      have hl' : s.dll_heap.deref s.dll_post_hooks = some t := by simpa [State.dll_table] using hl
      have e := gamedll.detail.ExportDllPostHooks_success V G tbl v s ht hv
      rw [Heap.memcpy_delete _ _ _ t u hl' hc, map_ok_eq] at e
      exact ⟨_, e, rfl⟩
    · intro V G tbl v s ht hv h0
      rw [gamedll.detail.ExportDllPostHooks_success V G tbl v s ht hv, h0, Heap.memcpy_null_src]
      rfl
    · intro V G tbl v s hc hG hl
      obtain ⟨al, e⟩ := gamedll.detail.ExportDllPostHooks_failure_ok V G tbl v s hc hG hl
      exact ⟨_, e, rfl⟩
  · refine ⟨gamedll.detail.ExportDllNewHooks_ret, ?_, ?_, ?_, gamedll.detail.ExportDllNewHooks_failure_null⟩
    · intro V G tbl v s t u ht hv hl hc
      have hl' : s.dll_new_heap.deref s.dll_new_hooks = some t := by simpa [State.dll_new_table] using hl
      have e := gamedll.detail.ExportDllNewHooks_success V G tbl v s ht hv
      rw [Heap.memcpy_delete _ _ _ t u hl' hc, map_ok_eq] at e
      exact ⟨_, e, rfl⟩
    · intro V G tbl v s ht hv h0
      rw [gamedll.detail.ExportDllNewHooks_success V G tbl v s ht hv, h0, Heap.memcpy_null_src]
      rfl
    · intro V G tbl v s hc hG hl
      obtain ⟨al, e⟩ := gamedll.detail.ExportDllNewHooks_failure_ok V G tbl v s hc hG hl
      exact ⟨_, e, rfl⟩
  · refine ⟨gamedll.detail.ExportDllNewPostHooks_ret, ?_, ?_, ?_, gamedll.detail.ExportDllNewPostHooks_failure_null⟩
    · intro V G tbl v s t u ht hv hl hc
      have hl' : s.dll_new_heap.deref s.dll_new_post_hooks = some t := by simpa [State.dll_new_table] using hl
      have e := gamedll.detail.ExportDllNewPostHooks_success V G tbl v s ht hv
      rw [Heap.memcpy_delete _ _ _ t u hl' hc, map_ok_eq] at e
      exact ⟨_, e, rfl⟩
    · intro V G tbl v s ht hv h0
      rw [gamedll.detail.ExportDllNewPostHooks_success V G tbl v s ht hv, h0, Heap.memcpy_null_src]
      rfl
    · intro V G tbl v s hc hG hl
      obtain ⟨al, e⟩ := gamedll.detail.ExportDllNewPostHooks_failure_ok V G tbl v s hc hG hl
      exact ⟨_, e, rfl⟩

/-- Witness for C8 (amended): the cases on `ExportDllNewPostHooks` with
expected version `1`: in `State.hosted` a valid call, a null table and a wrong
version with the host's `alert_message` at hand, and a wrong version while
`g_engine_funcs` is all null as in the freshly loaded module. -/
theorem export_returns_true_iff_witness :
    (∃ r, gamedll.detail.ExportDllNewPostHooks 1 host_engine_funcs 3 1 State.hosted =
        Except.ok r ∧ r.ret = true) ∧
    (∃ r, gamedll.detail.ExportDllNewPostHooks 1 host_engine_funcs 0 1 State.hosted =
        Except.ok r ∧ r.ret = false) ∧
    (∃ r, gamedll.detail.ExportDllNewPostHooks 1 host_engine_funcs 3 2 State.hosted =
        Except.ok r ∧ r.ret = false) ∧
    gamedll.detail.ExportDllNewPostHooks 1 Module.init.g_engine_funcs 3 2 State.hosted =
      Except.error Fault.null_pointer :=
  ⟨export_returns_true_iff.2.2.2.2.2.2.1 1 host_engine_funcs 3 1 State.hosted Table.zero
      Table.zero (by decide) rfl rfl rfl,
    export_returns_true_iff.2.2.2.2.2.2.2.2.1 1 host_engine_funcs 0 1 State.hosted
      (by decide) (by decide) (Or.inr rfl),
    export_returns_true_iff.2.2.2.2.2.2.2.2.1 1 host_engine_funcs 3 2 State.hosted
      (by decide) (by decide) (Or.inr rfl),
    export_returns_true_iff.2.2.2.2.2.2.2.2.2 1 Module.init.g_engine_funcs 3 2 State.hosted
      (by decide) rfl⟩

theorem Heap.delete_eq_ok {σ : Type} (h h' : Heap σ) (p : Addr)
    (e : h.delete p = Except.ok h') : p = 0 ∨ (h p).isSome := by
  by_cases h0 : p = 0
  · exact Or.inl h0
  · cases hh : h p with
    | none => simp [Heap.delete, h0, hh] at e
    | some t => exact Or.inr rfl

theorem engine.detail.ExportEngineHooks_failure_alert (V : Int) (G : Table EngineSlot) (tbl : Addr) (v : Int)
    (s : State) (r : ExportReturn) (hc : ¬ (tbl ≠ 0 ∧ v = V))
    (e : engine.detail.ExportEngineHooks V G tbl v s = Except.ok r) : G EngineSlot.alert_message ≠ 0 := by
  intro hG
  rw [engine.detail.ExportEngineHooks_failure_null V G tbl v s hc hG] at e
  cases e

theorem engine.detail.ExportEngineHooks_failure_inv (V : Int) (G : Table EngineSlot) (tbl : Addr) (v : Int)
    (s : State) (r : ExportReturn) (hc : ¬ (tbl ≠ 0 ∧ v = V))
    (e : engine.detail.ExportEngineHooks V G tbl v s = Except.ok r) :
    ∃ al, r = ⟨false, if tbl = 0 then v else V,
      { s with engine_heap := fun a => if a = s.engine_hooks ∧ s.engine_hooks ≠ 0 then none else s.engine_heap a,
               engine_hooks := 0, alerts := al }⟩ := by
  have hG := engine.detail.ExportEngineHooks_failure_alert V G tbl v s r hc e
  obtain ⟨al0, e0⟩ := engine.detail.ExportEngineHooks_failure V G tbl v s hc hG
  rw [e0] at e
  obtain ⟨h, hd, _⟩ := map_eq_ok _ _ _ e
  obtain ⟨al, e1⟩ := engine.detail.ExportEngineHooks_failure_ok V G tbl v s hc hG (Heap.delete_eq_ok _ _ _ hd)
  rw [e0] at e1
  rw [e1] at e
  exact ⟨al, (Except.ok.inj e).symm⟩

theorem engine.detail.ExportEnginePostHooks_failure_alert (V : Int) (G : Table EngineSlot) (tbl : Addr) (v : Int)
    (s : State) (r : ExportReturn) (hc : ¬ (tbl ≠ 0 ∧ v = V))
    (e : engine.detail.ExportEnginePostHooks V G tbl v s = Except.ok r) : G EngineSlot.alert_message ≠ 0 := by
  intro hG
  rw [engine.detail.ExportEnginePostHooks_failure_null V G tbl v s hc hG] at e
  cases e

theorem engine.detail.ExportEnginePostHooks_failure_inv (V : Int) (G : Table EngineSlot) (tbl : Addr) (v : Int)
    (s : State) (r : ExportReturn) (hc : ¬ (tbl ≠ 0 ∧ v = V))
    (e : engine.detail.ExportEnginePostHooks V G tbl v s = Except.ok r) :
    ∃ al, r = ⟨false, if tbl = 0 then v else V,
      { s with engine_heap := fun a => if a = s.engine_post_hooks ∧ s.engine_post_hooks ≠ 0 then none else s.engine_heap a,
               engine_post_hooks := 0, alerts := al }⟩ := by
  have hG := engine.detail.ExportEnginePostHooks_failure_alert V G tbl v s r hc e
  obtain ⟨al0, e0⟩ := engine.detail.ExportEnginePostHooks_failure V G tbl v s hc hG
  rw [e0] at e
  obtain ⟨h, hd, _⟩ := map_eq_ok _ _ _ e
  obtain ⟨al, e1⟩ := engine.detail.ExportEnginePostHooks_failure_ok V G tbl v s hc hG (Heap.delete_eq_ok _ _ _ hd)
  rw [e0] at e1
  rw [e1] at e
  exact ⟨al, (Except.ok.inj e).symm⟩

theorem gamedll.detail.ExportDllHooks_failure_alert (V : Int) (G : Table EngineSlot) (tbl : Addr) (v : Int)
    (s : State) (r : ExportReturn) (hc : ¬ (tbl ≠ 0 ∧ v = V))
    (e : gamedll.detail.ExportDllHooks V G tbl v s = Except.ok r) : G EngineSlot.alert_message ≠ 0 := by
  intro hG
  rw [gamedll.detail.ExportDllHooks_failure_null V G tbl v s hc hG] at e
  cases e

theorem gamedll.detail.ExportDllHooks_failure_inv (V : Int) (G : Table EngineSlot) (tbl : Addr) (v : Int)
    (s : State) (r : ExportReturn) (hc : ¬ (tbl ≠ 0 ∧ v = V))
    (e : gamedll.detail.ExportDllHooks V G tbl v s = Except.ok r) :
    ∃ al, r = ⟨false, if tbl = 0 then v else V,
      { s with dll_heap := fun a => if a = s.dll_hooks ∧ s.dll_hooks ≠ 0 then none else s.dll_heap a,
               dll_hooks := 0, alerts := al }⟩ := by
  have hG := gamedll.detail.ExportDllHooks_failure_alert V G tbl v s r hc e
  obtain ⟨al0, e0⟩ := gamedll.detail.ExportDllHooks_failure V G tbl v s hc hG
  rw [e0] at e
  obtain ⟨h, hd, _⟩ := map_eq_ok _ _ _ e
  obtain ⟨al, e1⟩ := gamedll.detail.ExportDllHooks_failure_ok V G tbl v s hc hG (Heap.delete_eq_ok _ _ _ hd)
  rw [e0] at e1
  rw [e1] at e
  exact ⟨al, (Except.ok.inj e).symm⟩

theorem gamedll.detail.ExportDllPostHooks_failure_alert (V : Int) (G : Table EngineSlot) (tbl : Addr) (v : Int)
    (s : State) (r : ExportReturn) (hc : ¬ (tbl ≠ 0 ∧ v = V))
    (e : gamedll.detail.ExportDllPostHooks V G tbl v s = Except.ok r) : G EngineSlot.alert_message ≠ 0 := by
  intro hG
  rw [gamedll.detail.ExportDllPostHooks_failure_null V G tbl v s hc hG] at e
  cases e

theorem gamedll.detail.ExportDllPostHooks_failure_inv (V : Int) (G : Table EngineSlot) (tbl : Addr) (v : Int)
    (s : State) (r : ExportReturn) (hc : ¬ (tbl ≠ 0 ∧ v = V))
    (e : gamedll.detail.ExportDllPostHooks V G tbl v s = Except.ok r) :
    ∃ al, r = ⟨false, if tbl = 0 then v else V,
      { s with dll_heap := fun a => if a = s.dll_post_hooks ∧ s.dll_post_hooks ≠ 0 then none else s.dll_heap a,
               dll_post_hooks := 0, alerts := al }⟩ := by
  have hG := gamedll.detail.ExportDllPostHooks_failure_alert V G tbl v s r hc e
  obtain ⟨al0, e0⟩ := gamedll.detail.ExportDllPostHooks_failure V G tbl v s hc hG
  rw [e0] at e
  obtain ⟨h, hd, _⟩ := map_eq_ok _ _ _ e
  obtain ⟨al, e1⟩ := gamedll.detail.ExportDllPostHooks_failure_ok V G tbl v s hc hG (Heap.delete_eq_ok _ _ _ hd)
  rw [e0] at e1
  rw [e1] at e
  exact ⟨al, (Except.ok.inj e).symm⟩

theorem gamedll.detail.ExportDllNewHooks_failure_alert (V : Int) (G : Table EngineSlot) (tbl : Addr) (v : Int)
    (s : State) (r : ExportReturn) (hc : ¬ (tbl ≠ 0 ∧ v = V))
    (e : gamedll.detail.ExportDllNewHooks V G tbl v s = Except.ok r) : G EngineSlot.alert_message ≠ 0 := by
  intro hG
  rw [gamedll.detail.ExportDllNewHooks_failure_null V G tbl v s hc hG] at e
  cases e

theorem gamedll.detail.ExportDllNewHooks_failure_inv (V : Int) (G : Table EngineSlot) (tbl : Addr) (v : Int)
    (s : State) (r : ExportReturn) (hc : ¬ (tbl ≠ 0 ∧ v = V))
    (e : gamedll.detail.ExportDllNewHooks V G tbl v s = Except.ok r) :
    ∃ al, r = ⟨false, if tbl = 0 then v else V,
      { s with dll_new_heap := fun a => if a = s.dll_new_hooks ∧ s.dll_new_hooks ≠ 0 then none else s.dll_new_heap a,
               dll_new_hooks := 0, alerts := al }⟩ := by
  have hG := gamedll.detail.ExportDllNewHooks_failure_alert V G tbl v s r hc e
  obtain ⟨al0, e0⟩ := gamedll.detail.ExportDllNewHooks_failure V G tbl v s hc hG
  rw [e0] at e
  obtain ⟨h, hd, _⟩ := map_eq_ok _ _ _ e
  obtain ⟨al, e1⟩ := gamedll.detail.ExportDllNewHooks_failure_ok V G tbl v s hc hG (Heap.delete_eq_ok _ _ _ hd)
  rw [e0] at e1
  rw [e1] at e
  exact ⟨al, (Except.ok.inj e).symm⟩

theorem gamedll.detail.ExportDllNewPostHooks_failure_alert (V : Int) (G : Table EngineSlot) (tbl : Addr) (v : Int)
    (s : State) (r : ExportReturn) (hc : ¬ (tbl ≠ 0 ∧ v = V))
    (e : gamedll.detail.ExportDllNewPostHooks V G tbl v s = Except.ok r) : G EngineSlot.alert_message ≠ 0 := by
  intro hG
  rw [gamedll.detail.ExportDllNewPostHooks_failure_null V G tbl v s hc hG] at e
  cases e

theorem gamedll.detail.ExportDllNewPostHooks_failure_inv (V : Int) (G : Table EngineSlot) (tbl : Addr) (v : Int)
    (s : State) (r : ExportReturn) (hc : ¬ (tbl ≠ 0 ∧ v = V))
    (e : gamedll.detail.ExportDllNewPostHooks V G tbl v s = Except.ok r) :
    ∃ al, r = ⟨false, if tbl = 0 then v else V,
      { s with dll_new_heap := fun a => if a = s.dll_new_post_hooks ∧ s.dll_new_post_hooks ≠ 0 then none else s.dll_new_heap a,
               dll_new_post_hooks := 0, alerts := al }⟩ := by
  have hG := gamedll.detail.ExportDllNewPostHooks_failure_alert V G tbl v s r hc e
  obtain ⟨al0, e0⟩ := gamedll.detail.ExportDllNewPostHooks_failure V G tbl v s hc hG
  rw [e0] at e
  obtain ⟨h, hd, _⟩ := map_eq_ok _ _ _ e
  obtain ⟨al, e1⟩ := gamedll.detail.ExportDllNewPostHooks_failure_ok V G tbl v s hc hG (Heap.delete_eq_ok _ _ _ hd)
  rw [e0] at e1
  rw [e1] at e
  exact ⟨al, (Except.ok.inj e).symm⟩

theorem engine.detail.ExportEngineHooks_failure_effect (V : Int) (G : Table EngineSlot) (tbl : Addr) (v : Int)
    (s : State) (r : ExportReturn) (hc : ¬ (tbl ≠ 0 ∧ v = V))
    (e : engine.detail.ExportEngineHooks V G tbl v s = Except.ok r) :
    r.ret = false ∧ r.interface_version = (if tbl = 0 then v else V) ∧
      r.state.engine_hooks = 0 ∧ r.state.engine_table false = none ∧
      (s.engine_hooks ≠ 0 → r.state.engine_heap s.engine_hooks = none) ∧
      (∀ a, a ≠ s.engine_hooks → r.state.engine_heap a = s.engine_heap a) ∧
      r.state.dll_heap = s.dll_heap ∧ r.state.dll_new_heap = s.dll_new_heap ∧
      (r.state.engine_post_hooks = s.engine_post_hooks ∧ r.state.dll_hooks = s.dll_hooks ∧ r.state.dll_post_hooks = s.dll_post_hooks ∧ r.state.dll_new_hooks = s.dll_new_hooks ∧ r.state.dll_new_post_hooks = s.dll_new_post_hooks) := by
  obtain ⟨al, hr⟩ := engine.detail.ExportEngineHooks_failure_inv V G tbl v s r hc e
  subst hr
  refine ⟨rfl, rfl, rfl, rfl, ?_, ?_, rfl, rfl, rfl, rfl, rfl, rfl, rfl⟩
  · intro h
    simp [h]
  · intro a ha
    simp [ha]

theorem engine.detail.ExportEngineHooks_failure_returns (V : Int) (G : Table EngineSlot) (tbl : Addr) (v : Int)
    (s : State) (hc : ¬ (tbl ≠ 0 ∧ v = V)) (hG : G EngineSlot.alert_message ≠ 0)
    (hl : s.engine_hooks = 0 ∨ (s.engine_heap s.engine_hooks).isSome) :
    ∃ r, engine.detail.ExportEngineHooks V G tbl v s = Except.ok r := by
  obtain ⟨al, e⟩ := engine.detail.ExportEngineHooks_failure_ok V G tbl v s hc hG hl
  exact ⟨_, e⟩

theorem engine.detail.ExportEnginePostHooks_failure_effect (V : Int) (G : Table EngineSlot) (tbl : Addr) (v : Int)
    (s : State) (r : ExportReturn) (hc : ¬ (tbl ≠ 0 ∧ v = V))
    (e : engine.detail.ExportEnginePostHooks V G tbl v s = Except.ok r) :
    r.ret = false ∧ r.interface_version = (if tbl = 0 then v else V) ∧
      r.state.engine_post_hooks = 0 ∧ r.state.engine_table true = none ∧
      (s.engine_post_hooks ≠ 0 → r.state.engine_heap s.engine_post_hooks = none) ∧
      (∀ a, a ≠ s.engine_post_hooks → r.state.engine_heap a = s.engine_heap a) ∧
      r.state.dll_heap = s.dll_heap ∧ r.state.dll_new_heap = s.dll_new_heap ∧
      (r.state.engine_hooks = s.engine_hooks ∧ r.state.dll_hooks = s.dll_hooks ∧ r.state.dll_post_hooks = s.dll_post_hooks ∧ r.state.dll_new_hooks = s.dll_new_hooks ∧ r.state.dll_new_post_hooks = s.dll_new_post_hooks) := by
  obtain ⟨al, hr⟩ := engine.detail.ExportEnginePostHooks_failure_inv V G tbl v s r hc e
  subst hr
  refine ⟨rfl, rfl, rfl, rfl, ?_, ?_, rfl, rfl, rfl, rfl, rfl, rfl, rfl⟩
  · intro h
    simp [h]
  · intro a ha
    simp [ha]

theorem engine.detail.ExportEnginePostHooks_failure_returns (V : Int) (G : Table EngineSlot) (tbl : Addr) (v : Int)
    (s : State) (hc : ¬ (tbl ≠ 0 ∧ v = V)) (hG : G EngineSlot.alert_message ≠ 0)
    (hl : s.engine_post_hooks = 0 ∨ (s.engine_heap s.engine_post_hooks).isSome) :
    ∃ r, engine.detail.ExportEnginePostHooks V G tbl v s = Except.ok r := by
  obtain ⟨al, e⟩ := engine.detail.ExportEnginePostHooks_failure_ok V G tbl v s hc hG hl
  exact ⟨_, e⟩

theorem gamedll.detail.ExportDllHooks_failure_effect (V : Int) (G : Table EngineSlot) (tbl : Addr) (v : Int)
    (s : State) (r : ExportReturn) (hc : ¬ (tbl ≠ 0 ∧ v = V))
    (e : gamedll.detail.ExportDllHooks V G tbl v s = Except.ok r) :
    r.ret = false ∧ r.interface_version = (if tbl = 0 then v else V) ∧
      r.state.dll_hooks = 0 ∧ r.state.dll_table false = none ∧
      (s.dll_hooks ≠ 0 → r.state.dll_heap s.dll_hooks = none) ∧
      (∀ a, a ≠ s.dll_hooks → r.state.dll_heap a = s.dll_heap a) ∧
      r.state.engine_heap = s.engine_heap ∧ r.state.dll_new_heap = s.dll_new_heap ∧
      (r.state.engine_hooks = s.engine_hooks ∧ r.state.engine_post_hooks = s.engine_post_hooks ∧ r.state.dll_post_hooks = s.dll_post_hooks ∧ r.state.dll_new_hooks = s.dll_new_hooks ∧ r.state.dll_new_post_hooks = s.dll_new_post_hooks) := by
  obtain ⟨al, hr⟩ := gamedll.detail.ExportDllHooks_failure_inv V G tbl v s r hc e
  subst hr
  refine ⟨rfl, rfl, rfl, rfl, ?_, ?_, rfl, rfl, rfl, rfl, rfl, rfl, rfl⟩
  · intro h
    simp [h]
  · intro a ha
    simp [ha]

theorem gamedll.detail.ExportDllHooks_failure_returns (V : Int) (G : Table EngineSlot) (tbl : Addr) (v : Int)
    (s : State) (hc : ¬ (tbl ≠ 0 ∧ v = V)) (hG : G EngineSlot.alert_message ≠ 0)
    (hl : s.dll_hooks = 0 ∨ (s.dll_heap s.dll_hooks).isSome) :
    ∃ r, gamedll.detail.ExportDllHooks V G tbl v s = Except.ok r := by
  obtain ⟨al, e⟩ := gamedll.detail.ExportDllHooks_failure_ok V G tbl v s hc hG hl
  exact ⟨_, e⟩

theorem gamedll.detail.ExportDllPostHooks_failure_effect (V : Int) (G : Table EngineSlot) (tbl : Addr) (v : Int)
    (s : State) (r : ExportReturn) (hc : ¬ (tbl ≠ 0 ∧ v = V))
    (e : gamedll.detail.ExportDllPostHooks V G tbl v s = Except.ok r) :
    r.ret = false ∧ r.interface_version = (if tbl = 0 then v else V) ∧
      r.state.dll_post_hooks = 0 ∧ r.state.dll_table true = none ∧
      (s.dll_post_hooks ≠ 0 → r.state.dll_heap s.dll_post_hooks = none) ∧
      (∀ a, a ≠ s.dll_post_hooks → r.state.dll_heap a = s.dll_heap a) ∧
      r.state.engine_heap = s.engine_heap ∧ r.state.dll_new_heap = s.dll_new_heap ∧
      (r.state.engine_hooks = s.engine_hooks ∧ r.state.engine_post_hooks = s.engine_post_hooks ∧ r.state.dll_hooks = s.dll_hooks ∧ r.state.dll_new_hooks = s.dll_new_hooks ∧ r.state.dll_new_post_hooks = s.dll_new_post_hooks) := by
  obtain ⟨al, hr⟩ := gamedll.detail.ExportDllPostHooks_failure_inv V G tbl v s r hc e
  subst hr
  refine ⟨rfl, rfl, rfl, rfl, ?_, ?_, rfl, rfl, rfl, rfl, rfl, rfl, rfl⟩
  · intro h
    simp [h]
  · intro a ha
    simp [ha]

theorem gamedll.detail.ExportDllPostHooks_failure_returns (V : Int) (G : Table EngineSlot) (tbl : Addr) (v : Int)
    (s : State) (hc : ¬ (tbl ≠ 0 ∧ v = V)) (hG : G EngineSlot.alert_message ≠ 0)
    (hl : s.dll_post_hooks = 0 ∨ (s.dll_heap s.dll_post_hooks).isSome) :
    ∃ r, gamedll.detail.ExportDllPostHooks V G tbl v s = Except.ok r := by
  obtain ⟨al, e⟩ := gamedll.detail.ExportDllPostHooks_failure_ok V G tbl v s hc hG hl
  exact ⟨_, e⟩

theorem gamedll.detail.ExportDllNewHooks_failure_effect (V : Int) (G : Table EngineSlot) (tbl : Addr) (v : Int)
    (s : State) (r : ExportReturn) (hc : ¬ (tbl ≠ 0 ∧ v = V))
    (e : gamedll.detail.ExportDllNewHooks V G tbl v s = Except.ok r) :
    r.ret = false ∧ r.interface_version = (if tbl = 0 then v else V) ∧
      r.state.dll_new_hooks = 0 ∧ r.state.dll_new_table false = none ∧
      (s.dll_new_hooks ≠ 0 → r.state.dll_new_heap s.dll_new_hooks = none) ∧
      (∀ a, a ≠ s.dll_new_hooks → r.state.dll_new_heap a = s.dll_new_heap a) ∧
      r.state.engine_heap = s.engine_heap ∧ r.state.dll_heap = s.dll_heap ∧
      (r.state.engine_hooks = s.engine_hooks ∧ r.state.engine_post_hooks = s.engine_post_hooks ∧ r.state.dll_hooks = s.dll_hooks ∧ r.state.dll_post_hooks = s.dll_post_hooks ∧ r.state.dll_new_post_hooks = s.dll_new_post_hooks) := by
  obtain ⟨al, hr⟩ := gamedll.detail.ExportDllNewHooks_failure_inv V G tbl v s r hc e
  subst hr
  refine ⟨rfl, rfl, rfl, rfl, ?_, ?_, rfl, rfl, rfl, rfl, rfl, rfl, rfl⟩
  · intro h
    simp [h]
  · intro a ha
    simp [ha]

theorem gamedll.detail.ExportDllNewHooks_failure_returns (V : Int) (G : Table EngineSlot) (tbl : Addr) (v : Int)
    (s : State) (hc : ¬ (tbl ≠ 0 ∧ v = V)) (hG : G EngineSlot.alert_message ≠ 0)
    (hl : s.dll_new_hooks = 0 ∨ (s.dll_new_heap s.dll_new_hooks).isSome) :
    ∃ r, gamedll.detail.ExportDllNewHooks V G tbl v s = Except.ok r := by
  obtain ⟨al, e⟩ := gamedll.detail.ExportDllNewHooks_failure_ok V G tbl v s hc hG hl
  exact ⟨_, e⟩

theorem gamedll.detail.ExportDllNewPostHooks_failure_effect (V : Int) (G : Table EngineSlot) (tbl : Addr) (v : Int)
    (s : State) (r : ExportReturn) (hc : ¬ (tbl ≠ 0 ∧ v = V))
    (e : gamedll.detail.ExportDllNewPostHooks V G tbl v s = Except.ok r) :
    r.ret = false ∧ r.interface_version = (if tbl = 0 then v else V) ∧
      r.state.dll_new_post_hooks = 0 ∧ r.state.dll_new_table true = none ∧
      (s.dll_new_post_hooks ≠ 0 → r.state.dll_new_heap s.dll_new_post_hooks = none) ∧
      (∀ a, a ≠ s.dll_new_post_hooks → r.state.dll_new_heap a = s.dll_new_heap a) ∧
      r.state.engine_heap = s.engine_heap ∧ r.state.dll_heap = s.dll_heap ∧
      (r.state.engine_hooks = s.engine_hooks ∧ r.state.engine_post_hooks = s.engine_post_hooks ∧ r.state.dll_hooks = s.dll_hooks ∧ r.state.dll_post_hooks = s.dll_post_hooks ∧ r.state.dll_new_hooks = s.dll_new_hooks) := by
  obtain ⟨al, hr⟩ := gamedll.detail.ExportDllNewPostHooks_failure_inv V G tbl v s r hc e
  subst hr
  refine ⟨rfl, rfl, rfl, rfl, ?_, ?_, rfl, rfl, rfl, rfl, rfl, rfl, rfl⟩
  · intro h
    simp [h]
  · intro a ha
    simp [ha]

theorem gamedll.detail.ExportDllNewPostHooks_failure_returns (V : Int) (G : Table EngineSlot) (tbl : Addr) (v : Int)
    (s : State) (hc : ¬ (tbl ≠ 0 ∧ v = V)) (hG : G EngineSlot.alert_message ≠ 0)
    (hl : s.dll_new_post_hooks = 0 ∨ (s.dll_new_heap s.dll_new_post_hooks).isSome) :
    ∃ r, gamedll.detail.ExportDllNewPostHooks V G tbl v s = Except.ok r := by
  obtain ⟨al, e⟩ := gamedll.detail.ExportDllNewPostHooks_failure_ok V G tbl v s hc hG hl
  exact ⟨_, e⟩

/-- Counterexample to C9 as stated: `ExportEngineHooks` called with a null
table pointer and the version token `140` where `138` is expected.  The token
differs from the expected version, yet after the call it still holds `140`:
the write-back sits in the `else if` branch, which a null table never
reaches. -/
theorem export_mismatch_reports_version_counterexample :
    (140 : Int) ≠ 138 ∧
    ∃ r, engine.detail.ExportEngineHooks 138 host_engine_funcs 0 140 State.hosted = Except.ok r ∧
      r.ret = false ∧ r.interface_version = 140 ∧ r.interface_version ≠ 138 :=
  ⟨by decide, _, rfl, rfl, rfl, by decide⟩

/-- C9 (amended): a version-mismatched export with a non-null caller's table
reports the plugin's own version back.  For every export call whose version
token differs from the expected version of that interface, a call that returns
returns false, and the token afterwards holds the expected version when the
caller's table pointer is non-null and is left as it was when the pointer is
null.  The call returns provided the function pointer `alert_message` of
`g_engine_funcs`, through which the mismatch is logged first, is non-null and
the live pointer is null or refers to a table; with a null `alert_message` it
ends in the call through that pointer, the token not written. -/
theorem export_mismatch_reports_version :
    ((∀ (V : Int) (G : Table EngineSlot) (tbl : Addr) (v : Int) (s : State) (r : ExportReturn),
        engine.detail.ExportEngineHooks V G tbl v s = Except.ok r → v ≠ V →
        r.ret = false ∧ (tbl ≠ 0 → r.interface_version = V) ∧
          (tbl = 0 → r.interface_version = v)) ∧
      (∀ (V : Int) (G : Table EngineSlot) (tbl : Addr) (v : Int) (s : State),
        v ≠ V → G EngineSlot.alert_message ≠ 0 →
        (s.engine_hooks = 0 ∨ (s.engine_heap s.engine_hooks).isSome) →
        ∃ r, engine.detail.ExportEngineHooks V G tbl v s = Except.ok r ∧ r.ret = false ∧
          (tbl ≠ 0 → r.interface_version = V) ∧ (tbl = 0 → r.interface_version = v)) ∧
      (∀ (V : Int) (G : Table EngineSlot) (tbl : Addr) (v : Int) (s : State),
        v ≠ V → G EngineSlot.alert_message = 0 →
        engine.detail.ExportEngineHooks V G tbl v s = Except.error Fault.null_pointer)) ∧
    ((∀ (V : Int) (G : Table EngineSlot) (tbl : Addr) (v : Int) (s : State) (r : ExportReturn),
        engine.detail.ExportEnginePostHooks V G tbl v s = Except.ok r → v ≠ V →
        r.ret = false ∧ (tbl ≠ 0 → r.interface_version = V) ∧
          (tbl = 0 → r.interface_version = v)) ∧
      (∀ (V : Int) (G : Table EngineSlot) (tbl : Addr) (v : Int) (s : State),
        v ≠ V → G EngineSlot.alert_message ≠ 0 →
        (s.engine_post_hooks = 0 ∨ (s.engine_heap s.engine_post_hooks).isSome) →
        ∃ r, engine.detail.ExportEnginePostHooks V G tbl v s = Except.ok r ∧ r.ret = false ∧
          (tbl ≠ 0 → r.interface_version = V) ∧ (tbl = 0 → r.interface_version = v)) ∧
      (∀ (V : Int) (G : Table EngineSlot) (tbl : Addr) (v : Int) (s : State),
        v ≠ V → G EngineSlot.alert_message = 0 →
        engine.detail.ExportEnginePostHooks V G tbl v s = Except.error Fault.null_pointer)) ∧
    ((∀ (V : Int) (G : Table EngineSlot) (tbl : Addr) (v : Int) (s : State) (r : ExportReturn),
        gamedll.detail.ExportDllHooks V G tbl v s = Except.ok r → v ≠ V →
        r.ret = false ∧ (tbl ≠ 0 → r.interface_version = V) ∧
          (tbl = 0 → r.interface_version = v)) ∧
      (∀ (V : Int) (G : Table EngineSlot) (tbl : Addr) (v : Int) (s : State),
        v ≠ V → G EngineSlot.alert_message ≠ 0 →
        (s.dll_hooks = 0 ∨ (s.dll_heap s.dll_hooks).isSome) →
        ∃ r, gamedll.detail.ExportDllHooks V G tbl v s = Except.ok r ∧ r.ret = false ∧
          (tbl ≠ 0 → r.interface_version = V) ∧ (tbl = 0 → r.interface_version = v)) ∧
      (∀ (V : Int) (G : Table EngineSlot) (tbl : Addr) (v : Int) (s : State),
        v ≠ V → G EngineSlot.alert_message = 0 →
        gamedll.detail.ExportDllHooks V G tbl v s = Except.error Fault.null_pointer)) ∧
    ((∀ (V : Int) (G : Table EngineSlot) (tbl : Addr) (v : Int) (s : State) (r : ExportReturn),
        gamedll.detail.ExportDllPostHooks V G tbl v s = Except.ok r → v ≠ V →
        r.ret = false ∧ (tbl ≠ 0 → r.interface_version = V) ∧
          (tbl = 0 → r.interface_version = v)) ∧
      (∀ (V : Int) (G : Table EngineSlot) (tbl : Addr) (v : Int) (s : State),
        v ≠ V → G EngineSlot.alert_message ≠ 0 →
        (s.dll_post_hooks = 0 ∨ (s.dll_heap s.dll_post_hooks).isSome) →
        ∃ r, gamedll.detail.ExportDllPostHooks V G tbl v s = Except.ok r ∧ r.ret = false ∧
          (tbl ≠ 0 → r.interface_version = V) ∧ (tbl = 0 → r.interface_version = v)) ∧
      (∀ (V : Int) (G : Table EngineSlot) (tbl : Addr) (v : Int) (s : State),
        v ≠ V → G EngineSlot.alert_message = 0 →
        gamedll.detail.ExportDllPostHooks V G tbl v s = Except.error Fault.null_pointer)) ∧
    ((∀ (V : Int) (G : Table EngineSlot) (tbl : Addr) (v : Int) (s : State) (r : ExportReturn),
        gamedll.detail.ExportDllNewHooks V G tbl v s = Except.ok r → v ≠ V →
        r.ret = false ∧ (tbl ≠ 0 → r.interface_version = V) ∧
          (tbl = 0 → r.interface_version = v)) ∧
      (∀ (V : Int) (G : Table EngineSlot) (tbl : Addr) (v : Int) (s : State),
        v ≠ V → G EngineSlot.alert_message ≠ 0 →
        (s.dll_new_hooks = 0 ∨ (s.dll_new_heap s.dll_new_hooks).isSome) →
        ∃ r, gamedll.detail.ExportDllNewHooks V G tbl v s = Except.ok r ∧ r.ret = false ∧
          (tbl ≠ 0 → r.interface_version = V) ∧ (tbl = 0 → r.interface_version = v)) ∧
      (∀ (V : Int) (G : Table EngineSlot) (tbl : Addr) (v : Int) (s : State),
        v ≠ V → G EngineSlot.alert_message = 0 →
        gamedll.detail.ExportDllNewHooks V G tbl v s = Except.error Fault.null_pointer)) ∧
    ((∀ (V : Int) (G : Table EngineSlot) (tbl : Addr) (v : Int) (s : State) (r : ExportReturn),
        gamedll.detail.ExportDllNewPostHooks V G tbl v s = Except.ok r → v ≠ V →
        r.ret = false ∧ (tbl ≠ 0 → r.interface_version = V) ∧
          (tbl = 0 → r.interface_version = v)) ∧
      (∀ (V : Int) (G : Table EngineSlot) (tbl : Addr) (v : Int) (s : State),
        v ≠ V → G EngineSlot.alert_message ≠ 0 →
        (s.dll_new_post_hooks = 0 ∨ (s.dll_new_heap s.dll_new_post_hooks).isSome) →
        ∃ r, gamedll.detail.ExportDllNewPostHooks V G tbl v s = Except.ok r ∧ r.ret = false ∧
          (tbl ≠ 0 → r.interface_version = V) ∧ (tbl = 0 → r.interface_version = v)) ∧
      (∀ (V : Int) (G : Table EngineSlot) (tbl : Addr) (v : Int) (s : State),
        v ≠ V → G EngineSlot.alert_message = 0 →
        gamedll.detail.ExportDllNewPostHooks V G tbl v s = Except.error Fault.null_pointer)) := by
  refine ⟨?_, ?_, ?_, ?_, ?_, ?_⟩
  · have key : ∀ (V : Int) (G : Table EngineSlot) (tbl : Addr) (v : Int) (s : State)
        (r : ExportReturn), engine.detail.ExportEngineHooks V G tbl v s = Except.ok r → v ≠ V →
        r.ret = false ∧ (tbl ≠ 0 → r.interface_version = V) ∧
          (tbl = 0 → r.interface_version = v) := by
      intro V G tbl v s r e hv
      obtain ⟨h1, h2, _⟩ :=
        engine.detail.ExportEngineHooks_failure_effect V G tbl v s r (fun h => hv h.2) e
      refine ⟨h1, fun ht => ?_, fun ht => ?_⟩
      · rw [h2, if_neg ht]
      · rw [h2, if_pos ht]
    refine ⟨key, ?_, ?_⟩
    · intro V G tbl v s hv hG hl
      obtain ⟨r, e⟩ :=
        engine.detail.ExportEngineHooks_failure_returns V G tbl v s (fun h => hv h.2) hG hl
      exact ⟨r, e, key V G tbl v s r e hv⟩
    · intro V G tbl v s hv hG
      exact engine.detail.ExportEngineHooks_failure_null V G tbl v s (fun h => hv h.2) hG
  · have key : ∀ (V : Int) (G : Table EngineSlot) (tbl : Addr) (v : Int) (s : State)
        (r : ExportReturn), engine.detail.ExportEnginePostHooks V G tbl v s = Except.ok r → v ≠ V →
        r.ret = false ∧ (tbl ≠ 0 → r.interface_version = V) ∧
          (tbl = 0 → r.interface_version = v) := by
      intro V G tbl v s r e hv
      obtain ⟨h1, h2, _⟩ :=
        engine.detail.ExportEnginePostHooks_failure_effect V G tbl v s r (fun h => hv h.2) e
      refine ⟨h1, fun ht => ?_, fun ht => ?_⟩
      · rw [h2, if_neg ht]
      · rw [h2, if_pos ht]
    refine ⟨key, ?_, ?_⟩
    · intro V G tbl v s hv hG hl
      obtain ⟨r, e⟩ :=
        engine.detail.ExportEnginePostHooks_failure_returns V G tbl v s (fun h => hv h.2) hG hl
      exact ⟨r, e, key V G tbl v s r e hv⟩
    · intro V G tbl v s hv hG
      exact engine.detail.ExportEnginePostHooks_failure_null V G tbl v s (fun h => hv h.2) hG
  · have key : ∀ (V : Int) (G : Table EngineSlot) (tbl : Addr) (v : Int) (s : State)
        (r : ExportReturn), gamedll.detail.ExportDllHooks V G tbl v s = Except.ok r → v ≠ V →
        r.ret = false ∧ (tbl ≠ 0 → r.interface_version = V) ∧
          (tbl = 0 → r.interface_version = v) := by
      intro V G tbl v s r e hv
      obtain ⟨h1, h2, _⟩ :=
        gamedll.detail.ExportDllHooks_failure_effect V G tbl v s r (fun h => hv h.2) e
      refine ⟨h1, fun ht => ?_, fun ht => ?_⟩
      · rw [h2, if_neg ht]
      · rw [h2, if_pos ht]
    refine ⟨key, ?_, ?_⟩
    · intro V G tbl v s hv hG hl
      obtain ⟨r, e⟩ :=
        gamedll.detail.ExportDllHooks_failure_returns V G tbl v s (fun h => hv h.2) hG hl
      exact ⟨r, e, key V G tbl v s r e hv⟩
    · intro V G tbl v s hv hG
      exact gamedll.detail.ExportDllHooks_failure_null V G tbl v s (fun h => hv h.2) hG
  · have key : ∀ (V : Int) (G : Table EngineSlot) (tbl : Addr) (v : Int) (s : State)
        (r : ExportReturn), gamedll.detail.ExportDllPostHooks V G tbl v s = Except.ok r → v ≠ V →
        r.ret = false ∧ (tbl ≠ 0 → r.interface_version = V) ∧
          (tbl = 0 → r.interface_version = v) := by
      intro V G tbl v s r e hv
      obtain ⟨h1, h2, _⟩ :=
        gamedll.detail.ExportDllPostHooks_failure_effect V G tbl v s r (fun h => hv h.2) e
      refine ⟨h1, fun ht => ?_, fun ht => ?_⟩
      · rw [h2, if_neg ht]
      · rw [h2, if_pos ht]
    refine ⟨key, ?_, ?_⟩
    · intro V G tbl v s hv hG hl
      obtain ⟨r, e⟩ :=
        gamedll.detail.ExportDllPostHooks_failure_returns V G tbl v s (fun h => hv h.2) hG hl
      exact ⟨r, e, key V G tbl v s r e hv⟩
    · intro V G tbl v s hv hG
      exact gamedll.detail.ExportDllPostHooks_failure_null V G tbl v s (fun h => hv h.2) hG
  · have key : ∀ (V : Int) (G : Table EngineSlot) (tbl : Addr) (v : Int) (s : State)
        (r : ExportReturn), gamedll.detail.ExportDllNewHooks V G tbl v s = Except.ok r → v ≠ V →
        r.ret = false ∧ (tbl ≠ 0 → r.interface_version = V) ∧
          (tbl = 0 → r.interface_version = v) := by
      intro V G tbl v s r e hv
      obtain ⟨h1, h2, _⟩ :=
        gamedll.detail.ExportDllNewHooks_failure_effect V G tbl v s r (fun h => hv h.2) e
      refine ⟨h1, fun ht => ?_, fun ht => ?_⟩
      · rw [h2, if_neg ht]
      · rw [h2, if_pos ht]
    refine ⟨key, ?_, ?_⟩
    · intro V G tbl v s hv hG hl
      obtain ⟨r, e⟩ :=
        gamedll.detail.ExportDllNewHooks_failure_returns V G tbl v s (fun h => hv h.2) hG hl
      exact ⟨r, e, key V G tbl v s r e hv⟩
    · intro V G tbl v s hv hG
      exact gamedll.detail.ExportDllNewHooks_failure_null V G tbl v s (fun h => hv h.2) hG
  · have key : ∀ (V : Int) (G : Table EngineSlot) (tbl : Addr) (v : Int) (s : State)
        (r : ExportReturn), gamedll.detail.ExportDllNewPostHooks V G tbl v s = Except.ok r → v ≠ V →
        r.ret = false ∧ (tbl ≠ 0 → r.interface_version = V) ∧
          (tbl = 0 → r.interface_version = v) := by
      intro V G tbl v s r e hv
      obtain ⟨h1, h2, _⟩ :=
        gamedll.detail.ExportDllNewPostHooks_failure_effect V G tbl v s r (fun h => hv h.2) e
      refine ⟨h1, fun ht => ?_, fun ht => ?_⟩
      · rw [h2, if_neg ht]
      · rw [h2, if_pos ht]
    refine ⟨key, ?_, ?_⟩
    · intro V G tbl v s hv hG hl
      obtain ⟨r, e⟩ :=
        gamedll.detail.ExportDllNewPostHooks_failure_returns V G tbl v s (fun h => hv h.2) hG hl
      exact ⟨r, e, key V G tbl v s r e hv⟩
    · intro V G tbl v s hv hG
      exact gamedll.detail.ExportDllNewPostHooks_failure_null V G tbl v s (fun h => hv h.2) hG

/-- Witness for C9 (amended): `ExportDllHooks` called on the host table at
address `3` with version token `139` where `140` is expected, the host's
`alert_message` at hand. -/
theorem export_mismatch_reports_version_witness :
    ∃ r, gamedll.detail.ExportDllHooks 140 host_engine_funcs 3 139 State.hosted =
        Except.ok r ∧ r.ret = false ∧
      ((3 : Addr) ≠ 0 → r.interface_version = 140) ∧
      ((3 : Addr) = 0 → r.interface_version = 139) :=
  (export_mismatch_reports_version.2.2.1).2.1 140 host_engine_funcs 3 139 State.hosted
    (by decide) (by decide) (Or.inr rfl)

/-- Counterexample to C10 as stated: `ExportEngineHooks` called on the host
table at address `3` with the version token `140` where `138` is expected.
Before the call the live engine pre-hook table is the table at address `1`,
holding callback `77`; after the call `engine_hooks` is null and that table
has been deleted, so the live table is not the same table as before. -/
theorem export_mismatch_keeps_live_table_counterexample :
    (140 : Int) ≠ 138 ∧
    State.hosted.engine_hooks = 1 ∧
    State.hosted.engine_table false =
      some (fun m => if m = EngineSlot.precache_model then 77 else Table.zero m) ∧
    ∃ r, engine.detail.ExportEngineHooks 138 host_engine_funcs 3 140 State.hosted = Except.ok r ∧
      r.state.engine_hooks = 0 ∧ r.state.engine_hooks ≠ State.hosted.engine_hooks ∧
      r.state.engine_table false = none ∧
      r.state.engine_table false ≠ State.hosted.engine_table false ∧
      r.state.engine_heap 1 = none :=
  ⟨by decide, rfl, rfl, _, rfl, rfl, by decide, rfl, fun h => Option.noConfusion h, rfl⟩

/-- C10 (amended): a version-mismatched export never makes the caller's table
the live table; it discards the live table.  For every export call whose
version token differs from the expected version, made with the function
pointer `alert_message` of `g_engine_funcs` non-null and the live pointer of
that interface null or referring to a table, the call returns false, the live
pointer of that interface is null afterwards, the table it referred to has
been deleted, and every other table of every interface keeps its contents and
the other five pointers their values; every call that returns has these
effects.  With a null `alert_message` the call ends in the call through that
pointer. -/
theorem export_mismatch_discards_live_table :
    ((∀ (V : Int) (G : Table EngineSlot) (tbl : Addr) (v : Int) (s : State),
        v ≠ V → G EngineSlot.alert_message ≠ 0 →
        (s.engine_hooks = 0 ∨ (s.engine_heap s.engine_hooks).isSome) →
        ∃ r, engine.detail.ExportEngineHooks V G tbl v s = Except.ok r ∧
          r.ret = false ∧ r.state.engine_hooks = 0 ∧ r.state.engine_table false = none ∧
          (s.engine_hooks ≠ 0 → r.state.engine_heap s.engine_hooks = none) ∧
          (∀ a, a ≠ s.engine_hooks → r.state.engine_heap a = s.engine_heap a) ∧
          r.state.dll_heap = s.dll_heap ∧ r.state.dll_new_heap = s.dll_new_heap ∧
          (r.state.engine_post_hooks = s.engine_post_hooks ∧ r.state.dll_hooks = s.dll_hooks ∧ r.state.dll_post_hooks = s.dll_post_hooks ∧ r.state.dll_new_hooks = s.dll_new_hooks ∧ r.state.dll_new_post_hooks = s.dll_new_post_hooks)) ∧
      (∀ (V : Int) (G : Table EngineSlot) (tbl : Addr) (v : Int) (s : State) (r : ExportReturn),
        engine.detail.ExportEngineHooks V G tbl v s = Except.ok r → v ≠ V →
          r.ret = false ∧ r.state.engine_hooks = 0 ∧ r.state.engine_table false = none ∧
          (s.engine_hooks ≠ 0 → r.state.engine_heap s.engine_hooks = none) ∧
          (∀ a, a ≠ s.engine_hooks → r.state.engine_heap a = s.engine_heap a) ∧
          r.state.dll_heap = s.dll_heap ∧ r.state.dll_new_heap = s.dll_new_heap ∧
          (r.state.engine_post_hooks = s.engine_post_hooks ∧ r.state.dll_hooks = s.dll_hooks ∧ r.state.dll_post_hooks = s.dll_post_hooks ∧ r.state.dll_new_hooks = s.dll_new_hooks ∧ r.state.dll_new_post_hooks = s.dll_new_post_hooks)) ∧
      (∀ (V : Int) (G : Table EngineSlot) (tbl : Addr) (v : Int) (s : State),
        v ≠ V → G EngineSlot.alert_message = 0 →
        engine.detail.ExportEngineHooks V G tbl v s = Except.error Fault.null_pointer)) ∧
    ((∀ (V : Int) (G : Table EngineSlot) (tbl : Addr) (v : Int) (s : State),
        v ≠ V → G EngineSlot.alert_message ≠ 0 →
        (s.engine_post_hooks = 0 ∨ (s.engine_heap s.engine_post_hooks).isSome) →
        ∃ r, engine.detail.ExportEnginePostHooks V G tbl v s = Except.ok r ∧
          r.ret = false ∧ r.state.engine_post_hooks = 0 ∧ r.state.engine_table true = none ∧
          (s.engine_post_hooks ≠ 0 → r.state.engine_heap s.engine_post_hooks = none) ∧
          (∀ a, a ≠ s.engine_post_hooks → r.state.engine_heap a = s.engine_heap a) ∧
          r.state.dll_heap = s.dll_heap ∧ r.state.dll_new_heap = s.dll_new_heap ∧
          (r.state.engine_hooks = s.engine_hooks ∧ r.state.dll_hooks = s.dll_hooks ∧ r.state.dll_post_hooks = s.dll_post_hooks ∧ r.state.dll_new_hooks = s.dll_new_hooks ∧ r.state.dll_new_post_hooks = s.dll_new_post_hooks)) ∧
      (∀ (V : Int) (G : Table EngineSlot) (tbl : Addr) (v : Int) (s : State) (r : ExportReturn),
        engine.detail.ExportEnginePostHooks V G tbl v s = Except.ok r → v ≠ V →
          r.ret = false ∧ r.state.engine_post_hooks = 0 ∧ r.state.engine_table true = none ∧
          (s.engine_post_hooks ≠ 0 → r.state.engine_heap s.engine_post_hooks = none) ∧
          (∀ a, a ≠ s.engine_post_hooks → r.state.engine_heap a = s.engine_heap a) ∧
          r.state.dll_heap = s.dll_heap ∧ r.state.dll_new_heap = s.dll_new_heap ∧
          (r.state.engine_hooks = s.engine_hooks ∧ r.state.dll_hooks = s.dll_hooks ∧ r.state.dll_post_hooks = s.dll_post_hooks ∧ r.state.dll_new_hooks = s.dll_new_hooks ∧ r.state.dll_new_post_hooks = s.dll_new_post_hooks)) ∧
      (∀ (V : Int) (G : Table EngineSlot) (tbl : Addr) (v : Int) (s : State),
        v ≠ V → G EngineSlot.alert_message = 0 →
        engine.detail.ExportEnginePostHooks V G tbl v s = Except.error Fault.null_pointer)) ∧
    ((∀ (V : Int) (G : Table EngineSlot) (tbl : Addr) (v : Int) (s : State),
        v ≠ V → G EngineSlot.alert_message ≠ 0 →
        (s.dll_hooks = 0 ∨ (s.dll_heap s.dll_hooks).isSome) →
        ∃ r, gamedll.detail.ExportDllHooks V G tbl v s = Except.ok r ∧
          r.ret = false ∧ r.state.dll_hooks = 0 ∧ r.state.dll_table false = none ∧
          (s.dll_hooks ≠ 0 → r.state.dll_heap s.dll_hooks = none) ∧
          (∀ a, a ≠ s.dll_hooks → r.state.dll_heap a = s.dll_heap a) ∧
          r.state.engine_heap = s.engine_heap ∧ r.state.dll_new_heap = s.dll_new_heap ∧
          (r.state.engine_hooks = s.engine_hooks ∧ r.state.engine_post_hooks = s.engine_post_hooks ∧ r.state.dll_post_hooks = s.dll_post_hooks ∧ r.state.dll_new_hooks = s.dll_new_hooks ∧ r.state.dll_new_post_hooks = s.dll_new_post_hooks)) ∧
      (∀ (V : Int) (G : Table EngineSlot) (tbl : Addr) (v : Int) (s : State) (r : ExportReturn),
        gamedll.detail.ExportDllHooks V G tbl v s = Except.ok r → v ≠ V →
          r.ret = false ∧ r.state.dll_hooks = 0 ∧ r.state.dll_table false = none ∧
          (s.dll_hooks ≠ 0 → r.state.dll_heap s.dll_hooks = none) ∧
          (∀ a, a ≠ s.dll_hooks → r.state.dll_heap a = s.dll_heap a) ∧
          r.state.engine_heap = s.engine_heap ∧ r.state.dll_new_heap = s.dll_new_heap ∧
          (r.state.engine_hooks = s.engine_hooks ∧ r.state.engine_post_hooks = s.engine_post_hooks ∧ r.state.dll_post_hooks = s.dll_post_hooks ∧ r.state.dll_new_hooks = s.dll_new_hooks ∧ r.state.dll_new_post_hooks = s.dll_new_post_hooks)) ∧
      (∀ (V : Int) (G : Table EngineSlot) (tbl : Addr) (v : Int) (s : State),
        v ≠ V → G EngineSlot.alert_message = 0 →
        gamedll.detail.ExportDllHooks V G tbl v s = Except.error Fault.null_pointer)) ∧
    ((∀ (V : Int) (G : Table EngineSlot) (tbl : Addr) (v : Int) (s : State),
        v ≠ V → G EngineSlot.alert_message ≠ 0 →
        (s.dll_post_hooks = 0 ∨ (s.dll_heap s.dll_post_hooks).isSome) →
        ∃ r, gamedll.detail.ExportDllPostHooks V G tbl v s = Except.ok r ∧
          r.ret = false ∧ r.state.dll_post_hooks = 0 ∧ r.state.dll_table true = none ∧
          (s.dll_post_hooks ≠ 0 → r.state.dll_heap s.dll_post_hooks = none) ∧
          (∀ a, a ≠ s.dll_post_hooks → r.state.dll_heap a = s.dll_heap a) ∧
          r.state.engine_heap = s.engine_heap ∧ r.state.dll_new_heap = s.dll_new_heap ∧
          (r.state.engine_hooks = s.engine_hooks ∧ r.state.engine_post_hooks = s.engine_post_hooks ∧ r.state.dll_hooks = s.dll_hooks ∧ r.state.dll_new_hooks = s.dll_new_hooks ∧ r.state.dll_new_post_hooks = s.dll_new_post_hooks)) ∧
      (∀ (V : Int) (G : Table EngineSlot) (tbl : Addr) (v : Int) (s : State) (r : ExportReturn),
        gamedll.detail.ExportDllPostHooks V G tbl v s = Except.ok r → v ≠ V →
          r.ret = false ∧ r.state.dll_post_hooks = 0 ∧ r.state.dll_table true = none ∧
          (s.dll_post_hooks ≠ 0 → r.state.dll_heap s.dll_post_hooks = none) ∧
          (∀ a, a ≠ s.dll_post_hooks → r.state.dll_heap a = s.dll_heap a) ∧
          r.state.engine_heap = s.engine_heap ∧ r.state.dll_new_heap = s.dll_new_heap ∧
          (r.state.engine_hooks = s.engine_hooks ∧ r.state.engine_post_hooks = s.engine_post_hooks ∧ r.state.dll_hooks = s.dll_hooks ∧ r.state.dll_new_hooks = s.dll_new_hooks ∧ r.state.dll_new_post_hooks = s.dll_new_post_hooks)) ∧
      (∀ (V : Int) (G : Table EngineSlot) (tbl : Addr) (v : Int) (s : State),
        v ≠ V → G EngineSlot.alert_message = 0 →
        gamedll.detail.ExportDllPostHooks V G tbl v s = Except.error Fault.null_pointer)) ∧
    ((∀ (V : Int) (G : Table EngineSlot) (tbl : Addr) (v : Int) (s : State),
        v ≠ V → G EngineSlot.alert_message ≠ 0 →
        (s.dll_new_hooks = 0 ∨ (s.dll_new_heap s.dll_new_hooks).isSome) →
        ∃ r, gamedll.detail.ExportDllNewHooks V G tbl v s = Except.ok r ∧
          r.ret = false ∧ r.state.dll_new_hooks = 0 ∧ r.state.dll_new_table false = none ∧
          (s.dll_new_hooks ≠ 0 → r.state.dll_new_heap s.dll_new_hooks = none) ∧
          (∀ a, a ≠ s.dll_new_hooks → r.state.dll_new_heap a = s.dll_new_heap a) ∧
          r.state.engine_heap = s.engine_heap ∧ r.state.dll_heap = s.dll_heap ∧
          (r.state.engine_hooks = s.engine_hooks ∧ r.state.engine_post_hooks = s.engine_post_hooks ∧ r.state.dll_hooks = s.dll_hooks ∧ r.state.dll_post_hooks = s.dll_post_hooks ∧ r.state.dll_new_post_hooks = s.dll_new_post_hooks)) ∧
      (∀ (V : Int) (G : Table EngineSlot) (tbl : Addr) (v : Int) (s : State) (r : ExportReturn),
        gamedll.detail.ExportDllNewHooks V G tbl v s = Except.ok r → v ≠ V →
          r.ret = false ∧ r.state.dll_new_hooks = 0 ∧ r.state.dll_new_table false = none ∧
          (s.dll_new_hooks ≠ 0 → r.state.dll_new_heap s.dll_new_hooks = none) ∧
          (∀ a, a ≠ s.dll_new_hooks → r.state.dll_new_heap a = s.dll_new_heap a) ∧
          r.state.engine_heap = s.engine_heap ∧ r.state.dll_heap = s.dll_heap ∧
          (r.state.engine_hooks = s.engine_hooks ∧ r.state.engine_post_hooks = s.engine_post_hooks ∧ r.state.dll_hooks = s.dll_hooks ∧ r.state.dll_post_hooks = s.dll_post_hooks ∧ r.state.dll_new_post_hooks = s.dll_new_post_hooks)) ∧
      (∀ (V : Int) (G : Table EngineSlot) (tbl : Addr) (v : Int) (s : State),
        v ≠ V → G EngineSlot.alert_message = 0 →
        gamedll.detail.ExportDllNewHooks V G tbl v s = Except.error Fault.null_pointer)) ∧
    ((∀ (V : Int) (G : Table EngineSlot) (tbl : Addr) (v : Int) (s : State),
        v ≠ V → G EngineSlot.alert_message ≠ 0 →
        (s.dll_new_post_hooks = 0 ∨ (s.dll_new_heap s.dll_new_post_hooks).isSome) →
        ∃ r, gamedll.detail.ExportDllNewPostHooks V G tbl v s = Except.ok r ∧
          r.ret = false ∧ r.state.dll_new_post_hooks = 0 ∧ r.state.dll_new_table true = none ∧
          (s.dll_new_post_hooks ≠ 0 → r.state.dll_new_heap s.dll_new_post_hooks = none) ∧
          (∀ a, a ≠ s.dll_new_post_hooks → r.state.dll_new_heap a = s.dll_new_heap a) ∧
          r.state.engine_heap = s.engine_heap ∧ r.state.dll_heap = s.dll_heap ∧
          (r.state.engine_hooks = s.engine_hooks ∧ r.state.engine_post_hooks = s.engine_post_hooks ∧ r.state.dll_hooks = s.dll_hooks ∧ r.state.dll_post_hooks = s.dll_post_hooks ∧ r.state.dll_new_hooks = s.dll_new_hooks)) ∧
      (∀ (V : Int) (G : Table EngineSlot) (tbl : Addr) (v : Int) (s : State) (r : ExportReturn),
        gamedll.detail.ExportDllNewPostHooks V G tbl v s = Except.ok r → v ≠ V →
          r.ret = false ∧ r.state.dll_new_post_hooks = 0 ∧ r.state.dll_new_table true = none ∧
          (s.dll_new_post_hooks ≠ 0 → r.state.dll_new_heap s.dll_new_post_hooks = none) ∧
          (∀ a, a ≠ s.dll_new_post_hooks → r.state.dll_new_heap a = s.dll_new_heap a) ∧
          r.state.engine_heap = s.engine_heap ∧ r.state.dll_heap = s.dll_heap ∧
          (r.state.engine_hooks = s.engine_hooks ∧ r.state.engine_post_hooks = s.engine_post_hooks ∧ r.state.dll_hooks = s.dll_hooks ∧ r.state.dll_post_hooks = s.dll_post_hooks ∧ r.state.dll_new_hooks = s.dll_new_hooks)) ∧
      (∀ (V : Int) (G : Table EngineSlot) (tbl : Addr) (v : Int) (s : State),
        v ≠ V → G EngineSlot.alert_message = 0 →
        gamedll.detail.ExportDllNewPostHooks V G tbl v s = Except.error Fault.null_pointer)) := by
  refine ⟨?_, ?_, ?_, ?_, ?_, ?_⟩
  · have key : ∀ (V : Int) (G : Table EngineSlot) (tbl : Addr) (v : Int) (s : State)
        (r : ExportReturn), engine.detail.ExportEngineHooks V G tbl v s = Except.ok r → v ≠ V →
          r.ret = false ∧ r.state.engine_hooks = 0 ∧ r.state.engine_table false = none ∧
          (s.engine_hooks ≠ 0 → r.state.engine_heap s.engine_hooks = none) ∧
          (∀ a, a ≠ s.engine_hooks → r.state.engine_heap a = s.engine_heap a) ∧
          r.state.dll_heap = s.dll_heap ∧ r.state.dll_new_heap = s.dll_new_heap ∧
          (r.state.engine_post_hooks = s.engine_post_hooks ∧ r.state.dll_hooks = s.dll_hooks ∧ r.state.dll_post_hooks = s.dll_post_hooks ∧ r.state.dll_new_hooks = s.dll_new_hooks ∧ r.state.dll_new_post_hooks = s.dll_new_post_hooks) := by
      intro V G tbl v s r e hv
      obtain ⟨h1, _, h3, h4, h5, h6, h7, h8, h9⟩ :=
        engine.detail.ExportEngineHooks_failure_effect V G tbl v s r (fun h => hv h.2) e
      exact ⟨h1, h3, h4, h5, h6, h7, h8, h9⟩
    refine ⟨?_, key, ?_⟩
    · intro V G tbl v s hv hG hl
      obtain ⟨r, e⟩ :=
        engine.detail.ExportEngineHooks_failure_returns V G tbl v s (fun h => hv h.2) hG hl
      exact ⟨r, e, key V G tbl v s r e hv⟩
    · intro V G tbl v s hv hG
      exact engine.detail.ExportEngineHooks_failure_null V G tbl v s (fun h => hv h.2) hG
  · have key : ∀ (V : Int) (G : Table EngineSlot) (tbl : Addr) (v : Int) (s : State)
        (r : ExportReturn), engine.detail.ExportEnginePostHooks V G tbl v s = Except.ok r → v ≠ V →
          r.ret = false ∧ r.state.engine_post_hooks = 0 ∧ r.state.engine_table true = none ∧
          (s.engine_post_hooks ≠ 0 → r.state.engine_heap s.engine_post_hooks = none) ∧
          (∀ a, a ≠ s.engine_post_hooks → r.state.engine_heap a = s.engine_heap a) ∧
          r.state.dll_heap = s.dll_heap ∧ r.state.dll_new_heap = s.dll_new_heap ∧
          (r.state.engine_hooks = s.engine_hooks ∧ r.state.dll_hooks = s.dll_hooks ∧ r.state.dll_post_hooks = s.dll_post_hooks ∧ r.state.dll_new_hooks = s.dll_new_hooks ∧ r.state.dll_new_post_hooks = s.dll_new_post_hooks) := by
      intro V G tbl v s r e hv
      obtain ⟨h1, _, h3, h4, h5, h6, h7, h8, h9⟩ :=
        engine.detail.ExportEnginePostHooks_failure_effect V G tbl v s r (fun h => hv h.2) e
      exact ⟨h1, h3, h4, h5, h6, h7, h8, h9⟩
    refine ⟨?_, key, ?_⟩
    · intro V G tbl v s hv hG hl
      obtain ⟨r, e⟩ :=
        engine.detail.ExportEnginePostHooks_failure_returns V G tbl v s (fun h => hv h.2) hG hl
      exact ⟨r, e, key V G tbl v s r e hv⟩
    · intro V G tbl v s hv hG
      exact engine.detail.ExportEnginePostHooks_failure_null V G tbl v s (fun h => hv h.2) hG
  · have key : ∀ (V : Int) (G : Table EngineSlot) (tbl : Addr) (v : Int) (s : State)
        (r : ExportReturn), gamedll.detail.ExportDllHooks V G tbl v s = Except.ok r → v ≠ V →
          r.ret = false ∧ r.state.dll_hooks = 0 ∧ r.state.dll_table false = none ∧
          (s.dll_hooks ≠ 0 → r.state.dll_heap s.dll_hooks = none) ∧
          (∀ a, a ≠ s.dll_hooks → r.state.dll_heap a = s.dll_heap a) ∧
          r.state.engine_heap = s.engine_heap ∧ r.state.dll_new_heap = s.dll_new_heap ∧
          (r.state.engine_hooks = s.engine_hooks ∧ r.state.engine_post_hooks = s.engine_post_hooks ∧ r.state.dll_post_hooks = s.dll_post_hooks ∧ r.state.dll_new_hooks = s.dll_new_hooks ∧ r.state.dll_new_post_hooks = s.dll_new_post_hooks) := by
      intro V G tbl v s r e hv
      obtain ⟨h1, _, h3, h4, h5, h6, h7, h8, h9⟩ :=
        gamedll.detail.ExportDllHooks_failure_effect V G tbl v s r (fun h => hv h.2) e
      exact ⟨h1, h3, h4, h5, h6, h7, h8, h9⟩
    refine ⟨?_, key, ?_⟩
    · intro V G tbl v s hv hG hl
      obtain ⟨r, e⟩ :=
        gamedll.detail.ExportDllHooks_failure_returns V G tbl v s (fun h => hv h.2) hG hl
      exact ⟨r, e, key V G tbl v s r e hv⟩
    · intro V G tbl v s hv hG
      exact gamedll.detail.ExportDllHooks_failure_null V G tbl v s (fun h => hv h.2) hG
  · have key : ∀ (V : Int) (G : Table EngineSlot) (tbl : Addr) (v : Int) (s : State)
        (r : ExportReturn), gamedll.detail.ExportDllPostHooks V G tbl v s = Except.ok r → v ≠ V →
          r.ret = false ∧ r.state.dll_post_hooks = 0 ∧ r.state.dll_table true = none ∧
          (s.dll_post_hooks ≠ 0 → r.state.dll_heap s.dll_post_hooks = none) ∧
          (∀ a, a ≠ s.dll_post_hooks → r.state.dll_heap a = s.dll_heap a) ∧
          r.state.engine_heap = s.engine_heap ∧ r.state.dll_new_heap = s.dll_new_heap ∧
          (r.state.engine_hooks = s.engine_hooks ∧ r.state.engine_post_hooks = s.engine_post_hooks ∧ r.state.dll_hooks = s.dll_hooks ∧ r.state.dll_new_hooks = s.dll_new_hooks ∧ r.state.dll_new_post_hooks = s.dll_new_post_hooks) := by
      intro V G tbl v s r e hv
      obtain ⟨h1, _, h3, h4, h5, h6, h7, h8, h9⟩ :=
        gamedll.detail.ExportDllPostHooks_failure_effect V G tbl v s r (fun h => hv h.2) e
      exact ⟨h1, h3, h4, h5, h6, h7, h8, h9⟩
    refine ⟨?_, key, ?_⟩
    · intro V G tbl v s hv hG hl
      obtain ⟨r, e⟩ :=
        gamedll.detail.ExportDllPostHooks_failure_returns V G tbl v s (fun h => hv h.2) hG hl
      exact ⟨r, e, key V G tbl v s r e hv⟩
    · intro V G tbl v s hv hG
      exact gamedll.detail.ExportDllPostHooks_failure_null V G tbl v s (fun h => hv h.2) hG
  · have key : ∀ (V : Int) (G : Table EngineSlot) (tbl : Addr) (v : Int) (s : State)
        (r : ExportReturn), gamedll.detail.ExportDllNewHooks V G tbl v s = Except.ok r → v ≠ V →
          r.ret = false ∧ r.state.dll_new_hooks = 0 ∧ r.state.dll_new_table false = none ∧
          (s.dll_new_hooks ≠ 0 → r.state.dll_new_heap s.dll_new_hooks = none) ∧
          (∀ a, a ≠ s.dll_new_hooks → r.state.dll_new_heap a = s.dll_new_heap a) ∧
          r.state.engine_heap = s.engine_heap ∧ r.state.dll_heap = s.dll_heap ∧
          (r.state.engine_hooks = s.engine_hooks ∧ r.state.engine_post_hooks = s.engine_post_hooks ∧ r.state.dll_hooks = s.dll_hooks ∧ r.state.dll_post_hooks = s.dll_post_hooks ∧ r.state.dll_new_post_hooks = s.dll_new_post_hooks) := by
      intro V G tbl v s r e hv
      obtain ⟨h1, _, h3, h4, h5, h6, h7, h8, h9⟩ :=
        gamedll.detail.ExportDllNewHooks_failure_effect V G tbl v s r (fun h => hv h.2) e
      exact ⟨h1, h3, h4, h5, h6, h7, h8, h9⟩
    refine ⟨?_, key, ?_⟩
    · intro V G tbl v s hv hG hl
      obtain ⟨r, e⟩ :=
        gamedll.detail.ExportDllNewHooks_failure_returns V G tbl v s (fun h => hv h.2) hG hl
      exact ⟨r, e, key V G tbl v s r e hv⟩
    · intro V G tbl v s hv hG
      exact gamedll.detail.ExportDllNewHooks_failure_null V G tbl v s (fun h => hv h.2) hG
  · have key : ∀ (V : Int) (G : Table EngineSlot) (tbl : Addr) (v : Int) (s : State)
        (r : ExportReturn), gamedll.detail.ExportDllNewPostHooks V G tbl v s = Except.ok r → v ≠ V →
          r.ret = false ∧ r.state.dll_new_post_hooks = 0 ∧ r.state.dll_new_table true = none ∧
          (s.dll_new_post_hooks ≠ 0 → r.state.dll_new_heap s.dll_new_post_hooks = none) ∧
          (∀ a, a ≠ s.dll_new_post_hooks → r.state.dll_new_heap a = s.dll_new_heap a) ∧
          r.state.engine_heap = s.engine_heap ∧ r.state.dll_heap = s.dll_heap ∧
          (r.state.engine_hooks = s.engine_hooks ∧ r.state.engine_post_hooks = s.engine_post_hooks ∧ r.state.dll_hooks = s.dll_hooks ∧ r.state.dll_post_hooks = s.dll_post_hooks ∧ r.state.dll_new_hooks = s.dll_new_hooks) := by
      intro V G tbl v s r e hv
      obtain ⟨h1, _, h3, h4, h5, h6, h7, h8, h9⟩ :=
        gamedll.detail.ExportDllNewPostHooks_failure_effect V G tbl v s r (fun h => hv h.2) e
      exact ⟨h1, h3, h4, h5, h6, h7, h8, h9⟩
    refine ⟨?_, key, ?_⟩
    · intro V G tbl v s hv hG hl
      obtain ⟨r, e⟩ :=
        gamedll.detail.ExportDllNewPostHooks_failure_returns V G tbl v s (fun h => hv h.2) hG hl
      exact ⟨r, e, key V G tbl v s r e hv⟩
    · intro V G tbl v s hv hG
      exact gamedll.detail.ExportDllNewPostHooks_failure_null V G tbl v s (fun h => hv h.2) hG

/-- Witness for C10 (amended): `ExportEnginePostHooks` called on the host table
at address `3` with version token `7` where `138` is expected, the host's
`alert_message` at hand. -/
theorem export_mismatch_discards_live_table_witness :
    ∃ r, engine.detail.ExportEnginePostHooks 138 host_engine_funcs 3 7 State.hosted =
        Except.ok r ∧
      r.ret = false ∧ r.state.engine_post_hooks = 0 ∧ r.state.engine_table true = none ∧
      r.state.engine_heap 2 = none ∧
      r.state.engine_table false = State.hosted.engine_table false := by
  obtain ⟨r, e, h1, h2, h3, h4, h5, _, _, h6, _⟩ :=
    (export_mismatch_discards_live_table.2.1).1 138 host_engine_funcs 3 7 State.hosted
      (by decide) (by decide) (Or.inr rfl)
  refine ⟨r, e, h1, h2, h3, h4 (by decide), ?_⟩
  unfold State.engine_table
  simp only [Bool.false_eq_true, if_false, h6]
  unfold Heap.deref
  rw [h5 _ (by decide)]

/-- Counterexample to C11 as stated: while `g_engine_funcs` still holds no
function (its value in the freshly loaded module), `ExportEngineHooks` is
called on the host table at address `3` with the version token `140` where
`138` is expected.  The call logs the mismatch first, through the null function pointer
`alert_message`, and ends there: it does not return and the live table is not
freed. -/
theorem export_mismatch_discards_instead_of_exposing_counterexample :
    ((3 : Addr) ≠ 0 ∧ (140 : Int) ≠ 138) ∧
    Module.init.g_engine_funcs EngineSlot.alert_message = 0 ∧
    engine.detail.ExportEngineHooks 138 Module.init.g_engine_funcs 3 140 State.hosted =
      Except.error Fault.null_pointer ∧
    ¬ ∃ r, engine.detail.ExportEngineHooks 138 Module.init.g_engine_funcs 3 140 State.hosted =
      Except.ok r := by
  have e : engine.detail.ExportEngineHooks 138 Module.init.g_engine_funcs 3 140 State.hosted =
      Except.error Fault.null_pointer := rfl
  refine ⟨⟨by decide, by decide⟩, rfl, e, ?_⟩
  rintro ⟨r, hr⟩
  rw [e] at hr
  exact Except.noConfusion hr

/-- C11 (amended): a version-mismatched export that can log the mismatch
discards the table instead of exposing it.  For every export call with a
non-null caller table and a version token different from the expected version,
made with the function pointer `alert_message` of `g_engine_funcs` non-null
and the live pointer of that interface null or referring to a table, the call
returns false, no slot of the caller's table is written (a table found at the
caller's address afterwards is the table that was there before), and the live
table of that interface has been deleted and its pointer is null; every call
that returns has these effects.  With a null `alert_message` the call ends in
the call through that pointer, before anything is freed. -/
theorem export_mismatch_discards_instead_of_exposing :
    ((∀ (V : Int) (G : Table EngineSlot) (tbl : Addr) (v : Int) (s : State),
        tbl ≠ 0 → v ≠ V → G EngineSlot.alert_message ≠ 0 →
        (s.engine_hooks = 0 ∨ (s.engine_heap s.engine_hooks).isSome) →
        ∃ r, engine.detail.ExportEngineHooks V G tbl v s = Except.ok r ∧
          r.ret = false ∧ r.state.engine_hooks = 0 ∧ r.state.engine_table false = none ∧
          (s.engine_hooks ≠ 0 → r.state.engine_heap s.engine_hooks = none) ∧
          (tbl ≠ s.engine_hooks → r.state.engine_heap tbl = s.engine_heap tbl) ∧
          (∀ u, r.state.engine_heap tbl = some u → s.engine_heap tbl = some u)) ∧
      (∀ (V : Int) (G : Table EngineSlot) (tbl : Addr) (v : Int) (s : State) (r : ExportReturn),
        engine.detail.ExportEngineHooks V G tbl v s = Except.ok r → tbl ≠ 0 → v ≠ V →
          r.ret = false ∧ r.state.engine_hooks = 0 ∧ r.state.engine_table false = none ∧
          (s.engine_hooks ≠ 0 → r.state.engine_heap s.engine_hooks = none) ∧
          (tbl ≠ s.engine_hooks → r.state.engine_heap tbl = s.engine_heap tbl) ∧
          (∀ u, r.state.engine_heap tbl = some u → s.engine_heap tbl = some u)) ∧
      (∀ (V : Int) (G : Table EngineSlot) (tbl : Addr) (v : Int) (s : State),
        tbl ≠ 0 → v ≠ V → G EngineSlot.alert_message = 0 →
        engine.detail.ExportEngineHooks V G tbl v s = Except.error Fault.null_pointer)) ∧
    ((∀ (V : Int) (G : Table EngineSlot) (tbl : Addr) (v : Int) (s : State),
        tbl ≠ 0 → v ≠ V → G EngineSlot.alert_message ≠ 0 →
        (s.engine_post_hooks = 0 ∨ (s.engine_heap s.engine_post_hooks).isSome) →
        ∃ r, engine.detail.ExportEnginePostHooks V G tbl v s = Except.ok r ∧
          r.ret = false ∧ r.state.engine_post_hooks = 0 ∧ r.state.engine_table true = none ∧
          (s.engine_post_hooks ≠ 0 → r.state.engine_heap s.engine_post_hooks = none) ∧
          (tbl ≠ s.engine_post_hooks → r.state.engine_heap tbl = s.engine_heap tbl) ∧
          (∀ u, r.state.engine_heap tbl = some u → s.engine_heap tbl = some u)) ∧
      (∀ (V : Int) (G : Table EngineSlot) (tbl : Addr) (v : Int) (s : State) (r : ExportReturn),
        engine.detail.ExportEnginePostHooks V G tbl v s = Except.ok r → tbl ≠ 0 → v ≠ V →
          r.ret = false ∧ r.state.engine_post_hooks = 0 ∧ r.state.engine_table true = none ∧
          (s.engine_post_hooks ≠ 0 → r.state.engine_heap s.engine_post_hooks = none) ∧
          (tbl ≠ s.engine_post_hooks → r.state.engine_heap tbl = s.engine_heap tbl) ∧
          (∀ u, r.state.engine_heap tbl = some u → s.engine_heap tbl = some u)) ∧
      (∀ (V : Int) (G : Table EngineSlot) (tbl : Addr) (v : Int) (s : State),
        tbl ≠ 0 → v ≠ V → G EngineSlot.alert_message = 0 →
        engine.detail.ExportEnginePostHooks V G tbl v s = Except.error Fault.null_pointer)) ∧
    ((∀ (V : Int) (G : Table EngineSlot) (tbl : Addr) (v : Int) (s : State),
        tbl ≠ 0 → v ≠ V → G EngineSlot.alert_message ≠ 0 →
        (s.dll_hooks = 0 ∨ (s.dll_heap s.dll_hooks).isSome) →
        ∃ r, gamedll.detail.ExportDllHooks V G tbl v s = Except.ok r ∧
          r.ret = false ∧ r.state.dll_hooks = 0 ∧ r.state.dll_table false = none ∧
          (s.dll_hooks ≠ 0 → r.state.dll_heap s.dll_hooks = none) ∧
          (tbl ≠ s.dll_hooks → r.state.dll_heap tbl = s.dll_heap tbl) ∧
          (∀ u, r.state.dll_heap tbl = some u → s.dll_heap tbl = some u)) ∧
      (∀ (V : Int) (G : Table EngineSlot) (tbl : Addr) (v : Int) (s : State) (r : ExportReturn),
        gamedll.detail.ExportDllHooks V G tbl v s = Except.ok r → tbl ≠ 0 → v ≠ V →
          r.ret = false ∧ r.state.dll_hooks = 0 ∧ r.state.dll_table false = none ∧
          (s.dll_hooks ≠ 0 → r.state.dll_heap s.dll_hooks = none) ∧
          (tbl ≠ s.dll_hooks → r.state.dll_heap tbl = s.dll_heap tbl) ∧
          (∀ u, r.state.dll_heap tbl = some u → s.dll_heap tbl = some u)) ∧
      (∀ (V : Int) (G : Table EngineSlot) (tbl : Addr) (v : Int) (s : State),
        tbl ≠ 0 → v ≠ V → G EngineSlot.alert_message = 0 →
        gamedll.detail.ExportDllHooks V G tbl v s = Except.error Fault.null_pointer)) ∧
    ((∀ (V : Int) (G : Table EngineSlot) (tbl : Addr) (v : Int) (s : State),
        tbl ≠ 0 → v ≠ V → G EngineSlot.alert_message ≠ 0 →
        (s.dll_post_hooks = 0 ∨ (s.dll_heap s.dll_post_hooks).isSome) →
        ∃ r, gamedll.detail.ExportDllPostHooks V G tbl v s = Except.ok r ∧
          r.ret = false ∧ r.state.dll_post_hooks = 0 ∧ r.state.dll_table true = none ∧
          (s.dll_post_hooks ≠ 0 → r.state.dll_heap s.dll_post_hooks = none) ∧
          (tbl ≠ s.dll_post_hooks → r.state.dll_heap tbl = s.dll_heap tbl) ∧
          (∀ u, r.state.dll_heap tbl = some u → s.dll_heap tbl = some u)) ∧
      (∀ (V : Int) (G : Table EngineSlot) (tbl : Addr) (v : Int) (s : State) (r : ExportReturn),
        gamedll.detail.ExportDllPostHooks V G tbl v s = Except.ok r → tbl ≠ 0 → v ≠ V →
          r.ret = false ∧ r.state.dll_post_hooks = 0 ∧ r.state.dll_table true = none ∧
          (s.dll_post_hooks ≠ 0 → r.state.dll_heap s.dll_post_hooks = none) ∧
          (tbl ≠ s.dll_post_hooks → r.state.dll_heap tbl = s.dll_heap tbl) ∧
          (∀ u, r.state.dll_heap tbl = some u → s.dll_heap tbl = some u)) ∧
      (∀ (V : Int) (G : Table EngineSlot) (tbl : Addr) (v : Int) (s : State),
        tbl ≠ 0 → v ≠ V → G EngineSlot.alert_message = 0 →
        gamedll.detail.ExportDllPostHooks V G tbl v s = Except.error Fault.null_pointer)) ∧
    ((∀ (V : Int) (G : Table EngineSlot) (tbl : Addr) (v : Int) (s : State),
        tbl ≠ 0 → v ≠ V → G EngineSlot.alert_message ≠ 0 →
        (s.dll_new_hooks = 0 ∨ (s.dll_new_heap s.dll_new_hooks).isSome) →
        ∃ r, gamedll.detail.ExportDllNewHooks V G tbl v s = Except.ok r ∧
          r.ret = false ∧ r.state.dll_new_hooks = 0 ∧ r.state.dll_new_table false = none ∧
          (s.dll_new_hooks ≠ 0 → r.state.dll_new_heap s.dll_new_hooks = none) ∧
          (tbl ≠ s.dll_new_hooks → r.state.dll_new_heap tbl = s.dll_new_heap tbl) ∧
          (∀ u, r.state.dll_new_heap tbl = some u → s.dll_new_heap tbl = some u)) ∧
      (∀ (V : Int) (G : Table EngineSlot) (tbl : Addr) (v : Int) (s : State) (r : ExportReturn),
        gamedll.detail.ExportDllNewHooks V G tbl v s = Except.ok r → tbl ≠ 0 → v ≠ V →
          r.ret = false ∧ r.state.dll_new_hooks = 0 ∧ r.state.dll_new_table false = none ∧
          (s.dll_new_hooks ≠ 0 → r.state.dll_new_heap s.dll_new_hooks = none) ∧
          (tbl ≠ s.dll_new_hooks → r.state.dll_new_heap tbl = s.dll_new_heap tbl) ∧
          (∀ u, r.state.dll_new_heap tbl = some u → s.dll_new_heap tbl = some u)) ∧
      (∀ (V : Int) (G : Table EngineSlot) (tbl : Addr) (v : Int) (s : State),
        tbl ≠ 0 → v ≠ V → G EngineSlot.alert_message = 0 →
        gamedll.detail.ExportDllNewHooks V G tbl v s = Except.error Fault.null_pointer)) ∧
    ((∀ (V : Int) (G : Table EngineSlot) (tbl : Addr) (v : Int) (s : State),
        tbl ≠ 0 → v ≠ V → G EngineSlot.alert_message ≠ 0 →
        (s.dll_new_post_hooks = 0 ∨ (s.dll_new_heap s.dll_new_post_hooks).isSome) →
        ∃ r, gamedll.detail.ExportDllNewPostHooks V G tbl v s = Except.ok r ∧
          r.ret = false ∧ r.state.dll_new_post_hooks = 0 ∧ r.state.dll_new_table true = none ∧
          (s.dll_new_post_hooks ≠ 0 → r.state.dll_new_heap s.dll_new_post_hooks = none) ∧
          (tbl ≠ s.dll_new_post_hooks → r.state.dll_new_heap tbl = s.dll_new_heap tbl) ∧
          (∀ u, r.state.dll_new_heap tbl = some u → s.dll_new_heap tbl = some u)) ∧
      (∀ (V : Int) (G : Table EngineSlot) (tbl : Addr) (v : Int) (s : State) (r : ExportReturn),
        gamedll.detail.ExportDllNewPostHooks V G tbl v s = Except.ok r → tbl ≠ 0 → v ≠ V →
          r.ret = false ∧ r.state.dll_new_post_hooks = 0 ∧ r.state.dll_new_table true = none ∧
          (s.dll_new_post_hooks ≠ 0 → r.state.dll_new_heap s.dll_new_post_hooks = none) ∧
          (tbl ≠ s.dll_new_post_hooks → r.state.dll_new_heap tbl = s.dll_new_heap tbl) ∧
          (∀ u, r.state.dll_new_heap tbl = some u → s.dll_new_heap tbl = some u)) ∧
      (∀ (V : Int) (G : Table EngineSlot) (tbl : Addr) (v : Int) (s : State),
        tbl ≠ 0 → v ≠ V → G EngineSlot.alert_message = 0 →
        gamedll.detail.ExportDllNewPostHooks V G tbl v s = Except.error Fault.null_pointer)) := by
  refine ⟨?_, ?_, ?_, ?_, ?_, ?_⟩
  · have key : ∀ (V : Int) (G : Table EngineSlot) (tbl : Addr) (v : Int) (s : State)
        (r : ExportReturn), engine.detail.ExportEngineHooks V G tbl v s = Except.ok r → tbl ≠ 0 → v ≠ V →
          r.ret = false ∧ r.state.engine_hooks = 0 ∧ r.state.engine_table false = none ∧
          (s.engine_hooks ≠ 0 → r.state.engine_heap s.engine_hooks = none) ∧
          (tbl ≠ s.engine_hooks → r.state.engine_heap tbl = s.engine_heap tbl) ∧
          (∀ u, r.state.engine_heap tbl = some u → s.engine_heap tbl = some u) := by
      intro V G tbl v s r e _ hv
      obtain ⟨h1, _, h3, h4, h5, h6, _⟩ :=
        engine.detail.ExportEngineHooks_failure_effect V G tbl v s r (fun h => hv h.2) e
      refine ⟨h1, h3, h4, h5, fun hne => h6 tbl hne, ?_⟩
      intro u hu
      by_cases hp : tbl = s.engine_hooks
      · have hn : s.engine_hooks ≠ 0 := hp ▸ ‹tbl ≠ 0›
        rw [hp, h5 hn] at hu
        cases hu
      · rw [h6 tbl hp] at hu
        exact hu
    refine ⟨?_, key, ?_⟩
    · intro V G tbl v s ht hv hG hl
      obtain ⟨r, e⟩ :=
        engine.detail.ExportEngineHooks_failure_returns V G tbl v s (fun h => hv h.2) hG hl
      exact ⟨r, e, key V G tbl v s r e ht hv⟩
    · intro V G tbl v s _ hv hG
      exact engine.detail.ExportEngineHooks_failure_null V G tbl v s (fun h => hv h.2) hG
  · have key : ∀ (V : Int) (G : Table EngineSlot) (tbl : Addr) (v : Int) (s : State)
        (r : ExportReturn), engine.detail.ExportEnginePostHooks V G tbl v s = Except.ok r → tbl ≠ 0 → v ≠ V →
          r.ret = false ∧ r.state.engine_post_hooks = 0 ∧ r.state.engine_table true = none ∧
          (s.engine_post_hooks ≠ 0 → r.state.engine_heap s.engine_post_hooks = none) ∧
          (tbl ≠ s.engine_post_hooks → r.state.engine_heap tbl = s.engine_heap tbl) ∧
          (∀ u, r.state.engine_heap tbl = some u → s.engine_heap tbl = some u) := by
      intro V G tbl v s r e _ hv
      obtain ⟨h1, _, h3, h4, h5, h6, _⟩ :=
        engine.detail.ExportEnginePostHooks_failure_effect V G tbl v s r (fun h => hv h.2) e
      refine ⟨h1, h3, h4, h5, fun hne => h6 tbl hne, ?_⟩
      intro u hu
      by_cases hp : tbl = s.engine_post_hooks
      · have hn : s.engine_post_hooks ≠ 0 := hp ▸ ‹tbl ≠ 0›
        rw [hp, h5 hn] at hu
        cases hu
      · rw [h6 tbl hp] at hu
        exact hu
    refine ⟨?_, key, ?_⟩
    · intro V G tbl v s ht hv hG hl
      obtain ⟨r, e⟩ :=
        engine.detail.ExportEnginePostHooks_failure_returns V G tbl v s (fun h => hv h.2) hG hl
      exact ⟨r, e, key V G tbl v s r e ht hv⟩
    · intro V G tbl v s _ hv hG
      exact engine.detail.ExportEnginePostHooks_failure_null V G tbl v s (fun h => hv h.2) hG
  · have key : ∀ (V : Int) (G : Table EngineSlot) (tbl : Addr) (v : Int) (s : State)
        (r : ExportReturn), gamedll.detail.ExportDllHooks V G tbl v s = Except.ok r → tbl ≠ 0 → v ≠ V →
          r.ret = false ∧ r.state.dll_hooks = 0 ∧ r.state.dll_table false = none ∧
          (s.dll_hooks ≠ 0 → r.state.dll_heap s.dll_hooks = none) ∧
          (tbl ≠ s.dll_hooks → r.state.dll_heap tbl = s.dll_heap tbl) ∧
          (∀ u, r.state.dll_heap tbl = some u → s.dll_heap tbl = some u) := by
      intro V G tbl v s r e _ hv
      obtain ⟨h1, _, h3, h4, h5, h6, _⟩ :=
        gamedll.detail.ExportDllHooks_failure_effect V G tbl v s r (fun h => hv h.2) e
      refine ⟨h1, h3, h4, h5, fun hne => h6 tbl hne, ?_⟩
      intro u hu
      by_cases hp : tbl = s.dll_hooks
      · have hn : s.dll_hooks ≠ 0 := hp ▸ ‹tbl ≠ 0›
        rw [hp, h5 hn] at hu
        cases hu
      · rw [h6 tbl hp] at hu
        exact hu
    refine ⟨?_, key, ?_⟩
    · intro V G tbl v s ht hv hG hl
      obtain ⟨r, e⟩ :=
        gamedll.detail.ExportDllHooks_failure_returns V G tbl v s (fun h => hv h.2) hG hl
      exact ⟨r, e, key V G tbl v s r e ht hv⟩
    · intro V G tbl v s _ hv hG
      exact gamedll.detail.ExportDllHooks_failure_null V G tbl v s (fun h => hv h.2) hG
  · have key : ∀ (V : Int) (G : Table EngineSlot) (tbl : Addr) (v : Int) (s : State)
        (r : ExportReturn), gamedll.detail.ExportDllPostHooks V G tbl v s = Except.ok r → tbl ≠ 0 → v ≠ V →
          r.ret = false ∧ r.state.dll_post_hooks = 0 ∧ r.state.dll_table true = none ∧
          (s.dll_post_hooks ≠ 0 → r.state.dll_heap s.dll_post_hooks = none) ∧
          (tbl ≠ s.dll_post_hooks → r.state.dll_heap tbl = s.dll_heap tbl) ∧
          (∀ u, r.state.dll_heap tbl = some u → s.dll_heap tbl = some u) := by
      intro V G tbl v s r e _ hv
      obtain ⟨h1, _, h3, h4, h5, h6, _⟩ :=
        gamedll.detail.ExportDllPostHooks_failure_effect V G tbl v s r (fun h => hv h.2) e
      refine ⟨h1, h3, h4, h5, fun hne => h6 tbl hne, ?_⟩
      intro u hu
      by_cases hp : tbl = s.dll_post_hooks
      · have hn : s.dll_post_hooks ≠ 0 := hp ▸ ‹tbl ≠ 0›
        rw [hp, h5 hn] at hu
        cases hu
      · rw [h6 tbl hp] at hu
        exact hu
    refine ⟨?_, key, ?_⟩
    · intro V G tbl v s ht hv hG hl
      obtain ⟨r, e⟩ :=
        gamedll.detail.ExportDllPostHooks_failure_returns V G tbl v s (fun h => hv h.2) hG hl
      exact ⟨r, e, key V G tbl v s r e ht hv⟩
    · intro V G tbl v s _ hv hG
      exact gamedll.detail.ExportDllPostHooks_failure_null V G tbl v s (fun h => hv h.2) hG
  · have key : ∀ (V : Int) (G : Table EngineSlot) (tbl : Addr) (v : Int) (s : State)
        (r : ExportReturn), gamedll.detail.ExportDllNewHooks V G tbl v s = Except.ok r → tbl ≠ 0 → v ≠ V →
          r.ret = false ∧ r.state.dll_new_hooks = 0 ∧ r.state.dll_new_table false = none ∧
          (s.dll_new_hooks ≠ 0 → r.state.dll_new_heap s.dll_new_hooks = none) ∧
          (tbl ≠ s.dll_new_hooks → r.state.dll_new_heap tbl = s.dll_new_heap tbl) ∧
          (∀ u, r.state.dll_new_heap tbl = some u → s.dll_new_heap tbl = some u) := by
      intro V G tbl v s r e _ hv
      obtain ⟨h1, _, h3, h4, h5, h6, _⟩ :=
        gamedll.detail.ExportDllNewHooks_failure_effect V G tbl v s r (fun h => hv h.2) e
      refine ⟨h1, h3, h4, h5, fun hne => h6 tbl hne, ?_⟩
      intro u hu
      by_cases hp : tbl = s.dll_new_hooks
      · have hn : s.dll_new_hooks ≠ 0 := hp ▸ ‹tbl ≠ 0›
        rw [hp, h5 hn] at hu
        cases hu
      · rw [h6 tbl hp] at hu
        exact hu
    refine ⟨?_, key, ?_⟩
    · intro V G tbl v s ht hv hG hl
      obtain ⟨r, e⟩ :=
        gamedll.detail.ExportDllNewHooks_failure_returns V G tbl v s (fun h => hv h.2) hG hl
      exact ⟨r, e, key V G tbl v s r e ht hv⟩
    · intro V G tbl v s _ hv hG
      exact gamedll.detail.ExportDllNewHooks_failure_null V G tbl v s (fun h => hv h.2) hG
  · have key : ∀ (V : Int) (G : Table EngineSlot) (tbl : Addr) (v : Int) (s : State)
        (r : ExportReturn), gamedll.detail.ExportDllNewPostHooks V G tbl v s = Except.ok r → tbl ≠ 0 → v ≠ V →
          r.ret = false ∧ r.state.dll_new_post_hooks = 0 ∧ r.state.dll_new_table true = none ∧
          (s.dll_new_post_hooks ≠ 0 → r.state.dll_new_heap s.dll_new_post_hooks = none) ∧
          (tbl ≠ s.dll_new_post_hooks → r.state.dll_new_heap tbl = s.dll_new_heap tbl) ∧
          (∀ u, r.state.dll_new_heap tbl = some u → s.dll_new_heap tbl = some u) := by
      intro V G tbl v s r e _ hv
      obtain ⟨h1, _, h3, h4, h5, h6, _⟩ :=
        gamedll.detail.ExportDllNewPostHooks_failure_effect V G tbl v s r (fun h => hv h.2) e
      refine ⟨h1, h3, h4, h5, fun hne => h6 tbl hne, ?_⟩
      intro u hu
      by_cases hp : tbl = s.dll_new_post_hooks
      · have hn : s.dll_new_post_hooks ≠ 0 := hp ▸ ‹tbl ≠ 0›
        rw [hp, h5 hn] at hu
        cases hu
      · rw [h6 tbl hp] at hu
        exact hu
    refine ⟨?_, key, ?_⟩
    · intro V G tbl v s ht hv hG hl
      obtain ⟨r, e⟩ :=
        gamedll.detail.ExportDllNewPostHooks_failure_returns V G tbl v s (fun h => hv h.2) hG hl
      exact ⟨r, e, key V G tbl v s r e ht hv⟩
    · intro V G tbl v s _ hv hG
      exact gamedll.detail.ExportDllNewPostHooks_failure_null V G tbl v s (fun h => hv h.2) hG

/-- Witness for C11 (amended): `ExportDllNewPostHooks` called on the host table
at address `3` with version token `2` where `1` is expected, the host's
`alert_message` at hand. -/
theorem export_mismatch_discards_instead_of_exposing_witness :
    ∃ r, gamedll.detail.ExportDllNewPostHooks 1 host_engine_funcs 3 2 State.hosted =
        Except.ok r ∧
      r.ret = false ∧ r.state.dll_new_post_hooks = 0 ∧ r.state.dll_new_table true = none ∧
      (State.hosted.dll_new_post_hooks ≠ 0 →
        r.state.dll_new_heap State.hosted.dll_new_post_hooks = none) ∧
      ((3 : Addr) ≠ State.hosted.dll_new_post_hooks →
        r.state.dll_new_heap 3 = State.hosted.dll_new_heap 3) ∧
      (∀ u, r.state.dll_new_heap 3 = some u → State.hosted.dll_new_heap 3 = some u) :=
  (export_mismatch_discards_instead_of_exposing.2.2.2.2.2).1 1 host_engine_funcs 3 2
    State.hosted (by decide) (by decide) (by decide) (Or.inr rfl)

/-- Counterexample to C12 as stated: on the freshly loaded module, whose
`g_engine_funcs` holds no function yet, `ExportDllPostHooks` is called with a
null table.  The call logs the null table first, through the null function
pointer `alert_message`, and ends there: it does not return false and the live
table is not freed. -/
theorem export_null_table_like_mismatch_counterexample :
    Module.init.g_engine_funcs EngineSlot.alert_message = 0 ∧
    gamedll.detail.ExportDllPostHooks 140 Module.init.g_engine_funcs 0 140 Module.init.hooks =
      Except.error Fault.null_pointer ∧
    ¬ ∃ r, gamedll.detail.ExportDllPostHooks 140 Module.init.g_engine_funcs 0 140
        Module.init.hooks = Except.ok r ∧ r.ret = false := by
  have e : gamedll.detail.ExportDllPostHooks 140 Module.init.g_engine_funcs 0 140
      Module.init.hooks = Except.error Fault.null_pointer := rfl
  refine ⟨rfl, e, ?_⟩
  rintro ⟨r, hr, -⟩
  rw [e] at hr
  exact Except.noConfusion hr

/-- C12 (amended): an export call with a null caller table that can log it is
treated as a version mismatch is.  For every version token value, a call made
with the function pointer `alert_message` of `g_engine_funcs` non-null and the
live pointer of that interface null or referring to a table returns false,
exports nothing (the token, every table other than the live one and the other
five pointers are as before; no access goes through the null table pointer),
deletes the live table of that interface and leaves its pointer null; every
call that returns has these effects and, apart from the alert that is logged,
leaves the module in the state a version-mismatched call leaves it in.  With a
null `alert_message` the call ends in the call through that pointer. -/
theorem export_null_table_like_mismatch :
    ((∀ (V : Int) (G : Table EngineSlot) (v : Int) (s : State),
        G EngineSlot.alert_message ≠ 0 →
        (s.engine_hooks = 0 ∨ (s.engine_heap s.engine_hooks).isSome) →
        ∃ r, engine.detail.ExportEngineHooks V G 0 v s = Except.ok r ∧
          r.ret = false ∧ r.interface_version = v ∧ r.state.engine_hooks = 0 ∧
          r.state.engine_table false = none ∧
          (s.engine_hooks ≠ 0 → r.state.engine_heap s.engine_hooks = none) ∧
          (∀ a, a ≠ s.engine_hooks → r.state.engine_heap a = s.engine_heap a) ∧
          r.state.dll_heap = s.dll_heap ∧ r.state.dll_new_heap = s.dll_new_heap ∧
          (r.state.engine_post_hooks = s.engine_post_hooks ∧ r.state.dll_hooks = s.dll_hooks ∧ r.state.dll_post_hooks = s.dll_post_hooks ∧ r.state.dll_new_hooks = s.dll_new_hooks ∧ r.state.dll_new_post_hooks = s.dll_new_post_hooks)) ∧
      (∀ (V : Int) (G : Table EngineSlot) (v : Int) (s : State) (r : ExportReturn),
        engine.detail.ExportEngineHooks V G 0 v s = Except.ok r →
          r.ret = false ∧ r.interface_version = v ∧ r.state.engine_hooks = 0 ∧
          r.state.engine_table false = none ∧
          (s.engine_hooks ≠ 0 → r.state.engine_heap s.engine_hooks = none) ∧
          (∀ a, a ≠ s.engine_hooks → r.state.engine_heap a = s.engine_heap a) ∧
          r.state.dll_heap = s.dll_heap ∧ r.state.dll_new_heap = s.dll_new_heap ∧
          (r.state.engine_post_hooks = s.engine_post_hooks ∧ r.state.dll_hooks = s.dll_hooks ∧ r.state.dll_post_hooks = s.dll_post_hooks ∧ r.state.dll_new_hooks = s.dll_new_hooks ∧ r.state.dll_new_post_hooks = s.dll_new_post_hooks)) ∧
      (∀ (V : Int) (G : Table EngineSlot) (v : Int) (tbl : Addr) (w : Int) (s : State)
          (r r' : ExportReturn),
        engine.detail.ExportEngineHooks V G 0 v s = Except.ok r →
        engine.detail.ExportEngineHooks V G tbl w s = Except.ok r' → tbl ≠ 0 → w ≠ V →
        r.ret = r'.ret ∧ { r.state with alerts := [] } = { r'.state with alerts := [] }) ∧
      (∀ (V : Int) (G : Table EngineSlot) (v : Int) (s : State),
        G EngineSlot.alert_message = 0 →
        engine.detail.ExportEngineHooks V G 0 v s = Except.error Fault.null_pointer)) ∧
    ((∀ (V : Int) (G : Table EngineSlot) (v : Int) (s : State),
        G EngineSlot.alert_message ≠ 0 →
        (s.engine_post_hooks = 0 ∨ (s.engine_heap s.engine_post_hooks).isSome) →
        ∃ r, engine.detail.ExportEnginePostHooks V G 0 v s = Except.ok r ∧
          r.ret = false ∧ r.interface_version = v ∧ r.state.engine_post_hooks = 0 ∧
          r.state.engine_table true = none ∧
          (s.engine_post_hooks ≠ 0 → r.state.engine_heap s.engine_post_hooks = none) ∧
          (∀ a, a ≠ s.engine_post_hooks → r.state.engine_heap a = s.engine_heap a) ∧
          r.state.dll_heap = s.dll_heap ∧ r.state.dll_new_heap = s.dll_new_heap ∧
          (r.state.engine_hooks = s.engine_hooks ∧ r.state.dll_hooks = s.dll_hooks ∧ r.state.dll_post_hooks = s.dll_post_hooks ∧ r.state.dll_new_hooks = s.dll_new_hooks ∧ r.state.dll_new_post_hooks = s.dll_new_post_hooks)) ∧
      (∀ (V : Int) (G : Table EngineSlot) (v : Int) (s : State) (r : ExportReturn),
        engine.detail.ExportEnginePostHooks V G 0 v s = Except.ok r →
          r.ret = false ∧ r.interface_version = v ∧ r.state.engine_post_hooks = 0 ∧
          r.state.engine_table true = none ∧
          (s.engine_post_hooks ≠ 0 → r.state.engine_heap s.engine_post_hooks = none) ∧
          (∀ a, a ≠ s.engine_post_hooks → r.state.engine_heap a = s.engine_heap a) ∧
          r.state.dll_heap = s.dll_heap ∧ r.state.dll_new_heap = s.dll_new_heap ∧
          (r.state.engine_hooks = s.engine_hooks ∧ r.state.dll_hooks = s.dll_hooks ∧ r.state.dll_post_hooks = s.dll_post_hooks ∧ r.state.dll_new_hooks = s.dll_new_hooks ∧ r.state.dll_new_post_hooks = s.dll_new_post_hooks)) ∧
      (∀ (V : Int) (G : Table EngineSlot) (v : Int) (tbl : Addr) (w : Int) (s : State)
          (r r' : ExportReturn),
        engine.detail.ExportEnginePostHooks V G 0 v s = Except.ok r →
        engine.detail.ExportEnginePostHooks V G tbl w s = Except.ok r' → tbl ≠ 0 → w ≠ V →
        r.ret = r'.ret ∧ { r.state with alerts := [] } = { r'.state with alerts := [] }) ∧
      (∀ (V : Int) (G : Table EngineSlot) (v : Int) (s : State),
        G EngineSlot.alert_message = 0 →
        engine.detail.ExportEnginePostHooks V G 0 v s = Except.error Fault.null_pointer)) ∧
    ((∀ (V : Int) (G : Table EngineSlot) (v : Int) (s : State),
        G EngineSlot.alert_message ≠ 0 →
        (s.dll_hooks = 0 ∨ (s.dll_heap s.dll_hooks).isSome) →
        ∃ r, gamedll.detail.ExportDllHooks V G 0 v s = Except.ok r ∧
          r.ret = false ∧ r.interface_version = v ∧ r.state.dll_hooks = 0 ∧
          r.state.dll_table false = none ∧
          (s.dll_hooks ≠ 0 → r.state.dll_heap s.dll_hooks = none) ∧
          (∀ a, a ≠ s.dll_hooks → r.state.dll_heap a = s.dll_heap a) ∧
          r.state.engine_heap = s.engine_heap ∧ r.state.dll_new_heap = s.dll_new_heap ∧
          (r.state.engine_hooks = s.engine_hooks ∧ r.state.engine_post_hooks = s.engine_post_hooks ∧ r.state.dll_post_hooks = s.dll_post_hooks ∧ r.state.dll_new_hooks = s.dll_new_hooks ∧ r.state.dll_new_post_hooks = s.dll_new_post_hooks)) ∧
      (∀ (V : Int) (G : Table EngineSlot) (v : Int) (s : State) (r : ExportReturn),
        gamedll.detail.ExportDllHooks V G 0 v s = Except.ok r →
          r.ret = false ∧ r.interface_version = v ∧ r.state.dll_hooks = 0 ∧
          r.state.dll_table false = none ∧
          (s.dll_hooks ≠ 0 → r.state.dll_heap s.dll_hooks = none) ∧
          (∀ a, a ≠ s.dll_hooks → r.state.dll_heap a = s.dll_heap a) ∧
          r.state.engine_heap = s.engine_heap ∧ r.state.dll_new_heap = s.dll_new_heap ∧
          (r.state.engine_hooks = s.engine_hooks ∧ r.state.engine_post_hooks = s.engine_post_hooks ∧ r.state.dll_post_hooks = s.dll_post_hooks ∧ r.state.dll_new_hooks = s.dll_new_hooks ∧ r.state.dll_new_post_hooks = s.dll_new_post_hooks)) ∧
      (∀ (V : Int) (G : Table EngineSlot) (v : Int) (tbl : Addr) (w : Int) (s : State)
          (r r' : ExportReturn),
        gamedll.detail.ExportDllHooks V G 0 v s = Except.ok r →
        gamedll.detail.ExportDllHooks V G tbl w s = Except.ok r' → tbl ≠ 0 → w ≠ V →
        r.ret = r'.ret ∧ { r.state with alerts := [] } = { r'.state with alerts := [] }) ∧
      (∀ (V : Int) (G : Table EngineSlot) (v : Int) (s : State),
        G EngineSlot.alert_message = 0 →
        gamedll.detail.ExportDllHooks V G 0 v s = Except.error Fault.null_pointer)) ∧
    ((∀ (V : Int) (G : Table EngineSlot) (v : Int) (s : State),
        G EngineSlot.alert_message ≠ 0 →
        (s.dll_post_hooks = 0 ∨ (s.dll_heap s.dll_post_hooks).isSome) →
        ∃ r, gamedll.detail.ExportDllPostHooks V G 0 v s = Except.ok r ∧
          r.ret = false ∧ r.interface_version = v ∧ r.state.dll_post_hooks = 0 ∧
          r.state.dll_table true = none ∧
          (s.dll_post_hooks ≠ 0 → r.state.dll_heap s.dll_post_hooks = none) ∧
          (∀ a, a ≠ s.dll_post_hooks → r.state.dll_heap a = s.dll_heap a) ∧
          r.state.engine_heap = s.engine_heap ∧ r.state.dll_new_heap = s.dll_new_heap ∧
          (r.state.engine_hooks = s.engine_hooks ∧ r.state.engine_post_hooks = s.engine_post_hooks ∧ r.state.dll_hooks = s.dll_hooks ∧ r.state.dll_new_hooks = s.dll_new_hooks ∧ r.state.dll_new_post_hooks = s.dll_new_post_hooks)) ∧
      (∀ (V : Int) (G : Table EngineSlot) (v : Int) (s : State) (r : ExportReturn),
        gamedll.detail.ExportDllPostHooks V G 0 v s = Except.ok r →
          r.ret = false ∧ r.interface_version = v ∧ r.state.dll_post_hooks = 0 ∧
          r.state.dll_table true = none ∧
          (s.dll_post_hooks ≠ 0 → r.state.dll_heap s.dll_post_hooks = none) ∧
          (∀ a, a ≠ s.dll_post_hooks → r.state.dll_heap a = s.dll_heap a) ∧
          r.state.engine_heap = s.engine_heap ∧ r.state.dll_new_heap = s.dll_new_heap ∧
          (r.state.engine_hooks = s.engine_hooks ∧ r.state.engine_post_hooks = s.engine_post_hooks ∧ r.state.dll_hooks = s.dll_hooks ∧ r.state.dll_new_hooks = s.dll_new_hooks ∧ r.state.dll_new_post_hooks = s.dll_new_post_hooks)) ∧
      (∀ (V : Int) (G : Table EngineSlot) (v : Int) (tbl : Addr) (w : Int) (s : State)
          (r r' : ExportReturn),
        gamedll.detail.ExportDllPostHooks V G 0 v s = Except.ok r →
        gamedll.detail.ExportDllPostHooks V G tbl w s = Except.ok r' → tbl ≠ 0 → w ≠ V →
        r.ret = r'.ret ∧ { r.state with alerts := [] } = { r'.state with alerts := [] }) ∧
      (∀ (V : Int) (G : Table EngineSlot) (v : Int) (s : State),
        G EngineSlot.alert_message = 0 →
        gamedll.detail.ExportDllPostHooks V G 0 v s = Except.error Fault.null_pointer)) ∧
    ((∀ (V : Int) (G : Table EngineSlot) (v : Int) (s : State),
        G EngineSlot.alert_message ≠ 0 →
        (s.dll_new_hooks = 0 ∨ (s.dll_new_heap s.dll_new_hooks).isSome) →
        ∃ r, gamedll.detail.ExportDllNewHooks V G 0 v s = Except.ok r ∧
          r.ret = false ∧ r.interface_version = v ∧ r.state.dll_new_hooks = 0 ∧
          r.state.dll_new_table false = none ∧
          (s.dll_new_hooks ≠ 0 → r.state.dll_new_heap s.dll_new_hooks = none) ∧
          (∀ a, a ≠ s.dll_new_hooks → r.state.dll_new_heap a = s.dll_new_heap a) ∧
          r.state.engine_heap = s.engine_heap ∧ r.state.dll_heap = s.dll_heap ∧
          (r.state.engine_hooks = s.engine_hooks ∧ r.state.engine_post_hooks = s.engine_post_hooks ∧ r.state.dll_hooks = s.dll_hooks ∧ r.state.dll_post_hooks = s.dll_post_hooks ∧ r.state.dll_new_post_hooks = s.dll_new_post_hooks)) ∧
      (∀ (V : Int) (G : Table EngineSlot) (v : Int) (s : State) (r : ExportReturn),
        gamedll.detail.ExportDllNewHooks V G 0 v s = Except.ok r →
          r.ret = false ∧ r.interface_version = v ∧ r.state.dll_new_hooks = 0 ∧
          r.state.dll_new_table false = none ∧
          (s.dll_new_hooks ≠ 0 → r.state.dll_new_heap s.dll_new_hooks = none) ∧
          (∀ a, a ≠ s.dll_new_hooks → r.state.dll_new_heap a = s.dll_new_heap a) ∧
          r.state.engine_heap = s.engine_heap ∧ r.state.dll_heap = s.dll_heap ∧
          (r.state.engine_hooks = s.engine_hooks ∧ r.state.engine_post_hooks = s.engine_post_hooks ∧ r.state.dll_hooks = s.dll_hooks ∧ r.state.dll_post_hooks = s.dll_post_hooks ∧ r.state.dll_new_post_hooks = s.dll_new_post_hooks)) ∧
      (∀ (V : Int) (G : Table EngineSlot) (v : Int) (tbl : Addr) (w : Int) (s : State)
          (r r' : ExportReturn),
        gamedll.detail.ExportDllNewHooks V G 0 v s = Except.ok r →
        gamedll.detail.ExportDllNewHooks V G tbl w s = Except.ok r' → tbl ≠ 0 → w ≠ V →
        r.ret = r'.ret ∧ { r.state with alerts := [] } = { r'.state with alerts := [] }) ∧
      (∀ (V : Int) (G : Table EngineSlot) (v : Int) (s : State),
        G EngineSlot.alert_message = 0 →
        gamedll.detail.ExportDllNewHooks V G 0 v s = Except.error Fault.null_pointer)) ∧
    ((∀ (V : Int) (G : Table EngineSlot) (v : Int) (s : State),
        G EngineSlot.alert_message ≠ 0 →
        (s.dll_new_post_hooks = 0 ∨ (s.dll_new_heap s.dll_new_post_hooks).isSome) →
        ∃ r, gamedll.detail.ExportDllNewPostHooks V G 0 v s = Except.ok r ∧
          r.ret = false ∧ r.interface_version = v ∧ r.state.dll_new_post_hooks = 0 ∧
          r.state.dll_new_table true = none ∧
          (s.dll_new_post_hooks ≠ 0 → r.state.dll_new_heap s.dll_new_post_hooks = none) ∧
          (∀ a, a ≠ s.dll_new_post_hooks → r.state.dll_new_heap a = s.dll_new_heap a) ∧
          r.state.engine_heap = s.engine_heap ∧ r.state.dll_heap = s.dll_heap ∧
          (r.state.engine_hooks = s.engine_hooks ∧ r.state.engine_post_hooks = s.engine_post_hooks ∧ r.state.dll_hooks = s.dll_hooks ∧ r.state.dll_post_hooks = s.dll_post_hooks ∧ r.state.dll_new_hooks = s.dll_new_hooks)) ∧
      (∀ (V : Int) (G : Table EngineSlot) (v : Int) (s : State) (r : ExportReturn),
        gamedll.detail.ExportDllNewPostHooks V G 0 v s = Except.ok r →
          r.ret = false ∧ r.interface_version = v ∧ r.state.dll_new_post_hooks = 0 ∧
          r.state.dll_new_table true = none ∧
          (s.dll_new_post_hooks ≠ 0 → r.state.dll_new_heap s.dll_new_post_hooks = none) ∧
          (∀ a, a ≠ s.dll_new_post_hooks → r.state.dll_new_heap a = s.dll_new_heap a) ∧
          r.state.engine_heap = s.engine_heap ∧ r.state.dll_heap = s.dll_heap ∧
          (r.state.engine_hooks = s.engine_hooks ∧ r.state.engine_post_hooks = s.engine_post_hooks ∧ r.state.dll_hooks = s.dll_hooks ∧ r.state.dll_post_hooks = s.dll_post_hooks ∧ r.state.dll_new_hooks = s.dll_new_hooks)) ∧
      (∀ (V : Int) (G : Table EngineSlot) (v : Int) (tbl : Addr) (w : Int) (s : State)
          (r r' : ExportReturn),
        gamedll.detail.ExportDllNewPostHooks V G 0 v s = Except.ok r →
        gamedll.detail.ExportDllNewPostHooks V G tbl w s = Except.ok r' → tbl ≠ 0 → w ≠ V →
        r.ret = r'.ret ∧ { r.state with alerts := [] } = { r'.state with alerts := [] }) ∧
      (∀ (V : Int) (G : Table EngineSlot) (v : Int) (s : State),
        G EngineSlot.alert_message = 0 →
        gamedll.detail.ExportDllNewPostHooks V G 0 v s = Except.error Fault.null_pointer)) := by
  refine ⟨?_, ?_, ?_, ?_, ?_, ?_⟩
  · have key : ∀ (V : Int) (G : Table EngineSlot) (v : Int) (s : State)
        (r : ExportReturn), engine.detail.ExportEngineHooks V G 0 v s = Except.ok r →
          r.ret = false ∧ r.interface_version = v ∧ r.state.engine_hooks = 0 ∧
          r.state.engine_table false = none ∧
          (s.engine_hooks ≠ 0 → r.state.engine_heap s.engine_hooks = none) ∧
          (∀ a, a ≠ s.engine_hooks → r.state.engine_heap a = s.engine_heap a) ∧
          r.state.dll_heap = s.dll_heap ∧ r.state.dll_new_heap = s.dll_new_heap ∧
          (r.state.engine_post_hooks = s.engine_post_hooks ∧ r.state.dll_hooks = s.dll_hooks ∧ r.state.dll_post_hooks = s.dll_post_hooks ∧ r.state.dll_new_hooks = s.dll_new_hooks ∧ r.state.dll_new_post_hooks = s.dll_new_post_hooks) := by
      intro V G v s r e
      obtain ⟨h1, h2, h3⟩ :=
        engine.detail.ExportEngineHooks_failure_effect V G 0 v s r (fun h => h.1 rfl) e
      exact ⟨h1, by simpa using h2, h3⟩
    refine ⟨?_, key, ?_, ?_⟩
    · intro V G v s hG hl
      obtain ⟨r, e⟩ :=
        engine.detail.ExportEngineHooks_failure_returns V G 0 v s (fun h => h.1 rfl) hG hl
      exact ⟨r, e, key V G v s r e⟩
    · intro V G v tbl w s r r' e e' _ hw
      obtain ⟨al, hr⟩ := engine.detail.ExportEngineHooks_failure_inv V G 0 v s r (fun h => h.1 rfl) e
      obtain ⟨al', hr'⟩ := engine.detail.ExportEngineHooks_failure_inv V G tbl w s r' (fun h => hw h.2) e'
      subst hr
      subst hr'
      exact ⟨rfl, rfl⟩
    · intro V G v s hG
      exact engine.detail.ExportEngineHooks_failure_null V G 0 v s (fun h => h.1 rfl) hG
  · have key : ∀ (V : Int) (G : Table EngineSlot) (v : Int) (s : State)
        (r : ExportReturn), engine.detail.ExportEnginePostHooks V G 0 v s = Except.ok r →
          r.ret = false ∧ r.interface_version = v ∧ r.state.engine_post_hooks = 0 ∧
          r.state.engine_table true = none ∧
          (s.engine_post_hooks ≠ 0 → r.state.engine_heap s.engine_post_hooks = none) ∧
          (∀ a, a ≠ s.engine_post_hooks → r.state.engine_heap a = s.engine_heap a) ∧
          r.state.dll_heap = s.dll_heap ∧ r.state.dll_new_heap = s.dll_new_heap ∧
          (r.state.engine_hooks = s.engine_hooks ∧ r.state.dll_hooks = s.dll_hooks ∧ r.state.dll_post_hooks = s.dll_post_hooks ∧ r.state.dll_new_hooks = s.dll_new_hooks ∧ r.state.dll_new_post_hooks = s.dll_new_post_hooks) := by
      intro V G v s r e
      obtain ⟨h1, h2, h3⟩ :=
        engine.detail.ExportEnginePostHooks_failure_effect V G 0 v s r (fun h => h.1 rfl) e
      exact ⟨h1, by simpa using h2, h3⟩
    refine ⟨?_, key, ?_, ?_⟩
    · intro V G v s hG hl
      obtain ⟨r, e⟩ :=
        engine.detail.ExportEnginePostHooks_failure_returns V G 0 v s (fun h => h.1 rfl) hG hl
      exact ⟨r, e, key V G v s r e⟩
    · intro V G v tbl w s r r' e e' _ hw
      obtain ⟨al, hr⟩ := engine.detail.ExportEnginePostHooks_failure_inv V G 0 v s r (fun h => h.1 rfl) e
      obtain ⟨al', hr'⟩ := engine.detail.ExportEnginePostHooks_failure_inv V G tbl w s r' (fun h => hw h.2) e'
      subst hr
      subst hr'
      exact ⟨rfl, rfl⟩
    · intro V G v s hG
      exact engine.detail.ExportEnginePostHooks_failure_null V G 0 v s (fun h => h.1 rfl) hG
  · have key : ∀ (V : Int) (G : Table EngineSlot) (v : Int) (s : State)
        (r : ExportReturn), gamedll.detail.ExportDllHooks V G 0 v s = Except.ok r →
          r.ret = false ∧ r.interface_version = v ∧ r.state.dll_hooks = 0 ∧
          r.state.dll_table false = none ∧
          (s.dll_hooks ≠ 0 → r.state.dll_heap s.dll_hooks = none) ∧
          (∀ a, a ≠ s.dll_hooks → r.state.dll_heap a = s.dll_heap a) ∧
          r.state.engine_heap = s.engine_heap ∧ r.state.dll_new_heap = s.dll_new_heap ∧
          (r.state.engine_hooks = s.engine_hooks ∧ r.state.engine_post_hooks = s.engine_post_hooks ∧ r.state.dll_post_hooks = s.dll_post_hooks ∧ r.state.dll_new_hooks = s.dll_new_hooks ∧ r.state.dll_new_post_hooks = s.dll_new_post_hooks) := by
      intro V G v s r e
      obtain ⟨h1, h2, h3⟩ :=
        gamedll.detail.ExportDllHooks_failure_effect V G 0 v s r (fun h => h.1 rfl) e
      exact ⟨h1, by simpa using h2, h3⟩
    refine ⟨?_, key, ?_, ?_⟩
    · intro V G v s hG hl
      obtain ⟨r, e⟩ :=
        gamedll.detail.ExportDllHooks_failure_returns V G 0 v s (fun h => h.1 rfl) hG hl
      exact ⟨r, e, key V G v s r e⟩
    · intro V G v tbl w s r r' e e' _ hw
      obtain ⟨al, hr⟩ := gamedll.detail.ExportDllHooks_failure_inv V G 0 v s r (fun h => h.1 rfl) e
      obtain ⟨al', hr'⟩ := gamedll.detail.ExportDllHooks_failure_inv V G tbl w s r' (fun h => hw h.2) e'
      subst hr
      subst hr'
      exact ⟨rfl, rfl⟩
    · intro V G v s hG
      exact gamedll.detail.ExportDllHooks_failure_null V G 0 v s (fun h => h.1 rfl) hG
  · have key : ∀ (V : Int) (G : Table EngineSlot) (v : Int) (s : State)
        (r : ExportReturn), gamedll.detail.ExportDllPostHooks V G 0 v s = Except.ok r →
          r.ret = false ∧ r.interface_version = v ∧ r.state.dll_post_hooks = 0 ∧
          r.state.dll_table true = none ∧
          (s.dll_post_hooks ≠ 0 → r.state.dll_heap s.dll_post_hooks = none) ∧
          (∀ a, a ≠ s.dll_post_hooks → r.state.dll_heap a = s.dll_heap a) ∧
          r.state.engine_heap = s.engine_heap ∧ r.state.dll_new_heap = s.dll_new_heap ∧
          (r.state.engine_hooks = s.engine_hooks ∧ r.state.engine_post_hooks = s.engine_post_hooks ∧ r.state.dll_hooks = s.dll_hooks ∧ r.state.dll_new_hooks = s.dll_new_hooks ∧ r.state.dll_new_post_hooks = s.dll_new_post_hooks) := by
      intro V G v s r e
      obtain ⟨h1, h2, h3⟩ :=
        gamedll.detail.ExportDllPostHooks_failure_effect V G 0 v s r (fun h => h.1 rfl) e
      exact ⟨h1, by simpa using h2, h3⟩
    refine ⟨?_, key, ?_, ?_⟩
    · intro V G v s hG hl
      obtain ⟨r, e⟩ :=
        gamedll.detail.ExportDllPostHooks_failure_returns V G 0 v s (fun h => h.1 rfl) hG hl
      exact ⟨r, e, key V G v s r e⟩
    · intro V G v tbl w s r r' e e' _ hw
      obtain ⟨al, hr⟩ := gamedll.detail.ExportDllPostHooks_failure_inv V G 0 v s r (fun h => h.1 rfl) e
      obtain ⟨al', hr'⟩ := gamedll.detail.ExportDllPostHooks_failure_inv V G tbl w s r' (fun h => hw h.2) e'
      subst hr
      subst hr'
      exact ⟨rfl, rfl⟩
    · intro V G v s hG
      exact gamedll.detail.ExportDllPostHooks_failure_null V G 0 v s (fun h => h.1 rfl) hG
  · have key : ∀ (V : Int) (G : Table EngineSlot) (v : Int) (s : State)
        (r : ExportReturn), gamedll.detail.ExportDllNewHooks V G 0 v s = Except.ok r →
          r.ret = false ∧ r.interface_version = v ∧ r.state.dll_new_hooks = 0 ∧
          r.state.dll_new_table false = none ∧
          (s.dll_new_hooks ≠ 0 → r.state.dll_new_heap s.dll_new_hooks = none) ∧
          (∀ a, a ≠ s.dll_new_hooks → r.state.dll_new_heap a = s.dll_new_heap a) ∧
          r.state.engine_heap = s.engine_heap ∧ r.state.dll_heap = s.dll_heap ∧
          (r.state.engine_hooks = s.engine_hooks ∧ r.state.engine_post_hooks = s.engine_post_hooks ∧ r.state.dll_hooks = s.dll_hooks ∧ r.state.dll_post_hooks = s.dll_post_hooks ∧ r.state.dll_new_post_hooks = s.dll_new_post_hooks) := by
      intro V G v s r e
      obtain ⟨h1, h2, h3⟩ :=
        gamedll.detail.ExportDllNewHooks_failure_effect V G 0 v s r (fun h => h.1 rfl) e
      exact ⟨h1, by simpa using h2, h3⟩
    refine ⟨?_, key, ?_, ?_⟩
    · intro V G v s hG hl
      obtain ⟨r, e⟩ :=
        gamedll.detail.ExportDllNewHooks_failure_returns V G 0 v s (fun h => h.1 rfl) hG hl
      exact ⟨r, e, key V G v s r e⟩
    · intro V G v tbl w s r r' e e' _ hw
      obtain ⟨al, hr⟩ := gamedll.detail.ExportDllNewHooks_failure_inv V G 0 v s r (fun h => h.1 rfl) e
      obtain ⟨al', hr'⟩ := gamedll.detail.ExportDllNewHooks_failure_inv V G tbl w s r' (fun h => hw h.2) e'
      subst hr
      subst hr'
      exact ⟨rfl, rfl⟩
    · intro V G v s hG
      exact gamedll.detail.ExportDllNewHooks_failure_null V G 0 v s (fun h => h.1 rfl) hG
  · have key : ∀ (V : Int) (G : Table EngineSlot) (v : Int) (s : State)
        (r : ExportReturn), gamedll.detail.ExportDllNewPostHooks V G 0 v s = Except.ok r →
          r.ret = false ∧ r.interface_version = v ∧ r.state.dll_new_post_hooks = 0 ∧
          r.state.dll_new_table true = none ∧
          (s.dll_new_post_hooks ≠ 0 → r.state.dll_new_heap s.dll_new_post_hooks = none) ∧
          (∀ a, a ≠ s.dll_new_post_hooks → r.state.dll_new_heap a = s.dll_new_heap a) ∧
          r.state.engine_heap = s.engine_heap ∧ r.state.dll_heap = s.dll_heap ∧
          (r.state.engine_hooks = s.engine_hooks ∧ r.state.engine_post_hooks = s.engine_post_hooks ∧ r.state.dll_hooks = s.dll_hooks ∧ r.state.dll_post_hooks = s.dll_post_hooks ∧ r.state.dll_new_hooks = s.dll_new_hooks) := by
      intro V G v s r e
      obtain ⟨h1, h2, h3⟩ :=
        gamedll.detail.ExportDllNewPostHooks_failure_effect V G 0 v s r (fun h => h.1 rfl) e
      exact ⟨h1, by simpa using h2, h3⟩
    refine ⟨?_, key, ?_, ?_⟩
    · intro V G v s hG hl
      obtain ⟨r, e⟩ :=
        gamedll.detail.ExportDllNewPostHooks_failure_returns V G 0 v s (fun h => h.1 rfl) hG hl
      exact ⟨r, e, key V G v s r e⟩
    · intro V G v tbl w s r r' e e' _ hw
      obtain ⟨al, hr⟩ := gamedll.detail.ExportDllNewPostHooks_failure_inv V G 0 v s r (fun h => h.1 rfl) e
      obtain ⟨al', hr'⟩ := gamedll.detail.ExportDllNewPostHooks_failure_inv V G tbl w s r' (fun h => hw h.2) e'
      subst hr
      subst hr'
      exact ⟨rfl, rfl⟩
    · intro V G v s hG
      exact gamedll.detail.ExportDllNewPostHooks_failure_null V G 0 v s (fun h => h.1 rfl) hG

/-- Witness for C12 (amended): `ExportDllPostHooks` called with a null table
and the matching version token `140`, the host's `alert_message` at hand,
compared with a call on the host table at address `3` with the wrong token
`139`. -/
theorem export_null_table_like_mismatch_witness :
    (∃ r, gamedll.detail.ExportDllPostHooks 140 host_engine_funcs 0 140 State.hosted =
        Except.ok r ∧
      r.ret = false ∧ r.interface_version = 140 ∧ r.state.dll_post_hooks = 0 ∧
      r.state.dll_table true = none ∧ r.state.dll_heap 2 = none) ∧
    (∃ r r', gamedll.detail.ExportDllPostHooks 140 host_engine_funcs 0 140 State.hosted =
        Except.ok r ∧
      gamedll.detail.ExportDllPostHooks 140 host_engine_funcs 3 139 State.hosted =
        Except.ok r' ∧
      r.ret = r'.ret ∧ { r.state with alerts := [] } = { r'.state with alerts := [] }) := by
  constructor
  · obtain ⟨r, e, h1, h2, h3, h4, h5, _⟩ :=
      (export_null_table_like_mismatch.2.2.2.1).1 140 host_engine_funcs 140 State.hosted
        (by decide) (Or.inr rfl)
    exact ⟨r, e, h1, h2, h3, h4, h5 (by decide)⟩
  · refine ⟨_, _, rfl, rfl, ?_⟩
    exact (export_null_table_like_mismatch.2.2.2.1).2.2.1 140 host_engine_funcs 140 3 139
      State.hosted _ _ rfl rfl (by decide) (by decide)

/-! ### Writers and readers of the meta result -/

/-- Counterexample to C13 as stated: a hook that has recorded `Handled` and
then leaves through `RETURN_META(Ignored)` (or `RETURN_META_VALUE(Ignored, 5)`)
ends with the result `Ignored`, which is lower than `Handled`. -/
theorem result_writers_counterexample :
    (RETURN_META Result.Ignored ({ result := Result.Handled } : Globals Nat)).result =
      Result.Ignored ∧
    ¬ (({ result := Result.Handled } : Globals Nat).result ≤
      (RETURN_META Result.Ignored ({ result := Result.Handled } : Globals Nat)).result) ∧
    ¬ (({ result := Result.Handled } : Globals Nat).result ≤
      (RETURN_META_VALUE Result.Ignored (5 : Nat)
        ({ result := Result.Handled } : Globals Nat)).2.result) :=
  ⟨rfl, by decide, by decide⟩

/-- C13 (amended): `SetResult(r)` cannot lower the plugin's result: it leaves
`result >= c` and discards a code that does not rank above `c`.
`RETURN_META(r)` and `RETURN_META_VALUE(r, v)` assign `r` unconditionally: the
result afterwards is `r`, which is at least `c` exactly when `r >= c`. -/
theorem result_writers {α β : Type} (g : Globals α) (r : Result) (v : β) :
    g.result ≤ (SetResult r g).result ∧
    (r ≤ g.result → SetResult r g = g) ∧
    (RETURN_META r g).result = r ∧
    (RETURN_META_VALUE r v g).2.result = r ∧
    (RETURN_META_VALUE r v g).1 = v ∧
    (g.result ≤ (RETURN_META r g).result ↔ g.result ≤ r) ∧
    (g.result ≤ (RETURN_META_VALUE r v g).2.result ↔ g.result ≤ r) := by
  refine ⟨?_, ?_, rfl, rfl, rfl, Iff.rfl, Iff.rfl⟩
  · rw [SetResult_result]; exact le_max_left _ _
  · intro h
    simp [SetResult, not_lt.mpr h]

/-- Witness for C13 (amended): `SetResult(Ignored)` on a record holding
`Handled`, and the two macros on the same record. -/
theorem result_writers_witness :
    SetResult Result.Ignored ({ result := Result.Handled } : Globals Nat) =
      { result := Result.Handled } ∧
    (RETURN_META Result.Ignored ({ result := Result.Handled } : Globals Nat)).result =
      Result.Ignored :=
  ⟨(result_writers ({ result := Result.Handled } : Globals Nat) Result.Ignored (5 : Nat)).2.1
      (by decide),
    (result_writers ({ result := Result.Handled } : Globals Nat) Result.Ignored (5 : Nat)).2.2.1⟩

/-- C14: the result codes form a strict total order
`Unset < Ignored < Handled < Override < Supercede` with numeric values
`0, 1, 2, 3, 4`; `Unset` is the least element and the value of a
zero-initialised field; and the comparisons of `SetResult` and `GetRetValue`
are comparisons in this order. -/
theorem Result_order :
    (Result.Unset.toInt = 0 ∧ Result.Ignored.toInt = 1 ∧ Result.Handled.toInt = 2 ∧
      Result.Override.toInt = 3 ∧ Result.Supercede.toInt = 4) ∧
    (Result.Unset < Result.Ignored ∧ Result.Ignored < Result.Handled ∧
      Result.Handled < Result.Override ∧ Result.Override < Result.Supercede) ∧
    (∀ a : Result, Result.Unset ≤ a) ∧
    (({} : Globals Unit).result = Result.Unset ∧ ({} : Globals Unit).prev_result = Result.Unset ∧
      ({} : Globals Unit).status = Result.Unset) ∧
    (∀ a b : Result, a < b ↔ a.toInt < b.toInt) ∧
    (∀ a : Result, ¬ a < a) ∧
    (∀ a b c : Result, a < b → b < c → a < c) ∧
    (∀ a b : Result, a < b ∨ a = b ∨ b < a) ∧
    (∀ (α : Type) (g : Globals α) (r : Result),
      SetResult r g = if g.result.toInt < r.toInt then { g with result := r } else g) ∧
    (∀ (α : Type) (g : Globals α),
      GetRetValue g = if g.status.toInt < 3 then OrigRet g else OverrideRet g) := by
  refine ⟨⟨rfl, rfl, rfl, rfl, rfl⟩, by decide, ?_, ⟨rfl, rfl, rfl⟩, fun _ _ => Iff.rfl,
    fun a => lt_irrefl a, fun _ _ _ h1 h2 => lt_trans h1 h2, fun a b => lt_trichotomy a b,
    ?_, ?_⟩
  · intro a; cases a <;> decide
  · intro α g r; rfl
  · intro α g; rfl

/-- C20: `GetRetValue` dereferences only the pointer it selects.  With
`status >= Override` and a null `override_ret` the result is undefined (a
null dereference); with `status < Override` it is the value behind `orig_ret`
as soon as that pointer is valid, whatever `override_ret` is, null included;
and with `status >= Override` it does not depend on `orig_ret`. -/
theorem GetRetValue_reads_selected_pointer {α : Type} (g : Globals α) :
    (Result.Override ≤ g.status → g.override_ret = none →
      GetRetValue g = Except.error Fault.null_pointer) ∧
    (g.status < Result.Override → ∀ a, g.orig_ret = some a → GetRetValue g = Except.ok a) ∧
    (g.status < Result.Override → ∀ x, GetRetValue { g with override_ret := x } = GetRetValue g) ∧
    (Result.Override ≤ g.status → ∀ b, g.override_ret = some b →
      GetRetValue g = Except.ok b) ∧
    (Result.Override ≤ g.status → ∀ x, GetRetValue { g with orig_ret := x } = GetRetValue g) := by
  refine ⟨?_, ?_, ?_, ?_, ?_⟩
  · intro h hn
    simp [GetRetValue, OverrideRet, not_lt.mpr h, hn]
  · intro h a ha
    simp [GetRetValue, OrigRet, h, ha]
  · intro h x
    simp [GetRetValue, OrigRet, h]
  · intro h b hb
    simp [GetRetValue, OverrideRet, not_lt.mpr h, hb]
  · intro h x
    simp [GetRetValue, OverrideRet, not_lt.mpr h]

/-- Witness for C20: a plugin raised `Supercede` without supplying a value
(undefined result, although `orig_ret` is valid), and a call at `Handled` with
a null `override_ret` (defined result `7`). -/
theorem GetRetValue_reads_selected_pointer_witness :
    GetRetValue ({ status := Result.Supercede, orig_ret := some 7 } : Globals Nat) =
      Except.error Fault.null_pointer ∧
    GetRetValue ({ status := Result.Handled, orig_ret := some 7 } : Globals Nat) =
      Except.ok 7 :=
  ⟨(GetRetValue_reads_selected_pointer
      ({ status := Result.Supercede, orig_ret := some 7 } : Globals Nat)).1 (by decide) rfl,
    (GetRetValue_reads_selected_pointer
      ({ status := Result.Handled, orig_ret := some 7 } : Globals Nat)).2.1 (by decide) 7 rfl⟩

/-! ### Frame of a registration -/

theorem Heap.store_eq_ok {σ : Type} [DecidableEq σ] (h h' : Heap σ) (p : Addr) (member : σ)
    (callback : Callback) (e : h.store p member callback = Except.ok h') :
    ∃ t, h p = some t ∧
      h' = fun a => if a = p then some (fun m => if m = member then callback else t m)
        else h a := by
  unfold Heap.store at e
  by_cases hp : p = 0
  · simp [hp] at e
  · cases hh : h p with
    | none => simp [hp, hh] at e
    | some t =>
      simp only [hp, hh, if_false, Except.ok.injEq] at e
      exact ⟨t, rfl, e.symm⟩

theorem engine.detail.SetHook_engine_inv (x : EngineSlot) (cb : Callback) (post : Bool) (s s' : State)
    (e : engine.detail.SetHook x cb post s = Except.ok s') :
    ∃ t, (if post then s.engine_post_hooks else s.engine_hooks) ≠ 0 ∧
      s.engine_heap (if post then s.engine_post_hooks else s.engine_hooks) = some t ∧
      s' = { s with engine_heap := fun a =>
                  if a = (if post then s.engine_post_hooks else s.engine_hooks) then
                    some (fun m => if m = x then cb else t m)
                  else s.engine_heap a } := by
  unfold SetHook at e
  cases post
  · simp only [Bool.false_eq_true, if_false] at e ⊢
    by_cases hp : s.engine_hooks = 0
    · simp [hp] at e
    · simp only [hp, if_false] at e
      obtain ⟨h, hs, hr⟩ := map_eq_ok _ _ _ e
      obtain ⟨t, ht, hh⟩ := Heap.store_eq_ok _ _ _ _ _ hs
      subst hh
      exact ⟨t, hp, ht, hr⟩
  · simp only [if_true] at e ⊢
    by_cases hp : s.engine_post_hooks = 0
    · simp [hp] at e
    · simp only [hp, if_false] at e
      obtain ⟨h, hs, hr⟩ := map_eq_ok _ _ _ e
      obtain ⟨t, ht, hh⟩ := Heap.store_eq_ok _ _ _ _ _ hs
      subst hh
      exact ⟨t, hp, ht, hr⟩

theorem gamedll.detail.SetHook_dll_inv (x : DllSlot) (cb : Callback) (post : Bool) (s s' : State)
    (e : gamedll.detail.SetHook x cb post s = Except.ok s') :
    ∃ t, (if post then s.dll_post_hooks else s.dll_hooks) ≠ 0 ∧
      s.dll_heap (if post then s.dll_post_hooks else s.dll_hooks) = some t ∧
      s' = { s with dll_heap := fun a =>
                  if a = (if post then s.dll_post_hooks else s.dll_hooks) then
                    some (fun m => if m = x then cb else t m)
                  else s.dll_heap a } := by
  unfold SetHook at e
  cases post
  · simp only [Bool.false_eq_true, if_false] at e ⊢
    by_cases hp : s.dll_hooks = 0
    · simp [hp] at e
    · simp only [hp, if_false] at e
      obtain ⟨h, hs, hr⟩ := map_eq_ok _ _ _ e
      obtain ⟨t, ht, hh⟩ := Heap.store_eq_ok _ _ _ _ _ hs
      subst hh
      exact ⟨t, hp, ht, hr⟩
  · simp only [if_true] at e ⊢
    by_cases hp : s.dll_post_hooks = 0
    · simp [hp] at e
    · simp only [hp, if_false] at e
      obtain ⟨h, hs, hr⟩ := map_eq_ok _ _ _ e
      obtain ⟨t, ht, hh⟩ := Heap.store_eq_ok _ _ _ _ _ hs
      subst hh
      exact ⟨t, hp, ht, hr⟩

theorem gamedll.detail.SetHookNew_dll_new_inv (x : DllNewSlot) (cb : Callback) (post : Bool) (s s' : State)
    (e : gamedll.detail.SetHookNew x cb post s = Except.ok s') :
    ∃ t, (if post then s.dll_new_post_hooks else s.dll_new_hooks) ≠ 0 ∧
      s.dll_new_heap (if post then s.dll_new_post_hooks else s.dll_new_hooks) = some t ∧
      s' = { s with dll_new_heap := fun a =>
                  if a = (if post then s.dll_new_post_hooks else s.dll_new_hooks) then
                    some (fun m => if m = x then cb else t m)
                  else s.dll_new_heap a } := by
  unfold SetHookNew at e
  cases post
  · simp only [Bool.false_eq_true, if_false] at e ⊢
    by_cases hp : s.dll_new_hooks = 0
    · simp [hp] at e
    · simp only [hp, if_false] at e
      obtain ⟨h, hs, hr⟩ := map_eq_ok _ _ _ e
      obtain ⟨t, ht, hh⟩ := Heap.store_eq_ok _ _ _ _ _ hs
      subst hh
      exact ⟨t, hp, ht, hr⟩
  · simp only [if_true] at e ⊢
    by_cases hp : s.dll_new_post_hooks = 0
    · simp [hp] at e
    · simp only [hp, if_false] at e
      obtain ⟨h, hs, hr⟩ := map_eq_ok _ _ _ e
      obtain ⟨t, ht, hh⟩ := Heap.store_eq_ok _ _ _ _ _ hs
      subst hh
      exact ⟨t, hp, ht, hr⟩

/-- Counterexample to C15 as stated: the host exports the engine pre-hook
table and then the engine post-hook table into the same table at address `3`
(both exports succeed), so `engine_hooks` and `engine_post_hooks` refer to one
table.  `HookPrecacheModel(55, false)`, a pre-hook registration, then changes
slot `precache_model` of the table `engine_post_hooks` refers to. -/
theorem hook_frame_counterexample :
    engine.detail.ExportEngineHooks 138 host_engine_funcs 3 138 State.hosted =
      Except.ok ⟨true, 138, State.exported⟩ ∧
    engine.detail.ExportEnginePostHooks 138 host_engine_funcs 3 138 State.exported =
      Except.ok ⟨true, 138, State.shared⟩ ∧
    State.shared.engine_table true = some Table.zero ∧
    ∃ s' t', engine.HookPrecacheModel 55 false State.shared = Except.ok s' ∧
      s'.engine_table true = some t' ∧ t' EngineSlot.precache_model = 55 ∧
      s'.engine_table true ≠ State.shared.engine_table true :=
  ⟨rfl, rfl, rfl, _, _, rfl, rfl, rfl,
    fun h => absurd (congrFun (Option.some.inj h) EngineSlot.precache_model) (by decide)⟩

/-- C15 (amended): a registration touches one slot of one table only.  For
every `HookX(cb, post)` that returns, the six table pointers are unchanged,
every slot other than `X` of the written table is unchanged, and every other
table (every other table of the same heap and all tables of the other two
interfaces) is unchanged; in particular an engine registration never changes a
game-DLL table, and where the pre- and post-hook pointers of the interface
refer to different tables a pre-hook registration does not change the
post-hook table nor a post-hook registration the pre-hook table. -/
theorem hook_frame :
    (∀ (x : EngineSlot) (cb : Callback) (post : Bool) (s s' : State),
      engine.installer x cb post s = Except.ok s' →
      (s'.engine_hooks = s.engine_hooks ∧ s'.engine_post_hooks = s.engine_post_hooks ∧
        s'.dll_hooks = s.dll_hooks ∧ s'.dll_post_hooks = s.dll_post_hooks ∧
        s'.dll_new_hooks = s.dll_new_hooks ∧ s'.dll_new_post_hooks = s.dll_new_post_hooks) ∧
      s'.dll_heap = s.dll_heap ∧ s'.dll_new_heap = s.dll_new_heap ∧
      (∀ b, s'.dll_table b = s.dll_table b) ∧ (∀ b, s'.dll_new_table b = s.dll_new_table b) ∧
      (∀ a, a ≠ (if post then s.engine_post_hooks else s.engine_hooks) → s'.engine_heap a = s.engine_heap a) ∧
      (∃ t t', s.engine_table post = some t ∧ s'.engine_table post = some t' ∧ ∀ m, m ≠ x → t' m = t m) ∧
      (s.engine_hooks ≠ s.engine_post_hooks → s'.engine_table (!post) = s.engine_table (!post))) ∧
    (∀ (x : DllSlot) (cb : Callback) (post : Bool) (s s' : State),
      gamedll.installer x cb post s = Except.ok s' →
      (s'.engine_hooks = s.engine_hooks ∧ s'.engine_post_hooks = s.engine_post_hooks ∧
        s'.dll_hooks = s.dll_hooks ∧ s'.dll_post_hooks = s.dll_post_hooks ∧
        s'.dll_new_hooks = s.dll_new_hooks ∧ s'.dll_new_post_hooks = s.dll_new_post_hooks) ∧
      s'.engine_heap = s.engine_heap ∧ s'.dll_new_heap = s.dll_new_heap ∧
      (∀ b, s'.engine_table b = s.engine_table b) ∧ (∀ b, s'.dll_new_table b = s.dll_new_table b) ∧
      (∀ a, a ≠ (if post then s.dll_post_hooks else s.dll_hooks) → s'.dll_heap a = s.dll_heap a) ∧
      (∃ t t', s.dll_table post = some t ∧ s'.dll_table post = some t' ∧ ∀ m, m ≠ x → t' m = t m) ∧
      (s.dll_hooks ≠ s.dll_post_hooks → s'.dll_table (!post) = s.dll_table (!post))) ∧
    (∀ (x : DllNewSlot) (cb : Callback) (post : Bool) (s s' : State),
      gamedll.installerNew x cb post s = Except.ok s' →
      (s'.engine_hooks = s.engine_hooks ∧ s'.engine_post_hooks = s.engine_post_hooks ∧
        s'.dll_hooks = s.dll_hooks ∧ s'.dll_post_hooks = s.dll_post_hooks ∧
        s'.dll_new_hooks = s.dll_new_hooks ∧ s'.dll_new_post_hooks = s.dll_new_post_hooks) ∧
      s'.engine_heap = s.engine_heap ∧ s'.dll_heap = s.dll_heap ∧
      (∀ b, s'.engine_table b = s.engine_table b) ∧ (∀ b, s'.dll_table b = s.dll_table b) ∧
      (∀ a, a ≠ (if post then s.dll_new_post_hooks else s.dll_new_hooks) → s'.dll_new_heap a = s.dll_new_heap a) ∧
      (∃ t t', s.dll_new_table post = some t ∧ s'.dll_new_table post = some t' ∧ ∀ m, m ≠ x → t' m = t m) ∧
      (s.dll_new_hooks ≠ s.dll_new_post_hooks → s'.dll_new_table (!post) = s.dll_new_table (!post))) := by
  refine ⟨?_, ?_, ?_⟩
  · intro x cb post s s' e
    rw [engine.installer_engine_eq] at e
    obtain ⟨t, hp, ht, hs⟩ := engine.detail.SetHook_engine_inv x cb post s s' e
    subst hs
    refine ⟨⟨rfl, rfl, rfl, rfl, rfl, rfl⟩, rfl, rfl, fun _ => rfl, fun _ => rfl, ?_, ?_, ?_⟩
    · intro a ha
      simp [ha]
    · refine ⟨t, fun m => if m = x then cb else t m, ?_, ?_, ?_⟩
      · simp only [State.engine_table, Heap.deref, hp, if_false]; exact ht
      · simp only [State.engine_table, Heap.deref, hp, if_false, if_true]
      · intro m hm; simp [hm]
    · intro hne
      cases post
      · have h2 : s.engine_post_hooks ≠ s.engine_hooks := fun h => hne h.symm
        simp [State.engine_table, Heap.deref, h2]
      · simp [State.engine_table, Heap.deref, hne]
  · intro x cb post s s' e
    rw [gamedll.installer_dll_eq] at e
    obtain ⟨t, hp, ht, hs⟩ := gamedll.detail.SetHook_dll_inv x cb post s s' e
    subst hs
    refine ⟨⟨rfl, rfl, rfl, rfl, rfl, rfl⟩, rfl, rfl, fun _ => rfl, fun _ => rfl, ?_, ?_, ?_⟩
    · intro a ha
      simp [ha]
    · refine ⟨t, fun m => if m = x then cb else t m, ?_, ?_, ?_⟩
      · simp only [State.dll_table, Heap.deref, hp, if_false]; exact ht
      · simp only [State.dll_table, Heap.deref, hp, if_false, if_true]
      · intro m hm; simp [hm]
    · intro hne
      cases post
      · have h2 : s.dll_post_hooks ≠ s.dll_hooks := fun h => hne h.symm
        simp [State.dll_table, Heap.deref, h2]
      · simp [State.dll_table, Heap.deref, hne]
  · intro x cb post s s' e
    rw [gamedll.installerNew_eq] at e
    obtain ⟨t, hp, ht, hs⟩ := gamedll.detail.SetHookNew_dll_new_inv x cb post s s' e
    subst hs
    refine ⟨⟨rfl, rfl, rfl, rfl, rfl, rfl⟩, rfl, rfl, fun _ => rfl, fun _ => rfl, ?_, ?_, ?_⟩
    · intro a ha
      simp [ha]
    · refine ⟨t, fun m => if m = x then cb else t m, ?_, ?_, ?_⟩
      · simp only [State.dll_new_table, Heap.deref, hp, if_false]; exact ht
      · simp only [State.dll_new_table, Heap.deref, hp, if_false, if_true]
      · intro m hm; simp [hm]
    · intro hne
      cases post
      · have h2 : s.dll_new_post_hooks ≠ s.dll_new_hooks := fun h => hne h.symm
        simp [State.dll_new_table, Heap.deref, h2]
      · simp [State.dll_new_table, Heap.deref, hne]

/-- Witness for C15 (amended): `HookSpawn(5, true)` in the initial state. -/
theorem hook_frame_witness :
    ∃ s', gamedll.installer DllSlot.spawn 5 true State.init = Except.ok s' ∧
      s'.engine_heap = State.init.engine_heap ∧
      (∀ b, s'.engine_table b = State.init.engine_table b) ∧
      (∃ t t', State.init.dll_table true = some t ∧ s'.dll_table true = some t' ∧
        ∀ m, m ≠ DllSlot.spawn → t' m = t m) ∧
      (State.init.dll_hooks ≠ State.init.dll_post_hooks →
        s'.dll_table (!true) = State.init.dll_table (!true)) := by
  refine ⟨_, rfl, ?_⟩
  have h := hook_frame.2.1 DllSlot.spawn 5 true State.init _ rfl
  exact ⟨h.2.1, h.2.2.2.1, h.2.2.2.2.2.2.1, h.2.2.2.2.2.2.2⟩

/-! ### Storage at detach -/

theorem Heap.memset0_map_alloc {σ S : Type} (h : Heap σ) (p : Addr) (f : Heap σ → S) (s' : S)
    (e : (h.memset0 p).map f = Except.ok s') :
    ∃ h', s' = f h' ∧ ∀ a, (h' a).isSome = (h a).isSome := by
  unfold Heap.memset0 at e
  by_cases hp : p = 0
  · simp [hp] at e
  · cases hh : h p with
    | none => simp [hp, hh] at e
    | some t =>
      simp only [hp, hh, if_false, map_ok_eq, Except.ok.injEq] at e
      refine ⟨_, e.symm, ?_⟩
      intro a
      by_cases ha : a = p
      · simp [ha, hh]
      · simp [ha]

theorem State.engine_heap_memset_alloc (s s1 : State) (p : Addr)
    (e : (if p ≠ 0 then (s.engine_heap.memset0 p).map (fun h => { s with engine_heap := h })
      else pure s) = Except.ok s1) :
    ∃ h, s1 = { s with engine_heap := h } ∧ ∀ a, (h a).isSome = (s.engine_heap a).isSome := by
  by_cases hp : p = 0
  · simp only [hp, ne_eq, not_true_eq_false, if_false, pure_eq_ok, Except.ok.injEq] at e
    subst e
    exact ⟨s.engine_heap, rfl, fun _ => rfl⟩
  · simp only [ne_eq, hp, not_false_eq_true, if_true] at e
    obtain ⟨h, hs, ha⟩ := Heap.memset0_map_alloc _ _ _ _ e
    exact ⟨h, hs, ha⟩

theorem State.dll_heap_memset_alloc (s s1 : State) (p : Addr)
    (e : (if p ≠ 0 then (s.dll_heap.memset0 p).map (fun h => { s with dll_heap := h })
      else pure s) = Except.ok s1) :
    ∃ h, s1 = { s with dll_heap := h } ∧ ∀ a, (h a).isSome = (s.dll_heap a).isSome := by
  by_cases hp : p = 0
  · simp only [hp, ne_eq, not_true_eq_false, if_false, pure_eq_ok, Except.ok.injEq] at e
    subst e
    exact ⟨s.dll_heap, rfl, fun _ => rfl⟩
  · simp only [ne_eq, hp, not_false_eq_true, if_true] at e
    obtain ⟨h, hs, ha⟩ := Heap.memset0_map_alloc _ _ _ _ e
    exact ⟨h, hs, ha⟩

theorem State.dll_new_heap_memset_alloc (s s1 : State) (p : Addr)
    (e : (if p ≠ 0 then (s.dll_new_heap.memset0 p).map (fun h => { s with dll_new_heap := h })
      else pure s) = Except.ok s1) :
    ∃ h, s1 = { s with dll_new_heap := h } ∧ ∀ a, (h a).isSome = (s.dll_new_heap a).isSome := by
  by_cases hp : p = 0
  · simp only [hp, ne_eq, not_true_eq_false, if_false, pure_eq_ok, Except.ok.injEq] at e
    subst e
    exact ⟨s.dll_new_heap, rfl, fun _ => rfl⟩
  · simp only [ne_eq, hp, not_false_eq_true, if_true] at e
    obtain ⟨h, hs, ha⟩ := Heap.memset0_map_alloc _ _ _ _ e
    exact ⟨h, hs, ha⟩

theorem Heap.deref_isSome_congr {σ : Type} (h h' : Heap σ) (p : Addr)
    (ha : ∀ a, (h' a).isSome = (h a).isSome) :
    (h'.deref p).isSome = (h.deref p).isSome := by
  unfold Heap.deref
  by_cases hp : p = 0
  · simp [hp]
  · simp only [hp, if_false]
    exact ha p

theorem engine.detail.ClearEngineHooks_alloc (s s' : State)
    (e : engine.detail.ClearEngineHooks s = Except.ok s') :
    ∃ h, s' = { s with engine_heap := h } ∧ ∀ a, (h a).isSome = (s.engine_heap a).isSome := by
  unfold ClearEngineHooks at e
  obtain ⟨s1, e1, e2⟩ := bind_eq_ok _ _ _ e
  obtain ⟨h1, r1, a1⟩ := State.engine_heap_memset_alloc _ _ _ e1
  obtain ⟨h2, r2, a2⟩ := State.engine_heap_memset_alloc _ _ _ e2
  subst r1
  exact ⟨h2, r2, fun a => (a2 a).trans (a1 a)⟩

theorem gamedll.detail.ClearGameDllHooks_alloc (s s' : State)
    (e : gamedll.detail.ClearGameDllHooks s = Except.ok s') :
    ∃ h k, s' = { s with dll_heap := h, dll_new_heap := k } ∧
      (∀ a, (h a).isSome = (s.dll_heap a).isSome) ∧
      (∀ a, (k a).isSome = (s.dll_new_heap a).isSome) := by
  unfold ClearGameDllHooks at e
  obtain ⟨s1, e1, e⟩ := bind_eq_ok _ _ _ e
  obtain ⟨s2, e2, e⟩ := bind_eq_ok _ _ _ e
  obtain ⟨s3, e3, e4⟩ := bind_eq_ok _ _ _ e
  obtain ⟨h1, r1, a1⟩ := State.dll_heap_memset_alloc _ _ _ e1
  obtain ⟨h2, r2, a2⟩ := State.dll_heap_memset_alloc _ _ _ e2
  obtain ⟨h3, r3, a3⟩ := State.dll_new_heap_memset_alloc _ _ _ e3
  obtain ⟨h4, r4, a4⟩ := State.dll_new_heap_memset_alloc _ _ _ e4
  subst r1
  subst r2
  subst r3
  exact ⟨h2, h4, r4, fun a => (a2 a).trans (a1 a), fun a => (a4 a).trans (a3 a)⟩

/-- Counterexample to C17 as stated: detaching the plugin in the state
`State.hooked` (no detach callback).  `Meta_Detach` returns `Ok`, and
afterwards each of the six pointers still refers to a table, now all-zero;
none has been freed. -/
theorem detach_releases_storage_counterexample :
    ∃ s', Meta_Detach none State.hooked = Except.ok (Status.Ok, s') ∧
      (s'.engine_hooks = 1 ∧ s'.engine_post_hooks = 2 ∧ s'.dll_hooks = 1 ∧
        s'.dll_post_hooks = 2 ∧ s'.dll_new_hooks = 1 ∧ s'.dll_new_post_hooks = 2) ∧
      (s'.engine_table false = some Table.zero ∧ s'.engine_table true = some Table.zero ∧
        s'.dll_table false = some Table.zero ∧ s'.dll_table true = some Table.zero ∧
        s'.dll_new_table false = some Table.zero ∧ s'.dll_new_table true = some Table.zero) :=
  ⟨_, rfl, ⟨rfl, rfl, rfl, rfl, rfl, rfl⟩, ⟨rfl, rfl, rfl, rfl, rfl, rfl⟩⟩

/-- C17 (amended): `Meta_Detach` zeroes the hook tables in place and releases
no storage.  After it returns, each of the six hook-table pointers has the
value the detach callback (if any) left in it, every address that held a
table still holds one, and so every pointer that referred to a table still
refers to a table. -/
theorem detach_keeps_storage (META_DETACH : Option (State → Except Fault State))
    (s s' : State) (status : Status)
    (h : Meta_Detach META_DETACH s = Except.ok (status, s')) :
    ∃ s1, (match META_DETACH with
        | some callback => callback s
        | none => pure s) = Except.ok s1 ∧
      (s'.engine_hooks = s1.engine_hooks ∧ s'.engine_post_hooks = s1.engine_post_hooks ∧
        s'.dll_hooks = s1.dll_hooks ∧ s'.dll_post_hooks = s1.dll_post_hooks ∧
        s'.dll_new_hooks = s1.dll_new_hooks ∧ s'.dll_new_post_hooks = s1.dll_new_post_hooks) ∧
      (∀ a, (s'.engine_heap a).isSome = (s1.engine_heap a).isSome) ∧
      (∀ a, (s'.dll_heap a).isSome = (s1.dll_heap a).isSome) ∧
      (∀ a, (s'.dll_new_heap a).isSome = (s1.dll_new_heap a).isSome) ∧
      (∀ b, (s'.engine_table b).isSome = (s1.engine_table b).isSome) ∧
      (∀ b, (s'.dll_table b).isSome = (s1.dll_table b).isSome) ∧
      (∀ b, (s'.dll_new_table b).isSome = (s1.dll_new_table b).isSome) := by
  unfold Meta_Detach at h
  obtain ⟨s1, e0, h⟩ := bind_eq_ok _ _ _ h
  obtain ⟨s2, e1, h⟩ := bind_eq_ok _ _ _ h
  obtain ⟨s3, e2, h⟩ := bind_eq_ok _ _ _ h
  simp only [pure_eq_ok, Except.ok.injEq, Prod.mk.injEq] at h
  obtain ⟨_, hs⟩ := h
  subst hs
  obtain ⟨he, r1, ae⟩ := engine.detail.ClearEngineHooks_alloc s1 s2 e1
  obtain ⟨hd, hn, r2, ad, an⟩ := gamedll.detail.ClearGameDllHooks_alloc s2 s3 e2
  subst r1
  subst r2
  refine ⟨s1, e0, ⟨rfl, rfl, rfl, rfl, rfl, rfl⟩, ae, ad, an, ?_, ?_, ?_⟩
  · intro b
    exact Heap.deref_isSome_congr _ _ _ ae
  · intro b
    exact Heap.deref_isSome_congr _ _ _ ad
  · intro b
    exact Heap.deref_isSome_congr _ _ _ an

/-- Witness for C17 (amended): detaching in the state `State.hooked`, with no
detach callback. -/
theorem detach_keeps_storage_witness :
    ∃ s', Meta_Detach none State.hooked = Except.ok (Status.Ok, s') ∧
      ∃ s1, (pure State.hooked : Except Fault State) = Except.ok s1 ∧
      (s'.engine_hooks = s1.engine_hooks ∧ s'.engine_post_hooks = s1.engine_post_hooks ∧
        s'.dll_hooks = s1.dll_hooks ∧ s'.dll_post_hooks = s1.dll_post_hooks ∧
        s'.dll_new_hooks = s1.dll_new_hooks ∧ s'.dll_new_post_hooks = s1.dll_new_post_hooks) ∧
      (∀ a, (s'.engine_heap a).isSome = (s1.engine_heap a).isSome) ∧
      (∀ a, (s'.dll_heap a).isSome = (s1.dll_heap a).isSome) ∧
      (∀ a, (s'.dll_new_heap a).isSome = (s1.dll_new_heap a).isSome) ∧
      (∀ b, (s'.engine_table b).isSome = (s1.engine_table b).isSome) ∧
      (∀ b, (s'.dll_table b).isSome = (s1.dll_table b).isSome) ∧
      (∀ b, (s'.dll_new_table b).isSome = (s1.dll_new_table b).isSome) :=
  ⟨_, rfl, detach_keeps_storage none State.hooked _ Status.Ok rfl⟩

/-! ### Tables at attach -/

theorem Meta_Init_keeps_hooks (META_INIT : Option (Module → Except Fault Module))
    (hi : ∀ cb, META_INIT = some cb → ∀ m, ∃ m', cb m = Except.ok m' ∧ m'.hooks = m.hooks)
    (m : Module) : ∃ m', Meta_Init META_INIT m = Except.ok m' ∧ m'.hooks = m.hooks := by
  cases hc : META_INIT with
  | none => exact ⟨m, rfl, rfl⟩
  | some cb =>
    obtain ⟨m', e, h⟩ := hi cb hc m
    exact ⟨m', e, h⟩

theorem Meta_Query_keeps_hooks (config : PluginConfig)
    (META_QUERY : Option (Module → Except Fault Module)) (plugin_info : PluginInfoPtr)
    (util_funcs : Addr)
    (hq : ∀ cb, META_QUERY = some cb → ∀ m, ∃ m', cb m = Except.ok m' ∧ m'.hooks = m.hooks)
    (m : Module) :
    ∃ q, Meta_Query config META_QUERY INTERFACE_VERSION plugin_info util_funcs m =
        Except.ok q ∧
      q.status = Status.Ok ∧ q.plugin_info = PluginInfoPtr.info ∧
      q.module.hooks = m.hooks := by
  cases hc : META_QUERY with
  | none => exact ⟨_, rfl, rfl, rfl, rfl⟩
  | some cb =>
    have hd : ∀ x : Except Fault Module,
        Meta_Query config (some (fun _ => x)) INTERFACE_VERSION plugin_info util_funcs m =
          x >>= fun m' => pure ⟨Status.Ok, PluginInfoPtr.info, m'⟩ := fun _ => rfl
    have hu : Meta_Query config (some cb) INTERFACE_VERSION plugin_info util_funcs m =
        Meta_Query config (some (fun _ => cb
          { m with
            info := some (m.info.getD config.info)
            funcs := util_funcs
            plugin := PluginInfoPtr.info }))
          INTERFACE_VERSION plugin_info util_funcs m := rfl
    obtain ⟨m', e, h⟩ := hq cb hc
      { m with
        info := some (m.info.getD config.info)
        funcs := util_funcs
        plugin := PluginInfoPtr.info }
    rw [hu, hd, e]
    exact ⟨_, rfl, rfl, rfl, h⟩

theorem Meta_Attach_keeps_hooks
    (META_ATTACH : Option (Module → Except Fault (Status × Module)))
    (load_time : PluginLoadTime) (export_hooks_funcs : ExportHooksFuncs) (globals : Addr)
    (dll_funcs : Table DllSlot) (dll_new_funcs : Table DllNewSlot)
    (ha : ∀ cb, META_ATTACH = some cb →
      ∀ m, ∃ m', cb m = Except.ok (Status.Ok, m') ∧ m'.hooks = m.hooks)
    (m : Module) :
    ∃ a, Meta_Attach META_ATTACH load_time export_hooks_funcs globals
        ⟨some dll_funcs, some dll_new_funcs⟩ m = Except.ok a ∧
      a.status = Status.Ok ∧ a.module.hooks = m.hooks := by
  cases hc : META_ATTACH with
  | none => exact ⟨_, rfl, rfl, rfl⟩
  | some cb =>
    have hd : ∀ m1 : Module,
        Meta_Attach (some (fun _ => Except.ok (Status.Ok, m1))) load_time export_hooks_funcs
          globals ⟨some dll_funcs, some dll_new_funcs⟩ m =
        Except.ok ⟨Status.Ok,
          { export_hooks_funcs with
            not_used1 := none
            not_used2 := none
            export_dll_hooks := some ExportFunction.ExportDllHooks
            export_dll_post_hooks := some ExportFunction.ExportDllPostHooks
            export_dllnew_hooks := some ExportFunction.ExportDllNewHooks
            export_dllnew_post_hooks := some ExportFunction.ExportDllNewPostHooks
            export_engine_hooks := some ExportFunction.ExportEngineHooks
            export_engine_post_hooks := some ExportFunction.ExportEnginePostHooks }, m1⟩ :=
      fun _ => rfl
    have hu : Meta_Attach (some cb) load_time export_hooks_funcs globals
          ⟨some dll_funcs, some dll_new_funcs⟩ m =
        Meta_Attach (some (fun _ => cb
            { m with g_globals := globals, g_dll_funcs := dll_funcs,
                     g_dll_new_funcs := dll_new_funcs }))
          load_time export_hooks_funcs globals ⟨some dll_funcs, some dll_new_funcs⟩ m := rfl
    obtain ⟨m', e, h⟩ := ha cb hc
      { m with g_globals := globals, g_dll_funcs := dll_funcs,
               g_dll_new_funcs := dll_new_funcs }
    rw [hu, e, hd]
    exact ⟨_, rfl, rfl, h⟩

/-- C16: at module attach, before any registration, all six hook tables are
allocated and every slot of each is empty.  The initialisers of the six inline
variables allocate six distinct all-zero tables when the library is loaded;
`GiveFnptrsToDll`, `Meta_Init`, a `Meta_Query` with the interface version
`5:13` and `Meta_Attach` leave them as they are, as long as the plugin's
callbacks (if defined) make no registration and the attach callback reports
`Ok`; so `Meta_Attach` finds and leaves the six tables allocated and empty. -/
theorem tables_at_attach (config : PluginConfig)
    (META_INIT META_QUERY : Option (Module → Except Fault Module))
    (META_ATTACH : Option (Module → Except Fault (Status × Module)))
    (engine_funcs : Table EngineSlot) (global_vars : Addr) (plugin_info : PluginInfoPtr)
    (util_funcs : Addr) (load_time : PluginLoadTime) (export_hooks_funcs : ExportHooksFuncs)
    (globals : Addr) (dll_funcs : Table DllSlot) (dll_new_funcs : Table DllNewSlot)
    (hi : ∀ cb, META_INIT = some cb → ∀ m, ∃ m', cb m = Except.ok m' ∧ m'.hooks = m.hooks)
    (hq : ∀ cb, META_QUERY = some cb → ∀ m, ∃ m', cb m = Except.ok m' ∧ m'.hooks = m.hooks)
    (ha : ∀ cb, META_ATTACH = some cb →
      ∀ m, ∃ m', cb m = Except.ok (Status.Ok, m') ∧ m'.hooks = m.hooks) :
    (State.init.engine_table false = some Table.zero ∧
      State.init.engine_table true = some Table.zero ∧
      State.init.dll_table false = some Table.zero ∧
      State.init.dll_table true = some Table.zero ∧
      State.init.dll_new_table false = some Table.zero ∧
      State.init.dll_new_table true = some Table.zero) ∧
    (State.init.engine_hooks ≠ State.init.engine_post_hooks ∧
      State.init.dll_hooks ≠ State.init.dll_post_hooks ∧
      State.init.dll_new_hooks ≠ State.init.dll_new_post_hooks) ∧
    ∃ m1 m2 q a,
      GiveFnptrsToDll (some engine_funcs) global_vars Module.init = Except.ok m1 ∧
      Meta_Init META_INIT m1 = Except.ok m2 ∧
      Meta_Query config META_QUERY INTERFACE_VERSION plugin_info util_funcs m2 = Except.ok q ∧
      q.status = Status.Ok ∧ q.module.hooks = State.init ∧
      Meta_Attach META_ATTACH load_time export_hooks_funcs globals
        ⟨some dll_funcs, some dll_new_funcs⟩ q.module = Except.ok a ∧
      a.status = Status.Ok ∧ a.module.hooks = State.init := by
  refine ⟨⟨rfl, rfl, rfl, rfl, rfl, rfl⟩, ⟨by decide, by decide, by decide⟩, ?_⟩
  obtain ⟨m2, e2, h2⟩ := Meta_Init_keeps_hooks META_INIT hi
    { Module.init with g_global_vars := global_vars, g_engine_funcs := engine_funcs }
  obtain ⟨q, eq, hqs, _, hqh⟩ :=
    Meta_Query_keeps_hooks config META_QUERY plugin_info util_funcs hq m2
  obtain ⟨a, ea, has, hah⟩ := Meta_Attach_keeps_hooks META_ATTACH load_time export_hooks_funcs
    globals dll_funcs dll_new_funcs ha q.module
  exact ⟨_, m2, q, a, rfl, e2, eq, hqs, hqh.trans h2, ea, has, (hah.trans hqh).trans h2⟩

/-- Witness for C16: a plugin whose query and attach callbacks do nothing
(the attach callback reporting `Ok`) is loaded, queried with `5:13` and
attached. -/
theorem tables_at_attach_witness :
    ∃ m1 m2 q a,
      GiveFnptrsToDll (some Table.zero) 7 Module.init = Except.ok m1 ∧
      Meta_Init none m1 = Except.ok m2 ∧
      Meta_Query ⟨"plugin", "1.0", "2020", "author", "url", "TAG", PluginLoadTime.AnyTime,
          PluginLoadTime.AnyTime⟩ (some (fun m => pure m)) INTERFACE_VERSION PluginInfoPtr.null 8
          m2 =
        Except.ok q ∧
      q.status = Status.Ok ∧ q.module.hooks = State.init ∧
      Meta_Attach (some (fun m => pure (Status.Ok, m))) PluginLoadTime.AnyTime {} 9
        ⟨some Table.zero, some Table.zero⟩ q.module = Except.ok a ∧
      a.status = Status.Ok ∧ a.module.hooks = State.init :=
  (tables_at_attach
    ⟨"plugin", "1.0", "2020", "author", "url", "TAG", PluginLoadTime.AnyTime,
      PluginLoadTime.AnyTime⟩
    none (some (fun m => pure m)) (some (fun m => pure (Status.Ok, m)))
    Table.zero 7 PluginInfoPtr.null 8 PluginLoadTime.AnyTime {} 9 Table.zero Table.zero
    (fun _ h => Option.noConfusion h)
    (by intro cb h m; cases h; exact ⟨m, rfl, rfl⟩)
    (by intro cb h m; cases h; exact ⟨m, rfl, rfl⟩)).2.2

/-! ### The hook chain -/

theorem run_interceptors_status {α : Type} (codes : List Result) (g : Globals α)
    (h : g.result = Result.Unset) :
    (run_interceptors codes g).status = codes.foldl max g.status ∧
    (run_interceptors codes g).result = Result.Unset ∧
    (run_interceptors codes g).orig_ret = g.orig_ret := by
  induction codes generalizing g with
  | nil => exact ⟨rfl, h, rfl⟩
  | cons r rest ih =>
    have hs : (after_interceptor (SetResult r g)).status = max g.status r := by
      have h1 : (SetResult r g).result = r := by
        rw [SetResult_result, h]
        cases r <;> decide
      have h2 : (SetResult r g).status = g.status := by
        unfold SetResult
        split <;> rfl
      show max (SetResult r g).status (SetResult r g).result = max g.status r
      rw [h1, h2]
    have ho : (after_interceptor (SetResult r g)).orig_ret = g.orig_ret := by
      show (SetResult r g).orig_ret = g.orig_ret
      unfold SetResult
      split <;> rfl
    obtain ⟨i1, i2, i3⟩ := ih (after_interceptor (SetResult r g)) rfl
    refine ⟨?_, i2, ?_⟩
    · show (run_interceptors rest (after_interceptor (SetResult r g))).status = _
      rw [i1, hs]
      rfl
    · show (run_interceptors rest (after_interceptor (SetResult r g))).orig_ret = _
      rw [i3, ho]

theorem foldl_max_lt (l : List Result) (a b : Result) :
    l.foldl max a < b ↔ a < b ∧ ∀ x ∈ l, x < b := by
  induction l generalizing a with
  | nil => simp
  | cons y rest ih =>
    rw [List.foldl_cons, ih]
    constructor
    · rintro ⟨h1, h2⟩
      refine ⟨lt_of_le_of_lt (le_max_left _ _) h1, ?_⟩
      intro x hx
      rcases List.mem_cons.mp hx with hx | hx
      · rw [hx]; exact lt_of_le_of_lt (le_max_right _ _) h1
      · exact h2 x hx
    · rintro ⟨h1, h2⟩
      exact ⟨max_lt h1 (h2 y (List.mem_cons_self _ _)),
        fun x hx => h2 x (List.mem_cons_of_mem _ hx)⟩

/-- C18: for every sequence of result codes assigned by the interceptors of
one logical call (pre hooks, then post hooks), `highest_result_so_far`
(`Globals.status`) after the chain is the maximum of all assigned codes and
`Unset`; the reader `ResultStatus` returns it. -/
theorem chain_status_is_maximum {α : Type} (pre post : List Result) (provider : α) :
    (logical_call pre post provider).context.status = (pre ++ post).foldl max Result.Unset ∧
    ResultStatus (logical_call pre post provider).context =
      (pre ++ post).foldl max Result.Unset ∧
    (∀ r ∈ pre ++ post, r ≤ (logical_call pre post provider).context.status) ∧
    ((logical_call pre post provider).context.status = Result.Unset ∨
      (logical_call pre post provider).context.status ∈ pre ++ post) := by
  have key : (logical_call pre post provider).context.status =
      (pre ++ post).foldl max Result.Unset := by
    obtain ⟨p1, p2, _⟩ := run_interceptors_status pre ({} : Globals α) rfl
    have p1' : (run_interceptors pre ({} : Globals α)).status = pre.foldl max Result.Unset := p1
    by_cases hlt : (run_interceptors pre ({} : Globals α)).status < Result.Supercede
    · have e : logical_call pre post provider =
          ⟨run_interceptors post
            { run_interceptors pre ({} : Globals α) with orig_ret := some provider }, 1⟩ := by
        simp only [logical_call, hlt, if_true]
      have q := (run_interceptors_status post
        { run_interceptors pre ({} : Globals α) with orig_ret := some provider } p2).1
      rw [e, List.foldl_append, ← p1']
      exact q
    · have e : logical_call pre post provider =
          ⟨run_interceptors post (run_interceptors pre ({} : Globals α)), 0⟩ := by
        simp only [logical_call, hlt, if_false]
      have q := (run_interceptors_status post (run_interceptors pre ({} : Globals α)) p2).1
      rw [e, List.foldl_append, ← p1']
      exact q
  have upper : ∀ (l : List Result) (a : Result), ∀ r ∈ l, r ≤ l.foldl max a := by
    intro l a r hr
    by_contra hlt
    exact lt_irrefl r (((foldl_max_lt l a r).mp (not_le.mp hlt)).2 r hr)
  have attained : ∀ (l : List Result) (a : Result), l.foldl max a = a ∨ l.foldl max a ∈ l := by
    intro l
    induction l with
    | nil => intro a; exact Or.inl rfl
    | cons y rest ih =>
      intro a
      rw [List.foldl_cons]
      rcases ih (max a y) with h | h
      · rw [h]
        rcases max_choice a y with hm | hm
        · exact Or.inl hm
        · rw [hm]; exact Or.inr (List.mem_cons_self _ _)
      · exact Or.inr (List.mem_cons_of_mem _ h)
  refine ⟨key, key, ?_, ?_⟩
  · intro r hr
    rw [key]
    exact upper _ _ r hr
  · rw [key]
    exact attained _ _

/-- Witness for C18: pre hooks assigning `Ignored` and `Handled` and a post hook
assigning `Override` leave `status` at `Override`. -/
theorem chain_status_is_maximum_witness :
    (logical_call [Result.Ignored, Result.Handled] [Result.Override] (42 : Nat)).context.status =
      Result.Override :=
  (chain_status_is_maximum [Result.Ignored, Result.Handled] [Result.Override] (42 : Nat)).1.trans
    (by decide)

/-- C19: in one logical call the real provider is invoked exactly once if no
interceptor sets a result `>= Supercede`, and is never invoked if any pre-hook
interceptor sets `Supercede`. -/
theorem provider_invocations {α : Type} (pre post : List Result) (provider : α) :
    ((∀ r ∈ pre ++ post, r < Result.Supercede) →
      (logical_call pre post provider).provider_calls = 1 ∧
      (logical_call pre post provider).context.orig_ret = some provider) ∧
    (Result.Supercede ∈ pre → (logical_call pre post provider).provider_calls = 0 ∧
      (logical_call pre post provider).context.orig_ret = none) := by
  obtain ⟨p1, p2, p3⟩ := run_interceptors_status pre ({} : Globals α) rfl
  have p1' : (run_interceptors pre ({} : Globals α)).status = pre.foldl max Result.Unset := p1
  have p3' : (run_interceptors pre ({} : Globals α)).orig_ret = none := p3
  constructor
  · intro h
    have hlt : (run_interceptors pre ({} : Globals α)).status < Result.Supercede := by
      rw [p1']
      exact (foldl_max_lt pre Result.Unset Result.Supercede).mpr
        ⟨by decide, fun x hx => h x (List.mem_append_left _ hx)⟩
    have e : logical_call pre post provider =
        ⟨run_interceptors post
          { run_interceptors pre ({} : Globals α) with orig_ret := some provider }, 1⟩ := by
      simp only [logical_call, hlt, if_true]
    rw [e]
    exact ⟨rfl, (run_interceptors_status post
      { run_interceptors pre ({} : Globals α) with orig_ret := some provider } p2).2.2⟩
  · intro h
    have hge : ¬ (run_interceptors pre ({} : Globals α)).status < Result.Supercede := by
      rw [p1']
      intro hlt
      exact lt_irrefl _
        (((foldl_max_lt pre Result.Unset Result.Supercede).mp hlt).2 _ h)
    have e : logical_call pre post provider =
        ⟨run_interceptors post (run_interceptors pre ({} : Globals α)), 0⟩ := by
      simp only [logical_call, hge, if_false]
    rw [e]
    exact ⟨rfl, ((run_interceptors_status post
      (run_interceptors pre ({} : Globals α)) p2).2.2).trans p3'⟩

/-- Witness for C19: a call with pre hooks assigning `Ignored` and `Handled`
and a post hook assigning `Override` invokes the provider once; a call whose
second pre hook assigns `Supercede` does not invoke it. -/
theorem provider_invocations_witness :
    (logical_call [Result.Ignored, Result.Handled] [Result.Override] (42 : Nat)).provider_calls
      = 1 ∧
    (logical_call [Result.Ignored, Result.Supercede] [Result.Handled] (42 : Nat)).provider_calls
      = 0 :=
  ⟨((provider_invocations [Result.Ignored, Result.Handled] [Result.Override] (42 : Nat)).1
      (by decide)).1,
    ((provider_invocations [Result.Ignored, Result.Supercede] [Result.Handled] (42 : Nat)).2
      (by decide)).1⟩

/-! ### Algebra and frame of the result accessors -/

theorem SetResult_eq_max {α : Type} (g : Globals α) (r : Result) :
    SetResult r g = { g with result := max g.result r } := by
  unfold SetResult
  by_cases h : g.result < r
  · simp [h, max_eq_right (le_of_lt h)]
  · simp [h, max_eq_left (not_lt.mp h)]

theorem SetResult_comm {α : Type} (g : Globals α) (a b : Result) :
    SetResult a (SetResult b g) = SetResult b (SetResult a g) := by
  simp only [SetResult_eq_max]
  rw [max_assoc, max_comm b a, ← max_assoc]

theorem SetResult_foldl {α : Type} (codes : List Result) (g : Globals α) :
    codes.foldl (fun g r => SetResult r g) g = { g with result := codes.foldl max g.result } := by
  induction codes generalizing g with
  | nil => rfl
  | cons r rest ih =>
    rw [List.foldl_cons, ih, SetResult_eq_max]
    rfl

/-- C21: for every starting result and every finite list of codes, calling
`SetResult` on each code in turn leaves `result` equal to the maximum of the
starting result and the codes of the list (and the other fields as they
were); hence the outcome is the same for every order of the calls, two calls
commute, and repeating a call changes nothing. -/
theorem SetResult_sequence {α : Type} (g : Globals α) (codes : List Result) :
    (codes.foldl (fun g r => SetResult r g) g).result = codes.foldl max g.result ∧
    codes.foldl (fun g r => SetResult r g) g = { g with result := codes.foldl max g.result } ∧
    (∀ r ∈ codes, r ≤ (codes.foldl (fun g r => SetResult r g) g).result) ∧
    g.result ≤ (codes.foldl (fun g r => SetResult r g) g).result ∧
    (∀ other : List Result, codes.Perm other →
      other.foldl (fun g r => SetResult r g) g = codes.foldl (fun g r => SetResult r g) g) ∧
    (∀ a b : Result, SetResult a (SetResult b g) = SetResult b (SetResult a g)) ∧
    (∀ a : Result, SetResult a (SetResult a g) = SetResult a g) := by
  have lower : ∀ (l : List Result) (a : Result), a ≤ l.foldl max a := by
    intro l
    induction l with
    | nil => intro a; exact le_refl a
    | cons y rest ih => intro a; exact le_trans (le_max_left a y) (ih (max a y))
  have upper : ∀ (l : List Result) (a : Result), ∀ r ∈ l, r ≤ l.foldl max a := by
    intro l
    induction l with
    | nil => intro a r hr; cases hr
    | cons y rest ih =>
      intro a r hr
      rcases List.mem_cons.mp hr with h | h
      · rw [h]; exact le_trans (le_max_right a y) (lower rest (max a y))
      · exact ih (max a y) r h
  refine ⟨by rw [SetResult_foldl], SetResult_foldl codes g, ?_, ?_, ?_, ?_, ?_⟩
  · intro r hr
    rw [SetResult_foldl]
    exact upper codes g.result r hr
  · rw [SetResult_foldl]
    exact lower codes g.result
  · intro other hp
    exact (List.Perm.foldl_eq' hp (fun x _ y _ z => SetResult_comm z y x) g).symm
  · intro a b
    exact SetResult_comm g a b
  · intro a
    simp only [SetResult_eq_max]
    rw [max_assoc, max_self]

/-- Witness for C21: the codes `Handled, Ignored, Override` applied in two
different orders to a record holding `Ignored`. -/
theorem SetResult_sequence_witness :
    [Result.Override, Result.Handled, Result.Ignored].foldl (fun g r => SetResult r g)
      ({ result := Result.Ignored } : Globals Nat) =
      [Result.Handled, Result.Ignored, Result.Override].foldl (fun g r => SetResult r g)
        ({ result := Result.Ignored } : Globals Nat) ∧
    ([Result.Handled, Result.Ignored, Result.Override].foldl (fun g r => SetResult r g)
      ({ result := Result.Ignored } : Globals Nat)).result = Result.Override :=
  ⟨(SetResult_sequence ({ result := Result.Ignored } : Globals Nat)
      [Result.Handled, Result.Ignored, Result.Override]).2.2.2.2.1
      [Result.Override, Result.Handled, Result.Ignored] (by decide),
    (SetResult_sequence ({ result := Result.Ignored } : Globals Nat)
      [Result.Handled, Result.Ignored, Result.Override]).1.trans (by decide)⟩

/-- C22: `SetResult`, `ResultStatus`, `PreviousResult` and `GetRetValue` never
modify the fields the host owns.  `SetResult` leaves `prev_result`, `status`,
`orig_ret` and `override_ret` as they were and can change `result` only; the
three readers return a value computed from the record and have no effect on
it: `ResultStatus` is the field `status`, `PreviousResult` the field
`prev_result`, and `GetRetValue` depends on `status`, `orig_ret` and
`override_ret` only. -/
theorem accessors_frame {α : Type} (g : Globals α) (r : Result) :
    ((SetResult r g).prev_result = g.prev_result ∧ (SetResult r g).status = g.status ∧
      (SetResult r g).orig_ret = g.orig_ret ∧ (SetResult r g).override_ret = g.override_ret) ∧
    SetResult r g = { g with result := (SetResult r g).result } ∧
    ResultStatus g = g.status ∧
    PreviousResult g = g.prev_result ∧
    (∀ c p : Result, ResultStatus { g with result := c, prev_result := p } = ResultStatus g) ∧
    (∀ c : Result, PreviousResult { g with result := c } = PreviousResult g) ∧
    (∀ c p : Result, GetRetValue { g with result := c, prev_result := p } = GetRetValue g) ∧
    ResultStatus (SetResult r g) = ResultStatus g ∧
    PreviousResult (SetResult r g) = PreviousResult g ∧
    GetRetValue (SetResult r g) = GetRetValue g := by
  have e := SetResult_eq_max g r
  refine ⟨?_, ?_, rfl, rfl, fun _ _ => rfl, fun _ => rfl, fun _ _ => rfl, ?_, ?_, ?_⟩
  · rw [e]; exact ⟨rfl, rfl, rfl, rfl⟩
  · rw [e]
  · rw [e]; rfl
  · rw [e]; rfl
  · rw [e]; rfl

/-! ### Frame of an export -/

theorem Heap.memcpy_delete_inv {σ : Type} (h h' : Heap σ) (tbl live : Addr)
    (e : (h.memcpy tbl live >>= fun h1 => h1.delete live) = Except.ok h') :
    ∃ t u, h.deref live = some t ∧ h.deref tbl = some u ∧
      h' = fun a => if a = live then none else if a = tbl then some t else h a := by
  by_cases h0 : tbl = 0 ∨ live = 0
  · simp [Heap.memcpy, h0] at e
  · have ht : tbl ≠ 0 := fun x => h0 (Or.inl x)
    have hl : live ≠ 0 := fun x => h0 (Or.inr x)
    cases hs : h live with
    | none => simp [Heap.memcpy, h0, hs] at e
    | some t =>
      cases hd : h tbl with
      | none => simp [Heap.memcpy, h0, hs, hd] at e
      | some u =>
        have d1 : h.deref live = some t := by simp [Heap.deref, hl, hs]
        have d2 : h.deref tbl = some u := by simp [Heap.deref, ht, hd]
        rw [Heap.memcpy_delete h tbl live t u d1 d2] at e
        exact ⟨t, u, d1, d2, (Except.ok.inj e).symm⟩

theorem engine.detail.ExportEngineHooks_success_inv (V : Int) (G : Table EngineSlot) (tbl : Addr) (v : Int) (s : State)
    (r : ExportReturn) (hc : tbl ≠ 0 ∧ v = V)
    (e : engine.detail.ExportEngineHooks V G tbl v s = Except.ok r) :
    ∃ t u, s.engine_heap.deref s.engine_hooks = some t ∧ s.engine_heap.deref tbl = some u ∧
      r = ⟨true, v,
        { s with engine_heap := fun a =>
                   if a = s.engine_hooks then none else if a = tbl then some t else s.engine_heap a,
                 engine_hooks := tbl }⟩ := by
  rw [engine.detail.ExportEngineHooks_success V G tbl v s hc.1 hc.2] at e
  obtain ⟨h, hm, hr⟩ := map_eq_ok _ _ _ e
  obtain ⟨t, u, d1, d2, hh⟩ := Heap.memcpy_delete_inv _ _ _ _ hm
  subst hh
  exact ⟨t, u, d1, d2, hr⟩

theorem engine.detail.ExportEnginePostHooks_success_inv (V : Int) (G : Table EngineSlot) (tbl : Addr) (v : Int) (s : State)
    (r : ExportReturn) (hc : tbl ≠ 0 ∧ v = V)
    (e : engine.detail.ExportEnginePostHooks V G tbl v s = Except.ok r) :
    ∃ t u, s.engine_heap.deref s.engine_post_hooks = some t ∧ s.engine_heap.deref tbl = some u ∧
      r = ⟨true, v,
        { s with engine_heap := fun a =>
                   if a = s.engine_post_hooks then none else if a = tbl then some t else s.engine_heap a,
                 engine_post_hooks := tbl }⟩ := by
  rw [engine.detail.ExportEnginePostHooks_success V G tbl v s hc.1 hc.2] at e
  obtain ⟨h, hm, hr⟩ := map_eq_ok _ _ _ e
  obtain ⟨t, u, d1, d2, hh⟩ := Heap.memcpy_delete_inv _ _ _ _ hm
  subst hh
  exact ⟨t, u, d1, d2, hr⟩

theorem gamedll.detail.ExportDllHooks_success_inv (V : Int) (G : Table EngineSlot) (tbl : Addr) (v : Int) (s : State)
    (r : ExportReturn) (hc : tbl ≠ 0 ∧ v = V)
    (e : gamedll.detail.ExportDllHooks V G tbl v s = Except.ok r) :
    ∃ t u, s.dll_heap.deref s.dll_hooks = some t ∧ s.dll_heap.deref tbl = some u ∧
      r = ⟨true, v,
        { s with dll_heap := fun a =>
                   if a = s.dll_hooks then none else if a = tbl then some t else s.dll_heap a,
                 dll_hooks := tbl }⟩ := by
  rw [gamedll.detail.ExportDllHooks_success V G tbl v s hc.1 hc.2] at e
  obtain ⟨h, hm, hr⟩ := map_eq_ok _ _ _ e
  obtain ⟨t, u, d1, d2, hh⟩ := Heap.memcpy_delete_inv _ _ _ _ hm
  subst hh
  exact ⟨t, u, d1, d2, hr⟩

theorem gamedll.detail.ExportDllPostHooks_success_inv (V : Int) (G : Table EngineSlot) (tbl : Addr) (v : Int) (s : State)
    (r : ExportReturn) (hc : tbl ≠ 0 ∧ v = V)
    (e : gamedll.detail.ExportDllPostHooks V G tbl v s = Except.ok r) :
    ∃ t u, s.dll_heap.deref s.dll_post_hooks = some t ∧ s.dll_heap.deref tbl = some u ∧
      r = ⟨true, v,
        { s with dll_heap := fun a =>
                   if a = s.dll_post_hooks then none else if a = tbl then some t else s.dll_heap a,
                 dll_post_hooks := tbl }⟩ := by
  rw [gamedll.detail.ExportDllPostHooks_success V G tbl v s hc.1 hc.2] at e
  obtain ⟨h, hm, hr⟩ := map_eq_ok _ _ _ e
  obtain ⟨t, u, d1, d2, hh⟩ := Heap.memcpy_delete_inv _ _ _ _ hm
  subst hh
  exact ⟨t, u, d1, d2, hr⟩

theorem gamedll.detail.ExportDllNewHooks_success_inv (V : Int) (G : Table EngineSlot) (tbl : Addr) (v : Int) (s : State)
    (r : ExportReturn) (hc : tbl ≠ 0 ∧ v = V)
    (e : gamedll.detail.ExportDllNewHooks V G tbl v s = Except.ok r) :
    ∃ t u, s.dll_new_heap.deref s.dll_new_hooks = some t ∧ s.dll_new_heap.deref tbl = some u ∧
      r = ⟨true, v,
        { s with dll_new_heap := fun a =>
                   if a = s.dll_new_hooks then none else if a = tbl then some t else s.dll_new_heap a,
                 dll_new_hooks := tbl }⟩ := by
  rw [gamedll.detail.ExportDllNewHooks_success V G tbl v s hc.1 hc.2] at e
  obtain ⟨h, hm, hr⟩ := map_eq_ok _ _ _ e
  obtain ⟨t, u, d1, d2, hh⟩ := Heap.memcpy_delete_inv _ _ _ _ hm
  subst hh
  exact ⟨t, u, d1, d2, hr⟩

theorem gamedll.detail.ExportDllNewPostHooks_success_inv (V : Int) (G : Table EngineSlot) (tbl : Addr) (v : Int) (s : State)
    (r : ExportReturn) (hc : tbl ≠ 0 ∧ v = V)
    (e : gamedll.detail.ExportDllNewPostHooks V G tbl v s = Except.ok r) :
    ∃ t u, s.dll_new_heap.deref s.dll_new_post_hooks = some t ∧ s.dll_new_heap.deref tbl = some u ∧
      r = ⟨true, v,
        { s with dll_new_heap := fun a =>
                   if a = s.dll_new_post_hooks then none else if a = tbl then some t else s.dll_new_heap a,
                 dll_new_post_hooks := tbl }⟩ := by
  rw [gamedll.detail.ExportDllNewPostHooks_success V G tbl v s hc.1 hc.2] at e
  obtain ⟨h, hm, hr⟩ := map_eq_ok _ _ _ e
  obtain ⟨t, u, d1, d2, hh⟩ := Heap.memcpy_delete_inv _ _ _ _ hm
  subst hh
  exact ⟨t, u, d1, d2, hr⟩

/-- Counterexample to C23 as stated: after `ExportEngineHooks` has handed the
engine pre-hook table over to the host table at address `3`, the host calls
`ExportEnginePostHooks` on the same table.  The call succeeds and copies the
post-hook table over it, so the contents of the engine pre-hook table, which
is not the table this function exports, change (slot `precache_model` goes
from `77` to `0`). -/
theorem export_frame_counterexample :
    engine.detail.ExportEngineHooks 138 host_engine_funcs 3 138 State.hosted =
      Except.ok ⟨true, 138, State.exported⟩ ∧
    engine.detail.ExportEnginePostHooks 138 host_engine_funcs 3 138 State.exported =
      Except.ok ⟨true, 138, State.shared⟩ ∧
    State.shared.engine_hooks = State.exported.engine_hooks ∧
    State.exported.engine_table false =
      some (fun m => if m = EngineSlot.precache_model then 77 else Table.zero m) ∧
    State.shared.engine_table false = some Table.zero ∧
    State.shared.engine_table false ≠ State.exported.engine_table false :=
  ⟨rfl, rfl, rfl, rfl, rfl,
    fun h => absurd (congrFun (Option.some.inj h) EngineSlot.precache_model) (by decide)⟩

/-- C23 (amended): each of the six export functions replaces only its own live
table pointer and writes only the caller's table and its own live table.  On
success and on failure alike the other five table pointers are unchanged and
so are the tables of the other two interfaces; in the heap of its own
interface every table other than the caller's table and its own live table is
unchanged (on failure every table other than its own live table), so the
sibling table of the interface is unchanged whenever it is neither of these
two. -/
theorem export_frame :
    (∀ (V : Int) (G : Table EngineSlot) (tbl : Addr) (v : Int) (s : State) (r : ExportReturn),
      engine.detail.ExportEngineHooks V G tbl v s = Except.ok r →
      (r.state.engine_post_hooks = s.engine_post_hooks ∧ r.state.dll_hooks = s.dll_hooks ∧ r.state.dll_post_hooks = s.dll_post_hooks ∧ r.state.dll_new_hooks = s.dll_new_hooks ∧ r.state.dll_new_post_hooks = s.dll_new_post_hooks) ∧
      r.state.dll_heap = s.dll_heap ∧ r.state.dll_new_heap = s.dll_new_heap ∧
      (∀ b, r.state.dll_table b = s.dll_table b) ∧ (∀ b, r.state.dll_new_table b = s.dll_new_table b) ∧
      (∀ a, a ≠ s.engine_hooks → a ≠ tbl → r.state.engine_heap a = s.engine_heap a) ∧
      (r.ret = false → ∀ a, a ≠ s.engine_hooks → r.state.engine_heap a = s.engine_heap a) ∧
      (s.engine_post_hooks ≠ s.engine_hooks → (s.engine_post_hooks ≠ tbl ∨ r.ret = false) →
        r.state.engine_table (!false) = s.engine_table (!false))) ∧
    (∀ (V : Int) (G : Table EngineSlot) (tbl : Addr) (v : Int) (s : State) (r : ExportReturn),
      engine.detail.ExportEnginePostHooks V G tbl v s = Except.ok r →
      (r.state.engine_hooks = s.engine_hooks ∧ r.state.dll_hooks = s.dll_hooks ∧ r.state.dll_post_hooks = s.dll_post_hooks ∧ r.state.dll_new_hooks = s.dll_new_hooks ∧ r.state.dll_new_post_hooks = s.dll_new_post_hooks) ∧
      r.state.dll_heap = s.dll_heap ∧ r.state.dll_new_heap = s.dll_new_heap ∧
      (∀ b, r.state.dll_table b = s.dll_table b) ∧ (∀ b, r.state.dll_new_table b = s.dll_new_table b) ∧
      (∀ a, a ≠ s.engine_post_hooks → a ≠ tbl → r.state.engine_heap a = s.engine_heap a) ∧
      (r.ret = false → ∀ a, a ≠ s.engine_post_hooks → r.state.engine_heap a = s.engine_heap a) ∧
      (s.engine_hooks ≠ s.engine_post_hooks → (s.engine_hooks ≠ tbl ∨ r.ret = false) →
        r.state.engine_table (!true) = s.engine_table (!true))) ∧
    (∀ (V : Int) (G : Table EngineSlot) (tbl : Addr) (v : Int) (s : State) (r : ExportReturn),
      gamedll.detail.ExportDllHooks V G tbl v s = Except.ok r →
      (r.state.engine_hooks = s.engine_hooks ∧ r.state.engine_post_hooks = s.engine_post_hooks ∧ r.state.dll_post_hooks = s.dll_post_hooks ∧ r.state.dll_new_hooks = s.dll_new_hooks ∧ r.state.dll_new_post_hooks = s.dll_new_post_hooks) ∧
      r.state.engine_heap = s.engine_heap ∧ r.state.dll_new_heap = s.dll_new_heap ∧
      (∀ b, r.state.engine_table b = s.engine_table b) ∧ (∀ b, r.state.dll_new_table b = s.dll_new_table b) ∧
      (∀ a, a ≠ s.dll_hooks → a ≠ tbl → r.state.dll_heap a = s.dll_heap a) ∧
      (r.ret = false → ∀ a, a ≠ s.dll_hooks → r.state.dll_heap a = s.dll_heap a) ∧
      (s.dll_post_hooks ≠ s.dll_hooks → (s.dll_post_hooks ≠ tbl ∨ r.ret = false) →
        r.state.dll_table (!false) = s.dll_table (!false))) ∧
    (∀ (V : Int) (G : Table EngineSlot) (tbl : Addr) (v : Int) (s : State) (r : ExportReturn),
      gamedll.detail.ExportDllPostHooks V G tbl v s = Except.ok r →
      (r.state.engine_hooks = s.engine_hooks ∧ r.state.engine_post_hooks = s.engine_post_hooks ∧ r.state.dll_hooks = s.dll_hooks ∧ r.state.dll_new_hooks = s.dll_new_hooks ∧ r.state.dll_new_post_hooks = s.dll_new_post_hooks) ∧
      r.state.engine_heap = s.engine_heap ∧ r.state.dll_new_heap = s.dll_new_heap ∧
      (∀ b, r.state.engine_table b = s.engine_table b) ∧ (∀ b, r.state.dll_new_table b = s.dll_new_table b) ∧
      (∀ a, a ≠ s.dll_post_hooks → a ≠ tbl → r.state.dll_heap a = s.dll_heap a) ∧
      (r.ret = false → ∀ a, a ≠ s.dll_post_hooks → r.state.dll_heap a = s.dll_heap a) ∧
      (s.dll_hooks ≠ s.dll_post_hooks → (s.dll_hooks ≠ tbl ∨ r.ret = false) →
        r.state.dll_table (!true) = s.dll_table (!true))) ∧
    (∀ (V : Int) (G : Table EngineSlot) (tbl : Addr) (v : Int) (s : State) (r : ExportReturn),
      gamedll.detail.ExportDllNewHooks V G tbl v s = Except.ok r →
      (r.state.engine_hooks = s.engine_hooks ∧ r.state.engine_post_hooks = s.engine_post_hooks ∧ r.state.dll_hooks = s.dll_hooks ∧ r.state.dll_post_hooks = s.dll_post_hooks ∧ r.state.dll_new_post_hooks = s.dll_new_post_hooks) ∧
      r.state.engine_heap = s.engine_heap ∧ r.state.dll_heap = s.dll_heap ∧
      (∀ b, r.state.engine_table b = s.engine_table b) ∧ (∀ b, r.state.dll_table b = s.dll_table b) ∧
      (∀ a, a ≠ s.dll_new_hooks → a ≠ tbl → r.state.dll_new_heap a = s.dll_new_heap a) ∧
      (r.ret = false → ∀ a, a ≠ s.dll_new_hooks → r.state.dll_new_heap a = s.dll_new_heap a) ∧
      (s.dll_new_post_hooks ≠ s.dll_new_hooks → (s.dll_new_post_hooks ≠ tbl ∨ r.ret = false) →
        r.state.dll_new_table (!false) = s.dll_new_table (!false))) ∧
    (∀ (V : Int) (G : Table EngineSlot) (tbl : Addr) (v : Int) (s : State) (r : ExportReturn),
      gamedll.detail.ExportDllNewPostHooks V G tbl v s = Except.ok r →
      (r.state.engine_hooks = s.engine_hooks ∧ r.state.engine_post_hooks = s.engine_post_hooks ∧ r.state.dll_hooks = s.dll_hooks ∧ r.state.dll_post_hooks = s.dll_post_hooks ∧ r.state.dll_new_hooks = s.dll_new_hooks) ∧
      r.state.engine_heap = s.engine_heap ∧ r.state.dll_heap = s.dll_heap ∧
      (∀ b, r.state.engine_table b = s.engine_table b) ∧ (∀ b, r.state.dll_table b = s.dll_table b) ∧
      (∀ a, a ≠ s.dll_new_post_hooks → a ≠ tbl → r.state.dll_new_heap a = s.dll_new_heap a) ∧
      (r.ret = false → ∀ a, a ≠ s.dll_new_post_hooks → r.state.dll_new_heap a = s.dll_new_heap a) ∧
      (s.dll_new_hooks ≠ s.dll_new_post_hooks → (s.dll_new_hooks ≠ tbl ∨ r.ret = false) →
        r.state.dll_new_table (!true) = s.dll_new_table (!true))) := by
  refine ⟨?_, ?_, ?_, ?_, ?_, ?_⟩
  · intro V G tbl v s r e
    by_cases hc : tbl ≠ 0 ∧ v = V
    · obtain ⟨t, u, _, _, hr⟩ := engine.detail.ExportEngineHooks_success_inv V G tbl v s r hc e
      subst hr
      refine ⟨⟨rfl, rfl, rfl, rfl, rfl⟩, rfl, rfl, fun _ => rfl, fun _ => rfl, ?_, ?_, ?_⟩
      · intro a h1 h2; simp [h1, h2]
      · intro h; simp at h
      · intro h1 h2
        have h3 : s.engine_post_hooks ≠ tbl := by
          rcases h2 with h2 | h2
          · exact h2
          · simp at h2
        simp [State.engine_table, Heap.deref, h1, h3]
    · obtain ⟨al, hr⟩ := engine.detail.ExportEngineHooks_failure_inv V G tbl v s r hc e
      subst hr
      refine ⟨⟨rfl, rfl, rfl, rfl, rfl⟩, rfl, rfl, fun _ => rfl, fun _ => rfl, ?_, ?_, ?_⟩
      · intro a h1 _; simp [h1]
      · intro _ a h1; simp [h1]
      · intro h1 _
        simp [State.engine_table, Heap.deref, h1]
  · intro V G tbl v s r e
    by_cases hc : tbl ≠ 0 ∧ v = V
    · obtain ⟨t, u, _, _, hr⟩ := engine.detail.ExportEnginePostHooks_success_inv V G tbl v s r hc e
      subst hr
      refine ⟨⟨rfl, rfl, rfl, rfl, rfl⟩, rfl, rfl, fun _ => rfl, fun _ => rfl, ?_, ?_, ?_⟩
      · intro a h1 h2; simp [h1, h2]
      · intro h; simp at h
      · intro h1 h2
        have h3 : s.engine_hooks ≠ tbl := by
          rcases h2 with h2 | h2
          · exact h2
          · simp at h2
        simp [State.engine_table, Heap.deref, h1, h3]
    · obtain ⟨al, hr⟩ := engine.detail.ExportEnginePostHooks_failure_inv V G tbl v s r hc e
      subst hr
      refine ⟨⟨rfl, rfl, rfl, rfl, rfl⟩, rfl, rfl, fun _ => rfl, fun _ => rfl, ?_, ?_, ?_⟩
      · intro a h1 _; simp [h1]
      · intro _ a h1; simp [h1]
      · intro h1 _
        simp [State.engine_table, Heap.deref, h1]
  · intro V G tbl v s r e
    by_cases hc : tbl ≠ 0 ∧ v = V
    · obtain ⟨t, u, _, _, hr⟩ := gamedll.detail.ExportDllHooks_success_inv V G tbl v s r hc e
      subst hr
      refine ⟨⟨rfl, rfl, rfl, rfl, rfl⟩, rfl, rfl, fun _ => rfl, fun _ => rfl, ?_, ?_, ?_⟩
      · intro a h1 h2; simp [h1, h2]
      · intro h; simp at h
      · intro h1 h2
        have h3 : s.dll_post_hooks ≠ tbl := by
          rcases h2 with h2 | h2
          · exact h2
          · simp at h2
        simp [State.dll_table, Heap.deref, h1, h3]
    · obtain ⟨al, hr⟩ := gamedll.detail.ExportDllHooks_failure_inv V G tbl v s r hc e
      subst hr
      refine ⟨⟨rfl, rfl, rfl, rfl, rfl⟩, rfl, rfl, fun _ => rfl, fun _ => rfl, ?_, ?_, ?_⟩
      · intro a h1 _; simp [h1]
      · intro _ a h1; simp [h1]
      · intro h1 _
        simp [State.dll_table, Heap.deref, h1]
  · intro V G tbl v s r e
    by_cases hc : tbl ≠ 0 ∧ v = V
    · obtain ⟨t, u, _, _, hr⟩ := gamedll.detail.ExportDllPostHooks_success_inv V G tbl v s r hc e
      subst hr
      refine ⟨⟨rfl, rfl, rfl, rfl, rfl⟩, rfl, rfl, fun _ => rfl, fun _ => rfl, ?_, ?_, ?_⟩
      · intro a h1 h2; simp [h1, h2]
      · intro h; simp at h
      · intro h1 h2
        have h3 : s.dll_hooks ≠ tbl := by
          rcases h2 with h2 | h2
          · exact h2
          · simp at h2
        simp [State.dll_table, Heap.deref, h1, h3]
    · obtain ⟨al, hr⟩ := gamedll.detail.ExportDllPostHooks_failure_inv V G tbl v s r hc e
      subst hr
      refine ⟨⟨rfl, rfl, rfl, rfl, rfl⟩, rfl, rfl, fun _ => rfl, fun _ => rfl, ?_, ?_, ?_⟩
      · intro a h1 _; simp [h1]
      · intro _ a h1; simp [h1]
      · intro h1 _
        simp [State.dll_table, Heap.deref, h1]
  · intro V G tbl v s r e
    by_cases hc : tbl ≠ 0 ∧ v = V
    · obtain ⟨t, u, _, _, hr⟩ := gamedll.detail.ExportDllNewHooks_success_inv V G tbl v s r hc e
      subst hr
      refine ⟨⟨rfl, rfl, rfl, rfl, rfl⟩, rfl, rfl, fun _ => rfl, fun _ => rfl, ?_, ?_, ?_⟩
      · intro a h1 h2; simp [h1, h2]
      · intro h; simp at h
      · intro h1 h2
        have h3 : s.dll_new_post_hooks ≠ tbl := by
          rcases h2 with h2 | h2
          · exact h2
          · simp at h2
        simp [State.dll_new_table, Heap.deref, h1, h3]
    · obtain ⟨al, hr⟩ := gamedll.detail.ExportDllNewHooks_failure_inv V G tbl v s r hc e
      subst hr
      refine ⟨⟨rfl, rfl, rfl, rfl, rfl⟩, rfl, rfl, fun _ => rfl, fun _ => rfl, ?_, ?_, ?_⟩
      · intro a h1 _; simp [h1]
      · intro _ a h1; simp [h1]
      · intro h1 _
        simp [State.dll_new_table, Heap.deref, h1]
  · intro V G tbl v s r e
    by_cases hc : tbl ≠ 0 ∧ v = V
    · obtain ⟨t, u, _, _, hr⟩ := gamedll.detail.ExportDllNewPostHooks_success_inv V G tbl v s r hc e
      subst hr
      refine ⟨⟨rfl, rfl, rfl, rfl, rfl⟩, rfl, rfl, fun _ => rfl, fun _ => rfl, ?_, ?_, ?_⟩
      · intro a h1 h2; simp [h1, h2]
      · intro h; simp at h
      · intro h1 h2
        have h3 : s.dll_new_hooks ≠ tbl := by
          rcases h2 with h2 | h2
          · exact h2
          · simp at h2
        simp [State.dll_new_table, Heap.deref, h1, h3]
    · obtain ⟨al, hr⟩ := gamedll.detail.ExportDllNewPostHooks_failure_inv V G tbl v s r hc e
      subst hr
      refine ⟨⟨rfl, rfl, rfl, rfl, rfl⟩, rfl, rfl, fun _ => rfl, fun _ => rfl, ?_, ?_, ?_⟩
      · intro a h1 _; simp [h1]
      · intro _ a h1; simp [h1]
      · intro h1 _
        simp [State.dll_new_table, Heap.deref, h1]

/-- Witness for C23 (amended): the successful export of the game-DLL pre-hook
table into the host table at address `3`. -/
theorem export_frame_witness :
    ∃ r, gamedll.detail.ExportDllHooks 140 host_engine_funcs 3 140 State.hosted = Except.ok r ∧
      r.state.dll_post_hooks = State.hosted.dll_post_hooks ∧
      r.state.engine_heap = State.hosted.engine_heap ∧
      r.state.dll_table (!false) = State.hosted.dll_table (!false) := by
  refine ⟨_, rfl, ?_⟩
  have h := export_frame.2.2.1 140 host_engine_funcs 3 140 State.hosted _ rfl
  exact ⟨h.1.2.2.1, h.2.1, h.2.2.2.2.2.2.2 (by decide) (Or.inl (by decide))⟩

/-! ### Clearing: validity of the pointers and totality -/

theorem Heap.memset0_map_present {σ S : Type} (h : Heap σ) (p : Addr) (f : Heap σ → S) (s' : S)
    (e : (h.memset0 p).map f = Except.ok s') : (h p).isSome := by
  unfold Heap.memset0 at e
  by_cases hp : p = 0
  · simp [hp] at e
  · cases hh : h p with
    | none => simp [hp, hh] at e
    | some t => rfl

theorem State.engine_heap_memset_valid (s s1 : State) (p : Addr)
    (e : (if p ≠ 0 then (s.engine_heap.memset0 p).map (fun h => { s with engine_heap := h })
      else pure s) = Except.ok s1) : p = 0 ∨ (s.engine_heap p).isSome := by
  by_cases hp : p = 0
  · exact Or.inl hp
  · simp only [ne_eq, hp, not_false_eq_true, if_true] at e
    exact Or.inr (Heap.memset0_map_present _ _ _ _ e)

theorem State.engine_heap_memset_total (s : State) (p : Addr) (hv : p = 0 ∨ (s.engine_heap p).isSome) :
    ∃ h, (if p ≠ 0 then (s.engine_heap.memset0 p).map (fun h => { s with engine_heap := h })
        else pure s) = Except.ok { s with engine_heap := h } ∧
      ∀ a, (h a).isSome = (s.engine_heap a).isSome := by
  by_cases hp : p = 0
  · exact ⟨s.engine_heap, by simp [hp], fun _ => rfl⟩
  · have hs : (s.engine_heap p).isSome := by
      rcases hv with hv | hv
      · exact absurd hv hp
      · exact hv
    obtain ⟨t, ht⟩ := Option.isSome_iff_exists.mp hs
    refine ⟨fun a => if a = p then some Table.zero else s.engine_heap a, ?_, ?_⟩
    · simp [Heap.memset0, hp, ht]
    · intro a
      by_cases ha : a = p
      · simp [ha, ht]
      · simp [ha]

theorem State.dll_heap_memset_valid (s s1 : State) (p : Addr)
    (e : (if p ≠ 0 then (s.dll_heap.memset0 p).map (fun h => { s with dll_heap := h })
      else pure s) = Except.ok s1) : p = 0 ∨ (s.dll_heap p).isSome := by
  by_cases hp : p = 0
  · exact Or.inl hp
  · simp only [ne_eq, hp, not_false_eq_true, if_true] at e
    exact Or.inr (Heap.memset0_map_present _ _ _ _ e)

theorem State.dll_heap_memset_total (s : State) (p : Addr) (hv : p = 0 ∨ (s.dll_heap p).isSome) :
    ∃ h, (if p ≠ 0 then (s.dll_heap.memset0 p).map (fun h => { s with dll_heap := h })
        else pure s) = Except.ok { s with dll_heap := h } ∧
      ∀ a, (h a).isSome = (s.dll_heap a).isSome := by
  by_cases hp : p = 0
  · exact ⟨s.dll_heap, by simp [hp], fun _ => rfl⟩
  · have hs : (s.dll_heap p).isSome := by
      rcases hv with hv | hv
      · exact absurd hv hp
      · exact hv
    obtain ⟨t, ht⟩ := Option.isSome_iff_exists.mp hs
    refine ⟨fun a => if a = p then some Table.zero else s.dll_heap a, ?_, ?_⟩
    · simp [Heap.memset0, hp, ht]
    · intro a
      by_cases ha : a = p
      · simp [ha, ht]
      · simp [ha]

theorem State.dll_new_heap_memset_valid (s s1 : State) (p : Addr)
    (e : (if p ≠ 0 then (s.dll_new_heap.memset0 p).map (fun h => { s with dll_new_heap := h })
      else pure s) = Except.ok s1) : p = 0 ∨ (s.dll_new_heap p).isSome := by
  by_cases hp : p = 0
  · exact Or.inl hp
  · simp only [ne_eq, hp, not_false_eq_true, if_true] at e
    exact Or.inr (Heap.memset0_map_present _ _ _ _ e)

theorem State.dll_new_heap_memset_total (s : State) (p : Addr) (hv : p = 0 ∨ (s.dll_new_heap p).isSome) :
    ∃ h, (if p ≠ 0 then (s.dll_new_heap.memset0 p).map (fun h => { s with dll_new_heap := h })
        else pure s) = Except.ok { s with dll_new_heap := h } ∧
      ∀ a, (h a).isSome = (s.dll_new_heap a).isSome := by
  by_cases hp : p = 0
  · exact ⟨s.dll_new_heap, by simp [hp], fun _ => rfl⟩
  · have hs : (s.dll_new_heap p).isSome := by
      rcases hv with hv | hv
      · exact absurd hv hp
      · exact hv
    obtain ⟨t, ht⟩ := Option.isSome_iff_exists.mp hs
    refine ⟨fun a => if a = p then some Table.zero else s.dll_new_heap a, ?_, ?_⟩
    · simp [Heap.memset0, hp, ht]
    · intro a
      by_cases ha : a = p
      · simp [ha, ht]
      · simp [ha]

theorem engine.detail.ClearEngineHooks_valid (s s' : State)
    (e : engine.detail.ClearEngineHooks s = Except.ok s') :
    (s.engine_hooks = 0 ∨ (s.engine_heap s.engine_hooks).isSome) ∧
    (s.engine_post_hooks = 0 ∨ (s.engine_heap s.engine_post_hooks).isSome) := by
  unfold ClearEngineHooks at e
  obtain ⟨s1, e1, e2⟩ := bind_eq_ok _ _ _ e
  have v1 := State.engine_heap_memset_valid _ _ _ e1
  have v2 := State.engine_heap_memset_valid _ _ _ e2
  obtain ⟨h1, r1, a1⟩ := State.engine_heap_memset_alloc _ _ _ e1
  subst r1
  refine ⟨v1, ?_⟩
  rcases v2 with v2 | v2
  · exact Or.inl v2
  · exact Or.inr ((a1 _).symm.trans v2)

theorem engine.detail.ClearEngineHooks_total (s : State)
    (v1 : s.engine_hooks = 0 ∨ (s.engine_heap s.engine_hooks).isSome)
    (v2 : s.engine_post_hooks = 0 ∨ (s.engine_heap s.engine_post_hooks).isSome) :
    ∃ s', engine.detail.ClearEngineHooks s = Except.ok s' := by
  unfold ClearEngineHooks
  obtain ⟨h1, e1, a1⟩ := State.engine_heap_memset_total s s.engine_hooks v1
  rw [e1, bind_ok_eq]
  have v2' : ({ s with engine_heap := h1 } : State).engine_post_hooks = 0 ∨
      (({ s with engine_heap := h1 } : State).engine_heap
        ({ s with engine_heap := h1 } : State).engine_post_hooks).isSome := by
    rcases v2 with v2 | v2
    · exact Or.inl v2
    · exact Or.inr ((a1 _).trans v2)
  obtain ⟨h2, e2, _⟩ := State.engine_heap_memset_total _ _ v2'
  exact ⟨_, e2⟩

theorem gamedll.detail.ClearGameDllHooks_valid (s s' : State)
    (e : gamedll.detail.ClearGameDllHooks s = Except.ok s') :
    (s.dll_hooks = 0 ∨ (s.dll_heap s.dll_hooks).isSome) ∧
    (s.dll_post_hooks = 0 ∨ (s.dll_heap s.dll_post_hooks).isSome) ∧
    (s.dll_new_hooks = 0 ∨ (s.dll_new_heap s.dll_new_hooks).isSome) ∧
    (s.dll_new_post_hooks = 0 ∨ (s.dll_new_heap s.dll_new_post_hooks).isSome) := by
  unfold ClearGameDllHooks at e
  obtain ⟨s1, e1, e⟩ := bind_eq_ok _ _ _ e
  obtain ⟨s2, e2, e⟩ := bind_eq_ok _ _ _ e
  obtain ⟨s3, e3, e4⟩ := bind_eq_ok _ _ _ e
  have v1 := State.dll_heap_memset_valid _ _ _ e1
  have v2 := State.dll_heap_memset_valid _ _ _ e2
  have v3 := State.dll_new_heap_memset_valid _ _ _ e3
  have v4 := State.dll_new_heap_memset_valid _ _ _ e4
  obtain ⟨h1, r1, a1⟩ := State.dll_heap_memset_alloc _ _ _ e1
  obtain ⟨h2, r2, a2⟩ := State.dll_heap_memset_alloc _ _ _ e2
  obtain ⟨h3, r3, a3⟩ := State.dll_new_heap_memset_alloc _ _ _ e3
  subst r1
  subst r2
  subst r3
  refine ⟨v1, ?_, v3, ?_⟩
  · rcases v2 with v2 | v2
    · exact Or.inl v2
    · exact Or.inr ((a1 _).symm.trans v2)
  · rcases v4 with v4 | v4
    · exact Or.inl v4
    · exact Or.inr ((a3 _).symm.trans v4)

theorem gamedll.detail.ClearGameDllHooks_total (s : State)
    (v1 : s.dll_hooks = 0 ∨ (s.dll_heap s.dll_hooks).isSome)
    (v2 : s.dll_post_hooks = 0 ∨ (s.dll_heap s.dll_post_hooks).isSome)
    (v3 : s.dll_new_hooks = 0 ∨ (s.dll_new_heap s.dll_new_hooks).isSome)
    (v4 : s.dll_new_post_hooks = 0 ∨ (s.dll_new_heap s.dll_new_post_hooks).isSome) :
    ∃ s', gamedll.detail.ClearGameDllHooks s = Except.ok s' := by
  unfold ClearGameDllHooks
  obtain ⟨h1, e1, a1⟩ := State.dll_heap_memset_total s s.dll_hooks v1
  rw [e1, bind_ok_eq]
  have v2' : ({ s with dll_heap := h1 } : State).dll_post_hooks = 0 ∨
      (({ s with dll_heap := h1 } : State).dll_heap
        ({ s with dll_heap := h1 } : State).dll_post_hooks).isSome := by
    rcases v2 with v2 | v2
    · exact Or.inl v2
    · exact Or.inr ((a1 _).trans v2)
  obtain ⟨h2, e2, _⟩ := State.dll_heap_memset_total _ _ v2'
  rw [e2, bind_ok_eq]
  have v3' : ({ s with dll_heap := h2 } : State).dll_new_hooks = 0 ∨
      (({ s with dll_heap := h2 } : State).dll_new_heap
        ({ s with dll_heap := h2 } : State).dll_new_hooks).isSome := v3
  obtain ⟨h3, e3, a3⟩ := State.dll_new_heap_memset_total _ _ v3'
  rw [e3, bind_ok_eq]
  have v4' : ({ s with dll_heap := h2, dll_new_heap := h3 } : State).dll_new_post_hooks = 0 ∨
      (({ s with dll_heap := h2, dll_new_heap := h3 } : State).dll_new_heap
        ({ s with dll_heap := h2, dll_new_heap := h3 } : State).dll_new_post_hooks).isSome := by
    rcases v4 with v4 | v4
    · exact Or.inl v4
    · exact Or.inr ((a3 _).trans v4)
  obtain ⟨h4, e4, _⟩ := State.dll_new_heap_memset_total _ _ v4'
  exact ⟨_, e4⟩

theorem Heap.deref_zero_of_isSome {σ : Type} (h : Heap σ) (p : Addr) (hp : p ≠ 0)
    (hs : (h p).isSome) (hz : ∀ t, h.deref p = some t → t = Table.zero) :
    h.deref p = some Table.zero := by
  obtain ⟨t, ht⟩ := Option.isSome_iff_exists.mp hs
  have hd : h.deref p = some t := by simp [Heap.deref, hp, ht]
  rw [hd, hz t hd]

theorem Meta_Detach_effect (META_DETACH : Option (State → Except Fault State))
    (s s' : State) (status : Status)
    (h : Meta_Detach META_DETACH s = Except.ok (status, s')) :
    ∃ s1, (match META_DETACH with
        | some callback => callback s
        | none => pure s) = Except.ok s1 ∧
      status = Status.Ok ∧
      (s'.engine_hooks = s1.engine_hooks ∧ s'.engine_post_hooks = s1.engine_post_hooks ∧
        s'.dll_hooks = s1.dll_hooks ∧ s'.dll_post_hooks = s1.dll_post_hooks ∧
        s'.dll_new_hooks = s1.dll_new_hooks ∧ s'.dll_new_post_hooks = s1.dll_new_post_hooks) ∧
      s'.alerts = s1.alerts ∧
      ((∀ post, (if post then s'.engine_post_hooks else s'.engine_hooks) ≠ 0 →
          s'.engine_table post = some Table.zero) ∧
        (∀ post, (if post then s'.dll_post_hooks else s'.dll_hooks) ≠ 0 →
          s'.dll_table post = some Table.zero) ∧
        (∀ post, (if post then s'.dll_new_post_hooks else s'.dll_new_hooks) ≠ 0 →
          s'.dll_new_table post = some Table.zero)) ∧
      ((∀ a, a ≠ s1.engine_hooks → a ≠ s1.engine_post_hooks →
          s'.engine_heap a = s1.engine_heap a) ∧
        (∀ a, (s'.engine_heap a).isSome = (s1.engine_heap a).isSome) ∧
        (∀ a, (s'.dll_heap a).isSome = (s1.dll_heap a).isSome) ∧
        (∀ a, (s'.dll_new_heap a).isSome = (s1.dll_new_heap a).isSome)) := by
  unfold Meta_Detach at h
  obtain ⟨s1, e0, h⟩ := bind_eq_ok _ _ _ h
  obtain ⟨s2, e1, h⟩ := bind_eq_ok _ _ _ h
  obtain ⟨s3, e2, h⟩ := bind_eq_ok _ _ _ h
  simp only [pure_eq_ok, Except.ok.injEq, Prod.mk.injEq] at h
  obtain ⟨hst, hs⟩ := h
  subst hs
  obtain ⟨ze, _⟩ := engine.detail.ClearEngineHooks_ok s1 s2 e1
  obtain ⟨zd, zn, _⟩ := gamedll.detail.ClearGameDllHooks_ok s2 s3 e2
  obtain ⟨ve1, ve2⟩ := engine.detail.ClearEngineHooks_valid s1 s2 e1
  obtain ⟨vd1, vd2, vn1, vn2⟩ := gamedll.detail.ClearGameDllHooks_valid s2 s3 e2
  have frame_e : ∀ a, a ≠ s1.engine_hooks → a ≠ s1.engine_post_hooks →
      s2.engine_heap a = s1.engine_heap a := by
    unfold engine.detail.ClearEngineHooks at e1
    obtain ⟨m1, f1, f2⟩ := bind_eq_ok _ _ _ e1
    intro a h1 h2
    by_cases p1 : s1.engine_hooks = 0
    · simp only [p1, ne_eq, not_true_eq_false, if_false, pure_eq_ok, Except.ok.injEq] at f1
      subst f1
      by_cases p2 : s1.engine_post_hooks = 0
      · simp only [p2, ne_eq, not_true_eq_false, if_false, pure_eq_ok, Except.ok.injEq] at f2
        subst f2
        rfl
      · simp only [ne_eq, p2, not_false_eq_true, if_true] at f2
        obtain ⟨_, g2⟩ := Heap.memset0_map_ok _ _ _ _ f2
        subst g2
        simp [h2]
    · simp only [ne_eq, p1, not_false_eq_true, if_true] at f1
      obtain ⟨_, g1⟩ := Heap.memset0_map_ok _ _ _ _ f1
      subst g1
      by_cases p2 : s1.engine_post_hooks = 0
      · simp only [p2, ne_eq, not_true_eq_false, if_false, pure_eq_ok, Except.ok.injEq] at f2
        subst f2
        simp [h1]
      · simp only [ne_eq, p2, not_false_eq_true, if_true] at f2
        obtain ⟨_, g2⟩ := Heap.memset0_map_ok _ _ _ _ f2
        subst g2
        simp [h1, h2]
  obtain ⟨he, r1, ae⟩ := engine.detail.ClearEngineHooks_alloc s1 s2 e1
  obtain ⟨hd, hn, r2, ad, an⟩ := gamedll.detail.ClearGameDllHooks_alloc s2 s3 e2
  subst r1
  subst r2
  refine ⟨s1, e0, hst.symm, ⟨rfl, rfl, rfl, rfl, rfl, rfl⟩, rfl, ⟨?_, ?_, ?_⟩,
    ⟨frame_e, ae, ad, an⟩⟩
  · intro post hp
    cases post
    · have hp' : s1.engine_hooks ≠ 0 := hp
      have hs : (he s1.engine_hooks).isSome := by
        rcases ve1 with v | v
        · exact absurd v hp'
        · exact (ae _).trans v
      exact Heap.deref_zero_of_isSome he _ hp' hs (fun t ht => ze false t ht)
    · have hp' : s1.engine_post_hooks ≠ 0 := hp
      have hs : (he s1.engine_post_hooks).isSome := by
        rcases ve2 with v | v
        · exact absurd v hp'
        · exact (ae _).trans v
      exact Heap.deref_zero_of_isSome he _ hp' hs (fun t ht => ze true t ht)
  · intro post hp
    cases post
    · have hp' : s1.dll_hooks ≠ 0 := hp
      have hs : (hd s1.dll_hooks).isSome := by
        rcases vd1 with v | v
        · exact absurd v hp'
        · exact (ad _).trans v
      exact Heap.deref_zero_of_isSome hd _ hp' hs (fun t ht => zd false t ht)
    · have hp' : s1.dll_post_hooks ≠ 0 := hp
      have hs : (hd s1.dll_post_hooks).isSome := by
        rcases vd2 with v | v
        · exact absurd v hp'
        · exact (ad _).trans v
      exact Heap.deref_zero_of_isSome hd _ hp' hs (fun t ht => zd true t ht)
  · intro post hp
    cases post
    · have hp' : s1.dll_new_hooks ≠ 0 := hp
      have hs : (hn s1.dll_new_hooks).isSome := by
        rcases vn1 with v | v
        · exact absurd v hp'
        · exact (an _).trans v
      exact Heap.deref_zero_of_isSome hn _ hp' hs (fun t ht => zn false t ht)
    · have hp' : s1.dll_new_post_hooks ≠ 0 := hp
      have hs : (hn s1.dll_new_post_hooks).isSome := by
        rcases vn2 with v | v
        · exact absurd v hp'
        · exact (an _).trans v
      exact Heap.deref_zero_of_isSome hn _ hp' hs (fun t ht => zn true t ht)

theorem Meta_Detach_total (s : State)
    (v1 : s.engine_hooks = 0 ∨ (s.engine_heap s.engine_hooks).isSome)
    (v2 : s.engine_post_hooks = 0 ∨ (s.engine_heap s.engine_post_hooks).isSome)
    (v3 : s.dll_hooks = 0 ∨ (s.dll_heap s.dll_hooks).isSome)
    (v4 : s.dll_post_hooks = 0 ∨ (s.dll_heap s.dll_post_hooks).isSome)
    (v5 : s.dll_new_hooks = 0 ∨ (s.dll_new_heap s.dll_new_hooks).isSome)
    (v6 : s.dll_new_post_hooks = 0 ∨ (s.dll_new_heap s.dll_new_post_hooks).isSome) :
    ∃ s', Meta_Detach none s = Except.ok (Status.Ok, s') := by
  obtain ⟨s2, e1⟩ := engine.detail.ClearEngineHooks_total s v1 v2
  obtain ⟨he, r1, _⟩ := engine.detail.ClearEngineHooks_alloc s s2 e1
  subst r1
  obtain ⟨s3, e2⟩ := gamedll.detail.ClearGameDllHooks_total { s with engine_heap := he }
    v3 v4 v5 v6
  refine ⟨s3, ?_⟩
  unfold Meta_Detach
  simp only [pure_eq_ok, bind_ok_eq]
  rw [e1, bind_ok_eq, e2, bind_ok_eq]

/-! ### The exported table stays the live table -/

/-! ### Totality of detach -/

theorem bind_eq_error {ε α β : Type} (x : Except ε α) (f : α → Except ε β) (e : ε)
    (h : (x >>= f) = Except.error e) :
    x = Except.error e ∨ ∃ a, x = Except.ok a ∧ f a = Except.error e := by
  cases x with
  | error err => exact Or.inl (by simpa using h)
  | ok a => exact Or.inr ⟨a, rfl, by simpa using h⟩

theorem Heap.memset0_step_error {σ S : Type} (h : Heap σ) (p : Addr) (f : Heap σ → S) (s : S)
    (e : Fault)
    (he : (if p ≠ 0 then (h.memset0 p).map f else pure s) = Except.error e) :
    e = Fault.invalid_pointer := by
  by_cases hp : p = 0
  · simp [hp] at he
  · cases hh : h p with
    | none =>
      simp only [ne_eq, hp, not_false_eq_true, if_true, Heap.memset0, if_false, hh,
        map_error_eq, Except.error.injEq] at he
      exact he.symm
    | some t =>
      simp [Heap.memset0, hp, hh] at he

theorem Meta_Detach_after_callback (META_DETACH : Option (State → Except Fault State))
    (s s1 : State)
    (h0 : (match META_DETACH with
      | some callback => callback s
      | none => pure s) = Except.ok s1) :
    Meta_Detach META_DETACH s = Meta_Detach none s1 := by
  unfold Meta_Detach
  rw [h0]
  rfl

theorem Meta_Detach_fault (s : State) (e : Fault)
    (h : Meta_Detach none s = Except.error e) : e = Fault.invalid_pointer := by
  unfold Meta_Detach at h
  simp only [pure_eq_ok, bind_ok_eq] at h
  rcases bind_eq_error _ _ _ h with h1 | ⟨s2, _, h2⟩
  · unfold engine.detail.ClearEngineHooks at h1
    rcases bind_eq_error _ _ _ h1 with k | ⟨_, _, k⟩
    · exact Heap.memset0_step_error _ _ _ _ _ k
    · exact Heap.memset0_step_error _ _ _ _ _ k
  · rcases bind_eq_error _ _ _ h2 with h3 | ⟨s3, _, h4⟩
    · unfold gamedll.detail.ClearGameDllHooks at h3
      rcases bind_eq_error _ _ _ h3 with k | ⟨_, _, k⟩
      · exact Heap.memset0_step_error _ _ _ _ _ k
      · rcases bind_eq_error _ _ _ k with k | ⟨_, _, k⟩
        · exact Heap.memset0_step_error _ _ _ _ _ k
        · rcases bind_eq_error _ _ _ k with k | ⟨_, _, k⟩
          · exact Heap.memset0_step_error _ _ _ _ _ k
          · exact Heap.memset0_step_error _ _ _ _ _ k
    · simp at h4

theorem Heap.deref_none_of_valid {σ : Type} (h : Heap σ) (p : Addr)
    (hv : p = 0 ∨ (h p).isSome) (hn : h.deref p = none) : p = 0 := by
  rcases hv with hv | hv
  · exact hv
  · by_contra hp
    obtain ⟨t, ht⟩ := Option.isSome_iff_exists.mp hv
    simp [Heap.deref, hp, ht] at hn

theorem Heap.ne_zero_of_deref_isSome {σ : Type} (h : Heap σ) (p : Addr)
    (hs : (h.deref p).isSome) : p ≠ 0 := by
  intro hp
  simp [Heap.deref, hp] at hs

/-- Counterexample to C29 as stated: in the initial state, the host owning
engine tables at addresses `3` and `4`, `ExportEngineHooks` into `3`,
`ExportEnginePostHooks` into `3` and `ExportEngineHooks` into `4` all succeed;
the third deletes the table at `3`, to which `engine_post_hooks` still refers.
In that state `Meta_Detach` does not return `Ok`: it clears the deleted
table. -/
theorem detach_is_total_counterexample :
    ∃ r, run ⟨138, 140, 1⟩ ⟨"plugin", "1.0", "2020", "author", "url", "TAG",
          PluginLoadTime.AnyTime, PluginLoadTime.AnyTime⟩
        [Operation.export_hooks ExportFunction.ExportEngineHooks 3 138,
          Operation.export_hooks ExportFunction.ExportEnginePostHooks 3 138,
          Operation.export_hooks ExportFunction.ExportEngineHooks 4 138]
        { Module.init with hooks := State.loaded } = Except.ok r ∧
      r.1 = true ∧
      r.2.hooks.engine_post_hooks = 3 ∧ r.2.hooks.engine_heap 3 = none ∧
      Meta_Detach none r.2.hooks = Except.error Fault.invalid_pointer :=
  ⟨_, rfl, rfl, rfl, rfl, rfl⟩

/-- C29 (amended): `Meta_Detach` is total on the states in which each of the
six hook-table pointers is null (table absent) or refers to a table, including
states where some or all tables are absent: there it returns `Ok` (after the
detach callback, if one is defined, has returned), leaves the six pointers as
they are and absent tables absent, and zeroes every present table.  In no
state whatever does `Meta_Detach` itself dereference a null table pointer or
fail an assertion: where it does not return, it has accessed storage that is
not allocated. -/
theorem detach_is_total (META_DETACH : Option (State → Except Fault State)) (s s1 : State)
    (h0 : (match META_DETACH with
      | some callback => callback s
      | none => pure s) = Except.ok s1)
    (v1 : s1.engine_hooks = 0 ∨ (s1.engine_heap s1.engine_hooks).isSome)
    (v2 : s1.engine_post_hooks = 0 ∨ (s1.engine_heap s1.engine_post_hooks).isSome)
    (v3 : s1.dll_hooks = 0 ∨ (s1.dll_heap s1.dll_hooks).isSome)
    (v4 : s1.dll_post_hooks = 0 ∨ (s1.dll_heap s1.dll_post_hooks).isSome)
    (v5 : s1.dll_new_hooks = 0 ∨ (s1.dll_new_heap s1.dll_new_hooks).isSome)
    (v6 : s1.dll_new_post_hooks = 0 ∨ (s1.dll_new_heap s1.dll_new_post_hooks).isSome) :
    (∃ s', Meta_Detach META_DETACH s = Except.ok (Status.Ok, s') ∧
      (s'.engine_hooks = s1.engine_hooks ∧ s'.engine_post_hooks = s1.engine_post_hooks ∧
        s'.dll_hooks = s1.dll_hooks ∧ s'.dll_post_hooks = s1.dll_post_hooks ∧
        s'.dll_new_hooks = s1.dll_new_hooks ∧ s'.dll_new_post_hooks = s1.dll_new_post_hooks) ∧
      ((∀ post, s1.engine_table post = none → s'.engine_table post = none) ∧
        (∀ post, s1.dll_table post = none → s'.dll_table post = none) ∧
        (∀ post, s1.dll_new_table post = none → s'.dll_new_table post = none)) ∧
      ((∀ post, (s1.engine_table post).isSome → s'.engine_table post = some Table.zero) ∧
        (∀ post, (s1.dll_table post).isSome → s'.dll_table post = some Table.zero) ∧
        (∀ post, (s1.dll_new_table post).isSome → s'.dll_new_table post = some Table.zero))) ∧
    (∀ (s0 : State) (e : Fault), Meta_Detach none s0 = Except.error e →
      e ≠ Fault.null_pointer ∧ e ≠ Fault.assertion) := by
  refine ⟨?_, ?_⟩
  · obtain ⟨s', hs'⟩ := Meta_Detach_total s1 v1 v2 v3 v4 v5 v6
    have e : Meta_Detach META_DETACH s = Except.ok (Status.Ok, s') := by
      rw [Meta_Detach_after_callback META_DETACH s s1 h0]; exact hs'
    obtain ⟨s2, e0, _, hp, _, zt, _⟩ := Meta_Detach_effect none s1 s' Status.Ok hs'
    have h2 : s2 = s1 := (Except.ok.inj e0).symm
    subst h2
    obtain ⟨p1, p2, p3, p4, p5, p6⟩ := hp
    refine ⟨s', e, ⟨p1, p2, p3, p4, p5, p6⟩, ⟨?_, ?_, ?_⟩, ⟨?_, ?_, ?_⟩⟩
    · intro post hn
      cases post
      · have hz := Heap.deref_none_of_valid _ _ v1 hn
        simp [State.engine_table, Heap.deref, p1, hz]
      · have hz := Heap.deref_none_of_valid _ _ v2 hn
        simp [State.engine_table, Heap.deref, p2, hz]
    · intro post hn
      cases post
      · have hz := Heap.deref_none_of_valid _ _ v3 hn
        simp [State.dll_table, Heap.deref, p3, hz]
      · have hz := Heap.deref_none_of_valid _ _ v4 hn
        simp [State.dll_table, Heap.deref, p4, hz]
    · intro post hn
      cases post
      · have hz := Heap.deref_none_of_valid _ _ v5 hn
        simp [State.dll_new_table, Heap.deref, p5, hz]
      · have hz := Heap.deref_none_of_valid _ _ v6 hn
        simp [State.dll_new_table, Heap.deref, p6, hz]
    · intro post hs
      have hne := Heap.ne_zero_of_deref_isSome _ _ hs
      refine zt.1 post ?_
      cases post
      · simpa [p1] using hne
      · simpa [p2] using hne
    · intro post hs
      have hne := Heap.ne_zero_of_deref_isSome _ _ hs
      refine zt.2.1 post ?_
      cases post
      · simpa [p3] using hne
      · simpa [p4] using hne
    · intro post hs
      have hne := Heap.ne_zero_of_deref_isSome _ _ hs
      refine zt.2.2 post ?_
      cases post
      · simpa [p5] using hne
      · simpa [p6] using hne
  · intro s0 e he
    rw [Meta_Detach_fault s0 e he]
    exact ⟨by decide, by decide⟩

/-- Witness for C29: detaching in the state `State.discarded`, in which the
engine pre-hook table is absent and the other five are present. -/
theorem detach_is_total_witness :
    State.discarded.engine_table false = none ∧
    ∃ s', Meta_Detach none State.discarded = Except.ok (Status.Ok, s') ∧
      s'.engine_table false = none ∧ s'.engine_table true = some Table.zero ∧
      s'.dll_table false = some Table.zero := by
  obtain ⟨s', e, _, ab, pr⟩ := (detach_is_total none State.discarded State.discarded rfl
    (Or.inl rfl) (Or.inr rfl) (Or.inr rfl) (Or.inr rfl) (Or.inr rfl) (Or.inr rfl)).1
  exact ⟨rfl, s', e, ab.1 false rfl, pr.1 true rfl, pr.2.1 false rfl⟩

/-! ### `FreeAllHookTables`, `Meta_Query` and `Meta_Attach` -/

theorem Heap.delete_eq_ok_iff {σ : Type} (h h' : Heap σ) (p : Addr) :
    h.delete p = Except.ok h' ↔
      (p = 0 ∨ (h p).isSome) ∧ h' = fun a => if a = p ∧ p ≠ 0 then none else h a := by
  constructor
  · intro e
    have hv := Heap.delete_eq_ok h h' p e
    rw [Heap.delete_ok h p hv] at e
    exact ⟨hv, (Except.ok.inj e).symm⟩
  · rintro ⟨hv, rfl⟩
    exact Heap.delete_ok h p hv

theorem FreeAllHookTables_inv (s s' : State) (e : FreeAllHookTables s = Except.ok s') :
    s' = { s with
      engine_heap := fun a =>
        if a = s.engine_post_hooks ∧ s.engine_post_hooks ≠ 0 then none
        else if a = s.engine_hooks ∧ s.engine_hooks ≠ 0 then none else s.engine_heap a
      dll_heap := fun a =>
        if a = s.dll_post_hooks ∧ s.dll_post_hooks ≠ 0 then none
        else if a = s.dll_hooks ∧ s.dll_hooks ≠ 0 then none else s.dll_heap a
      dll_new_heap := fun a =>
        if a = s.dll_new_post_hooks ∧ s.dll_new_post_hooks ≠ 0 then none
        else if a = s.dll_new_hooks ∧ s.dll_new_hooks ≠ 0 then none else s.dll_new_heap a
      engine_hooks := 0
      engine_post_hooks := 0
      dll_hooks := 0
      dll_post_hooks := 0
      dll_new_hooks := 0
      dll_new_post_hooks := 0 } := by
  unfold FreeAllHookTables at e
  obtain ⟨h1, e1, e⟩ := bind_eq_ok _ _ _ e
  obtain ⟨_, r1⟩ := (Heap.delete_eq_ok_iff _ _ _).mp e1
  subst r1
  obtain ⟨h2, e2, e⟩ := bind_eq_ok _ _ _ e
  obtain ⟨_, r2⟩ := (Heap.delete_eq_ok_iff _ _ _).mp e2
  subst r2
  obtain ⟨h3, e3, e⟩ := bind_eq_ok _ _ _ e
  obtain ⟨_, r3⟩ := (Heap.delete_eq_ok_iff _ _ _).mp e3
  subst r3
  obtain ⟨h4, e4, e⟩ := bind_eq_ok _ _ _ e
  obtain ⟨_, r4⟩ := (Heap.delete_eq_ok_iff _ _ _).mp e4
  subst r4
  obtain ⟨h5, e5, e⟩ := bind_eq_ok _ _ _ e
  obtain ⟨_, r5⟩ := (Heap.delete_eq_ok_iff _ _ _).mp e5
  subst r5
  obtain ⟨h6, e6, e⟩ := bind_eq_ok _ _ _ e
  obtain ⟨_, r6⟩ := (Heap.delete_eq_ok_iff _ _ _).mp e6
  subst r6
  exact (Except.ok.inj e).symm

theorem Heap.delete_second_ok {σ : Type} (h : Heap σ) (p q : Addr)
    (hq : q = 0 ∨ ((h q).isSome ∧ q ≠ p)) :
    Heap.delete (fun a => if a = p ∧ p ≠ 0 then none else h a) q =
      Except.ok (fun a => if a = q ∧ q ≠ 0 then none
        else if a = p ∧ p ≠ 0 then none else h a) := by
  apply Heap.delete_ok
  rcases hq with hq | ⟨hq, hne⟩
  · exact Or.inl hq
  · right
    simp [hne, hq]

theorem FreeAllHookTables_total (s : State)
    (h1 : s.engine_hooks = 0 ∨ (s.engine_heap s.engine_hooks).isSome)
    (h2 : s.engine_post_hooks = 0 ∨
      ((s.engine_heap s.engine_post_hooks).isSome ∧ s.engine_post_hooks ≠ s.engine_hooks))
    (h3 : s.dll_hooks = 0 ∨ (s.dll_heap s.dll_hooks).isSome)
    (h4 : s.dll_post_hooks = 0 ∨
      ((s.dll_heap s.dll_post_hooks).isSome ∧ s.dll_post_hooks ≠ s.dll_hooks))
    (h5 : s.dll_new_hooks = 0 ∨ (s.dll_new_heap s.dll_new_hooks).isSome)
    (h6 : s.dll_new_post_hooks = 0 ∨
      ((s.dll_new_heap s.dll_new_post_hooks).isSome ∧
        s.dll_new_post_hooks ≠ s.dll_new_hooks)) :
    ∃ s', FreeAllHookTables s = Except.ok s' := by
  unfold FreeAllHookTables
  simp only [Heap.delete_ok _ _ h1, bind_ok_eq,
    Heap.delete_second_ok _ _ _ h2, Heap.delete_ok _ _ h3,
    Heap.delete_second_ok _ _ _ h4, Heap.delete_ok _ _ h5,
    Heap.delete_second_ok _ _ _ h6]
  exact ⟨_, rfl⟩

theorem Meta_Query_rejected (config : PluginConfig)
    (META_QUERY : Option (Module → Except Fault Module)) (interface_version : String)
    (plugin_info : PluginInfoPtr) (util_funcs : Addr) (m : Module)
    (hv : interface_version ≠ INTERFACE_VERSION) :
    Meta_Query config META_QUERY interface_version plugin_info util_funcs m =
      (FreeAllHookTables m.hooks >>= fun s =>
        pure ⟨Status.Failed, plugin_info, { m with hooks := s }⟩) := by
  unfold Meta_Query
  rw [if_pos hv]

theorem Meta_Query_accepted (config : PluginConfig)
    (META_QUERY : Option (Module → Except Fault Module))
    (plugin_info : PluginInfoPtr) (util_funcs : Addr) (m : Module) :
    Meta_Query config META_QUERY INTERFACE_VERSION plugin_info util_funcs m =
      ((match META_QUERY with
        | some callback =>
          callback { m with info := some (m.info.getD config.info), funcs := util_funcs,
                                        plugin := PluginInfoPtr.info }
        | none =>
          pure { m with info := some (m.info.getD config.info), funcs := util_funcs,
                                        plugin := PluginInfoPtr.info }) >>= fun m1 =>
          pure ⟨Status.Ok, PluginInfoPtr.info, m1⟩) := by
  unfold Meta_Query
  rw [if_neg (not_not.mpr rfl)]

/-- Counterexample to C27 as stated.  First, the rejecting branch: after
`ExportEngineHooks` and `ExportEnginePostHooks` have both succeeded on the host
table at address `3`, both engine pointers refer to that table; `Meta_Query`
with the string `5:12` then deletes it twice in `FreeAllHookTables` and does
not return `Failed`.  Second, the accepting branch: a query callback that
writes `1:0` into the record `plugin` points to leaves that string in the
record the host was handed, although `Meta_Query` returns `Ok`. -/
theorem Meta_Query_outcome_counterexample :
    (engine.detail.ExportEngineHooks 138 host_engine_funcs 3 138 State.hosted =
        Except.ok ⟨true, 138, State.exported⟩ ∧
      engine.detail.ExportEnginePostHooks 138 host_engine_funcs 3 138 State.exported =
        Except.ok ⟨true, 138, State.shared⟩ ∧
      Meta_Query ⟨"plugin", "1.0", "2020", "author", "url", "TAG", PluginLoadTime.AnyTime,
          PluginLoadTime.AnyTime⟩ none "5:12" PluginInfoPtr.null 8
          { Module.init with hooks := State.shared } =
        Except.error Fault.invalid_pointer) ∧
    (∃ r, Meta_Query ⟨"plugin", "1.0", "2020", "author", "url", "TAG", PluginLoadTime.AnyTime,
          PluginLoadTime.AnyTime⟩
          (some (fun m => pure
            { m with info := m.info.map (fun i => { i with interface_version := "1:0" }) }))
          "5:13" PluginInfoPtr.null 8 Module.init = Except.ok r ∧
      r.status = Status.Ok ∧ r.plugin_info = PluginInfoPtr.info ∧
      r.module.info.map (fun i => i.interface_version) = some "1:0") :=
  ⟨⟨rfl, rfl, rfl⟩, _, rfl, rfl, rfl, rfl⟩

/-- C27 (amended): `Meta_Query` accepts exactly the interface version `5:13`
(C strings are modelled by their characters before the terminator).  Whenever
it returns, the status is `Ok` if and only if the offered string equals
`5:13`.  On `5:13` it hands back the address of its static plugin-info
record, records the host's utility-function table and points `plugin` at the
same record, leaving the hook tables untouched, and then runs the query
callback, if one is defined, on that state; at that point the record holds
`interface_version = 5:13` if this is the first accepted query (the record is
initialised then) and otherwise what it held before the call, and the state
handed back (the record included) is the one the callback left, or exactly
that state when no callback is defined.  The call
returns when the callback does.  On any other string the callback is not run
and, provided each of the six hook-table pointers is null or refers to a table
that the other pointer of its interface does not refer to, the call returns
`Failed`, all six hook-table pointers are null, the tables they referred to
are freed, and the caller's plugin-info pointer, the record, `funcs` and
`plugin` keep their values. -/
theorem Meta_Query_outcome (config : PluginConfig)
    (META_QUERY : Option (Module → Except Fault Module)) (interface_version : String)
    (plugin_info : PluginInfoPtr) (util_funcs : Addr) (m : Module) :
    INTERFACE_VERSION = "5:13" ∧
    (∀ r, Meta_Query config META_QUERY interface_version plugin_info util_funcs m =
        Except.ok r →
      ((r.status = Status.Ok ↔ interface_version = "5:13") ∧
        (r.status = Status.Failed ↔ interface_version ≠ "5:13"))) ∧
    (interface_version = "5:13" →
      ((m.info = none → (m.info.getD config.info).interface_version = "5:13") ∧
        (∀ i, m.info = some i → m.info.getD config.info = i) ∧
        ({ m with info := some (m.info.getD config.info), funcs := util_funcs,
                                        plugin := PluginInfoPtr.info } : Module).hooks = m.hooks) ∧
      (∀ r, Meta_Query config META_QUERY interface_version plugin_info util_funcs m =
          Except.ok r →
        r.status = Status.Ok ∧ r.plugin_info = PluginInfoPtr.info ∧
        (META_QUERY = none →
          r.module = { m with info := some (m.info.getD config.info), funcs := util_funcs,
                                        plugin := PluginInfoPtr.info }) ∧
        (∀ callback, META_QUERY = some callback →
          callback { m with info := some (m.info.getD config.info), funcs := util_funcs,
                                        plugin := PluginInfoPtr.info } =
            Except.ok r.module)) ∧
      ((∀ callback, META_QUERY = some callback →
          ∃ m2, callback { m with info := some (m.info.getD config.info), funcs := util_funcs,
                                        plugin := PluginInfoPtr.info } =
            Except.ok m2) →
        ∃ r, Meta_Query config META_QUERY interface_version plugin_info util_funcs m =
          Except.ok r)) ∧
    (interface_version ≠ "5:13" →
      ((m.hooks.engine_hooks = 0 ∨ (m.hooks.engine_heap m.hooks.engine_hooks).isSome) →
        (m.hooks.engine_post_hooks = 0 ∨
          ((m.hooks.engine_heap m.hooks.engine_post_hooks).isSome ∧
            m.hooks.engine_post_hooks ≠ m.hooks.engine_hooks)) →
        (m.hooks.dll_hooks = 0 ∨ (m.hooks.dll_heap m.hooks.dll_hooks).isSome) →
        (m.hooks.dll_post_hooks = 0 ∨
          ((m.hooks.dll_heap m.hooks.dll_post_hooks).isSome ∧
            m.hooks.dll_post_hooks ≠ m.hooks.dll_hooks)) →
        (m.hooks.dll_new_hooks = 0 ∨ (m.hooks.dll_new_heap m.hooks.dll_new_hooks).isSome) →
        (m.hooks.dll_new_post_hooks = 0 ∨
          ((m.hooks.dll_new_heap m.hooks.dll_new_post_hooks).isSome ∧
            m.hooks.dll_new_post_hooks ≠ m.hooks.dll_new_hooks)) →
        ∃ r, Meta_Query config META_QUERY interface_version plugin_info util_funcs m =
          Except.ok r) ∧
      (∀ r, Meta_Query config META_QUERY interface_version plugin_info util_funcs m =
          Except.ok r →
        r.status = Status.Failed ∧ r.plugin_info = plugin_info ∧
        r.module.info = m.info ∧ r.module.funcs = m.funcs ∧ r.module.plugin = m.plugin ∧
        FreeAllHookTables m.hooks = Except.ok r.module.hooks ∧
        r.module.hooks.engine_hooks = 0 ∧ r.module.hooks.engine_post_hooks = 0 ∧
        r.module.hooks.dll_hooks = 0 ∧ r.module.hooks.dll_post_hooks = 0 ∧
        r.module.hooks.dll_new_hooks = 0 ∧ r.module.hooks.dll_new_post_hooks = 0 ∧
        (m.hooks.engine_hooks ≠ 0 →
          r.module.hooks.engine_heap m.hooks.engine_hooks = none) ∧
        (m.hooks.engine_post_hooks ≠ 0 →
          r.module.hooks.engine_heap m.hooks.engine_post_hooks = none) ∧
        (m.hooks.dll_hooks ≠ 0 → r.module.hooks.dll_heap m.hooks.dll_hooks = none) ∧
        (m.hooks.dll_post_hooks ≠ 0 →
          r.module.hooks.dll_heap m.hooks.dll_post_hooks = none) ∧
        (m.hooks.dll_new_hooks ≠ 0 →
          r.module.hooks.dll_new_heap m.hooks.dll_new_hooks = none) ∧
        (m.hooks.dll_new_post_hooks ≠ 0 →
          r.module.hooks.dll_new_heap m.hooks.dll_new_post_hooks = none))) := by
  have accepted : interface_version = "5:13" →
      (∀ r, Meta_Query config META_QUERY interface_version plugin_info util_funcs m =
          Except.ok r →
        r.status = Status.Ok ∧ r.plugin_info = PluginInfoPtr.info ∧
        (META_QUERY = none →
          r.module = { m with info := some (m.info.getD config.info), funcs := util_funcs,
                                        plugin := PluginInfoPtr.info }) ∧
        (∀ callback, META_QUERY = some callback →
          callback { m with info := some (m.info.getD config.info), funcs := util_funcs,
                                        plugin := PluginInfoPtr.info } =
            Except.ok r.module)) := by
    intro hv r e
    have hv' : interface_version = INTERFACE_VERSION := hv
    subst hv'
    rw [Meta_Query_accepted config META_QUERY plugin_info util_funcs m] at e
    obtain ⟨m1, e1, e2⟩ := bind_eq_ok _ _ _ e
    have hr : r = ⟨Status.Ok, PluginInfoPtr.info, m1⟩ := (Except.ok.inj e2).symm
    subst hr
    refine ⟨rfl, rfl, ?_, ?_⟩
    · intro hn
      subst hn
      exact (Except.ok.inj e1).symm
    · intro callback hc
      subst hc
      exact e1
  have rejected : interface_version ≠ "5:13" →
      (∀ r, Meta_Query config META_QUERY interface_version plugin_info util_funcs m =
          Except.ok r →
        r.status = Status.Failed ∧ r.plugin_info = plugin_info ∧
        r.module.info = m.info ∧ r.module.funcs = m.funcs ∧ r.module.plugin = m.plugin ∧
        FreeAllHookTables m.hooks = Except.ok r.module.hooks) := by
    intro hv r e
    rw [Meta_Query_rejected config META_QUERY interface_version plugin_info util_funcs m hv]
      at e
    obtain ⟨s, e1, e2⟩ := bind_eq_ok _ _ _ e
    have hr : r = ⟨Status.Failed, plugin_info, { m with hooks := s }⟩ :=
      (Except.ok.inj e2).symm
    subst hr
    exact ⟨rfl, rfl, rfl, rfl, rfl, e1⟩
  refine ⟨rfl, ?_, ?_, ?_⟩
  · intro r e
    by_cases hv : interface_version = "5:13"
    · have h := (accepted hv r e).1
      exact ⟨⟨fun _ => hv, fun _ => h⟩,
        ⟨fun hf => (by rw [h] at hf; cases hf), fun hn => absurd hv hn⟩⟩
    · have h := (rejected hv r e).1
      exact ⟨⟨fun ho => (by rw [h] at ho; cases ho), fun he => absurd he hv⟩,
        ⟨fun _ => hv, fun _ => h⟩⟩
  · intro hv
    refine ⟨⟨?_, ?_, rfl⟩, accepted hv, ?_⟩
    · intro hn
      rw [hn]
      rfl
    · intro i hi
      rw [hi]
      rfl
    · intro hc
      have hv' : interface_version = INTERFACE_VERSION := hv
      subst hv'
      rw [Meta_Query_accepted config META_QUERY plugin_info util_funcs m]
      cases hm : META_QUERY with
      | none => exact ⟨_, rfl⟩
      | some callback =>
        obtain ⟨m2, e2⟩ := hc callback hm
        refine ⟨⟨Status.Ok, PluginInfoPtr.info, m2⟩, ?_⟩
        show (callback _ >>= _) = _
        rw [e2]
        rfl
  · intro hv
    constructor
    · intro h1 h2 h3 h4 h5 h6
      obtain ⟨s, e⟩ := FreeAllHookTables_total m.hooks h1 h2 h3 h4 h5 h6
      rw [Meta_Query_rejected config META_QUERY interface_version plugin_info util_funcs m hv,
        e]
      exact ⟨_, rfl⟩
    · intro r e
      obtain ⟨h1, h2, h3, h4, h5, h6⟩ := rejected hv r e
      have hs := FreeAllHookTables_inv _ _ h6
      refine ⟨h1, h2, h3, h4, h5, h6, ?_⟩
      rw [hs]
      refine ⟨rfl, rfl, rfl, rfl, rfl, rfl, ?_, ?_, ?_, ?_, ?_, ?_⟩ <;>
        intro hp <;> simp [hp]

/-- Witness for C27 (amended): the freshly loaded module is queried without a
callback, once with `5:13` and once with `5:12`. -/
theorem Meta_Query_outcome_witness :
    (∃ r, Meta_Query ⟨"plugin", "1.0", "2020", "author", "url", "TAG", PluginLoadTime.AnyTime,
          PluginLoadTime.AnyTime⟩ none "5:13" PluginInfoPtr.null 8 Module.init = Except.ok r ∧
        r.status = Status.Ok ∧ r.plugin_info = PluginInfoPtr.info ∧
        r.module.info.map (fun i => i.interface_version) = some "5:13" ∧
        r.module.funcs = 8 ∧ r.module.hooks = State.init) ∧
    (∃ r, Meta_Query ⟨"plugin", "1.0", "2020", "author", "url", "TAG", PluginLoadTime.AnyTime,
          PluginLoadTime.AnyTime⟩ none "5:12" PluginInfoPtr.null 8 Module.init = Except.ok r ∧
        r.status = Status.Failed ∧ r.plugin_info = PluginInfoPtr.null ∧
        r.module.hooks.engine_hooks = 0 ∧ r.module.hooks.engine_heap 1 = none) := by
  have t1 := Meta_Query_outcome ⟨"plugin", "1.0", "2020", "author", "url", "TAG", PluginLoadTime.AnyTime,
          PluginLoadTime.AnyTime⟩ none "5:13" PluginInfoPtr.null 8 Module.init
  have t2 := Meta_Query_outcome ⟨"plugin", "1.0", "2020", "author", "url", "TAG", PluginLoadTime.AnyTime,
          PluginLoadTime.AnyTime⟩ none "5:12" PluginInfoPtr.null 8 Module.init
  constructor
  · obtain ⟨r, e⟩ := (t1.2.2.1 rfl).2.2 (fun _ h => nomatch h)
    obtain ⟨h1, h2, h3, _⟩ := (t1.2.2.1 rfl).2.1 r e
    have hm := h3 rfl
    refine ⟨r, e, h1, h2, ?_, ?_, ?_⟩ <;> rw [hm] <;> rfl
  · obtain ⟨r, e⟩ := (t2.2.2.2 (by decide)).1 (Or.inr rfl) (Or.inr ⟨rfl, by decide⟩)
      (Or.inr rfl) (Or.inr ⟨rfl, by decide⟩) (Or.inr rfl) (Or.inr ⟨rfl, by decide⟩)
    obtain ⟨h1, h2, _, _, _, _, h3, _, _, _, _, _, h4, _⟩ := (t2.2.2.2 (by decide)).2 r e
    exact ⟨r, e, h1, h2, h3, h4 (by decide)⟩

/-- Counterexample to C28 as stated: the host passes a `DllFuncsTables` record
whose two table pointers are null, and no attach callback is defined.
`Meta_Attach` copies from both pointers unconditionally, so it ends in the
copy from the null pointer and does not return `Ok`. -/
theorem Meta_Attach_success_counterexample :
    Meta_Attach none PluginLoadTime.AnyTime {} 9 ⟨none, none⟩ Module.init =
      Except.error Fault.null_pointer ∧
    ¬ ∃ r, Meta_Attach none PluginLoadTime.AnyTime {} 9 ⟨none, none⟩ Module.init =
      Except.ok r := by
  have e : Meta_Attach none PluginLoadTime.AnyTime {} 9 ⟨none, none⟩ Module.init =
      Except.error Fault.null_pointer := rfl
  refine ⟨e, ?_⟩
  rintro ⟨r, hr⟩
  rw [e] at hr
  exact Except.noConfusion hr

/-- C28 (amended): when the two game-DLL table pointers of the host's
`DllFuncsTables` record are non-null, `Meta_Attach` without an attach callback
returns `Ok`, stores the host's `Globals` pointer as `g_globals`, and fills
the export-function record so that each entry holds the export function of
its own table, the two unused entries being null; the module state differs
from the previous one only in `g_globals`, `g_dll_funcs` and
`g_dll_new_funcs`, so no hook-table pointer and no hook-table slot has
changed.  With a callback that returns `Ok` the same holds, the callback being
run on that state and the call handing back the state the callback left. -/
theorem Meta_Attach_success
    (META_ATTACH : Option (Module → Except Fault (Status × Module)))
    (load_time : PluginLoadTime) (export_hooks_funcs : ExportHooksFuncs) (globals : Addr)
    (dll_funcs : Table DllSlot) (dll_new_funcs : Table DllNewSlot) (m m1 : Module)
    (hc : ∀ callback, META_ATTACH = some callback →
      callback { m with g_globals := globals, g_dll_funcs := dll_funcs,
                        g_dll_new_funcs := dll_new_funcs } = Except.ok (Status.Ok, m1))
    (hn : META_ATTACH = none →
      m1 = { m with g_globals := globals, g_dll_funcs := dll_funcs,
                    g_dll_new_funcs := dll_new_funcs }) :
    Meta_Attach META_ATTACH load_time export_hooks_funcs globals
        ⟨some dll_funcs, some dll_new_funcs⟩ m =
      Except.ok ⟨Status.Ok,
        { not_used1 := none
          not_used2 := none
          export_dll_hooks := some ExportFunction.ExportDllHooks
          export_dll_post_hooks := some ExportFunction.ExportDllPostHooks
          export_dllnew_hooks := some ExportFunction.ExportDllNewHooks
          export_dllnew_post_hooks := some ExportFunction.ExportDllNewPostHooks
          export_engine_hooks := some ExportFunction.ExportEngineHooks
          export_engine_post_hooks := some ExportFunction.ExportEnginePostHooks }, m1⟩ ∧
    ({ m with g_globals := globals, g_dll_funcs := dll_funcs,
              g_dll_new_funcs := dll_new_funcs } : Module).g_globals = globals ∧
    ({ m with g_globals := globals, g_dll_funcs := dll_funcs,
              g_dll_new_funcs := dll_new_funcs } : Module).hooks = m.hooks ∧
    (META_ATTACH = none → m1.g_globals = globals ∧ m1.hooks = m.hooks) := by
  refine ⟨?_, rfl, rfl, ?_⟩
  · cases hm : META_ATTACH with
    | none =>
      rw [hn hm]
      rfl
    | some callback =>
      have e := hc callback hm
      unfold Meta_Attach
      simp only [bind_ok_eq, pure, Except.pure]
      rw [e]
      rfl
  · intro h
    rw [hn h]
    exact ⟨rfl, rfl⟩

/-- Witness for C28 (amended): the freshly loaded module is attached without
a callback, the host passing two tables. -/
theorem Meta_Attach_success_witness :
    Meta_Attach none PluginLoadTime.AnyTime ⟨none, none, none, none, none, none, none, none⟩ 9
        ⟨some Table.zero, some Table.zero⟩ Module.init =
      Except.ok ⟨Status.Ok,
        { not_used1 := none
          not_used2 := none
          export_dll_hooks := some ExportFunction.ExportDllHooks
          export_dll_post_hooks := some ExportFunction.ExportDllPostHooks
          export_dllnew_hooks := some ExportFunction.ExportDllNewHooks
          export_dllnew_post_hooks := some ExportFunction.ExportDllNewPostHooks
          export_engine_hooks := some ExportFunction.ExportEngineHooks
          export_engine_post_hooks := some ExportFunction.ExportEnginePostHooks },
        { Module.init with g_globals := 9 }⟩ :=
  (Meta_Attach_success none PluginLoadTime.AnyTime ⟨none, none, none, none, none, none, none, none⟩
    9 Table.zero Table.zero Module.init { Module.init with g_globals := 9 }
    (fun _ h => nomatch h) (fun _ => rfl)).1

/-! ### Runs of module operations -/

theorem Meta_Query_none_inv (config : PluginConfig) (interface_version : String)
    (plugin_info : PluginInfoPtr) (util_funcs : Addr) (m : Module) (r : QueryReturn)
    (e : Meta_Query config none interface_version plugin_info util_funcs m = Except.ok r) :
    (r.status = Status.Ok ∧ r.module.hooks = m.hooks) ∨
    (r.status = Status.Failed ∧ FreeAllHookTables m.hooks = Except.ok r.module.hooks) := by
  by_cases hv : interface_version = INTERFACE_VERSION
  · subst hv
    rw [Meta_Query_accepted config none plugin_info util_funcs m] at e
    have hr := (Except.ok.inj e).symm
    subst hr
    exact Or.inl ⟨rfl, rfl⟩
  · rw [Meta_Query_rejected config none interface_version plugin_info util_funcs m hv] at e
    obtain ⟨s, e1, e2⟩ := bind_eq_ok _ _ _ e
    have hr : r = ⟨Status.Failed, plugin_info, { m with hooks := s }⟩ :=
      (Except.ok.inj e2).symm
    subst hr
    exact Or.inr ⟨rfl, e1⟩

theorem Meta_Attach_none_inv (load_time : PluginLoadTime)
    (export_hooks_funcs : ExportHooksFuncs) (globals : Addr)
    (dll_funcs_tables : DllFuncsTables) (m : Module) (r : AttachReturn)
    (e : Meta_Attach none load_time export_hooks_funcs globals dll_funcs_tables m =
      Except.ok r) :
    r.status = Status.Ok ∧ r.module.hooks = m.hooks := by
  obtain ⟨t1, t2⟩ := dll_funcs_tables
  cases t1 with
  | none => cases e
  | some t1 =>
    cases t2 with
    | none => cases e
    | some t2 =>
      have hr := (Except.ok.inj e).symm
      subst hr
      exact ⟨rfl, rfl⟩

theorem engine.detail.ExportEngineHooks_pointers (V : Int) (G : Table EngineSlot) (tbl : Addr) (v : Int) (s : State)
    (r : ExportReturn) (e : engine.detail.ExportEngineHooks V G tbl v s = Except.ok r) :
    (r.state.engine_post_hooks = s.engine_post_hooks ∧ r.state.dll_hooks = s.dll_hooks ∧ r.state.dll_post_hooks = s.dll_post_hooks ∧ r.state.dll_new_hooks = s.dll_new_hooks ∧ r.state.dll_new_post_hooks = s.dll_new_post_hooks) ∧
    ((r.ret = false ∧ r.state.engine_hooks = 0) ∨
      (r.ret = true ∧ s.engine_hooks ≠ 0 ∧ tbl ≠ 0 ∧ r.state.engine_hooks = tbl)) := by
  by_cases hc : tbl ≠ 0 ∧ v = V
  · obtain ⟨t, u, ht, _, hr⟩ := engine.detail.ExportEngineHooks_success_inv V G tbl v s r hc e
    subst hr
    exact ⟨⟨rfl, rfl, rfl, rfl, rfl⟩,
      Or.inr ⟨rfl, (Heap.deref_some _ _ _ ht).1, hc.1, rfl⟩⟩
  · obtain ⟨al, hr⟩ := engine.detail.ExportEngineHooks_failure_inv V G tbl v s r hc e
    subst hr
    exact ⟨⟨rfl, rfl, rfl, rfl, rfl⟩, Or.inl ⟨rfl, rfl⟩⟩

theorem engine.detail.ExportEnginePostHooks_pointers (V : Int) (G : Table EngineSlot) (tbl : Addr) (v : Int) (s : State)
    (r : ExportReturn) (e : engine.detail.ExportEnginePostHooks V G tbl v s = Except.ok r) :
    (r.state.engine_hooks = s.engine_hooks ∧ r.state.dll_hooks = s.dll_hooks ∧ r.state.dll_post_hooks = s.dll_post_hooks ∧ r.state.dll_new_hooks = s.dll_new_hooks ∧ r.state.dll_new_post_hooks = s.dll_new_post_hooks) ∧
    ((r.ret = false ∧ r.state.engine_post_hooks = 0) ∨
      (r.ret = true ∧ s.engine_post_hooks ≠ 0 ∧ tbl ≠ 0 ∧ r.state.engine_post_hooks = tbl)) := by
  by_cases hc : tbl ≠ 0 ∧ v = V
  · obtain ⟨t, u, ht, _, hr⟩ := engine.detail.ExportEnginePostHooks_success_inv V G tbl v s r hc e
    subst hr
    exact ⟨⟨rfl, rfl, rfl, rfl, rfl⟩,
      Or.inr ⟨rfl, (Heap.deref_some _ _ _ ht).1, hc.1, rfl⟩⟩
  · obtain ⟨al, hr⟩ := engine.detail.ExportEnginePostHooks_failure_inv V G tbl v s r hc e
    subst hr
    exact ⟨⟨rfl, rfl, rfl, rfl, rfl⟩, Or.inl ⟨rfl, rfl⟩⟩

theorem gamedll.detail.ExportDllHooks_pointers (V : Int) (G : Table EngineSlot) (tbl : Addr) (v : Int) (s : State)
    (r : ExportReturn) (e : gamedll.detail.ExportDllHooks V G tbl v s = Except.ok r) :
    (r.state.engine_hooks = s.engine_hooks ∧ r.state.engine_post_hooks = s.engine_post_hooks ∧ r.state.dll_post_hooks = s.dll_post_hooks ∧ r.state.dll_new_hooks = s.dll_new_hooks ∧ r.state.dll_new_post_hooks = s.dll_new_post_hooks) ∧
    ((r.ret = false ∧ r.state.dll_hooks = 0) ∨
      (r.ret = true ∧ s.dll_hooks ≠ 0 ∧ tbl ≠ 0 ∧ r.state.dll_hooks = tbl)) := by
  by_cases hc : tbl ≠ 0 ∧ v = V
  · obtain ⟨t, u, ht, _, hr⟩ := gamedll.detail.ExportDllHooks_success_inv V G tbl v s r hc e
    subst hr
    exact ⟨⟨rfl, rfl, rfl, rfl, rfl⟩,
      Or.inr ⟨rfl, (Heap.deref_some _ _ _ ht).1, hc.1, rfl⟩⟩
  · obtain ⟨al, hr⟩ := gamedll.detail.ExportDllHooks_failure_inv V G tbl v s r hc e
    subst hr
    exact ⟨⟨rfl, rfl, rfl, rfl, rfl⟩, Or.inl ⟨rfl, rfl⟩⟩

theorem gamedll.detail.ExportDllPostHooks_pointers (V : Int) (G : Table EngineSlot) (tbl : Addr) (v : Int) (s : State)
    (r : ExportReturn) (e : gamedll.detail.ExportDllPostHooks V G tbl v s = Except.ok r) :
    (r.state.engine_hooks = s.engine_hooks ∧ r.state.engine_post_hooks = s.engine_post_hooks ∧ r.state.dll_hooks = s.dll_hooks ∧ r.state.dll_new_hooks = s.dll_new_hooks ∧ r.state.dll_new_post_hooks = s.dll_new_post_hooks) ∧
    ((r.ret = false ∧ r.state.dll_post_hooks = 0) ∨
      (r.ret = true ∧ s.dll_post_hooks ≠ 0 ∧ tbl ≠ 0 ∧ r.state.dll_post_hooks = tbl)) := by
  by_cases hc : tbl ≠ 0 ∧ v = V
  · obtain ⟨t, u, ht, _, hr⟩ := gamedll.detail.ExportDllPostHooks_success_inv V G tbl v s r hc e
    subst hr
    exact ⟨⟨rfl, rfl, rfl, rfl, rfl⟩,
      Or.inr ⟨rfl, (Heap.deref_some _ _ _ ht).1, hc.1, rfl⟩⟩
  · obtain ⟨al, hr⟩ := gamedll.detail.ExportDllPostHooks_failure_inv V G tbl v s r hc e
    subst hr
    exact ⟨⟨rfl, rfl, rfl, rfl, rfl⟩, Or.inl ⟨rfl, rfl⟩⟩

theorem gamedll.detail.ExportDllNewHooks_pointers (V : Int) (G : Table EngineSlot) (tbl : Addr) (v : Int) (s : State)
    (r : ExportReturn) (e : gamedll.detail.ExportDllNewHooks V G tbl v s = Except.ok r) :
    (r.state.engine_hooks = s.engine_hooks ∧ r.state.engine_post_hooks = s.engine_post_hooks ∧ r.state.dll_hooks = s.dll_hooks ∧ r.state.dll_post_hooks = s.dll_post_hooks ∧ r.state.dll_new_post_hooks = s.dll_new_post_hooks) ∧
    ((r.ret = false ∧ r.state.dll_new_hooks = 0) ∨
      (r.ret = true ∧ s.dll_new_hooks ≠ 0 ∧ tbl ≠ 0 ∧ r.state.dll_new_hooks = tbl)) := by
  by_cases hc : tbl ≠ 0 ∧ v = V
  · obtain ⟨t, u, ht, _, hr⟩ := gamedll.detail.ExportDllNewHooks_success_inv V G tbl v s r hc e
    subst hr
    exact ⟨⟨rfl, rfl, rfl, rfl, rfl⟩,
      Or.inr ⟨rfl, (Heap.deref_some _ _ _ ht).1, hc.1, rfl⟩⟩
  · obtain ⟨al, hr⟩ := gamedll.detail.ExportDllNewHooks_failure_inv V G tbl v s r hc e
    subst hr
    exact ⟨⟨rfl, rfl, rfl, rfl, rfl⟩, Or.inl ⟨rfl, rfl⟩⟩

theorem gamedll.detail.ExportDllNewPostHooks_pointers (V : Int) (G : Table EngineSlot) (tbl : Addr) (v : Int) (s : State)
    (r : ExportReturn) (e : gamedll.detail.ExportDllNewPostHooks V G tbl v s = Except.ok r) :
    (r.state.engine_hooks = s.engine_hooks ∧ r.state.engine_post_hooks = s.engine_post_hooks ∧ r.state.dll_hooks = s.dll_hooks ∧ r.state.dll_post_hooks = s.dll_post_hooks ∧ r.state.dll_new_hooks = s.dll_new_hooks) ∧
    ((r.ret = false ∧ r.state.dll_new_post_hooks = 0) ∨
      (r.ret = true ∧ s.dll_new_post_hooks ≠ 0 ∧ tbl ≠ 0 ∧ r.state.dll_new_post_hooks = tbl)) := by
  by_cases hc : tbl ≠ 0 ∧ v = V
  · obtain ⟨t, u, ht, _, hr⟩ := gamedll.detail.ExportDllNewPostHooks_success_inv V G tbl v s r hc e
    subst hr
    exact ⟨⟨rfl, rfl, rfl, rfl, rfl⟩,
      Or.inr ⟨rfl, (Heap.deref_some _ _ _ ht).1, hc.1, rfl⟩⟩
  · obtain ⟨al, hr⟩ := gamedll.detail.ExportDllNewPostHooks_failure_inv V G tbl v s r hc e
    subst hr
    exact ⟨⟨rfl, rfl, rfl, rfl, rfl⟩, Or.inl ⟨rfl, rfl⟩⟩

theorem Operation.step_pointers (V : Versions) (config : PluginConfig) (op : Operation)
    (m : Module) (r : Bool × Module) (e : op.step V config m = Except.ok r) (k : HookTable) :
    r.2.hooks.pointer k = m.hooks.pointer k ∨
    (r.1 = false ∧ r.2.hooks.pointer k = 0) ∨
    (r.1 = true ∧ m.hooks.pointer k ≠ 0 ∧ r.2.hooks.pointer k ≠ 0) := by
  cases op with
  | hook_engine x cb post =>
    obtain ⟨s, e1, e2⟩ := map_eq_ok _ _ _ e
    subst e2
    rw [engine.installer_engine_eq] at e1
    obtain ⟨t, _, _, hs⟩ := engine.detail.SetHook_engine_inv x cb post m.hooks s e1
    subst hs
    left
    cases k <;> rfl
  | hook_dll x cb post =>
    obtain ⟨s, e1, e2⟩ := map_eq_ok _ _ _ e
    subst e2
    rw [gamedll.installer_dll_eq] at e1
    obtain ⟨t, _, _, hs⟩ := gamedll.detail.SetHook_dll_inv x cb post m.hooks s e1
    subst hs
    left
    cases k <;> rfl
  | hook_dll_new x cb post =>
    obtain ⟨s, e1, e2⟩ := map_eq_ok _ _ _ e
    subst e2
    rw [gamedll.installerNew_eq] at e1
    obtain ⟨t, _, _, hs⟩ := gamedll.detail.SetHookNew_dll_new_inv x cb post m.hooks s e1
    subst hs
    left
    cases k <;> rfl
  | clear_engine_hooks =>
    obtain ⟨s, e1, e2⟩ := map_eq_ok _ _ _ e
    subst e2
    obtain ⟨h, hs, _⟩ := engine.detail.ClearEngineHooks_alloc m.hooks s e1
    subst hs
    left
    cases k <;> rfl
  | clear_gamedll_hooks =>
    obtain ⟨s, e1, e2⟩ := map_eq_ok _ _ _ e
    subst e2
    obtain ⟨h, h', hs, _⟩ := gamedll.detail.ClearGameDllHooks_alloc m.hooks s e1
    subst hs
    left
    cases k <;> rfl
  | meta_query v uf =>
    obtain ⟨q, e1, e2⟩ := map_eq_ok _ _ _ e
    subst e2
    rcases Meta_Query_none_inv config v PluginInfoPtr.null uf m q e1 with ⟨_, hh⟩ | ⟨hf, hh⟩
    · left
      show q.module.hooks.pointer k = _
      rw [hh]
    · right
      left
      refine ⟨by simp [hf], ?_⟩
      show q.module.hooks.pointer k = 0
      rw [FreeAllHookTables_inv _ _ hh]
      cases k <;> rfl
  | meta_attach g t =>
    obtain ⟨q, e1, e2⟩ := map_eq_ok _ _ _ e
    subst e2
    left
    show q.module.hooks.pointer k = _
    rw [(Meta_Attach_none_inv _ _ _ _ _ _ e1).2]
  | meta_detach =>
    obtain ⟨q, e1, e2⟩ := map_eq_ok _ _ _ e
    subst e2
    obtain ⟨s1, h1, _, ⟨p1, p2, p3, p4, p5, p6⟩, _⟩ :=
      Meta_Detach_effect none m.hooks q.2 q.1 e1
    have hs : s1 = m.hooks := (Except.ok.inj h1).symm
    subst hs
    left
    cases k
    · exact p1
    · exact p2
    · exact p3
    · exact p4
    · exact p5
    · exact p6
  | export_hooks f tbl v =>
    obtain ⟨q, e1, e2⟩ := map_eq_ok _ _ _ e
    subst e2
    cases f with
    | ExportDllHooks =>
      obtain ⟨⟨q1, q2, q3, q4, q5⟩, hq⟩ :=
        gamedll.detail.ExportDllHooks_pointers _ _ tbl v m.hooks q e1
      cases k <;> first
        | exact Or.inl (by assumption)
        | (rcases hq with ⟨a, b⟩ | ⟨a, b, c, d⟩
           · exact Or.inr (Or.inl ⟨a, b⟩)
           · exact Or.inr (Or.inr ⟨a, b, fun h0 => c (d.symm.trans h0)⟩))
    | ExportDllPostHooks =>
      obtain ⟨⟨q1, q2, q3, q4, q5⟩, hq⟩ :=
        gamedll.detail.ExportDllPostHooks_pointers _ _ tbl v m.hooks q e1
      cases k <;> first
        | exact Or.inl (by assumption)
        | (rcases hq with ⟨a, b⟩ | ⟨a, b, c, d⟩
           · exact Or.inr (Or.inl ⟨a, b⟩)
           · exact Or.inr (Or.inr ⟨a, b, fun h0 => c (d.symm.trans h0)⟩))
    | ExportDllNewHooks =>
      obtain ⟨⟨q1, q2, q3, q4, q5⟩, hq⟩ :=
        gamedll.detail.ExportDllNewHooks_pointers _ _ tbl v m.hooks q e1
      cases k <;> first
        | exact Or.inl (by assumption)
        | (rcases hq with ⟨a, b⟩ | ⟨a, b, c, d⟩
           · exact Or.inr (Or.inl ⟨a, b⟩)
           · exact Or.inr (Or.inr ⟨a, b, fun h0 => c (d.symm.trans h0)⟩))
    | ExportDllNewPostHooks =>
      obtain ⟨⟨q1, q2, q3, q4, q5⟩, hq⟩ :=
        gamedll.detail.ExportDllNewPostHooks_pointers _ _ tbl v m.hooks q e1
      cases k <;> first
        | exact Or.inl (by assumption)
        | (rcases hq with ⟨a, b⟩ | ⟨a, b, c, d⟩
           · exact Or.inr (Or.inl ⟨a, b⟩)
           · exact Or.inr (Or.inr ⟨a, b, fun h0 => c (d.symm.trans h0)⟩))
    | ExportEngineHooks =>
      obtain ⟨⟨q1, q2, q3, q4, q5⟩, hq⟩ :=
        engine.detail.ExportEngineHooks_pointers _ _ tbl v m.hooks q e1
      cases k <;> first
        | exact Or.inl (by assumption)
        | (rcases hq with ⟨a, b⟩ | ⟨a, b, c, d⟩
           · exact Or.inr (Or.inl ⟨a, b⟩)
           · exact Or.inr (Or.inr ⟨a, b, fun h0 => c (d.symm.trans h0)⟩))
    | ExportEnginePostHooks =>
      obtain ⟨⟨q1, q2, q3, q4, q5⟩, hq⟩ :=
        engine.detail.ExportEnginePostHooks_pointers _ _ tbl v m.hooks q e1
      cases k <;> first
        | exact Or.inl (by assumption)
        | (rcases hq with ⟨a, b⟩ | ⟨a, b, c, d⟩
           · exact Or.inr (Or.inl ⟨a, b⟩)
           · exact Or.inr (Or.inr ⟨a, b, fun h0 => c (d.symm.trans h0)⟩))

theorem Operation.step_null (V : Versions) (config : PluginConfig) (op : Operation)
    (m : Module) (r : Bool × Module) (k : HookTable) (h0 : m.hooks.pointer k = 0)
    (e : op.step V config m = Except.ok r) : r.2.hooks.pointer k = 0 := by
  rcases Operation.step_pointers V config op m r e k with h | ⟨_, h⟩ | ⟨_, h, _⟩
  · exact h.trans h0
  · exact h
  · exact absurd h0 h

theorem run_null (V : Versions) (config : PluginConfig) (ops : List Operation)
    (m : Module) (r : Bool × Module) (k : HookTable) (h0 : m.hooks.pointer k = 0)
    (e : run V config ops m = Except.ok r) : r.2.hooks.pointer k = 0 := by
  induction ops generalizing m r with
  | nil =>
    have hr := Except.ok.inj e
    subst hr
    exact h0
  | cons op ops ih =>
    rw [run] at e
    obtain ⟨r1, e1, e2⟩ := bind_eq_ok _ _ _ e
    obtain ⟨r2, e3, e4⟩ := map_eq_ok _ _ _ e2
    subst e4
    exact ih r1.2 r2 (Operation.step_null V config op m r1 k h0 e1) e3

theorem State.present_of_null (s : State) (k : HookTable) (h0 : s.pointer k = 0) :
    s.present k = false := by
  unfold State.present
  rw [h0]
  cases k <;> rfl

theorem ExportFunction.call_null (V : Versions) (G : Table EngineSlot) (f : ExportFunction) (tbl : Addr) (v : Int)
    (s : State) (h0 : s.pointer f.table = 0) (ht : tbl ≠ 0)
    (hv : v = f.expected_version V) :
    f.call V G tbl v s = Except.error Fault.null_pointer := by
  cases f
  · show gamedll.detail.ExportDllHooks _ _ tbl v s = _
    have h : s.dll_hooks = 0 := h0
    rw [gamedll.detail.ExportDllHooks_success V.INTERFACE_VERSION G tbl v s ht hv, h, Heap.memcpy_null_src]
    rfl
  · show gamedll.detail.ExportDllPostHooks _ _ tbl v s = _
    have h : s.dll_post_hooks = 0 := h0
    rw [gamedll.detail.ExportDllPostHooks_success V.INTERFACE_VERSION G tbl v s ht hv, h, Heap.memcpy_null_src]
    rfl
  · show gamedll.detail.ExportDllNewHooks _ _ tbl v s = _
    have h : s.dll_new_hooks = 0 := h0
    rw [gamedll.detail.ExportDllNewHooks_success V.DLL_NEW_FUNCTIONS_VERSION G tbl v s ht hv, h, Heap.memcpy_null_src]
    rfl
  · show gamedll.detail.ExportDllNewPostHooks _ _ tbl v s = _
    have h : s.dll_new_post_hooks = 0 := h0
    rw [gamedll.detail.ExportDllNewPostHooks_success V.DLL_NEW_FUNCTIONS_VERSION G tbl v s ht hv, h,
      Heap.memcpy_null_src]
    rfl
  · show engine.detail.ExportEngineHooks _ _ tbl v s = _
    have h : s.engine_hooks = 0 := h0
    rw [engine.detail.ExportEngineHooks_success V.ENGINE_INTERFACE_VERSION G tbl v s ht hv, h, Heap.memcpy_null_src]
    rfl
  · show engine.detail.ExportEnginePostHooks _ _ tbl v s = _
    have h : s.engine_post_hooks = 0 := h0
    rw [engine.detail.ExportEnginePostHooks_success V.ENGINE_INTERFACE_VERSION G tbl v s ht hv, h,
      Heap.memcpy_null_src]
    rfl

theorem ExportFunction.call_failed (V : Versions) (G : Table EngineSlot) (f : ExportFunction) (tbl : Addr) (v : Int)
    (s : State) (r : ExportReturn) (e : f.call V G tbl v s = Except.ok r)
    (hr : r.ret = false) : r.state.pointer f.table = 0 := by
  cases f
  · rcases (gamedll.detail.ExportDllHooks_pointers _ _ tbl v s r e).2 with ⟨_, h⟩ | ⟨h, _⟩
    · exact h
    · rw [hr] at h
      cases h
  · rcases (gamedll.detail.ExportDllPostHooks_pointers _ _ tbl v s r e).2 with ⟨_, h⟩ | ⟨h, _⟩
    · exact h
    · rw [hr] at h
      cases h
  · rcases (gamedll.detail.ExportDllNewHooks_pointers _ _ tbl v s r e).2 with ⟨_, h⟩ | ⟨h, _⟩
    · exact h
    · rw [hr] at h
      cases h
  · rcases (gamedll.detail.ExportDllNewPostHooks_pointers _ _ tbl v s r e).2 with
      ⟨_, h⟩ | ⟨h, _⟩
    · exact h
    · rw [hr] at h
      cases h
  · rcases (engine.detail.ExportEngineHooks_pointers _ _ tbl v s r e).2 with ⟨_, h⟩ | ⟨h, _⟩
    · exact h
    · rw [hr] at h
      cases h
  · rcases (engine.detail.ExportEnginePostHooks_pointers _ _ tbl v s r e).2 with
      ⟨_, h⟩ | ⟨h, _⟩
    · exact h
    · rw [hr] at h
      cases h

/-- C26: a discarded hook table stays absent.  A failed export leaves the
pointer of its table null, and so does `FreeAllHookTables` for all six.  A
null hook-table pointer is still null (its table absent) after every call of
the module that returns, and so after every sequence of such calls: a
registration into another table, a clear, `Meta_Detach`, `Meta_Query`,
`Meta_Attach` and every export.  A registration into the absent table fails
the non-null assertion of `SetHook`, and an export of it with a non-null
caller table and the matching version copies from a null pointer. -/
theorem discarded_table_stays_absent :
    (∀ (V : Versions) (G : Table EngineSlot) (f : ExportFunction) (tbl : Addr) (v : Int) (s : State)
        (r : ExportReturn),
      f.call V G tbl v s = Except.ok r → r.ret = false →
        r.state.pointer f.table = 0 ∧ r.state.present f.table = false) ∧
    (∀ (s s' : State), FreeAllHookTables s = Except.ok s' →
      ∀ k, s'.pointer k = 0 ∧ s'.present k = false) ∧
    (∀ (V : Versions) (config : PluginConfig) (op : Operation) (m : Module)
        (r : Bool × Module) (k : HookTable),
      m.hooks.pointer k = 0 → op.step V config m = Except.ok r →
        r.2.hooks.pointer k = 0 ∧ r.2.hooks.present k = false) ∧
    (∀ (V : Versions) (config : PluginConfig) (ops : List Operation) (m : Module)
        (r : Bool × Module) (k : HookTable),
      m.hooks.pointer k = 0 → run V config ops m = Except.ok r →
        r.2.hooks.pointer k = 0 ∧ r.2.hooks.present k = false) ∧
    (∀ (x : EngineSlot) (cb : Callback) (post : Bool) (s : State),
      s.pointer (if post then HookTable.engine_post_hooks else HookTable.engine_hooks) = 0 →
        engine.installer x cb post s = Except.error Fault.assertion) ∧
    (∀ (x : DllSlot) (cb : Callback) (post : Bool) (s : State),
      s.pointer (if post then HookTable.dll_post_hooks else HookTable.dll_hooks) = 0 →
        gamedll.installer x cb post s = Except.error Fault.assertion) ∧
    (∀ (x : DllNewSlot) (cb : Callback) (post : Bool) (s : State),
      s.pointer (if post then HookTable.dll_new_post_hooks else HookTable.dll_new_hooks) = 0 →
        gamedll.installerNew x cb post s = Except.error Fault.assertion) ∧
    (∀ (V : Versions) (G : Table EngineSlot) (f : ExportFunction) (tbl : Addr) (v : Int) (s : State),
      s.pointer f.table = 0 → tbl ≠ 0 → v = f.expected_version V →
        f.call V G tbl v s = Except.error Fault.null_pointer) := by
  refine ⟨?_, ?_, ?_, ?_, ?_, ?_, ?_, ?_⟩
  · intro V G f tbl v s r e hr
    have h := ExportFunction.call_failed V G f tbl v s r e hr
    exact ⟨h, State.present_of_null _ _ h⟩
  · intro s s' e k
    have h : s'.pointer k = 0 := by
      rw [FreeAllHookTables_inv s s' e]
      cases k <;> rfl
    exact ⟨h, State.present_of_null _ _ h⟩
  · intro V config op m r k h0 e
    have h := Operation.step_null V config op m r k h0 e
    exact ⟨h, State.present_of_null _ _ h⟩
  · intro V config ops m r k h0 e
    have h := run_null V config ops m r k h0 e
    exact ⟨h, State.present_of_null _ _ h⟩
  · intro x cb post s h0
    rw [engine.installer_engine_eq]
    cases post
    · have h : s.engine_hooks = 0 := h0
      simp [engine.detail.SetHook, h]
    · have h : s.engine_post_hooks = 0 := h0
      simp [engine.detail.SetHook, h]
  · intro x cb post s h0
    rw [gamedll.installer_dll_eq]
    cases post
    · have h : s.dll_hooks = 0 := h0
      simp [gamedll.detail.SetHook, h]
    · have h : s.dll_post_hooks = 0 := h0
      simp [gamedll.detail.SetHook, h]
  · intro x cb post s h0
    rw [gamedll.installerNew_eq]
    cases post
    · have h : s.dll_new_hooks = 0 := h0
      simp [gamedll.detail.SetHookNew, h]
    · have h : s.dll_new_post_hooks = 0 := h0
      simp [gamedll.detail.SetHookNew, h]
  · intro V G f tbl v s h0 ht hv
    exact ExportFunction.call_null V G f tbl v s h0 ht hv

/-- Witness for C26: in `State.discarded` the engine pre-hook table has been
discarded by a failed export.  It stays absent through a registration into the
post-hook table, both clears, `Meta_Detach`, an export of the post-hook table,
`Meta_Attach` and `Meta_Query`; a registration into it fails the assertion and
an export of it with the matching version `138` copies from a null pointer. -/
theorem discarded_table_stays_absent_witness :
    (∃ r, run ⟨138, 140, 1⟩ ⟨"plugin", "1.0", "2020", "author", "url", "TAG",
          PluginLoadTime.AnyTime, PluginLoadTime.AnyTime⟩
        [Operation.hook_engine EngineSlot.set_model 5 true, Operation.clear_engine_hooks,
          Operation.clear_gamedll_hooks, Operation.meta_detach,
          Operation.export_hooks ExportFunction.ExportEnginePostHooks 3 138,
          Operation.meta_attach 9 ⟨some Table.zero, some Table.zero⟩,
          Operation.meta_query "5:13" 8]
        { Module.init with hooks := State.discarded } = Except.ok r ∧
      r.2.hooks.pointer HookTable.engine_hooks = 0 ∧
      r.2.hooks.present HookTable.engine_hooks = false) ∧
    engine.installer EngineSlot.precache_model 77 false State.discarded =
      Except.error Fault.assertion ∧
    ExportFunction.ExportEngineHooks.call ⟨138, 140, 1⟩ host_engine_funcs 3 138
        State.discarded =
      Except.error Fault.null_pointer := by
  have t := discarded_table_stays_absent
  refine ⟨?_, t.2.2.2.2.1 EngineSlot.precache_model 77 false State.discarded rfl,
    t.2.2.2.2.2.2.2 ⟨138, 140, 1⟩ host_engine_funcs ExportFunction.ExportEngineHooks 3 138 State.discarded rfl
      (by decide) rfl⟩
  have e : ∃ r, run ⟨138, 140, 1⟩ ⟨"plugin", "1.0", "2020", "author", "url", "TAG",
          PluginLoadTime.AnyTime, PluginLoadTime.AnyTime⟩
        [Operation.hook_engine EngineSlot.set_model 5 true, Operation.clear_engine_hooks,
          Operation.clear_gamedll_hooks, Operation.meta_detach,
          Operation.export_hooks ExportFunction.ExportEnginePostHooks 3 138,
          Operation.meta_attach 9 ⟨some Table.zero, some Table.zero⟩,
          Operation.meta_query "5:13" 8]
        { Module.init with hooks := State.discarded } = Except.ok r := ⟨_, rfl⟩
  obtain ⟨r, e⟩ := e
  exact ⟨r, e, t.2.2.2.1 _ _ _ { Module.init with hooks := State.discarded } r
    HookTable.engine_hooks rfl e⟩

theorem Heap.deref_isSome_iff {σ : Type} (h : Heap σ) (p : Addr) :
    (h.deref p).isSome = true ↔ p ≠ 0 ∧ (h p).isSome = true := by
  unfold Heap.deref
  by_cases h0 : p = 0 <;> simp [h0]

theorem State.tables_owned_iff (s : State) :
    s.tables_owned ↔
      ((s.engine_hooks ≠ 0 ∧ (s.engine_heap s.engine_hooks).isSome = true) ∧
        (s.engine_post_hooks ≠ 0 ∧ (s.engine_heap s.engine_post_hooks).isSome = true) ∧
        s.engine_hooks ≠ s.engine_post_hooks) ∧
      ((s.dll_hooks ≠ 0 ∧ (s.dll_heap s.dll_hooks).isSome = true) ∧
        (s.dll_post_hooks ≠ 0 ∧ (s.dll_heap s.dll_post_hooks).isSome = true) ∧
        s.dll_hooks ≠ s.dll_post_hooks) ∧
      ((s.dll_new_hooks ≠ 0 ∧ (s.dll_new_heap s.dll_new_hooks).isSome = true) ∧
        (s.dll_new_post_hooks ≠ 0 ∧
          (s.dll_new_heap s.dll_new_post_hooks).isSome = true) ∧
        s.dll_new_hooks ≠ s.dll_new_post_hooks) := by
  constructor
  · intro h
    have h1 := h HookTable.engine_hooks
    have h2 := h HookTable.engine_post_hooks
    have h3 := h HookTable.dll_hooks
    have h4 := h HookTable.dll_post_hooks
    have h5 := h HookTable.dll_new_hooks
    have h6 := h HookTable.dll_new_post_hooks
    simp only [State.present, State.allocated, State.pointer, HookTable.sibling,
      Heap.deref_isSome_iff] at h1 h2 h3 h4 h5 h6
    exact ⟨⟨h1.1, h2.1, h1.2⟩, ⟨h3.1, h4.1, h3.2⟩, ⟨h5.1, h6.1, h5.2⟩⟩
  · rintro ⟨⟨a1, a2, a3⟩, ⟨b1, b2, b3⟩, ⟨c1, c2, c3⟩⟩ k
    cases k <;>
      simp only [State.present, State.allocated, State.pointer, HookTable.sibling,
        Heap.deref_isSome_iff]
    · exact ⟨a1, a3⟩
    · exact ⟨a2, Ne.symm a3⟩
    · exact ⟨b1, b3⟩
    · exact ⟨b2, Ne.symm b3⟩
    · exact ⟨c1, c3⟩
    · exact ⟨c2, Ne.symm c3⟩

theorem engine.detail.ExportEngineHooks_owned (V : Int) (G : Table EngineSlot) (tbl : Addr) (v : Int) (s : State)
    (r : ExportReturn) (e : engine.detail.ExportEngineHooks V G tbl v s = Except.ok r) (hr : r.ret = true)
    (ho : s.tables_owned) (h1 : tbl ≠ s.engine_hooks) (h2 : tbl ≠ s.engine_post_hooks) :
    r.state.tables_owned := by
  have hc := (engine.detail.ExportEngineHooks_ret V G tbl v s r e).mp hr
  obtain ⟨t, u, ht, hu, hs⟩ := engine.detail.ExportEngineHooks_success_inv V G tbl v s r hc e
  subst hs
  obtain ⟨_, hu'⟩ := Heap.deref_some _ _ _ hu
  rw [State.tables_owned_iff] at ho ⊢
  obtain ⟨⟨a1, a2, a3⟩, ⟨b1, b2, b3⟩, ⟨c1, c2, c3⟩⟩ := ho
  simp [*, Ne.symm h1, Ne.symm h2, Ne.symm a3, Ne.symm b3, Ne.symm c3]

theorem engine.detail.ExportEnginePostHooks_owned (V : Int) (G : Table EngineSlot) (tbl : Addr) (v : Int) (s : State)
    (r : ExportReturn) (e : engine.detail.ExportEnginePostHooks V G tbl v s = Except.ok r) (hr : r.ret = true)
    (ho : s.tables_owned) (h1 : tbl ≠ s.engine_post_hooks) (h2 : tbl ≠ s.engine_hooks) :
    r.state.tables_owned := by
  have hc := (engine.detail.ExportEnginePostHooks_ret V G tbl v s r e).mp hr
  obtain ⟨t, u, ht, hu, hs⟩ := engine.detail.ExportEnginePostHooks_success_inv V G tbl v s r hc e
  subst hs
  obtain ⟨_, hu'⟩ := Heap.deref_some _ _ _ hu
  rw [State.tables_owned_iff] at ho ⊢
  obtain ⟨⟨a1, a2, a3⟩, ⟨b1, b2, b3⟩, ⟨c1, c2, c3⟩⟩ := ho
  simp [*, Ne.symm h1, Ne.symm h2, Ne.symm a3, Ne.symm b3, Ne.symm c3]

theorem gamedll.detail.ExportDllHooks_owned (V : Int) (G : Table EngineSlot) (tbl : Addr) (v : Int) (s : State)
    (r : ExportReturn) (e : gamedll.detail.ExportDllHooks V G tbl v s = Except.ok r) (hr : r.ret = true)
    (ho : s.tables_owned) (h1 : tbl ≠ s.dll_hooks) (h2 : tbl ≠ s.dll_post_hooks) :
    r.state.tables_owned := by
  have hc := (gamedll.detail.ExportDllHooks_ret V G tbl v s r e).mp hr
  obtain ⟨t, u, ht, hu, hs⟩ := gamedll.detail.ExportDllHooks_success_inv V G tbl v s r hc e
  subst hs
  obtain ⟨_, hu'⟩ := Heap.deref_some _ _ _ hu
  rw [State.tables_owned_iff] at ho ⊢
  obtain ⟨⟨a1, a2, a3⟩, ⟨b1, b2, b3⟩, ⟨c1, c2, c3⟩⟩ := ho
  simp [*, Ne.symm h1, Ne.symm h2, Ne.symm a3, Ne.symm b3, Ne.symm c3]

theorem gamedll.detail.ExportDllPostHooks_owned (V : Int) (G : Table EngineSlot) (tbl : Addr) (v : Int) (s : State)
    (r : ExportReturn) (e : gamedll.detail.ExportDllPostHooks V G tbl v s = Except.ok r) (hr : r.ret = true)
    (ho : s.tables_owned) (h1 : tbl ≠ s.dll_post_hooks) (h2 : tbl ≠ s.dll_hooks) :
    r.state.tables_owned := by
  have hc := (gamedll.detail.ExportDllPostHooks_ret V G tbl v s r e).mp hr
  obtain ⟨t, u, ht, hu, hs⟩ := gamedll.detail.ExportDllPostHooks_success_inv V G tbl v s r hc e
  subst hs
  obtain ⟨_, hu'⟩ := Heap.deref_some _ _ _ hu
  rw [State.tables_owned_iff] at ho ⊢
  obtain ⟨⟨a1, a2, a3⟩, ⟨b1, b2, b3⟩, ⟨c1, c2, c3⟩⟩ := ho
  simp [*, Ne.symm h1, Ne.symm h2, Ne.symm a3, Ne.symm b3, Ne.symm c3]

theorem gamedll.detail.ExportDllNewHooks_owned (V : Int) (G : Table EngineSlot) (tbl : Addr) (v : Int) (s : State)
    (r : ExportReturn) (e : gamedll.detail.ExportDllNewHooks V G tbl v s = Except.ok r) (hr : r.ret = true)
    (ho : s.tables_owned) (h1 : tbl ≠ s.dll_new_hooks) (h2 : tbl ≠ s.dll_new_post_hooks) :
    r.state.tables_owned := by
  have hc := (gamedll.detail.ExportDllNewHooks_ret V G tbl v s r e).mp hr
  obtain ⟨t, u, ht, hu, hs⟩ := gamedll.detail.ExportDllNewHooks_success_inv V G tbl v s r hc e
  subst hs
  obtain ⟨_, hu'⟩ := Heap.deref_some _ _ _ hu
  rw [State.tables_owned_iff] at ho ⊢
  obtain ⟨⟨a1, a2, a3⟩, ⟨b1, b2, b3⟩, ⟨c1, c2, c3⟩⟩ := ho
  simp [*, Ne.symm h1, Ne.symm h2, Ne.symm a3, Ne.symm b3, Ne.symm c3]

theorem gamedll.detail.ExportDllNewPostHooks_owned (V : Int) (G : Table EngineSlot) (tbl : Addr) (v : Int) (s : State)
    (r : ExportReturn) (e : gamedll.detail.ExportDllNewPostHooks V G tbl v s = Except.ok r) (hr : r.ret = true)
    (ho : s.tables_owned) (h1 : tbl ≠ s.dll_new_post_hooks) (h2 : tbl ≠ s.dll_new_hooks) :
    r.state.tables_owned := by
  have hc := (gamedll.detail.ExportDllNewPostHooks_ret V G tbl v s r e).mp hr
  obtain ⟨t, u, ht, hu, hs⟩ := gamedll.detail.ExportDllNewPostHooks_success_inv V G tbl v s r hc e
  subst hs
  obtain ⟨_, hu'⟩ := Heap.deref_some _ _ _ hu
  rw [State.tables_owned_iff] at ho ⊢
  obtain ⟨⟨a1, a2, a3⟩, ⟨b1, b2, b3⟩, ⟨c1, c2, c3⟩⟩ := ho
  simp [*, Ne.symm h1, Ne.symm h2, Ne.symm a3, Ne.symm b3, Ne.symm c3]

theorem engine.detail.ExportEngineHooks_returns (V : Int) (G : Table EngineSlot) (tbl : Addr) (v : Int)
    (s : State) (hl : (s.engine_heap.deref s.engine_hooks).isSome = true)
    (ht : (s.engine_heap.deref tbl).isSome = true) (hv : v = V) :
    ∃ r, engine.detail.ExportEngineHooks V G tbl v s = Except.ok r ∧ r.ret = true := by
  obtain ⟨t, hl'⟩ := Option.isSome_iff_exists.mp hl
  obtain ⟨u, ht'⟩ := Option.isSome_iff_exists.mp ht
  rw [engine.detail.ExportEngineHooks_success V G tbl v s (Heap.ne_zero_of_deref_isSome _ _ ht) hv,
    Heap.memcpy_delete _ _ _ t u hl' ht']
  exact ⟨_, rfl, rfl⟩

theorem engine.detail.ExportEnginePostHooks_returns (V : Int) (G : Table EngineSlot) (tbl : Addr) (v : Int)
    (s : State) (hl : (s.engine_heap.deref s.engine_post_hooks).isSome = true)
    (ht : (s.engine_heap.deref tbl).isSome = true) (hv : v = V) :
    ∃ r, engine.detail.ExportEnginePostHooks V G tbl v s = Except.ok r ∧ r.ret = true := by
  obtain ⟨t, hl'⟩ := Option.isSome_iff_exists.mp hl
  obtain ⟨u, ht'⟩ := Option.isSome_iff_exists.mp ht
  rw [engine.detail.ExportEnginePostHooks_success V G tbl v s (Heap.ne_zero_of_deref_isSome _ _ ht) hv,
    Heap.memcpy_delete _ _ _ t u hl' ht']
  exact ⟨_, rfl, rfl⟩

theorem gamedll.detail.ExportDllHooks_returns (V : Int) (G : Table EngineSlot) (tbl : Addr) (v : Int)
    (s : State) (hl : (s.dll_heap.deref s.dll_hooks).isSome = true)
    (ht : (s.dll_heap.deref tbl).isSome = true) (hv : v = V) :
    ∃ r, gamedll.detail.ExportDllHooks V G tbl v s = Except.ok r ∧ r.ret = true := by
  obtain ⟨t, hl'⟩ := Option.isSome_iff_exists.mp hl
  obtain ⟨u, ht'⟩ := Option.isSome_iff_exists.mp ht
  rw [gamedll.detail.ExportDllHooks_success V G tbl v s (Heap.ne_zero_of_deref_isSome _ _ ht) hv,
    Heap.memcpy_delete _ _ _ t u hl' ht']
  exact ⟨_, rfl, rfl⟩

theorem gamedll.detail.ExportDllPostHooks_returns (V : Int) (G : Table EngineSlot) (tbl : Addr) (v : Int)
    (s : State) (hl : (s.dll_heap.deref s.dll_post_hooks).isSome = true)
    (ht : (s.dll_heap.deref tbl).isSome = true) (hv : v = V) :
    ∃ r, gamedll.detail.ExportDllPostHooks V G tbl v s = Except.ok r ∧ r.ret = true := by
  obtain ⟨t, hl'⟩ := Option.isSome_iff_exists.mp hl
  obtain ⟨u, ht'⟩ := Option.isSome_iff_exists.mp ht
  rw [gamedll.detail.ExportDllPostHooks_success V G tbl v s (Heap.ne_zero_of_deref_isSome _ _ ht) hv,
    Heap.memcpy_delete _ _ _ t u hl' ht']
  exact ⟨_, rfl, rfl⟩

theorem gamedll.detail.ExportDllNewHooks_returns (V : Int) (G : Table EngineSlot) (tbl : Addr) (v : Int)
    (s : State) (hl : (s.dll_new_heap.deref s.dll_new_hooks).isSome = true)
    (ht : (s.dll_new_heap.deref tbl).isSome = true) (hv : v = V) :
    ∃ r, gamedll.detail.ExportDllNewHooks V G tbl v s = Except.ok r ∧ r.ret = true := by
  obtain ⟨t, hl'⟩ := Option.isSome_iff_exists.mp hl
  obtain ⟨u, ht'⟩ := Option.isSome_iff_exists.mp ht
  rw [gamedll.detail.ExportDllNewHooks_success V G tbl v s (Heap.ne_zero_of_deref_isSome _ _ ht) hv,
    Heap.memcpy_delete _ _ _ t u hl' ht']
  exact ⟨_, rfl, rfl⟩

theorem gamedll.detail.ExportDllNewPostHooks_returns (V : Int) (G : Table EngineSlot) (tbl : Addr) (v : Int)
    (s : State) (hl : (s.dll_new_heap.deref s.dll_new_post_hooks).isSome = true)
    (ht : (s.dll_new_heap.deref tbl).isSome = true) (hv : v = V) :
    ∃ r, gamedll.detail.ExportDllNewPostHooks V G tbl v s = Except.ok r ∧ r.ret = true := by
  obtain ⟨t, hl'⟩ := Option.isSome_iff_exists.mp hl
  obtain ⟨u, ht'⟩ := Option.isSome_iff_exists.mp ht
  rw [gamedll.detail.ExportDllNewPostHooks_success V G tbl v s (Heap.ne_zero_of_deref_isSome _ _ ht) hv,
    Heap.memcpy_delete _ _ _ t u hl' ht']
  exact ⟨_, rfl, rfl⟩

theorem ExportFunction.call_returns (V : Versions) (G : Table EngineSlot)
    (f : ExportFunction) (tbl : Addr) (v : Int) (s : State)
    (hl : s.present f.table = true) (ht : s.allocated f.table tbl = true)
    (hv : v = f.expected_version V) :
    ∃ r, f.call V G tbl v s = Except.ok r ∧ r.ret = true := by
  cases f
  · exact gamedll.detail.ExportDllHooks_returns _ G tbl v s hl ht hv
  · exact gamedll.detail.ExportDllPostHooks_returns _ G tbl v s hl ht hv
  · exact gamedll.detail.ExportDllNewHooks_returns _ G tbl v s hl ht hv
  · exact gamedll.detail.ExportDllNewPostHooks_returns _ G tbl v s hl ht hv
  · exact engine.detail.ExportEngineHooks_returns _ G tbl v s hl ht hv
  · exact engine.detail.ExportEnginePostHooks_returns _ G tbl v s hl ht hv

theorem Operation.step_non_null (V : Versions) (config : PluginConfig) (op : Operation)
    (m : Module) (r : Bool × Module) (e : op.step V config m = Except.ok r)
    (hr : r.1 = true) (h0 : m.hooks.tables_non_null) : r.2.hooks.tables_non_null := by
  intro k
  rcases Operation.step_pointers V config op m r e k with h | ⟨h, _⟩ | ⟨_, _, h⟩
  · rw [h]
    exact h0 k
  · rw [hr] at h
    cases h
  · exact h

theorem run_non_null (V : Versions) (config : PluginConfig) (ops : List Operation)
    (m : Module) (r : Bool × Module) (e : run V config ops m = Except.ok r)
    (hr : r.1 = true) (h0 : m.hooks.tables_non_null) : r.2.hooks.tables_non_null := by
  induction ops generalizing m r with
  | nil =>
    have h := Except.ok.inj e
    subst h
    exact h0
  | cons op ops ih =>
    rw [run] at e
    obtain ⟨r1, e1, e2⟩ := bind_eq_ok _ _ _ e
    obtain ⟨r2, e3, e4⟩ := map_eq_ok _ _ _ e2
    subst e4
    have hb : r1.1 = true ∧ r2.1 = true := by simpa using hr
    exact ih r1.2 r2 e3 hb.2 (Operation.step_non_null V config op m r1 e1 hb.1 h0)

theorem Operation.step_owned (V : Versions) (config : PluginConfig) (op : Operation)
    (m : Module) (r : Bool × Module) (e : op.step V config m = Except.ok r)
    (hr : r.1 = true) (ho : m.hooks.tables_owned) (hf : op.fresh m.hooks = true) :
    r.2.hooks.tables_owned := by
  cases op with
  | hook_engine x cb post =>
    obtain ⟨s, e1, e2⟩ := map_eq_ok _ _ _ e
    subst e2
    rw [engine.installer_engine_eq] at e1
    obtain ⟨t, _, _, hs⟩ := engine.detail.SetHook_engine_inv x cb post m.hooks s e1
    subst hs
    rw [State.tables_owned_iff] at ho ⊢
    obtain ⟨⟨a1, a2, a3⟩, ⟨b1, b2, b3⟩, ⟨c1, c2, c3⟩⟩ := ho
    cases post <;> simp [*, Ne.symm a3]
  | hook_dll x cb post =>
    obtain ⟨s, e1, e2⟩ := map_eq_ok _ _ _ e
    subst e2
    rw [gamedll.installer_dll_eq] at e1
    obtain ⟨t, _, _, hs⟩ := gamedll.detail.SetHook_dll_inv x cb post m.hooks s e1
    subst hs
    rw [State.tables_owned_iff] at ho ⊢
    obtain ⟨⟨a1, a2, a3⟩, ⟨b1, b2, b3⟩, ⟨c1, c2, c3⟩⟩ := ho
    cases post <;> simp [*, Ne.symm b3]
  | hook_dll_new x cb post =>
    obtain ⟨s, e1, e2⟩ := map_eq_ok _ _ _ e
    subst e2
    rw [gamedll.installerNew_eq] at e1
    obtain ⟨t, _, _, hs⟩ := gamedll.detail.SetHookNew_dll_new_inv x cb post m.hooks s e1
    subst hs
    rw [State.tables_owned_iff] at ho ⊢
    obtain ⟨⟨a1, a2, a3⟩, ⟨b1, b2, b3⟩, ⟨c1, c2, c3⟩⟩ := ho
    cases post <;> simp [*, Ne.symm c3]
  | clear_engine_hooks =>
    obtain ⟨s, e1, e2⟩ := map_eq_ok _ _ _ e
    subst e2
    obtain ⟨h, hs, hi⟩ := engine.detail.ClearEngineHooks_alloc m.hooks s e1
    subst hs
    rw [State.tables_owned_iff] at ho ⊢
    simpa [hi] using ho
  | clear_gamedll_hooks =>
    obtain ⟨s, e1, e2⟩ := map_eq_ok _ _ _ e
    subst e2
    obtain ⟨h, h', hs, hi, hi'⟩ := gamedll.detail.ClearGameDllHooks_alloc m.hooks s e1
    subst hs
    rw [State.tables_owned_iff] at ho ⊢
    simpa [hi, hi'] using ho
  | meta_query v uf =>
    obtain ⟨q, e1, e2⟩ := map_eq_ok _ _ _ e
    subst e2
    rcases Meta_Query_none_inv config v PluginInfoPtr.null uf m q e1 with ⟨_, hh⟩ | ⟨hq, _⟩
    · show q.module.hooks.tables_owned
      rw [hh]
      exact ho
    · simp [hq] at hr
  | meta_attach g t =>
    obtain ⟨q, e1, e2⟩ := map_eq_ok _ _ _ e
    subst e2
    show q.module.hooks.tables_owned
    rw [(Meta_Attach_none_inv _ _ _ _ _ _ e1).2]
    exact ho
  | meta_detach =>
    obtain ⟨q, e1, e2⟩ := map_eq_ok _ _ _ e
    subst e2
    obtain ⟨s1, h1, _, ⟨p1, p2, p3, p4, p5, p6⟩, _, _, _, i1, i2, i3⟩ :=
      Meta_Detach_effect none m.hooks q.2 q.1 e1
    have hs : s1 = m.hooks := (Except.ok.inj h1).symm
    subst hs
    show q.2.tables_owned
    rw [State.tables_owned_iff] at ho ⊢
    simpa [p1, p2, p3, p4, p5, p6, i1, i2, i3] using ho
  | export_hooks f tbl v =>
    obtain ⟨q, e1, e2⟩ := map_eq_ok _ _ _ e
    subst e2
    have hf' : tbl ≠ m.hooks.pointer f.table ∧ tbl ≠ m.hooks.pointer f.table.sibling := by
      simpa [Operation.fresh] using hf
    cases f
    · exact gamedll.detail.ExportDllHooks_owned _ _ tbl v m.hooks q e1 hr ho hf'.1 hf'.2
    · exact gamedll.detail.ExportDllPostHooks_owned _ _ tbl v m.hooks q e1 hr ho hf'.1 hf'.2
    · exact gamedll.detail.ExportDllNewHooks_owned _ _ tbl v m.hooks q e1 hr ho hf'.1 hf'.2
    · exact gamedll.detail.ExportDllNewPostHooks_owned _ _ tbl v m.hooks q e1 hr ho hf'.1 hf'.2
    · exact engine.detail.ExportEngineHooks_owned _ _ tbl v m.hooks q e1 hr ho hf'.1 hf'.2
    · exact engine.detail.ExportEnginePostHooks_owned _ _ tbl v m.hooks q e1 hr ho hf'.1 hf'.2

theorem run_owned (V : Versions) (config : PluginConfig) (ops : List Operation)
    (m : Module) (r : Bool × Module) (e : run V config ops m = Except.ok r)
    (hr : r.1 = true) (ho : m.hooks.tables_owned)
    (hf : exports_fresh V config ops m = true) : r.2.hooks.tables_owned := by
  induction ops generalizing m r with
  | nil =>
    have h := Except.ok.inj e
    subst h
    exact ho
  | cons op ops ih =>
    rw [run] at e
    obtain ⟨r1, e1, e2⟩ := bind_eq_ok _ _ _ e
    obtain ⟨r2, e3, e4⟩ := map_eq_ok _ _ _ e2
    subst e4
    have hb : r1.1 = true ∧ r2.1 = true := by simpa using hr
    rw [exports_fresh, e1] at hf
    have hf' : op.fresh m.hooks = true ∧ exports_fresh V config ops r1.2 = true := by
      simpa using hf
    exact ih r1.2 r2 e3 hb.2 (Operation.step_owned V config op m r1 e1 hb.1 ho hf'.1) hf'.2

theorem Heap.store_map_ne_assertion {σ S : Type} [DecidableEq σ] (h : Heap σ) (p : Addr)
    (member : σ) (callback : Callback) (f : Heap σ → S) :
    (h.store p member callback).map f ≠ Except.error Fault.assertion := by
  unfold Heap.store
  by_cases hp : p = 0
  · simp [hp, Except.map]
  · cases hh : h p <;> simp [hp, Except.map]

theorem engine.installer_engine_no_assertion (x : EngineSlot) (cb : Callback) (post : Bool)
    (s : State) (h0 : s.tables_non_null) :
    engine.installer x cb post s ≠ Except.error Fault.assertion := by
  rw [engine.installer_engine_eq]
  have h1 : s.engine_hooks ≠ 0 := h0 HookTable.engine_hooks
  have h2 : s.engine_post_hooks ≠ 0 := h0 HookTable.engine_post_hooks
  cases post
  · simp only [engine.detail.SetHook, Bool.false_eq_true, if_false, h1]
    exact Heap.store_map_ne_assertion _ _ _ _ _
  · simp only [engine.detail.SetHook, if_true, if_false, h2]
    exact Heap.store_map_ne_assertion _ _ _ _ _

theorem gamedll.installer_dll_no_assertion (x : DllSlot) (cb : Callback) (post : Bool)
    (s : State) (h0 : s.tables_non_null) :
    gamedll.installer x cb post s ≠ Except.error Fault.assertion := by
  rw [gamedll.installer_dll_eq]
  have h1 : s.dll_hooks ≠ 0 := h0 HookTable.dll_hooks
  have h2 : s.dll_post_hooks ≠ 0 := h0 HookTable.dll_post_hooks
  cases post
  · simp only [gamedll.detail.SetHook, Bool.false_eq_true, if_false, h1]
    exact Heap.store_map_ne_assertion _ _ _ _ _
  · simp only [gamedll.detail.SetHook, if_true, if_false, h2]
    exact Heap.store_map_ne_assertion _ _ _ _ _

theorem gamedll.installerNew_no_assertion (x : DllNewSlot) (cb : Callback) (post : Bool)
    (s : State) (h0 : s.tables_non_null) :
    gamedll.installerNew x cb post s ≠ Except.error Fault.assertion := by
  rw [gamedll.installerNew_eq]
  have h1 : s.dll_new_hooks ≠ 0 := h0 HookTable.dll_new_hooks
  have h2 : s.dll_new_post_hooks ≠ 0 := h0 HookTable.dll_new_post_hooks
  cases post
  · simp only [gamedll.detail.SetHookNew, Bool.false_eq_true, if_false, h1]
    exact Heap.store_map_ne_assertion _ _ _ _ _
  · simp only [gamedll.detail.SetHookNew, if_true, if_false, h2]
    exact Heap.store_map_ne_assertion _ _ _ _ _

theorem engine.installer_engine_returns (x : EngineSlot) (cb : Callback) (post : Bool)
    (s : State) (ho : s.tables_owned) : ∃ s', engine.installer x cb post s = Except.ok s' := by
  rw [engine.installer_engine_eq]
  have h : (s.engine_table post).isSome = true := by
    cases post
    · exact (ho HookTable.engine_hooks).1
    · exact (ho HookTable.engine_post_hooks).1
  obtain ⟨t, ht⟩ := Option.isSome_iff_exists.mp h
  obtain ⟨s', e, _⟩ := engine.detail.SetHook_engine_of_table x cb post s t ht
  exact ⟨s', e⟩

theorem gamedll.installer_dll_returns (x : DllSlot) (cb : Callback) (post : Bool)
    (s : State) (ho : s.tables_owned) : ∃ s', gamedll.installer x cb post s = Except.ok s' := by
  rw [gamedll.installer_dll_eq]
  have h : (s.dll_table post).isSome = true := by
    cases post
    · exact (ho HookTable.dll_hooks).1
    · exact (ho HookTable.dll_post_hooks).1
  obtain ⟨t, ht⟩ := Option.isSome_iff_exists.mp h
  obtain ⟨s', e, _⟩ := gamedll.detail.SetHook_dll_of_table x cb post s t ht
  exact ⟨s', e⟩

theorem gamedll.installerNew_returns (x : DllNewSlot) (cb : Callback) (post : Bool)
    (s : State) (ho : s.tables_owned) :
    ∃ s', gamedll.installerNew x cb post s = Except.ok s' := by
  rw [gamedll.installerNew_eq]
  have h : (s.dll_new_table post).isSome = true := by
    cases post
    · exact (ho HookTable.dll_new_hooks).1
    · exact (ho HookTable.dll_new_post_hooks).1
  obtain ⟨t, ht⟩ := Option.isSome_iff_exists.mp h
  obtain ⟨s', e, _⟩ := gamedll.detail.SetHookNew_of_table x cb post s t ht
  exact ⟨s', e⟩

/-- Counterexample for C25: in the initial state, the host owning engine
tables at addresses `3` and `4`, three exports succeed one after the other:
`ExportEngineHooks` into `3`, `ExportEnginePostHooks` into `3` and
`ExportEngineHooks` into `4`.  The third one deletes the table at `3`, to
which `engine_post_hooks` still refers: that pointer is non-null but its table
is absent, so the next `ExportEnginePostHooks` reads a deleted table and a
post-hook registration, whose assertion holds, writes into it. -/
theorem table_presence_invariant_counterexample :
    ∃ r, run ⟨138, 140, 1⟩ ⟨"plugin", "1.0", "2020", "author", "url", "TAG",
          PluginLoadTime.AnyTime, PluginLoadTime.AnyTime⟩
        [Operation.export_hooks ExportFunction.ExportEngineHooks 3 138,
          Operation.export_hooks ExportFunction.ExportEnginePostHooks 3 138,
          Operation.export_hooks ExportFunction.ExportEngineHooks 4 138]
        { Module.init with hooks := State.loaded } = Except.ok r ∧
      r.1 = true ∧
      r.2.hooks.pointer HookTable.engine_post_hooks = 3 ∧
      r.2.hooks.present HookTable.engine_post_hooks = false ∧
      ExportFunction.ExportEnginePostHooks.call ⟨138, 140, 1⟩ host_engine_funcs 4 138
          r.2.hooks =
        Except.error Fault.invalid_pointer ∧
      engine.installer EngineSlot.precache_model 77 true r.2.hooks =
        Except.error Fault.invalid_pointer :=
  ⟨_, rfl, rfl, rfl, rfl, rfl, rfl⟩

/-- C25, amended: non-null hook-table pointers are an invariant of failure-free
runs, table presence only of runs whose exports go into fresh tables.  The
initial state has six non-null pointers to six tables of their own.  After any
sequence of registrations, clears, `Meta_Query`, `Meta_Attach`, `Meta_Detach`
(of a plugin without callbacks) and exports that all report success, started
with six non-null pointers, all
six pointers are non-null, so no registration fails the assertion of
`SetHook`.  If moreover every pointer referred to a table of its own at the
start and every export was made into a table that neither hook-table pointer
of its interface referred to at that time, every pointer again refers to a
table of its own: every export into an allocated caller table with the
matching version returns true (its read of the live table is defined) and
every registration returns. -/
theorem table_presence_invariant (V : Versions) (config : PluginConfig)
    (ops : List Operation) (m : Module) (r : Bool × Module)
    (e : run V config ops m = Except.ok r) (hr : r.1 = true)
    (h0 : m.hooks.tables_non_null) :
    (State.init.tables_non_null ∧ State.init.tables_owned) ∧
    r.2.hooks.tables_non_null ∧
    ((∀ x cb post, engine.installer x cb post r.2.hooks ≠ Except.error Fault.assertion) ∧
      (∀ x cb post, gamedll.installer x cb post r.2.hooks ≠ Except.error Fault.assertion) ∧
      (∀ x cb post,
        gamedll.installerNew x cb post r.2.hooks ≠ Except.error Fault.assertion)) ∧
    (m.hooks.tables_owned → exports_fresh V config ops m = true →
      r.2.hooks.tables_owned ∧
      (∀ (G : Table EngineSlot) (f : ExportFunction) (tbl : Addr) (v : Int),
        r.2.hooks.allocated f.table tbl = true → v = f.expected_version V →
          ∃ q, f.call V G tbl v r.2.hooks = Except.ok q ∧ q.ret = true) ∧
      (∀ x cb post, ∃ s', engine.installer x cb post r.2.hooks = Except.ok s') ∧
      (∀ x cb post, ∃ s', gamedll.installer x cb post r.2.hooks = Except.ok s') ∧
      (∀ x cb post, ∃ s', gamedll.installerNew x cb post r.2.hooks = Except.ok s')) := by
  have hn := run_non_null V config ops m r e hr h0
  refine ⟨⟨fun k => by cases k <;> decide, ?_⟩, hn, ⟨?_, ?_, ?_⟩, ?_⟩
  · rw [State.tables_owned_iff]
    exact ⟨⟨⟨by decide, rfl⟩, ⟨by decide, rfl⟩, by decide⟩,
      ⟨⟨by decide, rfl⟩, ⟨by decide, rfl⟩, by decide⟩,
      ⟨⟨by decide, rfl⟩, ⟨by decide, rfl⟩, by decide⟩⟩
  · exact fun x cb post => engine.installer_engine_no_assertion x cb post _ hn
  · exact fun x cb post => gamedll.installer_dll_no_assertion x cb post _ hn
  · exact fun x cb post => gamedll.installerNew_no_assertion x cb post _ hn
  · intro ho hf
    have hw := run_owned V config ops m r e hr ho hf
    exact ⟨hw,
      fun G f tbl v ht hv => ExportFunction.call_returns V G f tbl v _ (hw f.table).1 ht hv,
      fun x cb post => engine.installer_engine_returns x cb post _ hw,
      fun x cb post => gamedll.installer_dll_returns x cb post _ hw,
      fun x cb post => gamedll.installerNew_returns x cb post _ hw⟩

/-- Witness for C25: from the initial state, the host owning engine tables at
addresses `3` and `4`, a registration, a clear, `Meta_Query`, `Meta_Attach`,
the export of the engine pre-hook table into `3` and of the post-hook table
into `4`, and `Meta_Detach` all succeed; the six pointers are non-null and
refer to tables of their own. -/
theorem table_presence_invariant_witness :
    ∃ r, run ⟨138, 140, 1⟩ ⟨"plugin", "1.0", "2020", "author", "url", "TAG",
          PluginLoadTime.AnyTime, PluginLoadTime.AnyTime⟩
        [Operation.hook_engine EngineSlot.precache_model 77 false,
          Operation.clear_gamedll_hooks,
          Operation.meta_query "5:13" 8,
          Operation.meta_attach 9 ⟨some Table.zero, some Table.zero⟩,
          Operation.export_hooks ExportFunction.ExportEngineHooks 3 138,
          Operation.export_hooks ExportFunction.ExportEnginePostHooks 4 138,
          Operation.meta_detach]
        { Module.init with hooks := State.loaded } = Except.ok r ∧
      r.1 = true ∧ r.2.hooks.tables_non_null ∧ r.2.hooks.tables_owned := by
  have h : ∃ r, run ⟨138, 140, 1⟩ ⟨"plugin", "1.0", "2020", "author", "url", "TAG",
          PluginLoadTime.AnyTime, PluginLoadTime.AnyTime⟩
        [Operation.hook_engine EngineSlot.precache_model 77 false,
          Operation.clear_gamedll_hooks,
          Operation.meta_query "5:13" 8,
          Operation.meta_attach 9 ⟨some Table.zero, some Table.zero⟩,
          Operation.export_hooks ExportFunction.ExportEngineHooks 3 138,
          Operation.export_hooks ExportFunction.ExportEnginePostHooks 4 138,
          Operation.meta_detach]
        { Module.init with hooks := State.loaded } = Except.ok r ∧ r.1 = true :=
    ⟨_, rfl, rfl⟩
  obtain ⟨r, e, hr⟩ := h
  have t := table_presence_invariant _ _ _ { Module.init with hooks := State.loaded } r e hr
    (fun k => by cases k <;> decide)
  refine ⟨r, e, hr, t.2.1, (t.2.2.2 ?_ rfl).1⟩
  rw [State.tables_owned_iff]
  exact ⟨⟨⟨by decide, rfl⟩, ⟨by decide, rfl⟩, by decide⟩,
    ⟨⟨by decide, rfl⟩, ⟨by decide, rfl⟩, by decide⟩,
    ⟨⟨by decide, rfl⟩, ⟨by decide, rfl⟩, by decide⟩⟩

/-! ### The exported table is the live table -/

theorem Operation.step_keeps (V : Versions) (config : PluginConfig) (op : Operation)
    (m : Module) (r : Bool × Module) (e : op.step V config m = Except.ok r)
    (hr : r.1 = true) (hx : ∀ f tbl v, op ≠ Operation.export_hooks f tbl v)
    (k : HookTable) (p : Addr) :
    r.2.hooks.pointer k = m.hooks.pointer k ∧
      r.2.hooks.allocated k p = m.hooks.allocated k p := by
  cases op with
  | hook_engine x cb post =>
    obtain ⟨s, e1, e2⟩ := map_eq_ok _ _ _ e
    subst e2
    rw [engine.installer_engine_eq] at e1
    obtain ⟨t, _, ht, hs⟩ := engine.detail.SetHook_engine_inv x cb post m.hooks s e1
    subst hs
    refine ⟨by cases k <;> rfl, ?_⟩
    cases k <;> simp only [State.allocated, Heap.deref] <;> split_ifs <;> simp_all
  | hook_dll x cb post =>
    obtain ⟨s, e1, e2⟩ := map_eq_ok _ _ _ e
    subst e2
    rw [gamedll.installer_dll_eq] at e1
    obtain ⟨t, _, ht, hs⟩ := gamedll.detail.SetHook_dll_inv x cb post m.hooks s e1
    subst hs
    refine ⟨by cases k <;> rfl, ?_⟩
    cases k <;> simp only [State.allocated, Heap.deref] <;> split_ifs <;> simp_all
  | hook_dll_new x cb post =>
    obtain ⟨s, e1, e2⟩ := map_eq_ok _ _ _ e
    subst e2
    rw [gamedll.installerNew_eq] at e1
    obtain ⟨t, _, ht, hs⟩ := gamedll.detail.SetHookNew_dll_new_inv x cb post m.hooks s e1
    subst hs
    refine ⟨by cases k <;> rfl, ?_⟩
    cases k <;> simp only [State.allocated, Heap.deref] <;> split_ifs <;> simp_all
  | clear_engine_hooks =>
    obtain ⟨s, e1, e2⟩ := map_eq_ok _ _ _ e
    subst e2
    obtain ⟨h, hs, hi⟩ := engine.detail.ClearEngineHooks_alloc m.hooks s e1
    subst hs
    refine ⟨by cases k <;> rfl, ?_⟩
    cases k <;> simp only [State.allocated, Heap.deref] <;> split_ifs <;> simp [hi]
  | clear_gamedll_hooks =>
    obtain ⟨s, e1, e2⟩ := map_eq_ok _ _ _ e
    subst e2
    obtain ⟨h, h', hs, hi, hi'⟩ := gamedll.detail.ClearGameDllHooks_alloc m.hooks s e1
    subst hs
    refine ⟨by cases k <;> rfl, ?_⟩
    cases k <;> simp only [State.allocated, Heap.deref] <;> split_ifs <;> simp [hi, hi']
  | meta_query v uf =>
    obtain ⟨q, e1, e2⟩ := map_eq_ok _ _ _ e
    subst e2
    rcases Meta_Query_none_inv config v PluginInfoPtr.null uf m q e1 with ⟨_, hh⟩ | ⟨hq, _⟩
    · show q.module.hooks.pointer k = _ ∧ q.module.hooks.allocated k p = _
      rw [hh]
      exact ⟨rfl, rfl⟩
    · simp [hq] at hr
  | meta_attach g t =>
    obtain ⟨q, e1, e2⟩ := map_eq_ok _ _ _ e
    subst e2
    show q.module.hooks.pointer k = _ ∧ q.module.hooks.allocated k p = _
    rw [(Meta_Attach_none_inv _ _ _ _ _ _ e1).2]
    exact ⟨rfl, rfl⟩
  | meta_detach =>
    obtain ⟨q, e1, e2⟩ := map_eq_ok _ _ _ e
    subst e2
    obtain ⟨s1, h1, _, ⟨p1, p2, p3, p4, p5, p6⟩, _, _, _, i1, i2, i3⟩ :=
      Meta_Detach_effect none m.hooks q.2 q.1 e1
    have hs : s1 = m.hooks := (Except.ok.inj h1).symm
    subst hs
    constructor
    · cases k
      · exact p1
      · exact p2
      · exact p3
      · exact p4
      · exact p5
      · exact p6
    · show q.2.allocated k p = _
      cases k <;> simp only [State.allocated, Heap.deref] <;> split_ifs <;>
        simp [i1, i2, i3]
  | export_hooks f tbl v => exact absurd rfl (hx f tbl v)

/-- Counterexample to C24 as stated: in `State.exported` the host table at
address `3` is the live engine pre-hook table, and the host exports into it
once more.  The call succeeds (it returns true and leaves `engine_hooks` at
`3`) but deletes the table, so `3` is not a live table afterwards: a later
`HookSetModel(5, false)` sets no slot of it and a later `Meta_Detach` zeroes
nothing, both writing to the deleted table. -/
theorem exported_table_is_live_counterexample :
    ∃ r, engine.detail.ExportEngineHooks 138 host_engine_funcs 3 138 State.exported =
        Except.ok r ∧
      r.ret = true ∧ r.state.engine_hooks = 3 ∧ r.state.engine_heap 3 = none ∧
      engine.installer EngineSlot.set_model 5 false r.state =
        Except.error Fault.invalid_pointer ∧
      Meta_Detach none r.state = Except.error Fault.invalid_pointer :=
  ⟨_, rfl, rfl, rfl, rfl, rfl, rfl⟩

/-- C24 (amended): after a successful export into a caller table `T` that was
not already the live table of that interface, `T` itself is the live table:
the pointer of that interface is `T`, `T` is allocated and holds the former
live contents.  Whenever the pointer is `T` and `T` is allocated, every
`HookX(cb, post)` for that table returns, sets slot `X` of `T` and leaves the
other slots and the pointer as they were, and `Meta_Detach` (the detach
callback, if any, having returned a state with these properties in which each
hook-table pointer is null or refers to a table) returns `Ok` with every slot
of `T` zero and the pointer still `T`.  No registration, clear, accepted
`Meta_Query`, `Meta_Attach` or `Meta_Detach` (of a plugin without callbacks)
changes a hook-table pointer or frees or allocates a table, so `T` stays the
live table until the next export or `FreeAllHookTables`, and the host observes
registrations and the clearing at detach in `T` without a second export. -/
theorem exported_table_is_live :
    ((∀ (V : Int) (G : Table EngineSlot) (tbl : Addr) (v : Int) (s : State) (r : ExportReturn),
        engine.detail.ExportEngineHooks V G tbl v s = Except.ok r → r.ret = true → tbl ≠ s.engine_hooks →
        r.state.engine_hooks = tbl ∧ tbl ≠ 0 ∧
          ∃ t, s.engine_table false = some t ∧ r.state.engine_heap tbl = some t) ∧
      (∀ (tbl : Addr) (s : State) (x : EngineSlot) (cb : Callback) (t : Table EngineSlot),
        s.engine_hooks = tbl → tbl ≠ 0 → s.engine_heap tbl = some t →
        ∃ s', engine.installer x cb false s = Except.ok s' ∧ s'.engine_hooks = tbl ∧
          s'.engine_heap tbl = some (fun m => if m = x then cb else t m)) ∧
      (∀ (tbl : Addr) (META_DETACH : Option (State → Except Fault State)) (s s1 : State),
        (match META_DETACH with
          | some callback => callback s
          | none => pure s) = Except.ok s1 →
        (s1.engine_hooks = 0 ∨ (s1.engine_heap s1.engine_hooks).isSome) →
        (s1.engine_post_hooks = 0 ∨ (s1.engine_heap s1.engine_post_hooks).isSome) →
        (s1.dll_hooks = 0 ∨ (s1.dll_heap s1.dll_hooks).isSome) →
        (s1.dll_post_hooks = 0 ∨ (s1.dll_heap s1.dll_post_hooks).isSome) →
        (s1.dll_new_hooks = 0 ∨ (s1.dll_new_heap s1.dll_new_hooks).isSome) →
        (s1.dll_new_post_hooks = 0 ∨ (s1.dll_new_heap s1.dll_new_post_hooks).isSome) →
        s1.engine_hooks = tbl → tbl ≠ 0 →
        ∃ s', Meta_Detach META_DETACH s = Except.ok (Status.Ok, s') ∧ s'.engine_hooks = tbl ∧
          s'.engine_heap tbl = some Table.zero)) ∧
    ((∀ (V : Int) (G : Table EngineSlot) (tbl : Addr) (v : Int) (s : State) (r : ExportReturn),
        engine.detail.ExportEnginePostHooks V G tbl v s = Except.ok r → r.ret = true → tbl ≠ s.engine_post_hooks →
        r.state.engine_post_hooks = tbl ∧ tbl ≠ 0 ∧
          ∃ t, s.engine_table true = some t ∧ r.state.engine_heap tbl = some t) ∧
      (∀ (tbl : Addr) (s : State) (x : EngineSlot) (cb : Callback) (t : Table EngineSlot),
        s.engine_post_hooks = tbl → tbl ≠ 0 → s.engine_heap tbl = some t →
        ∃ s', engine.installer x cb true s = Except.ok s' ∧ s'.engine_post_hooks = tbl ∧
          s'.engine_heap tbl = some (fun m => if m = x then cb else t m)) ∧
      (∀ (tbl : Addr) (META_DETACH : Option (State → Except Fault State)) (s s1 : State),
        (match META_DETACH with
          | some callback => callback s
          | none => pure s) = Except.ok s1 →
        (s1.engine_hooks = 0 ∨ (s1.engine_heap s1.engine_hooks).isSome) →
        (s1.engine_post_hooks = 0 ∨ (s1.engine_heap s1.engine_post_hooks).isSome) →
        (s1.dll_hooks = 0 ∨ (s1.dll_heap s1.dll_hooks).isSome) →
        (s1.dll_post_hooks = 0 ∨ (s1.dll_heap s1.dll_post_hooks).isSome) →
        (s1.dll_new_hooks = 0 ∨ (s1.dll_new_heap s1.dll_new_hooks).isSome) →
        (s1.dll_new_post_hooks = 0 ∨ (s1.dll_new_heap s1.dll_new_post_hooks).isSome) →
        s1.engine_post_hooks = tbl → tbl ≠ 0 →
        ∃ s', Meta_Detach META_DETACH s = Except.ok (Status.Ok, s') ∧ s'.engine_post_hooks = tbl ∧
          s'.engine_heap tbl = some Table.zero)) ∧
    ((∀ (V : Int) (G : Table EngineSlot) (tbl : Addr) (v : Int) (s : State) (r : ExportReturn),
        gamedll.detail.ExportDllHooks V G tbl v s = Except.ok r → r.ret = true → tbl ≠ s.dll_hooks →
        r.state.dll_hooks = tbl ∧ tbl ≠ 0 ∧
          ∃ t, s.dll_table false = some t ∧ r.state.dll_heap tbl = some t) ∧
      (∀ (tbl : Addr) (s : State) (x : DllSlot) (cb : Callback) (t : Table DllSlot),
        s.dll_hooks = tbl → tbl ≠ 0 → s.dll_heap tbl = some t →
        ∃ s', gamedll.installer x cb false s = Except.ok s' ∧ s'.dll_hooks = tbl ∧
          s'.dll_heap tbl = some (fun m => if m = x then cb else t m)) ∧
      (∀ (tbl : Addr) (META_DETACH : Option (State → Except Fault State)) (s s1 : State),
        (match META_DETACH with
          | some callback => callback s
          | none => pure s) = Except.ok s1 →
        (s1.engine_hooks = 0 ∨ (s1.engine_heap s1.engine_hooks).isSome) →
        (s1.engine_post_hooks = 0 ∨ (s1.engine_heap s1.engine_post_hooks).isSome) →
        (s1.dll_hooks = 0 ∨ (s1.dll_heap s1.dll_hooks).isSome) →
        (s1.dll_post_hooks = 0 ∨ (s1.dll_heap s1.dll_post_hooks).isSome) →
        (s1.dll_new_hooks = 0 ∨ (s1.dll_new_heap s1.dll_new_hooks).isSome) →
        (s1.dll_new_post_hooks = 0 ∨ (s1.dll_new_heap s1.dll_new_post_hooks).isSome) →
        s1.dll_hooks = tbl → tbl ≠ 0 →
        ∃ s', Meta_Detach META_DETACH s = Except.ok (Status.Ok, s') ∧ s'.dll_hooks = tbl ∧
          s'.dll_heap tbl = some Table.zero)) ∧
    ((∀ (V : Int) (G : Table EngineSlot) (tbl : Addr) (v : Int) (s : State) (r : ExportReturn),
        gamedll.detail.ExportDllPostHooks V G tbl v s = Except.ok r → r.ret = true → tbl ≠ s.dll_post_hooks →
        r.state.dll_post_hooks = tbl ∧ tbl ≠ 0 ∧
          ∃ t, s.dll_table true = some t ∧ r.state.dll_heap tbl = some t) ∧
      (∀ (tbl : Addr) (s : State) (x : DllSlot) (cb : Callback) (t : Table DllSlot),
        s.dll_post_hooks = tbl → tbl ≠ 0 → s.dll_heap tbl = some t →
        ∃ s', gamedll.installer x cb true s = Except.ok s' ∧ s'.dll_post_hooks = tbl ∧
          s'.dll_heap tbl = some (fun m => if m = x then cb else t m)) ∧
      (∀ (tbl : Addr) (META_DETACH : Option (State → Except Fault State)) (s s1 : State),
        (match META_DETACH with
          | some callback => callback s
          | none => pure s) = Except.ok s1 →
        (s1.engine_hooks = 0 ∨ (s1.engine_heap s1.engine_hooks).isSome) →
        (s1.engine_post_hooks = 0 ∨ (s1.engine_heap s1.engine_post_hooks).isSome) →
        (s1.dll_hooks = 0 ∨ (s1.dll_heap s1.dll_hooks).isSome) →
        (s1.dll_post_hooks = 0 ∨ (s1.dll_heap s1.dll_post_hooks).isSome) →
        (s1.dll_new_hooks = 0 ∨ (s1.dll_new_heap s1.dll_new_hooks).isSome) →
        (s1.dll_new_post_hooks = 0 ∨ (s1.dll_new_heap s1.dll_new_post_hooks).isSome) →
        s1.dll_post_hooks = tbl → tbl ≠ 0 →
        ∃ s', Meta_Detach META_DETACH s = Except.ok (Status.Ok, s') ∧ s'.dll_post_hooks = tbl ∧
          s'.dll_heap tbl = some Table.zero)) ∧
    ((∀ (V : Int) (G : Table EngineSlot) (tbl : Addr) (v : Int) (s : State) (r : ExportReturn),
        gamedll.detail.ExportDllNewHooks V G tbl v s = Except.ok r → r.ret = true → tbl ≠ s.dll_new_hooks →
        r.state.dll_new_hooks = tbl ∧ tbl ≠ 0 ∧
          ∃ t, s.dll_new_table false = some t ∧ r.state.dll_new_heap tbl = some t) ∧
      (∀ (tbl : Addr) (s : State) (x : DllNewSlot) (cb : Callback) (t : Table DllNewSlot),
        s.dll_new_hooks = tbl → tbl ≠ 0 → s.dll_new_heap tbl = some t →
        ∃ s', gamedll.installerNew x cb false s = Except.ok s' ∧ s'.dll_new_hooks = tbl ∧
          s'.dll_new_heap tbl = some (fun m => if m = x then cb else t m)) ∧
      (∀ (tbl : Addr) (META_DETACH : Option (State → Except Fault State)) (s s1 : State),
        (match META_DETACH with
          | some callback => callback s
          | none => pure s) = Except.ok s1 →
        (s1.engine_hooks = 0 ∨ (s1.engine_heap s1.engine_hooks).isSome) →
        (s1.engine_post_hooks = 0 ∨ (s1.engine_heap s1.engine_post_hooks).isSome) →
        (s1.dll_hooks = 0 ∨ (s1.dll_heap s1.dll_hooks).isSome) →
        (s1.dll_post_hooks = 0 ∨ (s1.dll_heap s1.dll_post_hooks).isSome) →
        (s1.dll_new_hooks = 0 ∨ (s1.dll_new_heap s1.dll_new_hooks).isSome) →
        (s1.dll_new_post_hooks = 0 ∨ (s1.dll_new_heap s1.dll_new_post_hooks).isSome) →
        s1.dll_new_hooks = tbl → tbl ≠ 0 →
        ∃ s', Meta_Detach META_DETACH s = Except.ok (Status.Ok, s') ∧ s'.dll_new_hooks = tbl ∧
          s'.dll_new_heap tbl = some Table.zero)) ∧
    ((∀ (V : Int) (G : Table EngineSlot) (tbl : Addr) (v : Int) (s : State) (r : ExportReturn),
        gamedll.detail.ExportDllNewPostHooks V G tbl v s = Except.ok r → r.ret = true → tbl ≠ s.dll_new_post_hooks →
        r.state.dll_new_post_hooks = tbl ∧ tbl ≠ 0 ∧
          ∃ t, s.dll_new_table true = some t ∧ r.state.dll_new_heap tbl = some t) ∧
      (∀ (tbl : Addr) (s : State) (x : DllNewSlot) (cb : Callback) (t : Table DllNewSlot),
        s.dll_new_post_hooks = tbl → tbl ≠ 0 → s.dll_new_heap tbl = some t →
        ∃ s', gamedll.installerNew x cb true s = Except.ok s' ∧ s'.dll_new_post_hooks = tbl ∧
          s'.dll_new_heap tbl = some (fun m => if m = x then cb else t m)) ∧
      (∀ (tbl : Addr) (META_DETACH : Option (State → Except Fault State)) (s s1 : State),
        (match META_DETACH with
          | some callback => callback s
          | none => pure s) = Except.ok s1 →
        (s1.engine_hooks = 0 ∨ (s1.engine_heap s1.engine_hooks).isSome) →
        (s1.engine_post_hooks = 0 ∨ (s1.engine_heap s1.engine_post_hooks).isSome) →
        (s1.dll_hooks = 0 ∨ (s1.dll_heap s1.dll_hooks).isSome) →
        (s1.dll_post_hooks = 0 ∨ (s1.dll_heap s1.dll_post_hooks).isSome) →
        (s1.dll_new_hooks = 0 ∨ (s1.dll_new_heap s1.dll_new_hooks).isSome) →
        (s1.dll_new_post_hooks = 0 ∨ (s1.dll_new_heap s1.dll_new_post_hooks).isSome) →
        s1.dll_new_post_hooks = tbl → tbl ≠ 0 →
        ∃ s', Meta_Detach META_DETACH s = Except.ok (Status.Ok, s') ∧ s'.dll_new_post_hooks = tbl ∧
          s'.dll_new_heap tbl = some Table.zero)) ∧
    (∀ (V : Versions) (config : PluginConfig) (op : Operation) (m : Module)
        (r : Bool × Module),
      op.step V config m = Except.ok r → r.1 = true →
      (∀ f tbl v, op ≠ Operation.export_hooks f tbl v) →
      ∀ (k : HookTable) (p : Addr),
        r.2.hooks.pointer k = m.hooks.pointer k ∧
          r.2.hooks.allocated k p = m.hooks.allocated k p) := by
  refine ⟨?_, ?_, ?_, ?_, ?_, ?_, Operation.step_keeps⟩
  · refine ⟨?_, ?_, ?_⟩
    · intro V G tbl v s r e hr hne
      have hc : tbl ≠ 0 ∧ v = V := (engine.detail.ExportEngineHooks_ret V G tbl v s r e).mp hr
      obtain ⟨t, u, d1, _, hs⟩ := engine.detail.ExportEngineHooks_success_inv V G tbl v s r hc e
      subst hs
      refine ⟨rfl, hc.1, t, by simpa [State.engine_table] using d1, ?_⟩
      simp [hne]
    · intro tbl s x cb t hp h0 ht
      have hd : s.engine_table false = some t := by
        simp [State.engine_table, Heap.deref, hp, h0, ht]
      obtain ⟨s', e, ht'⟩ := engine.detail.SetHook_engine_of_table x cb false s t hd
      have e' := e
      obtain ⟨t0, _, _, hs⟩ := engine.detail.SetHook_engine_inv x cb false s s' e
      rw [engine.installer_engine_eq]
      refine ⟨s', e', ?_, ?_⟩
      · rw [hs]
        exact hp
      · have hp' : s'.engine_hooks = tbl := by
          rw [hs]
          exact hp
        simpa [State.engine_table, Heap.deref, hp', h0] using ht'
    · intro tbl md s s1 hcb v1 v2 v3 v4 v5 v6 hp h0
      obtain ⟨s', e⟩ := Meta_Detach_total s1 v1 v2 v3 v4 v5 v6
      obtain ⟨s2, e0, _, hptr, _, zt, _⟩ := Meta_Detach_effect none s1 s' Status.Ok e
      have h1 : s2 = s1 := (Except.ok.inj e0).symm
      subst h1
      have hp' : s'.engine_hooks = tbl := by
        obtain ⟨p1, p2, p3, p4, p5, p6⟩ := hptr
        exact p1.trans hp
      refine ⟨s', (Meta_Detach_after_callback md s s2 hcb).trans e, hp', ?_⟩
      obtain ⟨z1, z2, z3⟩ := zt
      have hz : s'.engine_table false = some Table.zero := z1 false (by simpa [hp'] using h0)
      simpa [State.engine_table, Heap.deref, hp', h0] using hz
  · refine ⟨?_, ?_, ?_⟩
    · intro V G tbl v s r e hr hne
      have hc : tbl ≠ 0 ∧ v = V := (engine.detail.ExportEnginePostHooks_ret V G tbl v s r e).mp hr
      obtain ⟨t, u, d1, _, hs⟩ := engine.detail.ExportEnginePostHooks_success_inv V G tbl v s r hc e
      subst hs
      refine ⟨rfl, hc.1, t, by simpa [State.engine_table] using d1, ?_⟩
      simp [hne]
    · intro tbl s x cb t hp h0 ht
      have hd : s.engine_table true = some t := by
        simp [State.engine_table, Heap.deref, hp, h0, ht]
      obtain ⟨s', e, ht'⟩ := engine.detail.SetHook_engine_of_table x cb true s t hd
      have e' := e
      obtain ⟨t0, _, _, hs⟩ := engine.detail.SetHook_engine_inv x cb true s s' e
      rw [engine.installer_engine_eq]
      refine ⟨s', e', ?_, ?_⟩
      · rw [hs]
        exact hp
      · have hp' : s'.engine_post_hooks = tbl := by
          rw [hs]
          exact hp
        simpa [State.engine_table, Heap.deref, hp', h0] using ht'
    · intro tbl md s s1 hcb v1 v2 v3 v4 v5 v6 hp h0
      obtain ⟨s', e⟩ := Meta_Detach_total s1 v1 v2 v3 v4 v5 v6
      obtain ⟨s2, e0, _, hptr, _, zt, _⟩ := Meta_Detach_effect none s1 s' Status.Ok e
      have h1 : s2 = s1 := (Except.ok.inj e0).symm
      subst h1
      have hp' : s'.engine_post_hooks = tbl := by
        obtain ⟨p1, p2, p3, p4, p5, p6⟩ := hptr
        exact p2.trans hp
      refine ⟨s', (Meta_Detach_after_callback md s s2 hcb).trans e, hp', ?_⟩
      obtain ⟨z1, z2, z3⟩ := zt
      have hz : s'.engine_table true = some Table.zero := z1 true (by simpa [hp'] using h0)
      simpa [State.engine_table, Heap.deref, hp', h0] using hz
  · refine ⟨?_, ?_, ?_⟩
    · intro V G tbl v s r e hr hne
      have hc : tbl ≠ 0 ∧ v = V := (gamedll.detail.ExportDllHooks_ret V G tbl v s r e).mp hr
      obtain ⟨t, u, d1, _, hs⟩ := gamedll.detail.ExportDllHooks_success_inv V G tbl v s r hc e
      subst hs
      refine ⟨rfl, hc.1, t, by simpa [State.dll_table] using d1, ?_⟩
      simp [hne]
    · intro tbl s x cb t hp h0 ht
      have hd : s.dll_table false = some t := by
        simp [State.dll_table, Heap.deref, hp, h0, ht]
      obtain ⟨s', e, ht'⟩ := gamedll.detail.SetHook_dll_of_table x cb false s t hd
      have e' := e
      obtain ⟨t0, _, _, hs⟩ := gamedll.detail.SetHook_dll_inv x cb false s s' e
      rw [gamedll.installer_dll_eq]
      refine ⟨s', e', ?_, ?_⟩
      · rw [hs]
        exact hp
      · have hp' : s'.dll_hooks = tbl := by
          rw [hs]
          exact hp
        simpa [State.dll_table, Heap.deref, hp', h0] using ht'
    · intro tbl md s s1 hcb v1 v2 v3 v4 v5 v6 hp h0
      obtain ⟨s', e⟩ := Meta_Detach_total s1 v1 v2 v3 v4 v5 v6
      obtain ⟨s2, e0, _, hptr, _, zt, _⟩ := Meta_Detach_effect none s1 s' Status.Ok e
      have h1 : s2 = s1 := (Except.ok.inj e0).symm
      subst h1
      have hp' : s'.dll_hooks = tbl := by
        obtain ⟨p1, p2, p3, p4, p5, p6⟩ := hptr
        exact p3.trans hp
      refine ⟨s', (Meta_Detach_after_callback md s s2 hcb).trans e, hp', ?_⟩
      obtain ⟨z1, z2, z3⟩ := zt
      have hz : s'.dll_table false = some Table.zero := z2 false (by simpa [hp'] using h0)
      simpa [State.dll_table, Heap.deref, hp', h0] using hz
  · refine ⟨?_, ?_, ?_⟩
    · intro V G tbl v s r e hr hne
      have hc : tbl ≠ 0 ∧ v = V := (gamedll.detail.ExportDllPostHooks_ret V G tbl v s r e).mp hr
      obtain ⟨t, u, d1, _, hs⟩ := gamedll.detail.ExportDllPostHooks_success_inv V G tbl v s r hc e
      subst hs
      refine ⟨rfl, hc.1, t, by simpa [State.dll_table] using d1, ?_⟩
      simp [hne]
    · intro tbl s x cb t hp h0 ht
      have hd : s.dll_table true = some t := by
        simp [State.dll_table, Heap.deref, hp, h0, ht]
      obtain ⟨s', e, ht'⟩ := gamedll.detail.SetHook_dll_of_table x cb true s t hd
      have e' := e
      obtain ⟨t0, _, _, hs⟩ := gamedll.detail.SetHook_dll_inv x cb true s s' e
      rw [gamedll.installer_dll_eq]
      refine ⟨s', e', ?_, ?_⟩
      · rw [hs]
        exact hp
      · have hp' : s'.dll_post_hooks = tbl := by
          rw [hs]
          exact hp
        simpa [State.dll_table, Heap.deref, hp', h0] using ht'
    · intro tbl md s s1 hcb v1 v2 v3 v4 v5 v6 hp h0
      obtain ⟨s', e⟩ := Meta_Detach_total s1 v1 v2 v3 v4 v5 v6
      obtain ⟨s2, e0, _, hptr, _, zt, _⟩ := Meta_Detach_effect none s1 s' Status.Ok e
      have h1 : s2 = s1 := (Except.ok.inj e0).symm
      subst h1
      have hp' : s'.dll_post_hooks = tbl := by
        obtain ⟨p1, p2, p3, p4, p5, p6⟩ := hptr
        exact p4.trans hp
      refine ⟨s', (Meta_Detach_after_callback md s s2 hcb).trans e, hp', ?_⟩
      obtain ⟨z1, z2, z3⟩ := zt
      have hz : s'.dll_table true = some Table.zero := z2 true (by simpa [hp'] using h0)
      simpa [State.dll_table, Heap.deref, hp', h0] using hz
  · refine ⟨?_, ?_, ?_⟩
    · intro V G tbl v s r e hr hne
      have hc : tbl ≠ 0 ∧ v = V := (gamedll.detail.ExportDllNewHooks_ret V G tbl v s r e).mp hr
      obtain ⟨t, u, d1, _, hs⟩ := gamedll.detail.ExportDllNewHooks_success_inv V G tbl v s r hc e
      subst hs
      refine ⟨rfl, hc.1, t, by simpa [State.dll_new_table] using d1, ?_⟩
      simp [hne]
    · intro tbl s x cb t hp h0 ht
      have hd : s.dll_new_table false = some t := by
        simp [State.dll_new_table, Heap.deref, hp, h0, ht]
      obtain ⟨s', e, ht'⟩ := gamedll.detail.SetHookNew_of_table x cb false s t hd
      have e' := e
      obtain ⟨t0, _, _, hs⟩ := gamedll.detail.SetHookNew_dll_new_inv x cb false s s' e
      rw [gamedll.installerNew_eq]
      refine ⟨s', e', ?_, ?_⟩
      · rw [hs]
        exact hp
      · have hp' : s'.dll_new_hooks = tbl := by
          rw [hs]
          exact hp
        simpa [State.dll_new_table, Heap.deref, hp', h0] using ht'
    · intro tbl md s s1 hcb v1 v2 v3 v4 v5 v6 hp h0
      obtain ⟨s', e⟩ := Meta_Detach_total s1 v1 v2 v3 v4 v5 v6
      obtain ⟨s2, e0, _, hptr, _, zt, _⟩ := Meta_Detach_effect none s1 s' Status.Ok e
      have h1 : s2 = s1 := (Except.ok.inj e0).symm
      subst h1
      have hp' : s'.dll_new_hooks = tbl := by
        obtain ⟨p1, p2, p3, p4, p5, p6⟩ := hptr
        exact p5.trans hp
      refine ⟨s', (Meta_Detach_after_callback md s s2 hcb).trans e, hp', ?_⟩
      obtain ⟨z1, z2, z3⟩ := zt
      have hz : s'.dll_new_table false = some Table.zero := z3 false (by simpa [hp'] using h0)
      simpa [State.dll_new_table, Heap.deref, hp', h0] using hz
  · refine ⟨?_, ?_, ?_⟩
    · intro V G tbl v s r e hr hne
      have hc : tbl ≠ 0 ∧ v = V := (gamedll.detail.ExportDllNewPostHooks_ret V G tbl v s r e).mp hr
      obtain ⟨t, u, d1, _, hs⟩ := gamedll.detail.ExportDllNewPostHooks_success_inv V G tbl v s r hc e
      subst hs
      refine ⟨rfl, hc.1, t, by simpa [State.dll_new_table] using d1, ?_⟩
      simp [hne]
    · intro tbl s x cb t hp h0 ht
      have hd : s.dll_new_table true = some t := by
        simp [State.dll_new_table, Heap.deref, hp, h0, ht]
      obtain ⟨s', e, ht'⟩ := gamedll.detail.SetHookNew_of_table x cb true s t hd
      have e' := e
      obtain ⟨t0, _, _, hs⟩ := gamedll.detail.SetHookNew_dll_new_inv x cb true s s' e
      rw [gamedll.installerNew_eq]
      refine ⟨s', e', ?_, ?_⟩
      · rw [hs]
        exact hp
      · have hp' : s'.dll_new_post_hooks = tbl := by
          rw [hs]
          exact hp
        simpa [State.dll_new_table, Heap.deref, hp', h0] using ht'
    · intro tbl md s s1 hcb v1 v2 v3 v4 v5 v6 hp h0
      obtain ⟨s', e⟩ := Meta_Detach_total s1 v1 v2 v3 v4 v5 v6
      obtain ⟨s2, e0, _, hptr, _, zt, _⟩ := Meta_Detach_effect none s1 s' Status.Ok e
      have h1 : s2 = s1 := (Except.ok.inj e0).symm
      subst h1
      have hp' : s'.dll_new_post_hooks = tbl := by
        obtain ⟨p1, p2, p3, p4, p5, p6⟩ := hptr
        exact p6.trans hp
      refine ⟨s', (Meta_Detach_after_callback md s s2 hcb).trans e, hp', ?_⟩
      obtain ⟨z1, z2, z3⟩ := zt
      have hz : s'.dll_new_table true = some Table.zero := z3 true (by simpa [hp'] using h0)
      simpa [State.dll_new_table, Heap.deref, hp', h0] using hz

/-- Witness for C24 (amended): the engine pre-hook table is exported into the
host table at address `3`; a later `HookSetModel(5, false)` sets slot
`set_model` of that table, and a later detach zeroes it. -/
theorem exported_table_is_live_witness :
    (∃ r, engine.detail.ExportEngineHooks 138 host_engine_funcs 3 138 State.hosted =
        Except.ok r ∧ r.state.engine_hooks = 3 ∧
      r.state.engine_heap 3 =
        some (fun m => if m = EngineSlot.precache_model then 77 else Table.zero m)) ∧
    (∃ s', engine.installer EngineSlot.set_model 5 false State.exported = Except.ok s' ∧
      s'.engine_hooks = 3 ∧
      s'.engine_heap 3 = some (fun m => if m = EngineSlot.set_model then 5
        else if m = EngineSlot.precache_model then 77 else Table.zero m)) ∧
    ∃ s', Meta_Detach none State.exported_hooked = Except.ok (Status.Ok, s') ∧
      s'.engine_hooks = 3 ∧ s'.engine_heap 3 = some Table.zero := by
  refine ⟨?_, ?_, ?_⟩
  · have e : engine.detail.ExportEngineHooks 138 host_engine_funcs 3 138 State.hosted =
        Except.ok ⟨true, 138, State.exported⟩ := rfl
    obtain ⟨h1, _, t, h2, h3⟩ := (exported_table_is_live.1).1 138 host_engine_funcs 3 138
      State.hosted _ e rfl (by decide)
    have ht : t = fun m => if m = EngineSlot.precache_model then 77 else Table.zero m :=
      (Option.some.inj h2).symm
    subst ht
    exact ⟨_, e, h1, h3⟩
  · exact (exported_table_is_live.1).2.1 3 State.exported EngineSlot.set_model 5 _ rfl
      (by decide) rfl
  · exact (exported_table_is_live.1).2.2 3 none State.exported_hooked State.exported_hooked
      rfl (Or.inr rfl) (Or.inr rfl) (Or.inr rfl) (Or.inr rfl) (Or.inr rfl) (Or.inr rfl) rfl
      (by decide)

end metamod
